import Mathlib

/-!
# Creature lifecycle, stats, loot ownership and target selection (`src/game/Creature.cpp`)

A shallow embedding of the parts of `Creature.cpp` that drive the death-state
machine, the level and stat derivation, the regeneration, the loot/tap bookkeeping,
the vendor stock counters and the threat based target selection.

Conventions of the embedding:

* `Creature` is the record of the data members and update fields that the functions
  below read or write; it is made of the parent records `StatFields` (level,
  health, power, stat and damage data) and `CreatureFields` (the rest).  The motion master
  is the list of the calls made on it.  Aura and movement data are not part of
  the record; calls that only touch those (`RemoveAllAuras`, `LoadCreatureAddon`,
  visibility calls, AI notifications) are listed in comments at the place where
  the source makes them.  The event queue `m_Events` and the vendor counters
  `m_vendorItemCounts` are each used by one group of functions only and are passed
  to and returned by those functions instead.
* The level, stat and regeneration code only touches the stat data; it is defined on
  `StatFields` under the name of the source function, and the functions that the
  lifecycle code calls are repeated on `Creature`.
* `World` collects what the code obtains from collaborators that live in other
  translation units: the clock, configuration values, object lookups, the threat
  list, and the answers of calls whose result the code branches on.
* `Defines` collects enumerator values declared in headers that are not among the
  sources; every definition is parametric in them.
* `uint32` values are natural numbers; arithmetic that can leave the 32 bit range
  is reduced modulo `2 ^ 32` explicitly.  `time_t` values are integers.
* `float` values are rational numbers.  In the level selection (`SelectLevel`), in the
  health of a loaded creature (`LoadFromDB`) and in the looted corpse decay
  (`PrepareBodyLootState`) every float operand and every result of a float operation is
  rounded to single precision by `f32` (round to nearest, ties to even); a result beyond
  the largest finite single precision value, where the machine yields infinity, is not
  represented.  The maximal health (`UpdateMaxHealth`) is computed in single precision
  in the same way.  In the rest of the stat recomputation and in the regeneration code
  (`UpdateAllStats` and what else it calls, `InitStatsForLevel`, `RegeneratePower`,
  `RegenerateHealth`) float arithmetic is exact and rounding is not modelled.
-/

namespace Mangos

/-! ## Machine arithmetic and update-field helpers -/

/-- Truncation of a natural number to an unsigned 32 bit value. -/
def u32 (n : Nat) : Nat := n % 4294967296

/-- Unsigned 32 bit subtraction `a - b` (wraps around below zero). -/
def sub32 (a b : Nat) : Nat := (u32 a + (4294967296 - u32 b)) % 4294967296

/-- Modelled from the spec: `Object::HasFlag` (Object.h is not among the sources);
a flag is present when the field and the flag share a bit. -/
def HasFlag (field flag : Nat) : Bool := (field &&& flag) != 0

/-- Modelled from the spec: `Object::SetFlag` (Object.cpp is not among the sources);
"mark" a flag: the new field value is `old | flag`. -/
def SetFlag (field flag : Nat) : Nat := field ||| flag

/-- Modelled from the spec: `Object::RemoveFlag` (Object.cpp is not among the sources);
"clear" a flag: the new field value is `old & ~flag` on 32 bits. -/
def RemoveFlag (field flag : Nat) : Nat := field &&& (4294967295 ^^^ u32 flag)

/-- The conversion `(uint32)x` of a float: the fractional part is dropped.  C++ leaves
the result open when the truncated value does not fit 32 bits; here it is reduced
modulo `2 ^ 32`, as the conversion through a 64 bit integer on x86-64 does, so that a
negative value wraps around. -/
def toUInt32 (x : ℚ) : Nat := ((if 0 ≤ x then ⌊x⌋ else ⌈x⌉) % 4294967296).toNat

/-- Rounding of a rational number to the nearest integer, a tie going to the even
neighbour. -/
def roundHalfEven (x : ℚ) : Int :=
  if x - ⌊x⌋ < 1 / 2 then ⌊x⌋
  else if 1 / 2 < x - ⌊x⌋ then ⌊x⌋ + 1
  else if ⌊x⌋ % 2 = 0 then ⌊x⌋ else ⌊x⌋ + 1

/-- The binary exponent of the unit in the last place of the single precision (binary32)
format at `x`: 24 significant bits, the exponent of a normal value not below -126. -/
def f32ulp (x : ℚ) : Int := max (Int.log 2 |x|) (-126) - 23

/-- The single precision (binary32) value nearest to `x`, ties to even: the value a
`float` holds after a conversion or an arithmetic operation whose exact result is `x`.
Overflow to infinity is not represented. -/
def f32 (x : ℚ) : ℚ := (roundHalfEven (x / 2 ^ f32ulp x) : ℚ) * 2 ^ f32ulp x

/-- Modelled from the spec: `IN_MILLISECONDS` (Common.h is not among the sources);
the spec computes millisecond delays as seconds times 1000. -/
def IN_MILLISECONDS : Nat := 1000

/-- Modelled from the spec: `urand(min, max)` (Util.h is not among the sources), a
"uniformly random" integer of the closed range; `draw` is the raw random value. -/
def urand (draw min max : Nat) : Nat := min + draw % (max - min + 1)

/-! ## Enumerations -/

/-- The lifecycle states named by `Creature::Update` and `Creature::SetDeathState`. -/
inductive DeathState where
  | ALIVE
  | JUST_DIED
  | CORPSE
  | DEAD
  | JUST_ALIVED
deriving DecidableEq, Repr

/-- The loot status values named by `Creature::SetLootStatus`. -/
inductive CreatureLootStatus where
  | CREATURE_LOOT_STATUS_NONE
  | CREATURE_LOOT_STATUS_LOOTED
  | CREATURE_LOOT_STATUS_SKIN_AVAILABLE
  | CREATURE_LOOT_STATUS_SKINNED
deriving DecidableEq, Repr

/-- Modelled from the spec: the numeric order of the `CreatureLootStatus` enumerators
(declared in Creature.h, not among the sources): None < Looted < SkinAvailable < Skinned. -/
def CreatureLootStatus.val : CreatureLootStatus → Nat
  | .CREATURE_LOOT_STATUS_NONE => 0
  | .CREATURE_LOOT_STATUS_LOOTED => 1
  | .CREATURE_LOOT_STATUS_SKIN_AVAILABLE => 2
  | .CREATURE_LOOT_STATUS_SKINNED => 3

/-- The power types, in the order `Creature::SelectLevel` walks through them. -/
inductive Powers where
  | POWER_MANA
  | POWER_RAGE
  | POWER_FOCUS
  | POWER_ENERGY
  | POWER_HAPPINESS
  | POWER_RUNE
  | POWER_RUNIC_POWER
deriving DecidableEq, Repr

/-- The target selection strategies of `Creature::SelectAttackingTarget`. -/
inductive AttackingTarget where
  | ATTACKING_TARGET_RANDOM
  | ATTACKING_TARGET_TOPAGGRO
  | ATTACKING_TARGET_BOTTOMAGGRO
deriving DecidableEq, Repr

/-- The five primary stats, in the order of the loop in `Creature::UpdateAllStats`. -/
inductive Stats where
  | STAT_STRENGTH
  | STAT_AGILITY
  | STAT_STAMINA
  | STAT_INTELLECT
  | STAT_SPIRIT
deriving DecidableEq, Repr

/-- The damage schools, in the order of the loop in `Creature::UpdateAllStats`;
`SPELL_SCHOOL_NORMAL` is the physical school, whose resistance is the armor. -/
inductive SpellSchools where
  | SPELL_SCHOOL_NORMAL
  | SPELL_SCHOOL_HOLY
  | SPELL_SCHOOL_FIRE
  | SPELL_SCHOOL_NATURE
  | SPELL_SCHOOL_FROST
  | SPELL_SCHOOL_SHADOW
  | SPELL_SCHOOL_ARCANE
deriving DecidableEq, Repr

/-- The rows of the modifier table `m_auraModifiersGroup`.  `UNIT_MOD_STAT s` is
`UNIT_MOD_STAT_START + s`, `UNIT_MOD_POWER p` is `UNIT_MOD_POWER_START + p` and
`UNIT_MOD_RESISTANCE s` is `UNIT_MOD_RESISTANCE_START + s`. -/
inductive UnitMods where
  | UNIT_MOD_STAT (s : Stats)
  | UNIT_MOD_HEALTH
  | UNIT_MOD_POWER (p : Powers)
  | UNIT_MOD_RESISTANCE (s : SpellSchools)
  | UNIT_MOD_ATTACK_POWER
  | UNIT_MOD_ATTACK_POWER_RANGED
  | UNIT_MOD_DAMAGE_MAINHAND
  | UNIT_MOD_DAMAGE_OFFHAND
  | UNIT_MOD_DAMAGE_RANGED
deriving DecidableEq, Repr

/-- The row `UNIT_MOD_ARMOR`: the resistance row of the physical school. -/
abbrev UnitMods.UNIT_MOD_ARMOR : UnitMods := .UNIT_MOD_RESISTANCE .SPELL_SCHOOL_NORMAL

/-- The columns of the modifier table `m_auraModifiersGroup`. -/
inductive UnitModifierType where
  | BASE_VALUE
  | BASE_PCT
  | TOTAL_VALUE
  | TOTAL_PCT
deriving DecidableEq, Repr

/-- The weapon slots. -/
inductive WeaponAttackType where
  | BASE_ATTACK
  | OFF_ATTACK
  | RANGED_ATTACK
deriving DecidableEq, Repr

/-- The two ends of a weapon damage range (the columns of `m_weaponDamage`). -/
inductive WeaponDamageRange where
  | MINDAMAGE
  | MAXDAMAGE
deriving DecidableEq, Repr

/-- The aura types that the stat and regeneration code asks the aura lists for. -/
inductive AuraType where
  | SPELL_AURA_DUMMY
  | SPELL_AURA_MOD_RESISTANCE_OF_STAT_PERCENT
  | SPELL_AURA_MOD_ATTACK_POWER_OF_STAT_PERCENT
  | SPELL_AURA_MOD_RANGED_ATTACK_POWER_OF_STAT_PERCENT
  | SPELL_AURA_MOD_ATTACK_POWER_OF_ARMOR
  | SPELL_AURA_MOD_MANA_REGEN_FROM_STAT
  | SPELL_AURA_MOD_MANA_REGEN_INTERRUPT
  | SPELL_AURA_MOD_POWER_REGEN
  | SPELL_AURA_MOD_POWER_REGEN_PERCENT
deriving DecidableEq, Repr

/-- The calls that `Creature.cpp` makes on the motion master `i_motionMaster`. -/
inductive MotionMasterCall where
  | Initialize
  | Clear
  | MoveFall
deriving DecidableEq, Repr

/-! ## Objects owned by other translation units -/

/-- An `ObjectGuid`; the value `0` is the empty (cleared) guid. -/
abbrev ObjectGuid := Nat

/-- A `Player*`: two values are equal exactly when they point to the same player. -/
structure PlayerPtr where
  addr : Nat
deriving DecidableEq, Repr

/-- A `Group*`: two values are equal exactly when they point to the same group. -/
structure GroupPtr where
  addr : Nat
deriving DecidableEq, Repr

/-- A `Unit*`: two values are equal exactly when they point to the same unit. -/
structure UnitPtr where
  addr : Nat
deriving DecidableEq, Repr

/-- The fields of a `SpellEntry` that target selection reads. -/
structure SpellEntry where
  rangeIndex : Nat
deriving DecidableEq, Repr

/-- The fields of a creature template (`CreatureInfo`) read by the functions below. -/
structure CreatureInfo where
  Entry : Nat
  SkinningLootId : Nat
  NpcFlags : Nat
  UnitFlags : Nat
  DynamicFlags : Nat
  MinLevel : Nat
  MaxLevel : Nat
  Rank : Nat
  UnitClass : Nat
  Expansion : Nat
  HealthMultiplier : ℚ
  PowerMultiplier : ℚ
  MinLevelHealth : Nat
  MaxLevelHealth : Nat
  MinLevelMana : Nat
  MaxLevelMana : Nat
  MinMeleeDmg : ℚ
  MaxMeleeDmg : ℚ
  MinRangedDmg : ℚ
  MaxRangedDmg : ℚ
  MeleeAttackPower : Nat
  Armor : Nat
  ResistanceHoly : Int
  ResistanceFire : Int
  ResistanceNature : Int
  ResistanceFrost : Int
  ResistanceShadow : Int
  ResistanceArcane : Int
deriving DecidableEq, Repr

/-- The fields of a `CreatureClassLvlStats` table entry read by `Creature::SelectLevel`. -/
structure CreatureClassLvlStats where
  BaseHealth : Nat
  BaseMana : Nat
deriving DecidableEq, Repr

/-- The fields of a spawn record (`CreatureData`) read by `Creature::LoadFromDB`. -/
structure CreatureData where
  id : Nat
  spawntimesecs : Nat
  is_dead : Bool
  curhealth : Nat
  curmana : Nat
deriving DecidableEq, Repr

/-- The fields of a `VendorItem` read by the stock functions. -/
structure VendorItem where
  item : Nat
  maxcount : Nat
  incrtime : Nat
deriving DecidableEq, Repr

/-- An entry of `m_vendorItemCounts` (`VendorItemCount`). -/
structure VendorItemCount where
  itemId : Nat
  count : Nat
  lastIncrementTime : Int
deriving DecidableEq, Repr

/-- What the stat code reads from an `Aura`: the modifier (`GetModifier()->m_miscvalue`,
`GetModifier()->m_amount`), `GetMiscBValue()`, the icon of the spell and the effect
index. -/
structure Aura where
  m_miscvalue : Int
  m_amount : Int
  MiscBValue : Int
  SpellIconID : Nat
  EffIndex : Nat
deriving DecidableEq, Repr

/-- A loot session, as created by `new Loot(killer, this, LOOT_CORPSE)`. -/
structure Loot where
  recipient : PlayerPtr
deriving DecidableEq, Repr

/-- Enumerator values from headers that are not among the sources. -/
structure Defines where
  UNIT_FLAG_SKINNABLE : Nat
  UNIT_FLAG_IN_COMBAT : Nat
  UNIT_FLAG_UNK_15 : Nat
  UNIT_DYNFLAG_NONE : Nat
  UNIT_DYNFLAG_LOOTABLE : Nat
  UNIT_NPC_FLAG_NONE : Nat
  TYPEID_PLAYER : Nat
  SELECT_FLAG_IN_LOS : Nat
  SELECT_FLAG_PLAYER : Nat
  SELECT_FLAG_POWER_MANA : Nat
  SELECT_FLAG_POWER_RAGE : Nat
  SELECT_FLAG_POWER_ENERGY : Nat
  SELECT_FLAG_POWER_RUNIC : Nat
  SELECT_FLAG_IN_MELEE_RANGE : Nat
  SELECT_FLAG_NOT_IN_MELEE_RANGE : Nat
  SPELL_RANGE_IDX_SELF_ONLY : Nat
  SPELL_RANGE_IDX_ANYWHERE : Nat
  SPELL_RANGE_IDX_COMBAT : Nat
  REGEN_TIME_FULL : Nat
  CLASS_WARRIOR : Nat
  CLASS_PALADIN : Nat
  CLASS_HUNTER : Nat
  CLASS_ROGUE : Nat
  CLASS_PRIEST : Nat
  CLASS_DEATH_KNIGHT : Nat
  CLASS_SHAMAN : Nat
  CLASS_MAGE : Nat
  CLASS_WARLOCK : Nat
  CLASS_DRUID : Nat
  CLASSMASK_WAND_USERS : Nat
  FORM_CAT : Nat
  FORM_BEAR : Nat
  FORM_DIREBEAR : Nat
  FORM_MOONKIN : Nat
  EFFECT_INDEX_0 : Nat
  EFFECT_INDEX_1 : Nat
  SPELL_SCHOOL_MASK_NORMAL : Nat
  CREATURE_ELITE_NORMAL : Nat
  CREATURE_ELITE_ELITE : Nat
  CREATURE_ELITE_RAREELITE : Nat
  CREATURE_ELITE_WORLDBOSS : Nat
  CREATURE_ELITE_RARE : Nat
  POWER_FOCUS_DEFAULT : Nat
  POWER_ENERGY_DEFAULT : Nat
  POWER_HAPPINESS_DEFAULT : Nat
  /-- The numeric value of the enumerator `MINDAMAGE`. -/
  MINDAMAGE : Nat
  /-- The numeric value of the enumerator `MAXDAMAGE`. -/
  MAXDAMAGE : Nat
  BASE_MINDAMAGE : ℚ
  BASE_MAXDAMAGE : ℚ
  GT_MAX_LEVEL : Nat
  /-- The numeric value of each `Powers` enumerator. -/
  Powers_value : Powers → Int
  UNIT_FLAG_NON_ATTACKABLE : Nat
  UNIT_FLAG_NOT_SELECTABLE : Nat

/-- The level, health, power, stat and damage data of a creature: the update fields and
data members that the level, stat and regeneration code reads or writes. -/
structure StatFields where
  /-- The value of `getLevel()`. -/
  level : Nat
  /-- The value of `getClass()` (byte 1 of `UNIT_FIELD_BYTES_0`). -/
  unitClass : Nat
  /-- The value of `GetPowerType()`. -/
  powerType : Powers
  /-- The value of `GetHealth()`. -/
  health : Nat
  /-- The value of `GetMaxHealth()`. -/
  maxHealth : Nat
  /-- The value of `GetCreateHealth()`. -/
  createHealth : Nat
  /-- The value of `GetCreateMana()`. -/
  createMana : Nat
  /-- The values of `GetPower(power)`. -/
  power : Powers → Nat
  /-- The values of `GetMaxPower(power)`. -/
  maxPower : Powers → Nat
  /-- The stored stat values (`UNIT_FIELD_STAT0 + stat`). -/
  stat : Stats → Int
  m_createStats : Stats → ℚ
  /-- The stored resistances (`UNIT_FIELD_RESISTANCES + school`); the entry of
  `SPELL_SCHOOL_NORMAL` is the armor. -/
  resistance : SpellSchools → Int
  m_auraModifiersGroup : UnitMods → UnitModifierType → ℚ
  m_weaponDamage : WeaponAttackType → WeaponDamageRange → ℚ
  UNIT_FIELD_ATTACK_POWER : Nat
  UNIT_FIELD_ATTACK_POWER_MODS : Nat
  UNIT_FIELD_ATTACK_POWER_MULTIPLIER : ℚ
  UNIT_FIELD_RANGED_ATTACK_POWER : Nat
  UNIT_FIELD_RANGED_ATTACK_POWER_MODS : Nat
  UNIT_FIELD_RANGED_ATTACK_POWER_MULTIPLIER : ℚ
  UNIT_FIELD_MINDAMAGE : ℚ
  UNIT_FIELD_MAXDAMAGE : ℚ
  UNIT_FIELD_MINOFFHANDDAMAGE : ℚ
  UNIT_FIELD_MAXOFFHANDDAMAGE : ℚ
  UNIT_FIELD_MINRANGEDDAMAGE : ℚ
  UNIT_FIELD_MAXRANGEDDAMAGE : ℚ
  UNIT_FIELD_POWER_REGEN_FLAT_MODIFIER : ℚ
  UNIT_FIELD_POWER_REGEN_INTERRUPTED_FLAT_MODIFIER : ℚ
  m_currentLevel : Nat
  m_currentDifficulty : Fin 14

/-- The lifecycle, loot and behaviour data of a creature: the data members and update
fields that the death-state, loot and target selection code reads or writes. -/
structure CreatureFields where
  m_deathState : DeathState
  m_isDeadByDefault : Bool
  m_corpseDecayTimer : Nat
  m_respawnTime : Int
  m_respawnDelay : Nat
  m_corpseDelay : Nat
  m_aggroDelay : Nat
  m_regenTimer : Nat
  loot : Option Loot
  m_lootStatus : CreatureLootStatus
  m_lootRecipientGuid : ObjectGuid
  m_lootGroupRecipientId : Nat
  UNIT_FIELD_FLAGS : Nat
  UNIT_DYNAMIC_FLAGS : Nat
  UNIT_NPC_FLAGS : Nat
  m_creatureInfo : CreatureInfo
  m_originalEntry : Nat
  entry : Nat
  i_AI : Option Nat
  m_AI_locked : Bool
  m_isSpawningLinked : Bool
  m_isCreatureLinkingTrigger : Bool
  inWorld : Bool
  respawnTimeStore : List Int
  /-- The calls made on the motion master so far, latest first. -/
  i_motionMaster : List MotionMasterCall

/-- The data members and update fields of a `Creature` used by the functions below. -/
structure Creature extends StatFields, CreatureFields

/-- What the creature code obtains from the rest of the server while it runs:
the clock, configuration values, object lookups and the answers of collaborator calls
whose result the code in `Creature.cpp` branches on. -/
structure World where
  /-- The value of `time(nullptr)`. -/
  time : Int
  CONFIG_UINT32_CREATURE_RESPAWN_AGGRO_DELAY : Nat
  CONFIG_BOOL_SAVE_RESPAWN_TIME_IMMEDIATELY : Bool
  CONFIG_FLOAT_RATE_CORPSE_DECAY_LOOTED : ℚ
  /-- The result of `ObjectAccessor::FindPlayer`. -/
  FindPlayer : ObjectGuid → Option PlayerPtr
  /-- The result of `sObjectMgr.GetGroupById`. -/
  GetGroupById : Nat → Option GroupPtr
  /-- The result of `Player::GetGroup`. -/
  Player_GetGroup : PlayerPtr → Option GroupPtr
  /-- The result of `Player::GetObjectGuid`. -/
  Player_GetObjectGuid : PlayerPtr → ObjectGuid
  /-- The result of `Group::GetId`. -/
  Group_GetId : GroupPtr → Nat
  /-- The member references of a group, from `GetFirstMember()` along `next()`;
  each entry is the result of `getSource()` (absent when the player is not present). -/
  Group_members : GroupPtr → List (Option PlayerPtr)
  /-- The result of `Unit::GetCharmerOrOwnerPlayerOrPlayerItself`. -/
  GetCharmerOrOwnerPlayerOrPlayerItself : UnitPtr → Option PlayerPtr
  /-- The result of `GetMap()->GetUnit`. -/
  Map_GetUnit : ObjectGuid → Option UnitPtr
  /-- The result of `Unit::GetTypeId` for another unit. -/
  Unit_GetTypeId : UnitPtr → Nat
  /-- The result of `Unit::GetPowerType` for another unit. -/
  Unit_GetPowerType : UnitPtr → Powers
  /-- The result of `CanReachWithMeleeAttack(pTarget)` for this creature. -/
  CanReachWithMeleeAttack : UnitPtr → Bool
  /-- The result of `IsWithinLOSInMap(pTarget)` for this creature. -/
  IsWithinLOSInMap : UnitPtr → Bool
  /-- The result of `GetCombatDistance(pTarget, false)` for this creature. -/
  GetCombatDistance : UnitPtr → ℚ
  /-- The maximal range `GetSpellMaxRange(sSpellRangeStore.LookupEntry(rangeIndex))`. -/
  GetSpellMaxRange : Nat → ℚ
  /-- The minimal range `GetSpellMinRange(sSpellRangeStore.LookupEntry(rangeIndex))`. -/
  GetSpellMinRange : Nat → ℚ
  /-- The unit guids of `getThreatManager().getThreatList()`, highest threat first. -/
  threatList : List ObjectGuid
  /-- The result of `CanHaveThreatList()` for this creature. -/
  CanHaveThreatList : Bool
  /-- The result of `GetOwner()` for this creature. -/
  GetOwner : Option UnitPtr
  /-- The result of `IsPet()` for this creature. -/
  IsPet : Bool
  /-- The result of `IsWorldBoss()` for this creature. -/
  IsWorldBoss : Bool
  /-- Whether `sObjectMgr.GetCreatureData(GetGUIDLow())` finds a spawn record. -/
  HasStaticDBSpawnData : Bool
  /-- The result of `IsInEvadeMode()` (a motion master query). -/
  IsInEvadeMode : Bool
  /-- The pool id returned by `sPoolMgr.IsPartOfAPool<Creature>` (0: not pooled). -/
  IsPartOfAPool : Nat
  /-- Whether `sPoolMgr.UpdatePool` takes this creature out of the world. -/
  UpdatePool_despawns : Bool
  /-- The result of `GetCreatureLinkingHolder()->CanSpawn(this)`. -/
  CanSpawn : Bool
  /-- The value `AI()->CorpseRemoved(respawnDelay)` leaves in its reference argument. -/
  CorpseRemoved_respawnDelay : Nat
  /-- Whether the creature dies during `Unit::Update`. -/
  Unit_Update_kills : Bool
  /-- Whether the creature dies during `AI()->UpdateAI`. -/
  UpdateAI_kills : Bool
  /-- Whether `AI()->UpdateAI` tries to reinitialise the behaviour object by a call of
  `Creature::AIM_Initialize`. -/
  UpdateAI_calls_AIM_Initialize : Bool
  /-- The `entry_id` of the active game event data for this creature (0: none). -/
  eventData_entry_id : Nat
  /-- The result of `ObjectMgr::GetCreatureTemplate`. -/
  GetCreatureTemplate : Nat → Option CreatureInfo
  /-- The template chosen by the difficulty loop of `InitEntry` for a normal template. -/
  DifficultyTemplate : CreatureInfo → CreatureInfo
  /-- Whether a display id and a model info record resolve for the template. -/
  ModelResolves : CreatureInfo → Bool
  /-- Whether the creature has the swimming movement flag and a swim animation. -/
  HasSwimAnimation : Bool
  /-- The result of `FactorySelector::selectAI(this)`. -/
  selectAI : Option Nat
  /-- The result of `CanFly()`. -/
  CanFly : Bool
  /-- The result of `isInCombat()`. -/
  isInCombat : Bool
  /-- The result of `IsPolymorphed()`. -/
  IsPolymorphed : Bool
  /-- The result of `IsRegeneratingHealth()`. -/
  IsRegeneratingHealth : Bool
  /-- The result of `IsRegeneratingPower()`. -/
  IsRegeneratingPower : Bool
  /-- The result of `GetCharmerOrOwnerGuid()` (0: neither charmed nor owned). -/
  GetCharmerOrOwnerGuid : ObjectGuid
  /-- The result of `IsUnderLastManaUseEffect()`. -/
  IsUnderLastManaUseEffect : Bool
  CONFIG_FLOAT_RATE_HEALTH : ℚ
  CONFIG_FLOAT_RATE_POWER_MANA : ℚ
  CONFIG_FLOAT_RATE_POWER_ENERGY : ℚ
  CONFIG_FLOAT_RATE_POWER_FOCUS : ℚ
  /-- The health `Unit::ModifyHealth(dVal)` leaves, from the current health, the
  maximal health and `dVal`. -/
  ModifyHealth : Nat → Nat → Int → Nat
  /-- The power `Unit::ModifyPower(power, dVal)` leaves, from the current value, the
  maximal value and `dVal`. -/
  ModifyPower : Powers → Nat → Nat → Int → Nat
  /-- The auras of `GetAurasByType(type)`, in list order. -/
  GetAurasByType : AuraType → List Aura
  /-- The result of `GetTotalAuraModifier(type)`. -/
  GetTotalAuraModifier : AuraType → Int
  /-- The result of `GetTotalAuraModifierByMiscValue(type, misc)`. -/
  GetTotalAuraModifierByMiscValue : AuraType → Powers → Int
  /-- The result of `GetTotalAuraMultiplierByMiscValue(type, misc)`. -/
  GetTotalAuraMultiplierByMiscValue : AuraType → Powers → ℚ
  /-- The raw random value behind the `urand` call of `Creature::SelectLevel`. -/
  urand_level : Nat
  /-- The result of `sObjectMgr.GetCreatureClassLvlStats(level, unitClass, expansion)`. -/
  GetCreatureClassLvlStats : Nat → Nat → Nat → Option CreatureClassLvlStats
  CONFIG_FLOAT_RATE_CREATURE_NORMAL_HP : ℚ
  CONFIG_FLOAT_RATE_CREATURE_ELITE_ELITE_HP : ℚ
  CONFIG_FLOAT_RATE_CREATURE_ELITE_RAREELITE_HP : ℚ
  CONFIG_FLOAT_RATE_CREATURE_ELITE_WORLDBOSS_HP : ℚ
  CONFIG_FLOAT_RATE_CREATURE_ELITE_RARE_HP : ℚ
  CONFIG_FLOAT_RATE_CREATURE_NORMAL_DAMAGE : ℚ
  CONFIG_FLOAT_RATE_CREATURE_ELITE_ELITE_DAMAGE : ℚ
  CONFIG_FLOAT_RATE_CREATURE_ELITE_RAREELITE_DAMAGE : ℚ
  CONFIG_FLOAT_RATE_CREATURE_ELITE_WORLDBOSS_DAMAGE : ℚ
  CONFIG_FLOAT_RATE_CREATURE_ELITE_RARE_DAMAGE : ℚ
  /-- The result of `sMapMgr.GetCurrentDifficulty()`; the difficulty indexes the two
  scaling tables of 14 entries. -/
  GetCurrentDifficulty : Fin 14
  /-- The result of `sMapMgr.GetMaxPlayerLevel()`. -/
  GetMaxPlayerLevel : Nat
  /-- The result of `GetShapeshiftForm()`. -/
  GetShapeshiftForm : Nat
  /-- The result of `IsInFeralForm()`. -/
  IsInFeralForm : Bool
  /-- The result of `haveOffhandWeapon()`. -/
  haveOffhandWeapon : Bool
  /-- The result of `getClassMask()` for a unit of the given class. -/
  getClassMask : Nat → Nat
  /-- The result of `GetCreatePowers(power)`, from the stored create mana. -/
  GetCreatePowers : Nat → Powers → Nat
  /-- The value of the C library function `log`. -/
  log : ℚ → ℚ
  /-- The value of the C library function `exp`. -/
  exp : ℚ → ℚ
  /-- The value of the C library function `sqrt`. -/
  sqrt : ℚ → ℚ
  /-- The `ratio` of `sGtRegenMPPerSptStore.LookupEntry(index)`. -/
  GtRegenMPPerSpt : Nat → Option ℚ
  /-- The `basemana` that `sObjectMgr.GetPlayerClassLevelInfo(class, level, &info)`
  fills in. -/
  PlayerClassLevelInfo_basemana : Nat → Nat → Nat
  /-- The result of `sObjectMgr.GetCreatureData(guidlow)` for this creature. -/
  GetCreatureData : Option CreatureData
  /-- Whether `map->GetCreature` already finds the creature in the map. -/
  Map_GetCreature : Bool
  /-- The result of `cPos.Relocate(this)`. -/
  Relocate : Bool
  /-- The result of `GetPersistentState()->GetCreatureRespawnTime(GetGUIDLow())`. -/
  GetCreatureRespawnTime : Int
  /-- The result of `sCreatureLinkingMgr.IsSpawnedByLinkedMob(this)`. -/
  IsSpawnedByLinkedMob : Bool
  /-- The result of `sCreatureLinkingMgr.IsLinkedEventTrigger(this)`. -/
  IsLinkedEventTrigger : Bool
  CONFIG_UINT32_CORPSE_DECAY_NORMAL : Nat
  CONFIG_UINT32_CORPSE_DECAY_RARE : Nat
  CONFIG_UINT32_CORPSE_DECAY_ELITE : Nat
  CONFIG_UINT32_CORPSE_DECAY_RAREELITE : Nat
  CONFIG_UINT32_CORPSE_DECAY_WORLDBOSS : Nat
  /-- The result of `hasUnitState(UNIT_STAT_STUNNED | UNIT_STAT_DIED)`. -/
  hasUnitState_STUNNED_DIED : Bool
  /-- The result of `isPassiveToHostile()`. -/
  isPassiveToHostile : Bool
  /-- The result of `CanAttackByItself()`. -/
  CanAttackByItself : Bool
  /-- The field `BuyCount` of the result of `ObjectMgr::GetItemPrototype`. -/
  ItemPrototype_BuyCount : Nat → Nat

/-! ## Loot status -/

/-- `Creature::SetLootStatus` (Creature.cpp 2716-2742). -/
def Creature.SetLootStatus (k : Defines) (c : Creature) (status : CreatureLootStatus) : Creature :=
  if status.val ≤ c.m_lootStatus.val then
    c
  else
    let c := { c with m_lootStatus := status }
    match status with
    | .CREATURE_LOOT_STATUS_LOOTED =>
      if c.m_creatureInfo.SkinningLootId ≠ 0 then
        { c with UNIT_FIELD_FLAGS := SetFlag c.UNIT_FIELD_FLAGS k.UNIT_FLAG_SKINNABLE }
      else
        { c with UNIT_DYNAMIC_FLAGS := RemoveFlag c.UNIT_DYNAMIC_FLAGS k.UNIT_DYNFLAG_LOOTABLE }
    | .CREATURE_LOOT_STATUS_SKINNED =>
      { c with
        m_corpseDecayTimer := 0
        UNIT_FIELD_FLAGS := RemoveFlag c.UNIT_FIELD_FLAGS k.UNIT_FLAG_SKINNABLE
        UNIT_DYNAMIC_FLAGS := RemoveFlag c.UNIT_DYNAMIC_FLAGS k.UNIT_DYNFLAG_LOOTABLE }
    | .CREATURE_LOOT_STATUS_SKIN_AVAILABLE =>
      { c with
        UNIT_FIELD_FLAGS :=
          RemoveFlag (SetFlag c.UNIT_FIELD_FLAGS k.UNIT_DYNFLAG_LOOTABLE) k.UNIT_FLAG_SKINNABLE }
    | _ => c

/-! ## Loot recipient -/

/-- `Creature::GetOriginalLootRecipient` (Creature.cpp 1030-1033). -/
def Creature.GetOriginalLootRecipient (w : World) (c : Creature) : Option PlayerPtr :=
  if c.m_lootRecipientGuid ≠ 0 then w.FindPlayer c.m_lootRecipientGuid else none

/-- `Creature::GetGroupLootRecipient` (Creature.cpp 1038-1042). -/
def Creature.GetGroupLootRecipient (w : World) (c : Creature) : Option GroupPtr :=
  if c.m_lootGroupRecipientId ≠ 0 then w.GetGroupById c.m_lootGroupRecipientId else none

/-- The member loop of `Creature::GetLootRecipient` (Creature.cpp 1070-1072):
walk the references and return the first one whose `getSource()` is set. -/
def findAnyInGroup : List (Option PlayerPtr) → Option PlayerPtr
  | [] => none
  | some p :: _ => some p
  | none :: rest => findAnyInGroup rest

/-- `Creature::GetLootRecipient` (Creature.cpp 1051-1075). -/
def Creature.GetLootRecipient (w : World) (c : Creature) : Option PlayerPtr :=
  let group := c.GetGroupLootRecipient w
  let player := c.GetOriginalLootRecipient w
  match group with
  | none => player
  | some group =>
    match player with
    | some p =>
      if w.Player_GetGroup p = some group then some p
      else findAnyInGroup (w.Group_members group)
    | none => findAnyInGroup (w.Group_members group)

/-- `Creature::SetLootRecipient` (Creature.cpp 1080-1106). -/
def Creature.SetLootRecipient (w : World) (c : Creature) (unit : Option UnitPtr) : Creature :=
  match unit with
  | none => { c with m_lootRecipientGuid := 0, m_lootGroupRecipientId := 0 }
  | some u =>
    match w.GetCharmerOrOwnerPlayerOrPlayerItself u with
    | none => c
    | some player =>
      let c := { c with m_lootRecipientGuid := w.Player_GetObjectGuid player }
      match w.Player_GetGroup player with
      | some group => { c with m_lootGroupRecipientId := w.Group_GetId group }
      | none => c

/-- `Creature::IsTappedBy` (Creature.cpp 2746-2764). -/
def Creature.IsTappedBy (w : World) (c : Creature) (plr : PlayerPtr) : Bool :=
  match c.GetLootRecipient w with
  | some recipient =>
    if recipient = plr then true
    else
      match w.Player_GetGroup recipient with
      | some grp =>
        match w.Player_GetGroup plr with
        | some plrGroup => if plrGroup = grp then true else false
        | none => false
      | none => false
  | none => false

/-- The local `corpseLootedDelay` of `Creature::PrepareBodyLootState`
(Creature.cpp 1008-1012).  The 32 bit product `m_corpseDelay * IN_MILLISECONDS` is
converted to `float` and multiplied with the rate in single precision. -/
def Creature.corpseLootedDelay (w : World) (c : Creature) : Nat :=
  if f32 w.CONFIG_FLOAT_RATE_CORPSE_DECAY_LOOTED > 0 then
    toUInt32 (f32 (f32 (u32 (c.m_corpseDelay * IN_MILLISECONDS) : ℚ)
      * f32 w.CONFIG_FLOAT_RATE_CORPSE_DECAY_LOOTED))
  else
    u32 (c.m_respawnDelay * IN_MILLISECONDS) / 3

/-- `Creature::PrepareBodyLootState` (Creature.cpp 997-1025). -/
def Creature.PrepareBodyLootState (w : World) (c : Creature) : Creature :=
  let c := { c with loot := none }
  let killer := c.GetLootRecipient w
  let c :=
    match killer with
    | some killer => { c with loot := some ⟨killer⟩ }
    | none => c
  let corpseLootedDelay := c.corpseLootedDelay w
  if c.m_respawnDelay > c.m_corpseDelay then
    { c with m_corpseDecayTimer := corpseLootedDelay }
  else if c.m_corpseDecayTimer > corpseLootedDelay then
    { c with m_corpseDecayTimer := corpseLootedDelay }
  else c

/-! ## Death state -/

/-- `Creature::IsPlayerSummon` (Creature.cpp 168-171). -/
def Creature.IsPlayerSummon (k : Defines) (w : World) : Bool :=
  match w.GetOwner with
  | some owner => w.Unit_GetTypeId owner == k.TYPEID_PLAYER
  | none => false

/-- `Creature::SaveRespawnTime` (Creature.cpp 1971-1980); a call of
`SaveCreatureRespawnTime` puts the written value in front of `respawnTimeStore`. -/
def Creature.SaveRespawnTime (w : World) (c : Creature) : Creature :=
  if w.IsPet || !w.HasStaticDBSpawnData then c
  else if c.m_respawnTime > w.time then
    { c with respawnTimeStore := c.m_respawnTime :: c.respawnTimeStore }
  else if c.m_corpseDecayTimer > 0 then
    { c with respawnTimeStore :=
        (w.time + (c.m_respawnDelay : Int) + ((c.m_corpseDecayTimer / IN_MILLISECONDS : Nat) : Int))
          :: c.respawnTimeStore }
  else c

/-- Modelled from the spec: `Unit::SetDeathState` (Unit.cpp is not among the sources);
the requested state becomes the lifecycle state of the unit. -/
def Unit_SetDeathState (c : Creature) (s : DeathState) : Creature :=
  { c with m_deathState := s }

/-- `Creature::SetDeathState` (Creature.cpp 1611-1668).  Not part of the record:
target guid, assistance search flag, `clearUnitState`, temporary faction, melee damage
school, `LoadCreatureAddon` and `SetWalk`. -/
def Creature.SetDeathState (k : Defines) (w : World) (c : Creature) (s : DeathState) : Creature :=
  let c :=
    if (s = .JUST_DIED ∧ c.m_isDeadByDefault = false) ∨ (s = .JUST_ALIVED ∧ c.m_isDeadByDefault = true) then
      let c := { c with
        m_corpseDecayTimer := u32 (c.m_corpseDelay * IN_MILLISECONDS)
        m_respawnTime := w.time + (c.m_respawnDelay : Int) }
      if w.CONFIG_BOOL_SAVE_RESPAWN_TIME_IMMEDIATELY || w.IsWorldBoss then c.SaveRespawnTime w else c
    else c
  let c := Unit_SetDeathState c s
  let c :=
    if s = .JUST_DIED then
      let c := { c with UNIT_NPC_FLAGS := k.UNIT_NPC_FLAG_NONE }
      let c :=
        if w.CanFly then { c with i_motionMaster := .MoveFall :: c.i_motionMaster } else c
      Unit_SetDeathState c .CORPSE
    else c
  if s = .JUST_ALIVED then
    let c := Unit_SetDeathState c .ALIVE
    let c := { c with health := c.maxHealth }
    let c := c.SetLootRecipient w none
    let c := { c with UNIT_DYNAMIC_FLAGS := k.UNIT_DYNFLAG_NONE }
    let c := { c with UNIT_NPC_FLAGS := c.m_creatureInfo.NpcFlags }
    let c := { c with UNIT_FIELD_FLAGS := RemoveFlag c.UNIT_FIELD_FLAGS k.UNIT_FLAG_SKINNABLE }
    { c with i_motionMaster := .Initialize :: c.i_motionMaster }
  else c

/-- `Creature::RemoveCorpse` (Creature.cpp 200-246).  Not part of the record:
visibility updates, the linking and instance notifications and the relocation to
the respawn coordinates. -/
def Creature.RemoveCorpse (k : Defines) (w : World) (c : Creature) : Creature :=
  let c :=
    if w.IsPartOfAPool ≠ 0 then { c with inWorld := c.inWorld && !w.UpdatePool_despawns } else c
  if c.inWorld = false then c
  else if (c.m_deathState ≠ .CORPSE ∧ c.m_isDeadByDefault = false)
      ∨ (c.m_deathState ≠ .ALIVE ∧ c.m_isDeadByDefault = true) then c
  else
    let c := { c with m_corpseDecayTimer := 0 }
    let c := c.SetDeathState k w .DEAD
    let c := { c with loot := none, m_lootStatus := .CREATURE_LOOT_STATUS_NONE }
    let respawnDelay := if c.i_AI.isSome then u32 w.CorpseRemoved_respawnDelay else 0
    if respawnDelay ≠ 0 then { c with m_respawnTime := w.time + (respawnDelay : Int) } else c

/-! ## Stat recomputation -/

/-- The conversion `int32(x)` of a float: the fractional part is dropped (rounding
towards zero).  C++ leaves the result open when the truncated value does not fit 32
bits; here the truncated value is kept. -/
def toInt32 (x : ℚ) : Int := if 0 ≤ x then ⌊x⌋ else ⌈x⌉

/-- The conversion of an `int32` operand to `uint32` in mixed arithmetic. -/
def asUInt32 (x : Int) : Nat := (x % 4294967296).toNat

/-- The conversion of a `uint32` value to `int32`. -/
def asInt32 (n : Nat) : Int := if u32 n < 2147483648 then (u32 n : Int) else (u32 n : Int) - 4294967296

/-- The stats in the order of `for (int i = STAT_STRENGTH; i < MAX_STATS; ++i)`. -/
def Stats.all : List Stats :=
  [.STAT_STRENGTH, .STAT_AGILITY, .STAT_STAMINA, .STAT_INTELLECT, .STAT_SPIRIT]

/-- The powers in the order of `for (int i = POWER_MANA; i < MAX_POWERS; ++i)`. -/
def Powers.all : List Powers :=
  [.POWER_MANA, .POWER_RAGE, .POWER_FOCUS, .POWER_ENERGY, .POWER_HAPPINESS, .POWER_RUNE,
   .POWER_RUNIC_POWER]

/-- The schools in the order of `for (int i = SPELL_SCHOOL_NORMAL; i < MAX_SPELL_SCHOOL; ++i)`. -/
def SpellSchools.all : List SpellSchools :=
  [.SPELL_SCHOOL_NORMAL, .SPELL_SCHOOL_HOLY, .SPELL_SCHOOL_FIRE, .SPELL_SCHOOL_NATURE,
   .SPELL_SCHOOL_FROST, .SPELL_SCHOOL_SHADOW, .SPELL_SCHOOL_ARCANE]

/-- The cast `Stats(n)` of an aura value that selects a stat. -/
def Stats.ofInt (n : Int) : Option Stats :=
  if n = 0 then some .STAT_STRENGTH
  else if n = 1 then some .STAT_AGILITY
  else if n = 2 then some .STAT_STAMINA
  else if n = 3 then some .STAT_INTELLECT
  else if n = 4 then some .STAT_SPIRIT
  else none

/-- Modelled from the spec: `Unit::GetStat` (Unit.h is not among the sources), the
stored value of a "derived stat" as a float. -/
def StatFields.GetStat (c : StatFields) (s : Stats) : ℚ := (c.stat s : ℚ)

/-- The call `GetStat(Stats(n))` with a stat number taken from aura data; a number
outside the five stats does not name a stat and reads as 0 here. -/
def StatFields.GetStatOfInt (c : StatFields) (n : Int) : ℚ :=
  match Stats.ofInt n with
  | some s => c.GetStat s
  | none => 0

/-- Modelled from the spec: `Unit::SetLevel` (Unit.cpp is not among the sources); the
chosen level is stored. -/
def StatFields.SetLevel (c : StatFields) (lvl : Nat) : StatFields := { c with level := lvl }

/-- Modelled from the spec: `Unit::SetHealth` (Unit.cpp is not among the sources); the
value becomes the current health. -/
def StatFields.SetHealth (c : StatFields) (val : Nat) : StatFields := { c with health := val }

/-- Modelled from the spec: `Unit::SetMaxHealth` (Unit.cpp is not among the sources); the
value becomes the maximal health. -/
def StatFields.SetMaxHealth (c : StatFields) (val : Nat) : StatFields := { c with maxHealth := val }

/-- Modelled from the spec: `Unit::SetCreateHealth` (Unit.h is not among the sources);
the value becomes the stored base health. -/
def StatFields.SetCreateHealth (c : StatFields) (val : Nat) : StatFields :=
  { c with createHealth := val }

/-- Modelled from the spec: `Unit::SetCreateMana` (Unit.h is not among the sources); the
value becomes the stored base mana. -/
def StatFields.SetCreateMana (c : StatFields) (val : Nat) : StatFields := { c with createMana := val }

/-- Modelled from the spec: `Unit::SetPower` (Unit.cpp is not among the sources); the
value becomes the current value of the power. -/
def StatFields.SetPower (c : StatFields) (power : Powers) (val : Nat) : StatFields :=
  { c with power := Function.update c.power power val }

/-- Modelled from the spec: `Unit::SetMaxPower` (Unit.cpp is not among the sources); the
value becomes the maximum of the power. -/
def StatFields.SetMaxPower (c : StatFields) (power : Powers) (val : Nat) : StatFields :=
  { c with maxPower := Function.update c.maxPower power val }

/-- Modelled from the spec: `Unit::SetStat` (Unit.h is not among the sources); the value
becomes the stored value of the stat. -/
def StatFields.SetStat (c : StatFields) (s : Stats) (val : Int) : StatFields :=
  { c with stat := Function.update c.stat s val }

/-- Modelled from the spec: `Unit::SetResistance` (Unit.h is not among the sources); the
value becomes the stored resistance of the school. -/
def StatFields.SetResistance (c : StatFields) (school : SpellSchools) (val : Int) : StatFields :=
  { c with resistance := Function.update c.resistance school val }

/-- Modelled from the spec: `Unit::SetArmor` (Unit.h is not among the sources); the armor
is the resistance of the physical school. -/
def StatFields.SetArmor (c : StatFields) (val : Int) : StatFields :=
  c.SetResistance .SPELL_SCHOOL_NORMAL val

/-- Modelled from the spec: `Unit::SetBaseWeaponDamage` (Unit.h is not among the sources);
the value is stored in the weapon damage table. -/
def StatFields.SetBaseWeaponDamage (c : StatFields) (attType : WeaponAttackType)
    (damageRange : WeaponDamageRange) (value : ℚ) : StatFields :=
  let row := Function.update (c.m_weaponDamage attType) damageRange value
  { c with m_weaponDamage := Function.update c.m_weaponDamage attType row }

/-- Modelled from the spec: `Unit::SetModifierValue` (Unit.h is not among the sources);
the value is stored in the modifier table. -/
def StatFields.SetModifierValue (c : StatFields) (unitMod : UnitMods) (t : UnitModifierType)
    (val : ℚ) : StatFields :=
  let row := Function.update (c.m_auraModifiersGroup unitMod) t val
  { c with m_auraModifiersGroup := Function.update c.m_auraModifiersGroup unitMod row }

/-- Modelled from the spec: `Unit::GetModifierValue` (Unit.h is not among the sources);
the stored entry of the modifier table. -/
def StatFields.GetModifierValue (c : StatFields) (unitMod : UnitMods) (t : UnitModifierType) : ℚ :=
  c.m_auraModifiersGroup unitMod t

/-- Modelled from the spec: `Unit::GetTotalStatValue` (Unit.cpp is not among the
sources), "value = ((base_value * base_pct) + total_value) * total_pct" over the
modifier row of the stat, the base value counted from the create stat. -/
def StatFields.GetTotalStatValue (c : StatFields) (s : Stats) : ℚ :=
  ((c.GetModifierValue (.UNIT_MOD_STAT s) .BASE_VALUE + c.m_createStats s)
      * c.GetModifierValue (.UNIT_MOD_STAT s) .BASE_PCT
    + c.GetModifierValue (.UNIT_MOD_STAT s) .TOTAL_VALUE)
    * c.GetModifierValue (.UNIT_MOD_STAT s) .TOTAL_PCT

/-- Modelled from the spec: `Unit::GetTotalAuraModValue` (Unit.cpp is not among the
sources), "resistance recomputation per damage school sums modifier contributions":
((base_value * base_pct) + total_value) * total_pct over the modifier row. -/
def StatFields.GetTotalAuraModValue (c : StatFields) (unitMod : UnitMods) : ℚ :=
  (c.GetModifierValue unitMod .BASE_VALUE * c.GetModifierValue unitMod .BASE_PCT
    + c.GetModifierValue unitMod .TOTAL_VALUE)
    * c.GetModifierValue unitMod .TOTAL_PCT

/-- Modelled from the spec: `Unit::GetArmor` (Unit.h is not among the sources), the
stored resistance of the physical school read as `uint32`. -/
def StatFields.GetArmor (c : StatFields) : Nat := asUInt32 (c.resistance .SPELL_SCHOOL_NORMAL)

/-- The table `MonsterDamage` of `Creature::CalculateMinMaxDamage`. -/
def MonsterDamage : Fin 14 → ℚ :=
  ![1.0, 1.3, 1.89, 2.73, 3.96, 5.75, 8.33, 12.08, 17.52, 25.40, 36.04, 50.97, 72.08, 101.94]

/-- The table `MonsterHealthTable` of `Creature::UpdateMaxHealth`, as it is written in
the source; `UpdateMaxHealth` reads an entry as a `float`. -/
def MonsterHealthTable : Fin 14 → ℚ :=
  ![1.0, 2.0, 3.2, 5.12, 8.19, 13.11, 20.97, 33.55, 53.69, 85.90, 189.85, 416.25, 912.60,
    2000.82]

/-- `Creature::CalculateMinMaxDamage` (Creature.cpp 3165-3181): the pair
`(min_damage, max_damage)` left in the reference arguments. -/
def StatFields.CalculateMinMaxDamage (k : Defines) (w : World) (c : StatFields) : ℚ × ℚ :=
  let damageBonus := MonsterDamage w.GetCurrentDifficulty
  let level : ℚ := (c.level : ℚ)
  let hp : ℚ := (c.maxHealth : ℚ)
  let min_damage := (1.4873 * w.log level - 0.1681) / level * hp * damageBonus
  let max_damage := (2.6312 * w.log level - 0.6672) / level * hp * damageBonus
  if min_damage ≤ 0 then ((k.MINDAMAGE : ℚ), (k.MAXDAMAGE : ℚ)) else (min_damage, max_damage)

/-- `Creature::UpdateDamagePhysical` (Creature.cpp 3237-3260). -/
def StatFields.UpdateDamagePhysical (k : Defines) (w : World) (c : StatFields)
    (attType : WeaponAttackType) : StatFields :=
  let mindamage := (c.CalculateMinMaxDamage k w).1
  let maxdamage := (c.CalculateMinMaxDamage k w).2
  match attType with
  | .BASE_ATTACK => { c with UNIT_FIELD_MINDAMAGE := mindamage, UNIT_FIELD_MAXDAMAGE := maxdamage }
  | .OFF_ATTACK =>
    { c with UNIT_FIELD_MINOFFHANDDAMAGE := mindamage, UNIT_FIELD_MAXOFFHANDDAMAGE := maxdamage }
  | .RANGED_ATTACK =>
    { c with UNIT_FIELD_MINRANGEDDAMAGE := mindamage, UNIT_FIELD_MAXRANGEDDAMAGE := maxdamage }

/-- The loop over the dummy auras in `Creature::UpdateAttackPowerAndDamage`
(Creature.cpp 3072-3087): the pair `(mLevelBonus, mBonusWeaponAtt)` when the loop ends. -/
def predatoryStrikes (k : Defines) (w : World) (level : Nat) : List Aura → ℚ × ℚ → ℚ × ℚ
  | [], acc => acc
  | a :: rest, (mLevelBonus, mBonusWeaponAtt) =>
    if a.SpellIconID ≠ 1563 then predatoryStrikes k w level rest (mLevelBonus, mBonusWeaponAtt)
    else
      let acc : ℚ × ℚ :=
        if a.EffIndex = k.EFFECT_INDEX_0 ∧ w.IsInFeralForm = true then
          (((u32 (level * asUInt32 a.m_amount) : Nat) : ℚ) / 100, mBonusWeaponAtt)
        else if a.EffIndex = k.EFFECT_INDEX_1 then (mLevelBonus, (a.m_amount : ℚ))
        else (mLevelBonus, mBonusWeaponAtt)
      if acc.1 ≠ 0 ∧ acc.2 ≠ 0 then acc else predatoryStrikes k w level rest acc

/-- The local `val2` of `Creature::UpdateAttackPowerAndDamage` (Creature.cpp 3014-3105):
the class formula of the base attack power. -/
def StatFields.UpdateAttackPowerAndDamage_val2 (k : Defines) (w : World) (c : StatFields)
    (ranged : Bool) : ℚ :=
  let level : ℚ := (c.level : ℚ)
  let _class := if c.unitClass = 0 then k.CLASS_WARRIOR else c.unitClass
  match ranged with
  | true =>
    if _class = k.CLASS_HUNTER then level * 2 + c.GetStat .STAT_AGILITY - 10
    else if _class = k.CLASS_ROGUE then level + c.GetStat .STAT_AGILITY - 10
    else if _class = k.CLASS_WARRIOR then level + c.GetStat .STAT_AGILITY - 10
    else if _class = k.CLASS_DRUID then
      if w.GetShapeshiftForm = k.FORM_CAT ∨ w.GetShapeshiftForm = k.FORM_BEAR
          ∨ w.GetShapeshiftForm = k.FORM_DIREBEAR then 0
      else c.GetStat .STAT_AGILITY - 10
    else c.GetStat .STAT_AGILITY - 10
  | false =>
    if _class = k.CLASS_WARRIOR then level * 3 + c.GetStat .STAT_STRENGTH * 2 - 20
    else if _class = k.CLASS_PALADIN then level * 3 + c.GetStat .STAT_STRENGTH * 2 - 20
    else if _class = k.CLASS_DEATH_KNIGHT then level * 3 + c.GetStat .STAT_STRENGTH * 2 - 20
    else if _class = k.CLASS_ROGUE then
      level * 2 + c.GetStat .STAT_STRENGTH + c.GetStat .STAT_AGILITY - 20
    else if _class = k.CLASS_HUNTER then
      level * 2 + c.GetStat .STAT_STRENGTH + c.GetStat .STAT_AGILITY - 20
    else if _class = k.CLASS_SHAMAN then
      level * 2 + c.GetStat .STAT_STRENGTH + c.GetStat .STAT_AGILITY - 20
    else if _class = k.CLASS_DRUID then
      let form := w.GetShapeshiftForm
      let bonus : ℚ × ℚ :=
        if form = k.FORM_CAT ∨ form = k.FORM_BEAR ∨ form = k.FORM_DIREBEAR
            ∨ form = k.FORM_MOONKIN then
          predatoryStrikes k w c.level (w.GetAurasByType .SPELL_AURA_DUMMY) (0, 0)
        else (0, 0)
      let mLevelBonus := bonus.1
      let mBonusWeaponAtt := bonus.2
      if form = k.FORM_CAT then
        c.GetStat .STAT_STRENGTH * 2 + c.GetStat .STAT_AGILITY - 20 + mLevelBonus + mBonusWeaponAtt
      else if form = k.FORM_BEAR ∨ form = k.FORM_DIREBEAR then
        c.GetStat .STAT_STRENGTH * 2 - 20 + mLevelBonus + mBonusWeaponAtt
      else if form = k.FORM_MOONKIN then c.GetStat .STAT_STRENGTH * 2 - 20 + mBonusWeaponAtt
      else c.GetStat .STAT_STRENGTH * 2 - 20
    else if _class = k.CLASS_MAGE then c.GetStat .STAT_STRENGTH - 10
    else if _class = k.CLASS_PRIEST then c.GetStat .STAT_STRENGTH - 10
    else if _class = k.CLASS_WARLOCK then c.GetStat .STAT_STRENGTH - 10
    else 0

/-- The local `attPowerMod` of `Creature::UpdateAttackPowerAndDamage` (Creature.cpp
3107-3130): the total value of the modifier row plus the flat bonuses of the auras. -/
def StatFields.UpdateAttackPowerAndDamage_attPowerMod (k : Defines) (w : World) (c : StatFields)
    (ranged : Bool) : ℚ :=
  match ranged with
  | true =>
    let attPowerMod := c.GetModifierValue .UNIT_MOD_ATTACK_POWER_RANGED .TOTAL_VALUE
    if (w.getClassMask c.unitClass &&& k.CLASSMASK_WAND_USERS) = 0 then
      (w.GetAurasByType .SPELL_AURA_MOD_RANGED_ATTACK_POWER_OF_STAT_PERCENT).foldl
        (fun attPowerMod a =>
          attPowerMod + (toInt32 (c.GetStatOfInt a.m_miscvalue * (a.m_amount : ℚ) / 100) : ℚ))
        attPowerMod
    else attPowerMod
  | false =>
    let attPowerMod := c.GetModifierValue .UNIT_MOD_ATTACK_POWER .TOTAL_VALUE
    let attPowerMod :=
      (w.GetAurasByType .SPELL_AURA_MOD_ATTACK_POWER_OF_STAT_PERCENT).foldl
        (fun attPowerMod a =>
          attPowerMod + (toInt32 (c.GetStatOfInt a.m_miscvalue * (a.m_amount : ℚ) / 100) : ℚ))
        attPowerMod
    (w.GetAurasByType .SPELL_AURA_MOD_ATTACK_POWER_OF_ARMOR).foldl
      (fun attPowerMod a => attPowerMod + (asInt32 (c.GetArmor / asUInt32 a.m_amount) : ℚ))
      attPowerMod

/-- `Creature::UpdateAttackPowerAndDamage` (Creature.cpp 3012-3163).  Not part of the
record: the attack power of the pet. -/
def StatFields.UpdateAttackPowerAndDamage (k : Defines) (w : World) (c : StatFields)
    (ranged : Bool) : StatFields :=
  let val2 := c.UpdateAttackPowerAndDamage_val2 k w ranged
  match ranged with
  | true =>
    let c : StatFields := c.SetModifierValue .UNIT_MOD_ATTACK_POWER_RANGED .BASE_VALUE val2
    let base_attPower := c.GetModifierValue .UNIT_MOD_ATTACK_POWER_RANGED .BASE_VALUE
      * c.GetModifierValue .UNIT_MOD_ATTACK_POWER_RANGED .BASE_PCT
    let attPowerMod := c.UpdateAttackPowerAndDamage_attPowerMod k w true
    let attPowerMultiplier := c.GetModifierValue .UNIT_MOD_ATTACK_POWER_RANGED .TOTAL_PCT - 1
    let c : StatFields := { c with
      UNIT_FIELD_RANGED_ATTACK_POWER := toUInt32 base_attPower
      UNIT_FIELD_RANGED_ATTACK_POWER_MODS := toUInt32 attPowerMod
      UNIT_FIELD_RANGED_ATTACK_POWER_MULTIPLIER := attPowerMultiplier }
    c.UpdateDamagePhysical k w .RANGED_ATTACK
  | false =>
    let c : StatFields := c.SetModifierValue .UNIT_MOD_ATTACK_POWER .BASE_VALUE val2
    let base_attPower := c.GetModifierValue .UNIT_MOD_ATTACK_POWER .BASE_VALUE
      * c.GetModifierValue .UNIT_MOD_ATTACK_POWER .BASE_PCT
    let attPowerMod := c.UpdateAttackPowerAndDamage_attPowerMod k w false
    let attPowerMultiplier := c.GetModifierValue .UNIT_MOD_ATTACK_POWER .TOTAL_PCT - 1
    let c : StatFields := { c with
      UNIT_FIELD_ATTACK_POWER := toUInt32 base_attPower
      UNIT_FIELD_ATTACK_POWER_MODS := toUInt32 attPowerMod
      UNIT_FIELD_ATTACK_POWER_MULTIPLIER := attPowerMultiplier }
    let c : StatFields := c.UpdateDamagePhysical k w .BASE_ATTACK
    if w.haveOffhandWeapon then c.UpdateDamagePhysical k w .OFF_ATTACK else c

/-- The local `value` of `Creature::UpdateArmor` before the cast (Creature.cpp
2930-2947). -/
def StatFields.UpdateArmor_value (k : Defines) (w : World) (c : StatFields) : ℚ :=
  let value := c.GetModifierValue .UNIT_MOD_ARMOR .BASE_VALUE
  let value := value * c.GetModifierValue .UNIT_MOD_ARMOR .BASE_PCT
  let value := value + c.GetStat .STAT_AGILITY * 2
  let value := value + c.GetModifierValue .UNIT_MOD_ARMOR .TOTAL_VALUE
  let value :=
    (w.GetAurasByType .SPELL_AURA_MOD_RESISTANCE_OF_STAT_PERCENT).foldl
      (fun value a =>
        if (asUInt32 a.m_miscvalue &&& k.SPELL_SCHOOL_MASK_NORMAL) ≠ 0 then
          value + (toInt32 (c.GetStatOfInt a.MiscBValue * (a.m_amount : ℚ) / 100) : ℚ)
        else value)
      value
  value * c.GetModifierValue .UNIT_MOD_ARMOR .TOTAL_PCT

/-- `Creature::UpdateArmor` (Creature.cpp 2928-2956).  Not part of the record: the
armor of the pet. -/
def StatFields.UpdateArmor (k : Defines) (w : World) (c : StatFields) : StatFields :=
  let value := c.UpdateArmor_value k w
  let c : StatFields := c.SetArmor (toInt32 value)
  c.UpdateAttackPowerAndDamage k w false

/-- `Creature::GetManaBonusFromIntellect` (Creature.cpp 2968-2976). -/
def StatFields.GetManaBonusFromIntellect (c : StatFields) : ℚ :=
  let intellect := c.GetStat .STAT_INTELLECT
  let baseInt := if intellect < 20 then intellect else 20
  let moreInt := intellect - baseInt
  baseInt + moreInt * 15

/-- `Creature::UpdateMaxHealth` (Creature.cpp 2978-2993).  The table entry is a `float`,
the create health is converted to `float` and back, and the product is taken in single
precision. -/
def StatFields.UpdateMaxHealth (w : World) (c : StatFields) : StatFields :=
  let healthBonus := f32 (MonsterHealthTable w.GetCurrentDifficulty)
  let value : ℚ := f32 (c.createHealth : ℚ)
  c.SetMaxHealth (toUInt32 (f32 (f32 (toUInt32 value : ℚ) * healthBonus)))

/-- `Creature::UpdateMaxPower` (Creature.cpp 2995-3010). -/
def StatFields.UpdateMaxPower (w : World) (c : StatFields) (power : Powers) : StatFields :=
  let unitMod := UnitMods.UNIT_MOD_POWER power
  let create_power := w.GetCreatePowers c.createMana power
  let bonusPower : ℚ :=
    if power = .POWER_MANA ∧ create_power > 0 then c.GetManaBonusFromIntellect else 0
  let value := c.GetModifierValue unitMod .BASE_VALUE + (create_power : ℚ)
  let value := value * c.GetModifierValue unitMod .BASE_PCT
  let value := value + (c.GetModifierValue unitMod .TOTAL_VALUE + bonusPower)
  let value := value * c.GetModifierValue unitMod .TOTAL_PCT
  c.SetMaxPower power (toUInt32 value)

/-- `Creature::OCTRegenMPPerSpirit` (Creature.cpp 3291-3307). -/
def StatFields.OCTRegenMPPerSpirit (k : Defines) (w : World) (c : StatFields) : ℚ :=
  let level := c.level
  let _class := if c.unitClass = 0 then k.CLASS_WARRIOR else c.unitClass
  let level := if level > k.GT_MAX_LEVEL then k.GT_MAX_LEVEL else level
  match w.GtRegenMPPerSpt (sub32 (u32 (sub32 _class 1 * k.GT_MAX_LEVEL + level)) 1) with
  | none => 0
  | some ratio => c.GetStat .STAT_SPIRIT * ratio

/-- `Creature::UpdateManaRegen` (Creature.cpp 3262-3289). -/
def StatFields.UpdateManaRegen (k : Defines) (w : World) (c : StatFields) : StatFields :=
  let Intellect := c.GetStat .STAT_INTELLECT
  let power_regen := w.sqrt Intellect * c.OCTRegenMPPerSpirit k w
  let power_regen := power_regen
    * w.GetTotalAuraMultiplierByMiscValue .SPELL_AURA_MOD_POWER_REGEN_PERCENT .POWER_MANA
  let m_baseManaRegen : Int := 0
  let power_regen_mp5 : ℚ :=
    ((w.GetTotalAuraModifierByMiscValue .SPELL_AURA_MOD_POWER_REGEN .POWER_MANA
      + m_baseManaRegen : Int) : ℚ) / 5
  let power_regen_mp5 :=
    (w.GetAurasByType .SPELL_AURA_MOD_MANA_REGEN_FROM_STAT).foldl
      (fun power_regen_mp5 a =>
        power_regen_mp5 + c.GetStatOfInt a.m_miscvalue * (a.m_amount : ℚ) / 500)
      power_regen_mp5
  let modManaRegenInterrupt := w.GetTotalAuraModifier .SPELL_AURA_MOD_MANA_REGEN_INTERRUPT
  let modManaRegenInterrupt := if modManaRegenInterrupt > 100 then 100 else modManaRegenInterrupt
  let c : StatFields := { c with
    UNIT_FIELD_POWER_REGEN_INTERRUPTED_FLAT_MODIFIER :=
      power_regen_mp5 + power_regen * (modManaRegenInterrupt : ℚ) / 100 }
  { c with UNIT_FIELD_POWER_REGEN_FLAT_MODIFIER := power_regen_mp5 + power_regen }

/-- `Creature::UpdateResistances` (Creature.cpp 2913-2926).  Not part of the record:
the resistances of the pet. -/
def StatFields.UpdateResistances (k : Defines) (w : World) (c : StatFields)
    (school : SpellSchools) : StatFields :=
  match school with
  | .SPELL_SCHOOL_NORMAL => c.UpdateArmor k w
  | school =>
    let value := c.GetTotalAuraModValue (.UNIT_MOD_RESISTANCE school)
    c.SetResistance school (toInt32 value)

/-- `Creature::UpdateAllStats` (Creature.cpp 2881-2911). -/
def StatFields.UpdateAllStats (k : Defines) (w : World) (c : StatFields) : StatFields :=
  let c : StatFields := Stats.all.foldl
    (fun c i =>
      let value := c.GetTotalStatValue i
      c.SetStat i (toInt32 value))
    c
  let c : StatFields := c.UpdateArmor k w
  let c : StatFields := c.UpdateAttackPowerAndDamage k w true
  let c : StatFields := c.UpdateMaxHealth w
  let c : StatFields := Powers.all.foldl (fun c i => c.UpdateMaxPower w i) c
  let c : StatFields := c.UpdateManaRegen k w
  SpellSchools.all.foldl (fun c i => c.UpdateResistances k w i) c

/-- `Creature::InitStatsForLevel` (Creature.cpp 3309-3439).  Not part of the record: the
aura state, cast speed, attack times, stat buff fields, resistance buff fields, power
cost fields, mount display id, stand flags and the level of the pet. -/
def StatFields.InitStatsForLevel (w : World) (c : StatFields) : StatFields :=
  let _class := c.unitClass
  let basemana := w.PlayerClassLevelInfo_basemana _class c.level
  let level : ℚ := (c.level : ℚ)
  let basehealth := toUInt32 (3.7 * w.exp (level / 10) * level)
  let c : StatFields := c.SetCreateHealth basehealth
  let c : StatFields := c.SetCreateMana basemana
  let c : StatFields := c.SetArmor (toInt32 (c.m_createStats .STAT_AGILITY * 2))
  let c : StatFields := { c with
    UNIT_FIELD_MINDAMAGE := 0
    UNIT_FIELD_MAXDAMAGE := 0
    UNIT_FIELD_MINOFFHANDDAMAGE := 0
    UNIT_FIELD_MAXOFFHANDDAMAGE := 0
    UNIT_FIELD_MINRANGEDDAMAGE := 0
    UNIT_FIELD_MAXRANGEDDAMAGE := 0
    UNIT_FIELD_ATTACK_POWER := 0
    UNIT_FIELD_ATTACK_POWER_MODS := 0
    UNIT_FIELD_ATTACK_POWER_MULTIPLIER := 0
    UNIT_FIELD_RANGED_ATTACK_POWER := 0
    UNIT_FIELD_RANGED_ATTACK_POWER_MODS := 0
    UNIT_FIELD_RANGED_ATTACK_POWER_MULTIPLIER := 0 }
  let c : StatFields := c.SetArmor (toInt32 (c.m_createStats .STAT_AGILITY * 2))
  let c : StatFields := (SpellSchools.all.drop 1).foldl (fun c i => c.SetResistance i 0) c
  let c : StatFields := Powers.all.foldl (fun c i => c.SetMaxPower i (w.GetCreatePowers c.createMana i)) c
  let c : StatFields := c.SetMaxHealth basehealth
  let c : StatFields := if !w.isInCombat then c.SetHealth c.maxHealth else c
  let c : StatFields := c.SetModifierValue .UNIT_MOD_HEALTH .BASE_VALUE (c.maxHealth : ℚ)
  let c : StatFields := c.SetPower .POWER_MANA (c.maxPower .POWER_MANA)
  let c : StatFields := c.SetModifierValue (.UNIT_MOD_POWER .POWER_MANA) .BASE_VALUE
    (c.maxPower .POWER_MANA : ℚ)
  let c : StatFields := c.SetPower .POWER_ENERGY (c.maxPower .POWER_ENERGY)
  let c : StatFields := c.SetModifierValue (.UNIT_MOD_POWER .POWER_ENERGY) .BASE_VALUE
    (c.maxPower .POWER_ENERGY : ℚ)
  let c : StatFields :=
    if c.power .POWER_RAGE > c.maxPower .POWER_RAGE then
      c.SetPower .POWER_RAGE (c.maxPower .POWER_RAGE)
    else c
  let c : StatFields := c.SetModifierValue (.UNIT_MOD_POWER .POWER_RAGE) .BASE_VALUE
    (c.maxPower .POWER_RAGE : ℚ)
  let c : StatFields := c.SetPower .POWER_FOCUS 0
  let c : StatFields := c.SetModifierValue (.UNIT_MOD_POWER .POWER_FOCUS) .BASE_VALUE 0
  let c : StatFields := c.SetPower .POWER_HAPPINESS 0
  let c : StatFields := c.SetModifierValue (.UNIT_MOD_POWER .POWER_HAPPINESS) .BASE_VALUE 0
  let c : StatFields := c.SetPower .POWER_RUNIC_POWER 0
  c.SetModifierValue (.UNIT_MOD_POWER .POWER_RUNIC_POWER) .BASE_VALUE 0

/-- `Creature::SetStatsBasedOnPlayerMaxLevel` (Creature.cpp 2766-2817).  Not part of the
record: the attack target, the hit chance modifiers and the base spell crit chance. -/
def StatFields.SetStatsBasedOnPlayerMaxLevel (k : Defines) (w : World) (c : StatFields) : StatFields :=
  let maxPlayerLevel := w.GetMaxPlayerLevel
  let gameDifficulty := w.GetCurrentDifficulty
  let currentLevel := c.level
  let needToRefreshStats : Bool :=
    currentLevel != maxPlayerLevel || c.m_currentLevel != maxPlayerLevel
      || c.m_currentDifficulty != gameDifficulty
  if needToRefreshStats then
    let c : StatFields := c.SetLevel maxPlayerLevel
    let c : StatFields := { c with m_currentLevel := maxPlayerLevel }
    let c : StatFields := { c with m_currentDifficulty := gameDifficulty }
    let c : StatFields := { c with
      m_auraModifiersGroup := fun _ t =>
        match t with
        | .BASE_VALUE => 0
        | .BASE_PCT => 1
        | .TOTAL_VALUE => 0
        | .TOTAL_PCT => 1 }
    let c : StatFields := c.SetModifierValue .UNIT_MOD_DAMAGE_OFFHAND .TOTAL_PCT 0.5
    let c : StatFields := { c with
      m_weaponDamage := fun _ r =>
        match r with
        | .MINDAMAGE => k.BASE_MINDAMAGE
        | .MAXDAMAGE => k.BASE_MAXDAMAGE }
    let c : StatFields := { c with m_createStats := fun _ => 0 }
    let c : StatFields := { c with
      UNIT_FIELD_ATTACK_POWER := 0
      UNIT_FIELD_ATTACK_POWER_MODS := 0
      UNIT_FIELD_ATTACK_POWER_MULTIPLIER := 0
      UNIT_FIELD_RANGED_ATTACK_POWER := 0
      UNIT_FIELD_RANGED_ATTACK_POWER_MODS := 0
      UNIT_FIELD_RANGED_ATTACK_POWER_MULTIPLIER := 0 }
    let c : StatFields := c.InitStatsForLevel w
    c.UpdateAllStats k w
  else c

/-! ## Level selection -/

/-- `Creature::_GetHealthMod` (Creature.cpp 1310-1327). -/
def Creature._GetHealthMod (k : Defines) (w : World) (Rank : Nat) : ℚ :=
  if Rank = k.CREATURE_ELITE_NORMAL then w.CONFIG_FLOAT_RATE_CREATURE_NORMAL_HP
  else if Rank = k.CREATURE_ELITE_ELITE then w.CONFIG_FLOAT_RATE_CREATURE_ELITE_ELITE_HP
  else if Rank = k.CREATURE_ELITE_RAREELITE then w.CONFIG_FLOAT_RATE_CREATURE_ELITE_RAREELITE_HP
  else if Rank = k.CREATURE_ELITE_WORLDBOSS then w.CONFIG_FLOAT_RATE_CREATURE_ELITE_WORLDBOSS_HP
  else if Rank = k.CREATURE_ELITE_RARE then w.CONFIG_FLOAT_RATE_CREATURE_ELITE_RARE_HP
  else w.CONFIG_FLOAT_RATE_CREATURE_ELITE_ELITE_HP

/-- `Creature::_GetDamageMod` (Creature.cpp 1329-1346). -/
def Creature._GetDamageMod (k : Defines) (w : World) (Rank : Nat) : ℚ :=
  if Rank = k.CREATURE_ELITE_NORMAL then w.CONFIG_FLOAT_RATE_CREATURE_NORMAL_DAMAGE
  else if Rank = k.CREATURE_ELITE_ELITE then w.CONFIG_FLOAT_RATE_CREATURE_ELITE_ELITE_DAMAGE
  else if Rank = k.CREATURE_ELITE_RAREELITE then
    w.CONFIG_FLOAT_RATE_CREATURE_ELITE_RAREELITE_DAMAGE
  else if Rank = k.CREATURE_ELITE_WORLDBOSS then
    w.CONFIG_FLOAT_RATE_CREATURE_ELITE_WORLDBOSS_DAMAGE
  else if Rank = k.CREATURE_ELITE_RARE then w.CONFIG_FLOAT_RATE_CREATURE_ELITE_RARE_DAMAGE
  else w.CONFIG_FLOAT_RATE_CREATURE_ELITE_ELITE_DAMAGE

/-- Modelled from the spec: `Unit::GetHealthPercent` (Unit.h is not among the sources),
the current health as a percentage of the maximal health. -/
def StatFields.GetHealthPercent (c : StatFields) : ℚ := (c.health : ℚ) * 100 / (c.maxHealth : ℚ)

/-- Modelled from the spec: `Unit::SetHealthPercent` (Unit.cpp is not among the sources);
the health becomes the given percentage of the maximal health. -/
def StatFields.SetHealthPercent (c : StatFields) (percent : ℚ) : StatFields :=
  c.SetHealth (toUInt32 ((c.maxHealth : ℚ) * percent / 100))

/-- The level chosen by `Creature::SelectLevel` (Creature.cpp 1207-1209). -/
def Creature.SelectLevel_level (w : World) (cinfo : CreatureInfo) : Nat :=
  let minlevel := cinfo.MinLevel
  let maxlevel := cinfo.MaxLevel
  if minlevel = maxlevel then minlevel else urand w.urand_level minlevel maxlevel

/-- The locals `health` and `mana` of `Creature::SelectLevel` after the choice between
the class-level stats table and the old style interpolation (Creature.cpp 1216-1243),
before the rank modifier is applied.  The integer operands are converted to `float`
and the products and the quotient are taken in single precision. -/
def Creature.SelectLevel_health_mana (w : World) (cinfo : CreatureInfo) (level : Nat) :
    Nat × Nat :=
  let minlevel := cinfo.MinLevel
  let maxlevel := cinfo.MaxLevel
  match w.GetCreatureClassLvlStats level cinfo.UnitClass cinfo.Expansion with
  | some cCLS =>
    let health := toUInt32 (f32 (f32 (cCLS.BaseHealth : ℚ) * f32 cinfo.HealthMultiplier))
    let mana := toUInt32 (f32 (f32 (cCLS.BaseMana : ℚ) * f32 cinfo.PowerMultiplier))
    (health, mana)
  | none =>
    let rellevel : ℚ :=
      if maxlevel = minlevel then 0
      else f32 (f32 ((sub32 level minlevel : Nat) : ℚ)
        / f32 ((sub32 maxlevel minlevel : Nat) : ℚ))
    let minhealth := min cinfo.MaxLevelHealth cinfo.MinLevelHealth
    let maxhealth := max cinfo.MaxLevelHealth cinfo.MinLevelHealth
    let health :=
      u32 (minhealth + toUInt32 (f32 (rellevel * f32 ((maxhealth - minhealth : Nat) : ℚ))))
    let minmana := min cinfo.MaxLevelMana cinfo.MinLevelMana
    let maxmana := max cinfo.MaxLevelMana cinfo.MinLevelMana
    let mana :=
      u32 (minmana + toUInt32 (f32 (rellevel * f32 ((maxmana - minmana : Nat) : ℚ))))
    (health, mana)

/-- The local `maxValue` of the power loop of `Creature::SelectLevel` (Creature.cpp
1268-1277). -/
def Creature.SelectLevel_maxValue (k : Defines) (cinfo : CreatureInfo) (mana : Nat)
    (i : Powers) : Nat :=
  match i with
  | .POWER_MANA => mana
  | .POWER_RAGE => 0
  | .POWER_FOCUS => k.POWER_FOCUS_DEFAULT
  | .POWER_ENERGY =>
    toUInt32 (f32 (f32 (k.POWER_ENERGY_DEFAULT : ℚ) * f32 cinfo.PowerMultiplier))
  | .POWER_HAPPINESS => k.POWER_HAPPINESS_DEFAULT
  | .POWER_RUNE => 0
  | .POWER_RUNIC_POWER => 0

/-- The local `value` of the power loop of `Creature::SelectLevel` (Creature.cpp
1279-1283). -/
def Creature.SelectLevel_value (k : Defines) (w : World) (cinfo : CreatureInfo) (mana : Nat)
    (i : Powers) : Nat :=
  if (i = Powers.POWER_ENERGY ∨ i = Powers.POWER_MANA) ∧ w.IsRegeneratingPower = false then 0
  else Creature.SelectLevel_maxValue k cinfo mana i

/-- One round of the power loop of `Creature::SelectLevel` (Creature.cpp 1264-1293). -/
def StatFields.SelectLevel_power (k : Defines) (w : World) (cinfo : CreatureInfo) (mana : Nat)
    (c : StatFields) (i : Powers) : StatFields :=
  let maxValue := Creature.SelectLevel_maxValue k cinfo mana i
  let value := Creature.SelectLevel_value k w cinfo mana i
  let c : StatFields := if i = Powers.POWER_MANA then c.SetCreateMana value else c
  let c : StatFields := c.SetMaxPower i maxValue
  let c : StatFields := c.SetPower i value
  c.SetModifierValue (.UNIT_MOD_POWER i) .BASE_VALUE (f32 (value : ℚ))

/-- The health block of `Creature::SelectLevel` (Creature.cpp 1253-1262). -/
def StatFields.SelectLevel_health (c : StatFields) (health : Nat) (percentHealth : ℚ) :
    StatFields :=
  let c : StatFields := c.SetCreateHealth health
  let c : StatFields := c.SetMaxHealth health
  let c : StatFields :=
    if percentHealth = 100 then c.SetHealth health else c.SetHealthPercent percentHealth
  c.SetModifierValue .UNIT_MOD_HEALTH .BASE_VALUE (f32 (health : ℚ))

/-- The damage block of `Creature::SelectLevel` (Creature.cpp 1295-1307); the products
are taken in single precision. -/
def StatFields.SelectLevel_damage (k : Defines) (w : World) (cinfo : CreatureInfo) (rank : Nat)
    (c : StatFields) : StatFields :=
  let damagemod := f32 (Creature._GetDamageMod k w rank)
  let c : StatFields :=
    c.SetBaseWeaponDamage .BASE_ATTACK .MINDAMAGE (f32 (f32 cinfo.MinMeleeDmg * damagemod))
  let c : StatFields :=
    c.SetBaseWeaponDamage .BASE_ATTACK .MAXDAMAGE (f32 (f32 cinfo.MaxMeleeDmg * damagemod))
  let c : StatFields :=
    c.SetBaseWeaponDamage .OFF_ATTACK .MINDAMAGE (f32 (f32 cinfo.MinMeleeDmg * damagemod))
  let c : StatFields :=
    c.SetBaseWeaponDamage .OFF_ATTACK .MAXDAMAGE (f32 (f32 cinfo.MaxMeleeDmg * damagemod))
  let c : StatFields :=
    { c with UNIT_FIELD_MINRANGEDDAMAGE := f32 (f32 cinfo.MinRangedDmg * damagemod) }
  let c : StatFields :=
    { c with UNIT_FIELD_MAXRANGEDDAMAGE := f32 (f32 cinfo.MaxRangedDmg * damagemod) }
  c.SetModifierValue .UNIT_MOD_ATTACK_POWER .BASE_VALUE
    (f32 (f32 (cinfo.MeleeAttackPower : ℚ) * damagemod))

/-- `Creature::SelectLevel` (Creature.cpp 1202-1308).  The rank modifier is applied to
the health converted to `float`, in single precision. -/
def StatFields.SelectLevel (k : Defines) (w : World) (c : StatFields) (cinfo : CreatureInfo)
    (percentHealth : ℚ) : StatFields :=
  let rank := if w.IsPet then 0 else cinfo.Rank
  let level := Creature.SelectLevel_level w cinfo
  let c : StatFields := c.SetLevel level
  let health := (Creature.SelectLevel_health_mana w cinfo level).1
  let mana := (Creature.SelectLevel_health_mana w cinfo level).2
  let health := toUInt32 (f32 (f32 (health : ℚ) * f32 (Creature._GetHealthMod k w rank)))
  let health := if health < 1 then 1 else health
  let c : StatFields := c.SelectLevel_health health percentHealth
  let c : StatFields := Powers.all.foldl (StatFields.SelectLevel_power k w cinfo mana) c
  c.SelectLevel_damage k w cinfo rank

/-! ## The stat code as methods of the creature

The functions of the level and stat code act on the stat data of the creature and
leave the rest of the record as it is. -/

/-- `Unit::SetHealth` on the creature (see `StatFields.SetHealth`). -/
def Creature.SetHealth (c : Creature) (val : Nat) : Creature :=
  { c with toStatFields := c.toStatFields.SetHealth val }

/-- `Unit::SetPower` on the creature (see `StatFields.SetPower`). -/
def Creature.SetPower (c : Creature) (power : Powers) (val : Nat) : Creature :=
  { c with toStatFields := c.toStatFields.SetPower power val }

/-- `Unit::SetModifierValue` on the creature (see `StatFields.SetModifierValue`). -/
def Creature.SetModifierValue (c : Creature) (unitMod : UnitMods) (t : UnitModifierType)
    (val : ℚ) : Creature :=
  { c with toStatFields := c.toStatFields.SetModifierValue unitMod t val }

/-- `Creature::SelectLevel` on the creature (see `StatFields.SelectLevel`). -/
def Creature.SelectLevel (k : Defines) (w : World) (c : Creature) (cinfo : CreatureInfo)
    (percentHealth : ℚ) : Creature :=
  { c with toStatFields := c.toStatFields.SelectLevel k w cinfo percentHealth }

/-- `Creature::UpdateAllStats` on the creature (see `StatFields.UpdateAllStats`). -/
def Creature.UpdateAllStats (k : Defines) (w : World) (c : Creature) : Creature :=
  { c with toStatFields := c.toStatFields.UpdateAllStats k w }

/-- `Creature::SetStatsBasedOnPlayerMaxLevel` on the creature (see
`StatFields.SetStatsBasedOnPlayerMaxLevel`). -/
def Creature.SetStatsBasedOnPlayerMaxLevel (k : Defines) (w : World) (c : Creature) : Creature :=
  { c with toStatFields := c.toStatFields.SetStatsBasedOnPlayerMaxLevel k w }

/-! ## Template change -/

/-- Modelled from the spec: `Unit::SetPowerType` (Unit.cpp is not among the sources);
the power type of the unit is "set based on unit class". -/
def Creature.SetPowerType (c : Creature) (new_powertype : Powers) : Creature :=
  { c with powerType := new_powertype }

/-- `Creature::InitEntry` (Creature.cpp 251-372); the spawn data only enter the choice of
the display id and of the equipment.  Not part of the record: scale, display ids,
gender, equipment, name, speeds and movement flags. -/
def Creature.InitEntry (k : Defines) (w : World) (c : Creature) (Entry : Nat) : Bool × Creature :=
  let Entry := if w.eventData_entry_id ≠ 0 then w.eventData_entry_id else Entry
  match w.GetCreatureTemplate Entry with
  | none => (false, c)
  | some normalInfo =>
    let cinfo := w.DifficultyTemplate normalInfo
    let c : Creature := { c with entry := Entry, m_creatureInfo := cinfo }
    let c : Creature := { c with unitClass := cinfo.UnitClass % 256 }
    if w.ModelResolves cinfo then
      let c : Creature :=
        if cinfo.UnitClass = k.CLASS_WARRIOR then c.SetPowerType .POWER_RAGE
        else if cinfo.UnitClass = k.CLASS_PALADIN ∨ cinfo.UnitClass = k.CLASS_MAGE then
          c.SetPowerType .POWER_MANA
        else if cinfo.UnitClass = k.CLASS_ROGUE then c.SetPowerType .POWER_ENERGY
        else c
      (true, c)
    else (false, c)

/-- `Creature::UpdateEntry` (Creature.cpp 374-449).  Not part of the record: sheath,
faction, attack times, PvP state, template spells, vehicle id and event spells. -/
def Creature.UpdateEntry (k : Defines) (w : World) (c : Creature) (Entry : Nat)
    (preserveHPAndPower : Bool) : Bool × Creature :=
  match c.InitEntry k w Entry with
  | (false, c) => (false, c)
  | (true, c) =>
    let c : Creature :=
      c.SelectLevel k w c.m_creatureInfo (if preserveHPAndPower then c.GetHealthPercent else 100)
    let c := { c with UNIT_NPC_FLAGS := c.m_creatureInfo.NpcFlags }
    let unitFlags := c.m_creatureInfo.UnitFlags
    let unitFlags :=
      if HasFlag c.UNIT_FIELD_FLAGS k.UNIT_FLAG_IN_COMBAT then unitFlags ||| k.UNIT_FLAG_IN_COMBAT
      else unitFlags
    let unitFlags :=
      if w.HasSwimAnimation then unitFlags ||| k.UNIT_FLAG_UNK_15
      else RemoveFlag unitFlags k.UNIT_FLAG_UNK_15
    let c := { c with UNIT_FIELD_FLAGS := unitFlags }
    let dynFlags := c.UNIT_DYNAMIC_FLAGS
    let c : Creature := { c with
      UNIT_DYNAMIC_FLAGS := if dynFlags ≠ 0 then dynFlags else c.m_creatureInfo.DynamicFlags }
    let c : Creature :=
      c.SetModifierValue .UNIT_MOD_ARMOR .BASE_VALUE (c.m_creatureInfo.Armor : ℚ)
    let c : Creature := c.SetModifierValue (.UNIT_MOD_RESISTANCE .SPELL_SCHOOL_HOLY) .BASE_VALUE
      (c.m_creatureInfo.ResistanceHoly : ℚ)
    let c : Creature := c.SetModifierValue (.UNIT_MOD_RESISTANCE .SPELL_SCHOOL_FIRE) .BASE_VALUE
      (c.m_creatureInfo.ResistanceFire : ℚ)
    let c : Creature := c.SetModifierValue (.UNIT_MOD_RESISTANCE .SPELL_SCHOOL_NATURE) .BASE_VALUE
      (c.m_creatureInfo.ResistanceNature : ℚ)
    let c : Creature := c.SetModifierValue (.UNIT_MOD_RESISTANCE .SPELL_SCHOOL_FROST) .BASE_VALUE
      (c.m_creatureInfo.ResistanceFrost : ℚ)
    let c : Creature := c.SetModifierValue (.UNIT_MOD_RESISTANCE .SPELL_SCHOOL_SHADOW) .BASE_VALUE
      (c.m_creatureInfo.ResistanceShadow : ℚ)
    let c : Creature := c.SetModifierValue (.UNIT_MOD_RESISTANCE .SPELL_SCHOOL_ARCANE) .BASE_VALUE
      (c.m_creatureInfo.ResistanceArcane : ℚ)
    let c : Creature := c.UpdateAllStats k w
    (true, c)

/-! ## The update tick -/

/-- The `switch` of `Creature::RegeneratePower` (Creature.cpp 677-703): the base amount
`addValue` before the aura modifiers, for the power type and its maximal value; there is
none for a power type on which the function returns (`default`). -/
def StatFields.RegeneratePower_addValue (w : World) (c : StatFields) (powerType : Powers)
    (maxValue : Nat) : Option ℚ :=
  match powerType with
  | .POWER_MANA =>
    if w.isInCombat = true ∨ w.GetCharmerOrOwnerGuid ≠ 0 then
      if !w.IsUnderLastManaUseEffect then
        let ManaIncreaseRate := w.CONFIG_FLOAT_RATE_POWER_MANA
        let Spirit := c.GetStat .STAT_SPIRIT
        some ((Spirit / 5 + 17) * ManaIncreaseRate)
      else some 0
    else some ((maxValue : ℚ) / 3)
  | .POWER_ENERGY => some (20 * w.CONFIG_FLOAT_RATE_POWER_ENERGY)
  | .POWER_FOCUS => some (24 * w.CONFIG_FLOAT_RATE_POWER_FOCUS)
  | _ => none

/-- `Creature::RegeneratePower` (Creature.cpp 662-722). -/
def StatFields.RegeneratePower (k : Defines) (w : World) (c : StatFields) : StatFields :=
  if !w.IsRegeneratingPower then c
  else
    let powerType := c.powerType
    let curValue := c.power powerType
    let maxValue := c.maxPower powerType
    if curValue ≥ maxValue then c
    else
      match c.RegeneratePower_addValue w powerType maxValue with
      | none => c
      | some addValue =>
        let addValue := (w.GetAurasByType .SPELL_AURA_MOD_POWER_REGEN).foldl
          (fun addValue a =>
            if a.m_miscvalue = k.Powers_value powerType then addValue + (a.m_amount : ℚ)
            else addValue)
          addValue
        let addValue := (w.GetAurasByType .SPELL_AURA_MOD_POWER_REGEN_PERCENT).foldl
          (fun addValue a =>
            if a.m_miscvalue = k.Powers_value powerType then
              addValue * (((a.m_amount + 100 : Int) : ℚ) / 100)
            else addValue)
          addValue
        c.SetPower powerType (w.ModifyPower powerType curValue maxValue (toInt32 addValue))

/-- `Creature::RegenerateHealth` (Creature.cpp 724-752). -/
def StatFields.RegenerateHealth (w : World) (c : StatFields) : StatFields :=
  if !w.IsRegeneratingHealth then c
  else
    let curValue := c.health
    let maxValue := c.maxHealth
    if curValue ≥ maxValue then c
    else
      let addvalue : Nat :=
        if w.GetCharmerOrOwnerGuid ≠ 0 then
          let HealthIncreaseRate := w.CONFIG_FLOAT_RATE_HEALTH
          let Spirit := c.GetStat .STAT_SPIRIT
          if c.power .POWER_MANA > 0 then toUInt32 (Spirit * 0.25 * HealthIncreaseRate)
          else toUInt32 (Spirit * 0.80 * HealthIncreaseRate)
        else maxValue / 3
      c.SetHealth (w.ModifyHealth curValue maxValue (asInt32 addvalue))

/-- `Creature::RegenerateHealth` on the creature (see `StatFields.RegenerateHealth`). -/
def Creature.RegenerateHealth (w : World) (c : Creature) : Creature :=
  { c with toStatFields := c.toStatFields.RegenerateHealth w }

/-- `Creature::RegeneratePower` on the creature (see `StatFields.RegeneratePower`). -/
def Creature.RegeneratePower (k : Defines) (w : World) (c : Creature) : Creature :=
  { c with toStatFields := c.toStatFields.RegeneratePower k w }

/-- `Creature::RegenerateAll` (Creature.cpp 642-660). -/
def Creature.RegenerateAll (k : Defines) (w : World) (c : Creature) (update_diff : Nat) :
    Creature :=
  let c :=
    if c.m_regenTimer > 0 then
      if update_diff ≥ c.m_regenTimer then { c with m_regenTimer := 0 }
      else { c with m_regenTimer := c.m_regenTimer - update_diff }
    else c
  if c.m_regenTimer ≠ 0 then c
  else
    let c : Creature := if !w.isInCombat || w.IsPolymorphed then c.RegenerateHealth w else c
    let c : Creature := c.RegeneratePower k w
    { c with m_regenTimer := k.REGEN_TIME_FULL }

/-- `Creature::AIM_Initialize` (Creature.cpp 781-795): the returned flag and the creature
after the call. -/
def Creature.AIM_Initialize (w : World) (c : Creature) : Bool × Creature :=
  if c.m_AI_locked then (false, c)
  else
    let c : Creature := { c with i_motionMaster := .Initialize :: c.i_motionMaster }
    let c : Creature := { c with i_AI := w.selectAI }
    (true, c)

/-- Modelled from the spec: `Unit::Update` (Unit.cpp is not among the sources) as far
as `Creature::Update` depends on it, "Alive → JustDied: triggered externally": the
creature may have died when the call returns. -/
def Unit_Update (k : Defines) (w : World) (c : Creature) : Creature :=
  if w.Unit_Update_kills then c.SetDeathState k w .JUST_DIED else c

/-- Modelled from the spec: `CreatureAI::UpdateAI` (the behaviour layer is not among
the sources) as far as `Creature::Update` depends on it: the AI step may make one of
the "attempts to reinitialize the behavior object during that window", a call of
`Creature::AIM_Initialize`, and the creature may have died when the AI step returns. -/
def AI_UpdateAI (k : Defines) (w : World) (c : Creature) : Creature :=
  let c : Creature := if w.UpdateAI_calls_AIM_Initialize then (c.AIM_Initialize w).2 else c
  if w.UpdateAI_kills then c.SetDeathState k w .JUST_DIED else c

/-- The respawn block of the `DEAD` case of `Creature::Update` (Creature.cpp 529-568).
Not part of the record: `RemoveAllAuras`, `clearUnitState`, `LoadCreatureAddon`,
`JustRespawned`, the linking event and `GetMap()->Add`. -/
def Creature.Update_respawn (k : Defines) (w : World) (c : Creature) : Creature :=
  let c := { c with
    m_respawnTime := 0
    m_aggroDelay := w.CONFIG_UINT32_CREATURE_RESPAWN_AGGRO_DELAY
    loot := none }
  let c :=
    if c.m_originalEntry ≠ c.entry then (c.UpdateEntry k w c.m_originalEntry true).2 else c
  let cinfo := c.m_creatureInfo
  let c : Creature := c.SelectLevel k w cinfo 100
  let c : Creature := c.UpdateAllStats k w
  let c := { c with UNIT_DYNAMIC_FLAGS := k.UNIT_DYNFLAG_NONE }
  if c.m_isDeadByDefault then
    let c : Creature := c.SetDeathState k w .JUST_DIED
    let c : Creature := c.SetHealth 0
    { c with i_motionMaster := .Clear :: c.i_motionMaster }
  else c.SetDeathState k w .JUST_ALIVED

/-- The AI step of the `ALIVE` case of `Creature::Update` (Creature.cpp 616-625): the AI
lock is held while `UpdateAI` runs. -/
def Creature.Update_AI (k : Defines) (w : World) (c : Creature) : Creature :=
  if !w.IsInEvadeMode then
    if c.i_AI.isSome then
      let c := { c with m_AI_locked := true }
      let c := AI_UpdateAI k w c
      { c with m_AI_locked := false }
    else c
  else c

/-- The `ALIVE` case of `Creature::Update` from the call of `Unit::Update` on (Creature.cpp
608-636). -/
def Creature.Update_alive (k : Defines) (w : World) (c : Creature) (update_diff : Nat) :
    Creature :=
  let c := Unit_Update k w c
  if c.m_deathState ≠ .ALIVE then c
  else
    let c := c.Update_AI k w
    if c.m_deathState ≠ .ALIVE then c
    else
      let c : Creature := c.RegenerateAll k w update_diff
      c.SetStatsBasedOnPlayerMaxLevel k w

/-- `Creature::Update` (Creature.cpp 508-640).  Not part of the record: `loot->Update()`
and what `Unit::Update` does to a corpse. -/
def Creature.Update (k : Defines) (w : World) (c : Creature) (update_diff _diff : Nat) : Creature :=
  match c.m_deathState with
  | .JUST_ALIVED => c
  | .JUST_DIED => c
  | .DEAD =>
    if !Creature.IsPlayerSummon k w then c
    else if c.m_respawnTime ≤ w.time ∧ (c.m_isSpawningLinked = false ∨ w.CanSpawn = true) then
      c.Update_respawn k w
    else c
  | .CORPSE =>
    if c.m_isDeadByDefault then c
    else if c.m_corpseDecayTimer ≤ update_diff ∧ Creature.IsPlayerSummon k w = true then
      c.RemoveCorpse k w
    else { c with m_corpseDecayTimer := sub32 c.m_corpseDecayTimer update_diff }
  | .ALIVE =>
    let c :=
      if c.m_aggroDelay ≤ update_diff then { c with m_aggroDelay := 0 }
      else { c with m_aggroDelay := c.m_aggroDelay - update_diff }
    if c.m_isDeadByDefault = true
        ∧ c.m_corpseDecayTimer ≤ update_diff ∧ Creature.IsPlayerSummon k w = true then
      c.RemoveCorpse k w
    else
      let c :=
        if c.m_isDeadByDefault then
          { c with m_corpseDecayTimer := sub32 c.m_corpseDecayTimer update_diff }
        else c
      c.Update_alive k w update_diff

/-! ## Creation and loading -/

/-- `Creature::CreateFromProto` (Creature.cpp 1367-1377).  Not part of the record: the
object guid. -/
def Creature.CreateFromProto (k : Defines) (w : World) (c : Creature) (cinfo : CreatureInfo) :
    Bool × Creature :=
  let c : Creature := { c with m_originalEntry := cinfo.Entry }
  match c.UpdateEntry k w cinfo.Entry false with
  | (false, c) => (false, c)
  | (true, c) => (true, c)

/-- `Creature::Create` (Creature.cpp 797-852).  Not part of the record: map, phase mask,
position, the notifications of the outdoor PvP script and of the instance data, the
linking holder and `LoadCreatureAddon`. -/
def Creature.Create (k : Defines) (w : World) (c : Creature) (cinfo : CreatureInfo) :
    Bool × Creature :=
  match c.CreateFromProto k w cinfo with
  | (false, c) => (false, c)
  | (true, c) =>
    if !w.Relocate then (false, c)
    else
      let Rank := c.m_creatureInfo.Rank
      let c : Creature := { c with
        m_corpseDelay :=
          if Rank = k.CREATURE_ELITE_RARE then w.CONFIG_UINT32_CORPSE_DECAY_RARE
          else if Rank = k.CREATURE_ELITE_ELITE then w.CONFIG_UINT32_CORPSE_DECAY_ELITE
          else if Rank = k.CREATURE_ELITE_RAREELITE then w.CONFIG_UINT32_CORPSE_DECAY_RAREELITE
          else if Rank = k.CREATURE_ELITE_WORLDBOSS then w.CONFIG_UINT32_CORPSE_DECAY_WORLDBOSS
          else w.CONFIG_UINT32_CORPSE_DECAY_NORMAL }
      let c : Creature :=
        if w.IsLinkedEventTrigger then { c with m_isCreatureLinkingTrigger := true } else c
      (true, c)

/-- The part of `Creature::LoadFromDB` after the creature has been created (Creature.cpp
1407-1482).  A call of `SaveCreatureRespawnTime` puts the written value in front of
`respawnTimeStore`.  Not part of the record: respawn coordinates and radius, the
relocation of a flying creature, melee damage school, default movement type, the linking
event and the rabbit day spell. -/
def Creature.LoadFromDB_init (k : Defines) (w : World) (c : Creature) (data : CreatureData) :
    Creature :=
  let c : Creature := { c with m_respawnDelay := data.spawntimesecs }
  let c : Creature := { c with m_corpseDelay := min (u32 (c.m_respawnDelay * 9) / 10) c.m_corpseDelay }
  let c : Creature := { c with m_isDeadByDefault := data.is_dead }
  let c : Creature := { c with m_deathState := if c.m_isDeadByDefault then .DEAD else .ALIVE }
  let c : Creature := { c with m_respawnTime := w.GetCreatureRespawnTime }
  let c : Creature :=
    if c.m_respawnTime > w.time then { c with m_deathState := .DEAD }
    else if c.m_respawnTime ≠ 0 then
      { c with m_respawnTime := 0, respawnTimeStore := 0 :: c.respawnTimeStore }
    else c
  let curhealth := data.curhealth
  let curhealth : Nat :=
    if curhealth ≠ 0 then
      let curhealth :=
        toUInt32 (f32 (f32 (curhealth : ℚ) * f32 (Creature._GetHealthMod k w c.m_creatureInfo.Rank)))
      if curhealth < 1 then 1 else curhealth
    else curhealth
  let c : Creature :=
    if w.IsSpawnedByLinkedMob then
      let c : Creature := { c with m_isSpawningLinked := true }
      if c.m_deathState = .ALIVE ∧ w.CanSpawn = false then { c with m_deathState := .DEAD } else c
    else c
  let c : Creature := c.SetHealth (if c.m_deathState = .ALIVE then curhealth else 0)
  let c : Creature := c.SetPower .POWER_MANA data.curmana
  (c.AIM_Initialize w).2

/-- `Creature::LoadFromDB` (Creature.cpp 1379-1485): the returned flag and the creature
after the call. -/
def Creature.LoadFromDB (k : Defines) (w : World) (c : Creature) : Bool × Creature :=
  match w.GetCreatureData with
  | none => (false, c)
  | some data =>
    match w.GetCreatureTemplate data.id with
    | none => (false, c)
    | some cinfo =>
      if w.Map_GetCreature then (false, c)
      else
        match c.Create k w cinfo with
        | (false, c) => (false, c)
        | (true, c) => (true, c.LoadFromDB_init k w data)

/-! ## Threat based target selection -/

/-- `Creature::MeetsSelectAttackingRequirement` (Creature.cpp 2138-2178). -/
def Creature.MeetsSelectAttackingRequirement (k : Defines) (w : World) (pTarget : UnitPtr)
    (pSpellInfo : Option SpellEntry) (selectFlags : Nat) : Bool :=
  if (selectFlags &&& k.SELECT_FLAG_PLAYER) ≠ 0 ∧ w.Unit_GetTypeId pTarget ≠ k.TYPEID_PLAYER then false
  else if (selectFlags &&& k.SELECT_FLAG_POWER_MANA) ≠ 0 ∧ w.Unit_GetPowerType pTarget ≠ .POWER_MANA then false
  else if (selectFlags &&& k.SELECT_FLAG_POWER_RAGE) ≠ 0 ∧ w.Unit_GetPowerType pTarget ≠ .POWER_RAGE then false
  else if (selectFlags &&& k.SELECT_FLAG_POWER_ENERGY) ≠ 0 ∧ w.Unit_GetPowerType pTarget ≠ .POWER_ENERGY then false
  else if (selectFlags &&& k.SELECT_FLAG_POWER_RUNIC) ≠ 0 ∧ w.Unit_GetPowerType pTarget ≠ .POWER_RUNIC_POWER then false
  else if (selectFlags &&& k.SELECT_FLAG_IN_MELEE_RANGE) ≠ 0 ∧ w.CanReachWithMeleeAttack pTarget = false then false
  else if (selectFlags &&& k.SELECT_FLAG_NOT_IN_MELEE_RANGE) ≠ 0 ∧ w.CanReachWithMeleeAttack pTarget = true then false
  else if (selectFlags &&& k.SELECT_FLAG_IN_LOS) ≠ 0 ∧ w.IsWithinLOSInMap pTarget = false then false
  else
    match pSpellInfo with
    | some spell =>
      if spell.rangeIndex = k.SPELL_RANGE_IDX_SELF_ONLY then false
      else if spell.rangeIndex = k.SPELL_RANGE_IDX_ANYWHERE then true
      else if spell.rangeIndex = k.SPELL_RANGE_IDX_COMBAT then w.CanReachWithMeleeAttack pTarget
      else
        let max_range := w.GetSpellMaxRange spell.rangeIndex
        let min_range := w.GetSpellMinRange spell.rangeIndex
        let dist := w.GetCombatDistance pTarget
        decide (dist < max_range) && decide (dist ≥ min_range)
    | none => true

/-- The body shared by the three loops of `Creature::SelectAttackingTarget`: resolve
the guid of a threat entry on the map and apply the filters. -/
def selectCandidate (k : Defines) (w : World) (pSpellInfo : Option SpellEntry)
    (selectFlags : Nat) (unitGuid : ObjectGuid) : Option UnitPtr :=
  match w.Map_GetUnit unitGuid with
  | some pTarget =>
    if selectFlags = 0 ∨ Creature.MeetsSelectAttackingRequirement k w pTarget pSpellInfo selectFlags = true
    then some pTarget else none
  | none => none

/-- The test the three loops of `Creature::SelectAttackingTarget` apply to a resolved
unit (Creature.cpp 2207, 2220, 2230):
`!selectFlags || MeetsSelectAttackingRequirement(pTarget, pSpellInfo, selectFlags)`. -/
def passesFilters (k : Defines) (w : World) (pSpellInfo : Option SpellEntry)
    (selectFlags : Nat) (pTarget : UnitPtr) : Bool :=
  decide (selectFlags = 0)
    || Creature.MeetsSelectAttackingRequirement k w pTarget pSpellInfo selectFlags

/-- `Creature::SelectAttackingTarget` (Creature.cpp 2185-2238).  `draw` is the raw
value behind the `urand` call of the random strategy.  In the `BOTTOMAGGRO` loop the
reverse iterator `ritr` walks the list from the end, while the entry that is examined
is `*itr`, and `itr` still points to the first entry of the list. -/
def Creature.SelectAttackingTarget (k : Defines) (w : World) (target : AttackingTarget)
    (position : Nat) (pSpellInfo : Option SpellEntry) (selectFlags : Nat) (draw : Nat) :
    Option UnitPtr :=
  if w.CanHaveThreatList = false then none
  else
    let threatlist := w.threatList
    if position ≥ threatlist.length ∨ threatlist.length = 0 then none
    else
      match target with
      | .ATTACKING_TARGET_RANDOM =>
        let suitableUnits := (threatlist.drop position).filterMap (selectCandidate k w pSpellInfo selectFlags)
        if suitableUnits.length ≠ 0 then suitableUnits.get? (urand draw 0 (suitableUnits.length - 1))
        else none
      | .ATTACKING_TARGET_TOPAGGRO =>
        (threatlist.drop position).findSome? (selectCandidate k w pSpellInfo selectFlags)
      | .ATTACKING_TARGET_BOTTOMAGGRO =>
        (threatlist.reverse.drop position).findSome? fun _ritr =>
          match threatlist.head? with
          | some itr => selectCandidate k w pSpellInfo selectFlags itr
          | none => none

/-! ## Despawn, respawn and attack readiness -/

/-- Modelled from the spec: `Creature::IsDespawned` (Creature.h is not among the sources);
the despawned state of the lifecycle is `DEAD`. -/
def Creature.IsDespawned (c : Creature) : Bool := c.m_deathState == .DEAD

/-- `Creature::Respawn` (Creature.cpp 1670-1682). -/
def Creature.Respawn (k : Defines) (w : World) (c : Creature) : Creature :=
  let c := c.RemoveCorpse k w
  if c.inWorld = false then c
  else if c.IsDespawned then
    let c :=
      if w.HasStaticDBSpawnData then { c with respawnTimeStore := 0 :: c.respawnTimeStore }
      else c
    { c with m_respawnTime := w.time }
  else c

/-- `Creature::ForcedDespawn` (Creature.cpp 1684-1703): the creature after the call and
the delay of the `ForcedDespawnDelayEvent` that the call adds to `m_Events`, if it adds
one.  Not part of the record: the event processor `m_Events`. -/
def Creature.ForcedDespawn (k : Defines) (w : World) (c : Creature) (timeMSToDespawn : Nat) :
    Creature × Option Nat :=
  if timeMSToDespawn ≠ 0 then (c, some timeMSToDespawn)
  else if c.IsDespawned then (c, none)
  else
    let c := if c.m_deathState = .ALIVE then c.SetDeathState k w .JUST_DIED else c
    let c := c.RemoveCorpse k w
    (c.SetHealth 0, none)

/-- `ForcedDespawnDelayEvent::Execute` (Creature.cpp 100-104): the returned flag and the
owner after the call; `ForcedDespawn()` is called with its default delay 0. -/
def ForcedDespawnDelayEvent.Execute (k : Defines) (w : World) (m_owner : Creature) :
    Bool × Creature :=
  (true, (m_owner.ForcedDespawn k w 0).1)

/-- `Creature::CanInitiateAttack` (Creature.cpp 1951-1969). -/
def Creature.CanInitiateAttack (k : Defines) (w : World) (c : Creature) : Bool :=
  if w.hasUnitState_STUNNED_DIED then false
  else if HasFlag c.UNIT_FIELD_FLAGS
      (k.UNIT_FLAG_NON_ATTACKABLE ||| k.UNIT_FLAG_NOT_SELECTABLE) then false
  else if w.isPassiveToHostile then false
  else if c.m_aggroDelay ≠ 0 then false
  else if !w.CanAttackByItself then false
  else true

/-! ## Vendor stock

The two stock functions read and write only the member `m_vendorItemCounts`, which is
passed to them and returned by them. -/

/-- The search loop of the stock functions (Creature.cpp 2382-2385, 2417-2420): the
entries in front of the first entry of the item, that entry, and the entries behind it;
`none` when the iterator reaches the end. -/
def findVendorItemCount : List VendorItemCount → Nat →
    Option (List VendorItemCount × VendorItemCount × List VendorItemCount)
  | [], _ => none
  | e :: rest, item =>
    if e.itemId = item then some ([], e, rest)
    else
      match findVendorItemCount rest item with
      | some (before, found, behind) => some (e :: before, found, behind)
      | none => none

/-- The local `diff` of the stock functions (Creature.cpp 2398, 2435): the quotient of
`time_t` values converted to `uint32`.  C++ leaves a division by `incrtime = 0` open;
here it gives 0. -/
def vendorRestockDiff (ptime : Int) (vCount : VendorItemCount) (vItem : VendorItem) : Nat :=
  asUInt32 ((ptime - vCount.lastIncrementTime).tdiv (vItem.incrtime : Int))

/-- `Creature::GetVendorItemCurrentCount` (Creature.cpp 2377-2410): the returned count
and `m_vendorItemCounts` after the call. -/
def Creature.GetVendorItemCurrentCount (w : World) (m_vendorItemCounts : List VendorItemCount)
    (vItem : VendorItem) : Nat × List VendorItemCount :=
  if vItem.maxcount = 0 then (vItem.maxcount, m_vendorItemCounts)
  else
    match findVendorItemCount m_vendorItemCounts vItem.item with
    | none => (vItem.maxcount, m_vendorItemCounts)
    | some (before, vCount, behind) =>
      let ptime := w.time
      if vCount.lastIncrementTime + (vItem.incrtime : Int) ≤ ptime then
        let diff := vendorRestockDiff ptime vCount vItem
        if u32 (vCount.count + diff * w.ItemPrototype_BuyCount vItem.item) ≥ vItem.maxcount then
          (vItem.maxcount, before ++ behind)
        else
          let vCount : VendorItemCount := { vCount with
            count := u32 (vCount.count + diff * w.ItemPrototype_BuyCount vItem.item) }
          let vCount : VendorItemCount := { vCount with lastIncrementTime := ptime }
          (vCount.count, before ++ vCount :: behind)
      else (vCount.count, m_vendorItemCounts)

/-- `Creature::UpdateVendorItemCurrentCount` (Creature.cpp 2412-2447): the returned count
and `m_vendorItemCounts` after the call.  Modelled from the spec: the constructor of
`VendorItemCount` (Creature.h is not among the sources); the restock counter is a
wall-clock comparison, so a new entry carries the current time. -/
def Creature.UpdateVendorItemCurrentCount (w : World)
    (m_vendorItemCounts : List VendorItemCount) (vItem : VendorItem) (used_count : Nat) :
    Nat × List VendorItemCount :=
  if vItem.maxcount = 0 then (0, m_vendorItemCounts)
  else
    match findVendorItemCount m_vendorItemCounts vItem.item with
    | none =>
      let new_count := if vItem.maxcount > used_count then vItem.maxcount - used_count else 0
      (new_count, m_vendorItemCounts ++ [⟨vItem.item, new_count, w.time⟩])
    | some (before, vCount, behind) =>
      let ptime := w.time
      let vCount : VendorItemCount :=
        if vCount.lastIncrementTime + (vItem.incrtime : Int) ≤ ptime then
          let diff := vendorRestockDiff ptime vCount vItem
          if u32 (vCount.count + diff * w.ItemPrototype_BuyCount vItem.item) < vItem.maxcount then
            { vCount with
              count := u32 (vCount.count + diff * w.ItemPrototype_BuyCount vItem.item) }
          else { vCount with count := vItem.maxcount }
        else vCount
      let vCount : VendorItemCount := { vCount with
        count := if vCount.count > used_count then vCount.count - used_count else 0 }
      let vCount : VendorItemCount := { vCount with lastIncrementTime := ptime }
      (vCount.count, before ++ vCount :: behind)

/-! ## Agreement of stat data

A relation between two states of the stat data that the lemmas on the stat
recomputation use: the two states agree on everything `UpdateAllStats` reads before it
writes it. -/

/-- Two states agree on level, class, base health, base mana, create stats and on the
modifier table apart from the base values of the two attack power rows, which
`UpdateAttackPowerAndDamage` overwrites before it reads them. -/
structure StatFields.SameInputs (c1 c2 : StatFields) : Prop where
  level : c1.level = c2.level
  unitClass : c1.unitClass = c2.unitClass
  createHealth : c1.createHealth = c2.createHealth
  createMana : c1.createMana = c2.createMana
  createStats : c1.m_createStats = c2.m_createStats
  currentLevel : c1.m_currentLevel = c2.m_currentLevel
  currentDifficulty : c1.m_currentDifficulty = c2.m_currentDifficulty
  modifiers : ∀ m t,
    ¬ (t = UnitModifierType.BASE_VALUE
        ∧ (m = UnitMods.UNIT_MOD_ATTACK_POWER ∨ m = UnitMods.UNIT_MOD_ATTACK_POWER_RANGED)) →
    c1.m_auraModifiersGroup m t = c2.m_auraModifiersGroup m t

/-- The level and the two fields in which `SetStatsBasedOnPlayerMaxLevel` remembers the
level and the difficulty of its last refresh. -/
def StatFields.levelData (c : StatFields) : Nat × Nat × Fin 14 :=
  (c.level, c.m_currentLevel, c.m_currentDifficulty)

/-! ## Sample data

Concrete values used to instantiate the theorems below. -/

/-- A concrete choice of the enumerator values. -/
def sampleDefines : Defines where
  UNIT_FLAG_SKINNABLE := 0x04000000
  UNIT_FLAG_IN_COMBAT := 0x00080000
  UNIT_FLAG_UNK_15 := 0x00008000
  UNIT_DYNFLAG_NONE := 0
  UNIT_DYNFLAG_LOOTABLE := 1
  UNIT_NPC_FLAG_NONE := 0
  TYPEID_PLAYER := 4
  SELECT_FLAG_IN_LOS := 0x001
  SELECT_FLAG_PLAYER := 0x002
  SELECT_FLAG_POWER_MANA := 0x004
  SELECT_FLAG_POWER_RAGE := 0x008
  SELECT_FLAG_POWER_ENERGY := 0x010
  SELECT_FLAG_POWER_RUNIC := 0x020
  SELECT_FLAG_IN_MELEE_RANGE := 0x040
  SELECT_FLAG_NOT_IN_MELEE_RANGE := 0x080
  SPELL_RANGE_IDX_SELF_ONLY := 1
  SPELL_RANGE_IDX_COMBAT := 2
  SPELL_RANGE_IDX_ANYWHERE := 13
  REGEN_TIME_FULL := 2000
  CLASS_WARRIOR := 1
  CLASS_PALADIN := 2
  CLASS_HUNTER := 3
  CLASS_ROGUE := 4
  CLASS_PRIEST := 5
  CLASS_DEATH_KNIGHT := 6
  CLASS_SHAMAN := 7
  CLASS_MAGE := 8
  CLASS_WARLOCK := 9
  CLASS_DRUID := 11
  CLASSMASK_WAND_USERS := 0x190
  FORM_CAT := 1
  FORM_BEAR := 5
  FORM_DIREBEAR := 8
  FORM_MOONKIN := 31
  EFFECT_INDEX_0 := 0
  EFFECT_INDEX_1 := 1
  SPELL_SCHOOL_MASK_NORMAL := 1
  CREATURE_ELITE_NORMAL := 0
  CREATURE_ELITE_ELITE := 1
  CREATURE_ELITE_RAREELITE := 2
  CREATURE_ELITE_WORLDBOSS := 3
  CREATURE_ELITE_RARE := 4
  POWER_FOCUS_DEFAULT := 100
  POWER_ENERGY_DEFAULT := 100
  POWER_HAPPINESS_DEFAULT := 1000000
  MINDAMAGE := 0
  MAXDAMAGE := 1
  BASE_MINDAMAGE := 1
  BASE_MAXDAMAGE := 2
  GT_MAX_LEVEL := 100
  Powers_value := fun p =>
    match p with
    | .POWER_MANA => 0
    | .POWER_RAGE => 1
    | .POWER_FOCUS => 2
    | .POWER_ENERGY => 3
    | .POWER_HAPPINESS => 4
    | .POWER_RUNE => 5
    | .POWER_RUNIC_POWER => 6
  UNIT_FLAG_NON_ATTACKABLE := 0x00000002
  UNIT_FLAG_NOT_SELECTABLE := 0x02000000

/-- A world at time 1000 around a creature without owner.  Players 1, 2 and 3 are
online with guids 101, 102 and 103; group 7 lists an offline member, then players 2
and 3; player 1 has left it and is in no group. -/
def sampleWorld : World where
  time := 1000
  CONFIG_UINT32_CREATURE_RESPAWN_AGGRO_DELAY := 5000
  CONFIG_BOOL_SAVE_RESPAWN_TIME_IMMEDIATELY := false
  CONFIG_FLOAT_RATE_CORPSE_DECAY_LOOTED := 0
  FindPlayer := fun guid =>
    if guid = 101 then some ⟨1⟩ else if guid = 102 then some ⟨2⟩
    else if guid = 103 then some ⟨3⟩ else none
  GetGroupById := fun id => if id = 7 then some ⟨7⟩ else none
  Player_GetGroup := fun p => if p.addr = 2 ∨ p.addr = 3 then some ⟨7⟩ else none
  Player_GetObjectGuid := fun p => 100 + p.addr
  Group_GetId := fun g => g.addr
  Group_members := fun g => if g.addr = 7 then [none, some ⟨2⟩, some ⟨3⟩] else []
  GetCharmerOrOwnerPlayerOrPlayerItself := fun _ => none
  Map_GetUnit := fun guid => some ⟨guid⟩
  Unit_GetTypeId := fun _ => 4
  Unit_GetPowerType := fun _ => Powers.POWER_MANA
  CanReachWithMeleeAttack := fun _ => true
  IsWithinLOSInMap := fun _ => true
  GetCombatDistance := fun _ => 0
  GetSpellMaxRange := fun _ => 0
  GetSpellMinRange := fun _ => 0
  threatList := [201, 202, 203]
  CanHaveThreatList := true
  GetOwner := none
  IsPet := false
  IsWorldBoss := false
  HasStaticDBSpawnData := true
  IsInEvadeMode := false
  IsPartOfAPool := 0
  UpdatePool_despawns := false
  CanSpawn := true
  CorpseRemoved_respawnDelay := 0
  Unit_Update_kills := false
  UpdateAI_kills := false
  UpdateAI_calls_AIM_Initialize := false
  eventData_entry_id := 0
  GetCreatureTemplate := fun _ => none
  DifficultyTemplate := fun info => info
  ModelResolves := fun _ => true
  HasSwimAnimation := false
  selectAI := some 1
  CanFly := false
  isInCombat := false
  IsPolymorphed := false
  IsRegeneratingHealth := true
  IsRegeneratingPower := true
  GetCharmerOrOwnerGuid := 0
  IsUnderLastManaUseEffect := false
  CONFIG_FLOAT_RATE_HEALTH := 1
  CONFIG_FLOAT_RATE_POWER_MANA := 1
  CONFIG_FLOAT_RATE_POWER_ENERGY := 1
  CONFIG_FLOAT_RATE_POWER_FOCUS := 1
  ModifyHealth := fun cur max dVal => min max (cur + dVal).toNat
  ModifyPower := fun _ cur max dVal => min max (cur + dVal).toNat
  GetAurasByType := fun _ => []
  GetTotalAuraModifier := fun _ => 0
  GetTotalAuraModifierByMiscValue := fun _ _ => 0
  GetTotalAuraMultiplierByMiscValue := fun _ _ => 1
  urand_level := 0
  GetCreatureClassLvlStats := fun _ _ _ => none
  CONFIG_FLOAT_RATE_CREATURE_NORMAL_HP := 1
  CONFIG_FLOAT_RATE_CREATURE_ELITE_ELITE_HP := 3 / 2
  CONFIG_FLOAT_RATE_CREATURE_ELITE_RAREELITE_HP := 1
  CONFIG_FLOAT_RATE_CREATURE_ELITE_WORLDBOSS_HP := 1
  CONFIG_FLOAT_RATE_CREATURE_ELITE_RARE_HP := 1
  CONFIG_FLOAT_RATE_CREATURE_NORMAL_DAMAGE := 1
  CONFIG_FLOAT_RATE_CREATURE_ELITE_ELITE_DAMAGE := 1
  CONFIG_FLOAT_RATE_CREATURE_ELITE_RAREELITE_DAMAGE := 1
  CONFIG_FLOAT_RATE_CREATURE_ELITE_WORLDBOSS_DAMAGE := 1
  CONFIG_FLOAT_RATE_CREATURE_ELITE_RARE_DAMAGE := 1
  GetCurrentDifficulty := 0
  GetMaxPlayerLevel := 10
  GetShapeshiftForm := 0
  IsInFeralForm := false
  haveOffhandWeapon := false
  getClassMask := fun cls => 1 <<< (cls - 1)
  GetCreatePowers := fun createMana p => if p = Powers.POWER_MANA then createMana else 0
  log := fun x => if x = 10 then 2302585 / 1000000 else 0
  exp := fun x => if x = 1 then 2718282 / 1000000 else 1
  sqrt := fun _ => 0
  GtRegenMPPerSpt := fun _ => none
  PlayerClassLevelInfo_basemana := fun _ _ => 0
  GetCreatureData := some ⟨1, 25, false, 80, 0⟩
  Map_GetCreature := false
  Relocate := true
  GetCreatureRespawnTime := 0
  IsSpawnedByLinkedMob := false
  IsLinkedEventTrigger := false
  CONFIG_UINT32_CORPSE_DECAY_NORMAL := 60
  CONFIG_UINT32_CORPSE_DECAY_RARE := 300
  CONFIG_UINT32_CORPSE_DECAY_ELITE := 300
  CONFIG_UINT32_CORPSE_DECAY_RAREELITE := 300
  CONFIG_UINT32_CORPSE_DECAY_WORLDBOSS := 3600
  hasUnitState_STUNNED_DIED := false
  isPassiveToHostile := false
  CanAttackByItself := true
  ItemPrototype_BuyCount := fun _ => 2

/-- The same world around a creature that is owned by a player. -/
def summonWorld : World := { sampleWorld with GetOwner := some ⟨9⟩ }

/-- A warrior template of level 10 and normal rank without legacy health bounds. -/
def sampleInfo : CreatureInfo where
  Entry := 1
  SkinningLootId := 0
  NpcFlags := 0
  UnitFlags := 0
  DynamicFlags := 0
  MinLevel := 10
  MaxLevel := 10
  Rank := 0
  UnitClass := 1
  Expansion := 0
  HealthMultiplier := 1
  PowerMultiplier := 1
  MinLevelHealth := 100
  MaxLevelHealth := 100
  MinLevelMana := 0
  MaxLevelMana := 0
  MinMeleeDmg := 1
  MaxMeleeDmg := 2
  MinRangedDmg := 1
  MaxRangedDmg := 2
  MeleeAttackPower := 10
  Armor := 20
  ResistanceHoly := 0
  ResistanceFire := 0
  ResistanceNature := 0
  ResistanceFrost := 0
  ResistanceShadow := 0
  ResistanceArcane := 0

/-- An alive creature in the world, tapped by player 1 while in group 7. -/
def sampleCreature : Creature where
  m_deathState := DeathState.ALIVE
  m_isDeadByDefault := false
  m_corpseDecayTimer := 0
  m_respawnTime := 0
  m_respawnDelay := 25
  m_corpseDelay := 60
  m_aggroDelay := 0
  m_regenTimer := 200
  loot := none
  m_lootStatus := CreatureLootStatus.CREATURE_LOOT_STATUS_NONE
  m_lootRecipientGuid := 101
  m_lootGroupRecipientId := 7
  UNIT_FIELD_FLAGS := 0
  UNIT_DYNAMIC_FLAGS := 0
  UNIT_NPC_FLAGS := 0
  m_creatureInfo := sampleInfo
  m_originalEntry := 1
  entry := 1
  i_AI := none
  m_AI_locked := false
  m_isSpawningLinked := false
  m_isCreatureLinkingTrigger := false
  inWorld := true
  respawnTimeStore := []
  i_motionMaster := []
  level := 10
  unitClass := 1
  powerType := Powers.POWER_RAGE
  health := 100
  maxHealth := 100
  createHealth := 100
  createMana := 0
  power := fun _ => 0
  maxPower := fun _ => 0
  stat := fun _ => 0
  m_createStats := fun _ => 0
  resistance := fun _ => 0
  m_auraModifiersGroup := fun _ t =>
    match t with
    | .BASE_VALUE => 0
    | .BASE_PCT => 1
    | .TOTAL_VALUE => 0
    | .TOTAL_PCT => 1
  m_weaponDamage := fun _ _ => 0
  UNIT_FIELD_ATTACK_POWER := 0
  UNIT_FIELD_ATTACK_POWER_MODS := 0
  UNIT_FIELD_ATTACK_POWER_MULTIPLIER := 0
  UNIT_FIELD_RANGED_ATTACK_POWER := 0
  UNIT_FIELD_RANGED_ATTACK_POWER_MODS := 0
  UNIT_FIELD_RANGED_ATTACK_POWER_MULTIPLIER := 0
  UNIT_FIELD_MINDAMAGE := 0
  UNIT_FIELD_MAXDAMAGE := 0
  UNIT_FIELD_MINOFFHANDDAMAGE := 0
  UNIT_FIELD_MAXOFFHANDDAMAGE := 0
  UNIT_FIELD_MINRANGEDDAMAGE := 0
  UNIT_FIELD_MAXRANGEDDAMAGE := 0
  UNIT_FIELD_POWER_REGEN_FLAT_MODIFIER := 0
  UNIT_FIELD_POWER_REGEN_INTERRUPTED_FLAT_MODIFIER := 0
  m_currentLevel := 10
  m_currentDifficulty := 0

/-- A despawned creature whose respawn time (900) has passed. -/
def deadCreature : Creature :=
  { sampleCreature with m_deathState := DeathState.DEAD, m_respawnTime := 900 }

/-- A despawned creature whose respawn time (2000) is still ahead. -/
def waitingCreature : Creature :=
  { sampleCreature with m_deathState := DeathState.DEAD, m_respawnTime := 2000 }

/-- A corpse with 5 ms of decay time left, already looted. -/
def corpseCreature : Creature :=
  { sampleCreature with
    m_deathState := DeathState.CORPSE
    m_corpseDecayTimer := 5
    m_lootStatus := CreatureLootStatus.CREATURE_LOOT_STATUS_LOOTED }

/-- A fresh corpse with the full decay time of 60 s scheduled and a pickpocket loot
session of player 3. -/
def freshCorpse : Creature :=
  { sampleCreature with
    m_deathState := DeathState.CORPSE
    m_corpseDecayTimer := 60000
    loot := some ⟨⟨3⟩⟩ }

/-- A fresh corpse of a creature with a respawn delay of 5000000 s. -/
def slowRespawnCorpse : Creature :=
  { freshCorpse with m_respawnDelay := 5000000 }

/-- The sample world with a looted corpse decay rate of one half. -/
def halfRateWorld : World :=
  { sampleWorld with CONFIG_FLOAT_RATE_CORPSE_DECAY_LOOTED := 1 / 2 }

/-- A looted corpse of a skinnable creature: the skinnable bit is set in the unit flags
and the dynamic flags are empty. -/
def skinnableCorpse : Creature :=
  { corpseCreature with
    UNIT_FIELD_FLAGS := 0x04000000
    m_creatureInfo := { sampleInfo with SkinningLootId := 77 } }

/-- The sample world with a class-level stats entry of base health 1000 and base mana 200
for every level, class and expansion. -/
def tableWorld : World :=
  { sampleWorld with GetCreatureClassLvlStats := fun _ _ _ => some ⟨1000, 200⟩ }

/-- An elite template of level 10 with health multiplier 1.0007. -/
def eliteInfo : CreatureInfo :=
  { sampleInfo with Rank := 1, HealthMultiplier := 10007 / 10000 }

/-- A template for levels 10 to 20 whose legacy health bounds are declared in reverse
order (300 at the low end, 100 at the high end). -/
def legacyInfo : CreatureInfo :=
  { sampleInfo with
    MinLevel := 10
    MaxLevel := 20
    MinLevelHealth := 300
    MaxLevelHealth := 100
    MinLevelMana := 50
    MaxLevelMana := 10 }

/-- A world whose spawn record of guid 1 resolves to the sample template and whose stored
respawn time 5000 lies after the clock value 1000. -/
def waitingWorld : World :=
  { sampleWorld with
    GetCreatureTemplate := fun _ => some sampleInfo
    GetCreatureRespawnTime := 5000 }

/-- The world of `waitingWorld` with the stored respawn time 500, before the clock value
1000. -/
def expiredWorld : World := { waitingWorld with GetCreatureRespawnTime := 500 }

/-- The sample world in which the units 1, 2 and 3 are the players 1, 2 and 3 themselves
and every other unit belongs to no player. -/
def tapWorld : World :=
  { sampleWorld with
    GetCharmerOrOwnerPlayerOrPlayerItself := fun u =>
      if u.addr = 1 ∨ u.addr = 2 ∨ u.addr = 3 then some ⟨u.addr⟩ else none }

/-- A limited vendor item: item 40, at most 10 in stock, restocked every 60 s. -/
def sampleVendorItem : VendorItem := ⟨40, 10, 60⟩

/-- Stock counters of a vendor: item 30, then item 40 with 3 left since time 700. -/
def sampleVendorCounts : List VendorItemCount := [⟨30, 1, 950⟩, ⟨40, 3, 700⟩]

/-- The world of `waitingWorld` whose spawn record has a respawn delay of 477218589 s,
so that nine times the delay does not fit 32 bits. -/
def longRespawnWorld : World :=
  { waitingWorld with GetCreatureData := some ⟨1, 477218589, false, 80, 0⟩ }

/-- The sample creature with a stored maximal health of 50 that is out of date: its
base health 100 gives maximal health 100 at difficulty 0. -/
def staleCreature : Creature := { sampleCreature with maxHealth := 50 }

/-- The sample world with a maximal player level of 80. -/
def levelWorld : World := { sampleWorld with GetMaxPlayerLevel := 80 }

/-- The sample world with a looted corpse decay rate of 0.13. -/
def lootedRateWorld : World :=
  { sampleWorld with CONFIG_FLOAT_RATE_CORPSE_DECAY_LOOTED := 13 / 100 }

/-- The sample world with the creature in pool 5, whose update takes the creature out of
the world. -/
def pooledWorld : World := { sampleWorld with IsPartOfAPool := 5, UpdatePool_despawns := true }

/-- The sample creature with a behaviour object. -/
def scriptedCreature : Creature := { sampleCreature with i_AI := some 7 }

/-- The sample world with a behaviour layer that tries to reinitialise the behaviour
object during its update. -/
def reinitWorld : World := { sampleWorld with UpdateAI_calls_AIM_Initialize := true }

/-- The sample world with a class-level stats entry of base health 33554433 (`2 ^ 25 + 1`)
and base mana 200 for every level, class and expansion. -/
def bossTableWorld : World :=
  { sampleWorld with GetCreatureClassLvlStats := fun _ _ _ => some ⟨33554433, 200⟩ }

/-- A template of level 10 with health multiplier 1.004 and power multiplier 0.53. -/
def roundedInfo : CreatureInfo :=
  { sampleInfo with HealthMultiplier := 1004 / 1000, PowerMultiplier := 53 / 100 }

/-- A template for levels 10 to 20 whose legacy health bounds are 0 and 33554435
(`2 ^ 25 + 3`). -/
def bossLegacyInfo : CreatureInfo :=
  { sampleInfo with
    MinLevel := 10
    MaxLevel := 20
    MinLevelHealth := 0
    MaxLevelHealth := 33554435 }

/-- The sample world with a creature that does not regenerate power. -/
def noRegenWorld : World := { sampleWorld with IsRegeneratingPower := false }

/-- A template of level 10 with power multiplier 335544.75. -/
def energeticInfo : CreatureInfo := { sampleInfo with PowerMultiplier := 1342179 / 4 }

/-- The sample world with a player owner, a maximal player level of 80 and the creature
in pool 5, whose update takes the creature out of the world. -/
def pooledSummonWorld : World :=
  { sampleWorld with
    GetOwner := some ⟨9⟩
    GetMaxPlayerLevel := 80
    IsPartOfAPool := 5
    UpdatePool_despawns := true }

/-- The sample creature as a dead-by-default creature, alive with no corpse decay time
left. -/
def deadByDefaultCreature : Creature :=
  { sampleCreature with m_isDeadByDefault := true, m_corpseDecayTimer := 0 }

/-! ## Auxiliary lemmas -/

/-- The rounded value is within one half of the argument. -/
theorem roundHalfEven_bounds (x : ℚ) :
    (roundHalfEven x : ℚ) - 1 / 2 ≤ x ∧ x ≤ (roundHalfEven x : ℚ) + 1 / 2 := by
  have h1 := Int.floor_le x
  have h2 := Int.lt_floor_add_one x
  unfold roundHalfEven
  split_ifs with a b c
  · constructor <;> linarith
  · push_cast; constructor <;> linarith
  · constructor <;> linarith
  · push_cast; constructor <;> linarith

/-- An integer is its own rounding. -/
theorem roundHalfEven_intCast (n : Int) : roundHalfEven (n : ℚ) = n := by
  unfold roundHalfEven
  rw [Int.floor_intCast, sub_self, if_pos (by norm_num)]

/-- The integer strictly within one half of the argument is its rounding. -/
theorem roundHalfEven_eq_of_lt (x : ℚ) (n : Int) (h1 : (n : ℚ) - 1 / 2 < x)
    (h2 : x < (n : ℚ) + 1 / 2) : roundHalfEven x = n := by
  have hb := roundHalfEven_bounds x
  have h3 : ((roundHalfEven x : Int) : ℚ) < (n : ℚ) + 1 := by linarith
  have h4 : (n : ℚ) - 1 < ((roundHalfEven x : Int) : ℚ) := by linarith
  have h5 : roundHalfEven x < n + 1 := by exact_mod_cast h3
  have h6 : n - 1 < roundHalfEven x := by exact_mod_cast h4
  omega

/-- Rounding to the nearest integer is monotone. -/
theorem roundHalfEven_mono (x y : ℚ) (h : x ≤ y) : roundHalfEven x ≤ roundHalfEven y := by
  by_contra hlt
  push_neg at hlt
  have hx := roundHalfEven_bounds x
  have hy := roundHalfEven_bounds y
  have h1 : (roundHalfEven y : ℚ) + 1 ≤ (roundHalfEven x : ℚ) := by exact_mod_cast hlt
  have hxy : x = y := by linarith
  rw [hxy] at hlt
  exact lt_irrefl _ hlt

/-- The binary exponent of a value between two consecutive powers of two. -/
theorem f32_log_eq (x : ℚ) (e : Int) (hlo : (2 : ℚ) ^ e ≤ |x|) (hhi : |x| < (2 : ℚ) ^ (e + 1)) :
    Int.log 2 |x| = e := by
  have hpos : (0 : ℚ) < |x| := lt_of_lt_of_le (zpow_pos (by norm_num) e) hlo
  apply le_antisymm
  · have := (Int.lt_zpow_iff_log_lt (by norm_num : 1 < 2) hpos).mp (by exact_mod_cast hhi)
    omega
  · exact (Int.zpow_le_iff_le_log (by norm_num : 1 < 2) hpos).mp (by exact_mod_cast hlo)

/-- Evaluation of `f32` at a normal value of known binary exponent. -/
theorem f32_eq_of_bounds (x : ℚ) (e n : Int) (he : -126 ≤ e) (hlo : (2 : ℚ) ^ e ≤ |x|)
    (hhi : |x| < (2 : ℚ) ^ (e + 1)) (hn : roundHalfEven (x / 2 ^ (e - 23)) = n) :
    f32 x = (n : ℚ) * 2 ^ (e - 23) := by
  have hl := f32_log_eq x e hlo hhi
  have hu : f32ulp x = e - 23 := by
    unfold f32ulp
    rw [hl, max_eq_left he]
  unfold f32
  rw [hu, hn]

/-- Zero is a single precision value. -/
theorem f32_zero : f32 0 = 0 := by
  unfold f32
  rw [zero_div]
  have := roundHalfEven_intCast 0
  rw [Int.cast_zero] at this
  rw [this, Int.cast_zero, zero_mul]

/-- Rounding to single precision keeps the sign of a non-negative value. -/
theorem f32_nonneg (x : ℚ) (h : 0 ≤ x) : 0 ≤ f32 x := by
  unfold f32
  have hp : (0 : ℚ) < 2 ^ f32ulp x := zpow_pos (by norm_num) _
  have h0 : roundHalfEven ((0 : Int) : ℚ) ≤ roundHalfEven (x / 2 ^ f32ulp x) :=
    roundHalfEven_mono _ _ (by rw [Int.cast_zero]; exact div_nonneg h (le_of_lt hp))
  rw [roundHalfEven_intCast] at h0
  have h1 : (0 : ℚ) ≤ (roundHalfEven (x / 2 ^ f32ulp x) : ℚ) := by exact_mod_cast h0
  exact mul_nonneg h1 (le_of_lt hp)

/-- A value that is an integer multiple of its unit in the last place is a single
precision value. -/
theorem f32_of_scaled (x : ℚ) (m s : Int) (hx : x = (m : ℚ) * 2 ^ s) (hs : f32ulp x ≤ s) :
    f32 x = x := by
  have h2 : (2 : ℚ) ≠ 0 := by norm_num
  obtain ⟨k, hk⟩ : ∃ k : ℕ, s = f32ulp x + (k : Int) := ⟨(s - f32ulp x).toNat, by omega⟩
  have hdiv : x / 2 ^ f32ulp x = ((m * 2 ^ k : Int) : ℚ) := by
    have hp : (2 : ℚ) ^ f32ulp x ≠ 0 := zpow_ne_zero _ h2
    rw [div_eq_iff hp]
    nth_rewrite 1 [hx]
    rw [hk, zpow_add₀ h2, zpow_natCast]
    push_cast
    ring
  unfold f32
  rw [hdiv, roundHalfEven_intCast, ← hdiv]
  exact div_mul_cancel₀ _ (zpow_ne_zero _ h2)

/-- A bound of the unit in the last place from a bound of the value. -/
theorem f32ulp_le (x : ℚ) (s : Int) (hx0 : x ≠ 0) (hs : -149 ≤ s)
    (hx : |x| < (2 : ℚ) ^ (s + 24)) : f32ulp x ≤ s := by
  have hpos : (0 : ℚ) < |x| := abs_pos.mpr hx0
  have hl : Int.log 2 |x| < s + 24 :=
    (Int.lt_zpow_iff_log_lt (by norm_num : 1 < 2) hpos).mp (by exact_mod_cast hx)
  unfold f32ulp
  omega

/-- The natural numbers up to `2 ^ 24` are single precision values. -/
theorem f32_natCast (n : Nat) (h : n ≤ 16777216) : f32 (n : ℚ) = (n : ℚ) := by
  rcases Nat.eq_zero_or_pos n with h0 | hpos
  · rw [h0, Nat.cast_zero, f32_zero]
  · rcases Nat.lt_or_ge n 16777216 with hlt | hge
    · apply f32_of_scaled (n : ℚ) (n : Int) 0
      · simp
      · apply f32ulp_le
        · exact_mod_cast (Nat.pos_iff_ne_zero.mp hpos)
        · norm_num
        · rw [abs_of_nonneg (by positivity)]
          norm_num
          exact hlt
    · have hn : n = 16777216 := le_antisymm h hge
      rw [hn]
      apply f32_of_scaled _ 8388608 1
      · norm_num
      · have hl := f32_log_eq ((16777216 : ℕ) : ℚ) 24 (by norm_num) (by norm_num)
        unfold f32ulp
        rw [hl]
        norm_num

/-- One is a single precision value. -/
theorem f32_one : f32 1 = 1 := by
  have := f32_natCast 1 (by norm_num)
  simpa using this

/-- Rounding to single precision is monotone on the non-negative values. -/
theorem f32_mono (x y : ℚ) (hx : 0 ≤ x) (h : x ≤ y) : f32 x ≤ f32 y := by
  rcases eq_or_lt_of_le hx with h0 | hpos
  · rw [← h0, f32_zero]
    exact f32_nonneg y (le_trans hx h)
  · have hy : 0 < y := lt_of_lt_of_le hpos h
    have h2 : (1 : ℚ) < 2 := by norm_num
    have h2' : (2 : ℚ) ≠ 0 := by norm_num
    have hlog : Int.log 2 |x| ≤ Int.log 2 |y| := by
      rw [abs_of_pos hpos, abs_of_pos hy]
      exact Int.log_mono_right hpos h
    have hu : f32ulp x ≤ f32ulp y := by unfold f32ulp; omega
    have hpx : (0 : ℚ) < 2 ^ f32ulp x := zpow_pos (by norm_num) _
    have hpy : (0 : ℚ) < 2 ^ f32ulp y := zpow_pos (by norm_num) _
    rcases eq_or_lt_of_le hu with he | hlt
    · unfold f32
      rw [he]
      have hr := roundHalfEven_mono (x / 2 ^ f32ulp y) (y / 2 ^ f32ulp y)
        (div_le_div_of_nonneg_right h (le_of_lt hpy))
      have hr' : (roundHalfEven (x / 2 ^ f32ulp y) : ℚ) ≤ (roundHalfEven (y / 2 ^ f32ulp y) : ℚ) := by
        exact_mod_cast hr
      exact mul_le_mul_of_nonneg_right hr' (le_of_lt hpy)
    · have hxlt : x < (2 : ℚ) ^ (Int.log 2 |x| + 1) := by
        have := Int.lt_zpow_succ_log_self (by norm_num : 1 < 2) |x|
        rw [abs_of_pos hpos] at this ⊢
        exact_mod_cast this
      have hxle : x < (2 : ℚ) ^ (f32ulp x + 24) :=
        lt_of_lt_of_le hxlt (zpow_le_zpow_right₀ (le_of_lt h2) (by unfold f32ulp; omega))
      have hfx : f32 x ≤ (2 : ℚ) ^ (f32ulp x + 24) := by
        have hd : x / 2 ^ f32ulp x ≤ ((16777216 : Int) : ℚ) := by
          rw [div_le_iff₀ hpx]
          have e : (2 : ℚ) ^ (f32ulp x + 24) = ((16777216 : Int) : ℚ) * 2 ^ f32ulp x := by
            rw [zpow_add₀ h2']
            norm_num
            ring
          rw [← e]
          exact le_of_lt hxle
        have hr := roundHalfEven_mono _ _ hd
        rw [roundHalfEven_intCast] at hr
        have hr' : (roundHalfEven (x / 2 ^ f32ulp x) : ℚ) ≤ 16777216 := by exact_mod_cast hr
        unfold f32
        rw [zpow_add₀ h2']
        have := mul_le_mul_of_nonneg_right hr' (le_of_lt hpx)
        calc (roundHalfEven (x / 2 ^ f32ulp x) : ℚ) * 2 ^ f32ulp x
            ≤ 16777216 * 2 ^ f32ulp x := this
          _ = 2 ^ f32ulp x * 2 ^ (24 : Int) := by norm_num; ring
      have hey : f32ulp y + 23 = Int.log 2 |y| := by
        have : -149 ≤ f32ulp x := by unfold f32ulp; omega
        unfold f32ulp at hlt ⊢
        omega
      have hylo : (2 : ℚ) ^ (f32ulp y + 23) ≤ y := by
        rw [hey]
        have := Int.zpow_log_le_self (by norm_num : 1 < 2) (abs_pos.mpr (ne_of_gt hy))
        rw [abs_of_pos hy] at this ⊢
        exact_mod_cast this
      have hfy : (2 : ℚ) ^ (f32ulp y + 23) ≤ f32 y := by
        have hd : ((8388608 : Int) : ℚ) ≤ y / 2 ^ f32ulp y := by
          rw [le_div_iff₀ hpy]
          have e : (2 : ℚ) ^ (f32ulp y + 23) = ((8388608 : Int) : ℚ) * 2 ^ f32ulp y := by
            rw [zpow_add₀ h2']
            norm_num
            ring
          rw [← e]
          exact hylo
        have hr := roundHalfEven_mono _ _ hd
        rw [roundHalfEven_intCast] at hr
        have hr' : (8388608 : ℚ) ≤ (roundHalfEven (y / 2 ^ f32ulp y) : ℚ) := by exact_mod_cast hr
        unfold f32
        rw [zpow_add₀ h2']
        have := mul_le_mul_of_nonneg_right hr' (le_of_lt hpy)
        calc (2 : ℚ) ^ f32ulp y * 2 ^ (23 : Int) = 8388608 * 2 ^ f32ulp y := by norm_num; ring
          _ ≤ _ := this
      have hmid : (2 : ℚ) ^ (f32ulp x + 24) ≤ (2 : ℚ) ^ (f32ulp y + 23) :=
        zpow_le_zpow_right₀ (le_of_lt h2) (by omega)
      exact le_trans hfx (le_trans hmid hfy)

theorem findAnyInGroup_eq_head (l : List (Option PlayerPtr)) :
    findAnyInGroup l = (l.filterMap id).head? := by
  induction l with
  | nil => rfl
  | cons a rest ih =>
    cases a with
    | none => simpa [findAnyInGroup] using ih
    | some p => simp [findAnyInGroup]

theorem findAnyInGroup_mem (l : List (Option PlayerPtr)) (r : PlayerPtr)
    (h : findAnyInGroup l = some r) : some r ∈ l := by
  induction l with
  | nil => simp [findAnyInGroup] at h
  | cons a rest ih =>
    cases a with
    | none =>
      simp only [findAnyInGroup] at h
      exact List.mem_cons_of_mem _ (ih h)
    | some p =>
      simp only [findAnyInGroup, Option.some.injEq] at h
      subst h
      exact List.mem_cons_self _ _

theorem findAnyInGroup_present (l : List (Option PlayerPtr)) (h : ∃ p, some p ∈ l) :
    ∃ r, findAnyInGroup l = some r := by
  induction l with
  | nil => simp at h
  | cons a rest ih =>
    cases a with
    | some p => exact ⟨p, rfl⟩
    | none =>
      obtain ⟨p, hp⟩ := h
      have hp2 : some p ∈ rest := by simpa using hp
      simpa [findAnyInGroup] using ih ⟨p, hp2⟩

theorem SetDeathState_deathState (k : Defines) (w : World) (c : Creature) (s : DeathState) :
    (c.SetDeathState k w s).m_deathState =
      (match s with
        | .JUST_DIED => .CORPSE
        | .JUST_ALIVED => .ALIVE
        | s => s) := by
  cases s <;> simp [Creature.SetDeathState, Unit_SetDeathState, Creature.SetLootRecipient]

theorem SaveRespawnTime_timers (w : World) (c : Creature) :
    (c.SaveRespawnTime w).m_corpseDecayTimer = c.m_corpseDecayTimer ∧
    (c.SaveRespawnTime w).m_respawnTime = c.m_respawnTime := by
  unfold Creature.SaveRespawnTime
  split_ifs <;> exact ⟨rfl, rfl⟩

theorem SaveRespawnTime_kept (w : World) (c : Creature) :
    ((c.SaveRespawnTime w).m_aggroDelay, (c.SaveRespawnTime w).m_AI_locked,
      (c.SaveRespawnTime w).m_corpseDecayTimer, (c.SaveRespawnTime w).m_respawnTime)
      = (c.m_aggroDelay, c.m_AI_locked, c.m_corpseDecayTimer, c.m_respawnTime) := by
  unfold Creature.SaveRespawnTime
  split_ifs <;> rfl

theorem SetDeathState_kept (k : Defines) (w : World) (c : Creature) (s : DeathState) :
    ((c.SetDeathState k w s).m_aggroDelay, (c.SetDeathState k w s).m_AI_locked,
      (c.SetDeathState k w s).m_corpseDecayTimer, (c.SetDeathState k w s).m_respawnTime)
      = (c.m_aggroDelay, c.m_AI_locked,
          (if (s = .JUST_DIED ∧ c.m_isDeadByDefault = false)
              ∨ (s = .JUST_ALIVED ∧ c.m_isDeadByDefault = true) then
            u32 (c.m_corpseDelay * IN_MILLISECONDS) else c.m_corpseDecayTimer),
          (if (s = .JUST_DIED ∧ c.m_isDeadByDefault = false)
              ∨ (s = .JUST_ALIVED ∧ c.m_isDeadByDefault = true) then
            w.time + (c.m_respawnDelay : Int) else c.m_respawnTime)) := by
  have key : ∀ d : Creature, d = c.SetDeathState k w s →
      (d.m_aggroDelay, d.m_AI_locked, d.m_corpseDecayTimer, d.m_respawnTime)
        = (c.m_aggroDelay, c.m_AI_locked,
            (if (s = .JUST_DIED ∧ c.m_isDeadByDefault = false)
                ∨ (s = .JUST_ALIVED ∧ c.m_isDeadByDefault = true) then
              u32 (c.m_corpseDelay * IN_MILLISECONDS) else c.m_corpseDecayTimer),
            (if (s = .JUST_DIED ∧ c.m_isDeadByDefault = false)
                ∨ (s = .JUST_ALIVED ∧ c.m_isDeadByDefault = true) then
              w.time + (c.m_respawnDelay : Int) else c.m_respawnTime)) := by
    unfold Creature.SetDeathState
    lift_lets
    extract_lets c1 c2 c3 c4 c5 c6 c7 c8 c9 c10 c11 c12
    intro d hd
    have h2 : (c2.m_aggroDelay, c2.m_AI_locked, c2.m_corpseDecayTimer, c2.m_respawnTime)
        = (c.m_aggroDelay, c.m_AI_locked,
            (if (s = .JUST_DIED ∧ c.m_isDeadByDefault = false)
                ∨ (s = .JUST_ALIVED ∧ c.m_isDeadByDefault = true) then
              u32 (c.m_corpseDelay * IN_MILLISECONDS) else c.m_corpseDecayTimer),
            (if (s = .JUST_DIED ∧ c.m_isDeadByDefault = false)
                ∨ (s = .JUST_ALIVED ∧ c.m_isDeadByDefault = true) then
              w.time + (c.m_respawnDelay : Int) else c.m_respawnTime)) := by
      by_cases hc : (s = .JUST_DIED ∧ c.m_isDeadByDefault = false)
          ∨ (s = .JUST_ALIVED ∧ c.m_isDeadByDefault = true)
      · rw [if_pos hc, if_pos hc]
        by_cases hsave : (w.CONFIG_BOOL_SAVE_RESPAWN_TIME_IMMEDIATELY || w.IsWorldBoss) = true
        · have e : c2 = c1.SaveRespawnTime w := (if_pos hc).trans (if_pos hsave)
          rw [e]
          exact SaveRespawnTime_kept w c1
        · have e : c2 = c1 := (if_pos hc).trans (if_neg hsave)
          rw [e]
      · rw [if_neg hc, if_neg hc]
        have e : c2 = c := if_neg hc
        rw [e]
    have h5 : (c5.m_aggroDelay, c5.m_AI_locked, c5.m_corpseDecayTimer, c5.m_respawnTime)
        = (c4.m_aggroDelay, c4.m_AI_locked, c4.m_corpseDecayTimer, c4.m_respawnTime) := by
      by_cases hf : w.CanFly = true
      · have e : c5 = { c4 with i_motionMaster := .MoveFall :: c4.i_motionMaster } := if_pos hf
        rw [e]
      · have e : c5 = c4 := if_neg hf
        rw [e]
    have h6 : (c6.m_aggroDelay, c6.m_AI_locked, c6.m_corpseDecayTimer, c6.m_respawnTime)
        = (c3.m_aggroDelay, c3.m_AI_locked, c3.m_corpseDecayTimer, c3.m_respawnTime) := by
      by_cases hj : s = .JUST_DIED
      · have e : c6 = Unit_SetDeathState c5 .CORPSE := if_pos hj
        rw [e]
        exact h5
      · have e : c6 = c3 := if_neg hj
        rw [e]
    have hd6 : (d.m_aggroDelay, d.m_AI_locked, d.m_corpseDecayTimer, d.m_respawnTime)
        = (c6.m_aggroDelay, c6.m_AI_locked, c6.m_corpseDecayTimer, c6.m_respawnTime) := by
      by_cases ha : s = .JUST_ALIVED
      · have e : d = { c12 with i_motionMaster := .Initialize :: c12.i_motionMaster } :=
          hd.trans (if_pos ha)
        rw [e]
        rfl
      · have e : d = c6 := hd.trans (if_neg ha)
        rw [e]
    exact hd6.trans (h6.trans h2)
  exact key _ rfl

theorem SetDeathState_timers_recomputed (k : Defines) (w : World) (c : Creature) (s : DeathState)
    (h : (s = .JUST_DIED ∧ c.m_isDeadByDefault = false) ∨ (s = .JUST_ALIVED ∧ c.m_isDeadByDefault = true)) :
    (c.SetDeathState k w s).m_corpseDecayTimer = u32 (c.m_corpseDelay * IN_MILLISECONDS) ∧
    (c.SetDeathState k w s).m_respawnTime = w.time + (c.m_respawnDelay : Int) := by
  have hk := SetDeathState_kept k w c s
  rw [if_pos h, if_pos h] at hk
  simp only [Prod.mk.injEq] at hk
  exact ⟨hk.2.2.1, hk.2.2.2⟩

theorem SetDeathState_timers_kept (k : Defines) (w : World) (c : Creature) (s : DeathState)
    (h : ¬ ((s = .JUST_DIED ∧ c.m_isDeadByDefault = false) ∨ (s = .JUST_ALIVED ∧ c.m_isDeadByDefault = true))) :
    (c.SetDeathState k w s).m_corpseDecayTimer = c.m_corpseDecayTimer ∧
    (c.SetDeathState k w s).m_respawnTime = c.m_respawnTime := by
  have hk := SetDeathState_kept k w c s
  rw [if_neg h, if_neg h] at hk
  simp only [Prod.mk.injEq] at hk
  exact ⟨hk.2.2.1, hk.2.2.2⟩

theorem SetDeathState_aggroDelay (k : Defines) (w : World) (c : Creature) (s : DeathState) :
    (c.SetDeathState k w s).m_aggroDelay = c.m_aggroDelay :=
  congrArg Prod.fst (SetDeathState_kept k w c s)

theorem InitEntry_lifecycle (k : Defines) (w : World) (c : Creature) (Entry : Nat) :
    (c.InitEntry k w Entry).2.m_isDeadByDefault = c.m_isDeadByDefault ∧
    (c.InitEntry k w Entry).2.m_respawnTime = c.m_respawnTime ∧
    (c.InitEntry k w Entry).2.m_aggroDelay = c.m_aggroDelay := by
  unfold Creature.InitEntry
  dsimp only
  split
  · exact ⟨rfl, rfl, rfl⟩
  · split_ifs <;> exact ⟨rfl, rfl, rfl⟩

theorem UpdateEntry_lifecycle (k : Defines) (w : World) (c : Creature) (Entry : Nat)
    (preserveHPAndPower : Bool) :
    (c.UpdateEntry k w Entry preserveHPAndPower).2.m_isDeadByDefault = c.m_isDeadByDefault ∧
    (c.UpdateEntry k w Entry preserveHPAndPower).2.m_respawnTime = c.m_respawnTime ∧
    (c.UpdateEntry k w Entry preserveHPAndPower).2.m_aggroDelay = c.m_aggroDelay := by
  have h := InitEntry_lifecycle k w c Entry
  unfold Creature.UpdateEntry
  split
  next c1 heq => rw [heq] at h; exact h
  next c1 heq => rw [heq] at h; exact h

theorem SetDeathState_alived_respawnTime (k : Defines) (w : World) (c : Creature)
    (h : c.m_isDeadByDefault = false) :
    (c.SetDeathState k w DeathState.JUST_ALIVED).m_respawnTime = c.m_respawnTime :=
  (SetDeathState_timers_kept k w c DeathState.JUST_ALIVED (by simp [h])).2

theorem Update_respawn_not_deadByDefault (k : Defines) (w : World) (c : Creature)
    (h : c.m_isDeadByDefault = false) :
    (c.Update_respawn k w).m_deathState = DeathState.ALIVE ∧
    (c.Update_respawn k w).m_respawnTime = 0 ∧
    (c.Update_respawn k w).m_aggroDelay = w.CONFIG_UINT32_CREATURE_RESPAWN_AGGRO_DELAY := by
  have hu := fun c1 => UpdateEntry_lifecycle k w c1 c.m_originalEntry true
  have key : ∀ c1 : Creature, c1.m_isDeadByDefault = false →
      c1.m_respawnTime = 0 → c1.m_aggroDelay = w.CONFIG_UINT32_CREATURE_RESPAWN_AGGRO_DELAY →
      (c1.SetDeathState k w DeathState.JUST_ALIVED).m_deathState = DeathState.ALIVE ∧
      (c1.SetDeathState k w DeathState.JUST_ALIVED).m_respawnTime = 0 ∧
      (c1.SetDeathState k w DeathState.JUST_ALIVED).m_aggroDelay
        = w.CONFIG_UINT32_CREATURE_RESPAWN_AGGRO_DELAY := by
    intro c1 h1 h2 h3
    refine ⟨?_, ?_, ?_⟩
    · rw [SetDeathState_deathState]
    · rw [SetDeathState_alived_respawnTime _ _ _ h1]; exact h2
    · rw [SetDeathState_aggroDelay]; exact h3
  have h0 := hu { c with
    m_respawnTime := 0
    m_aggroDelay := w.CONFIG_UINT32_CREATURE_RESPAWN_AGGRO_DELAY
    loot := none }
  simp only [Creature.Update_respawn]
  split_ifs with he hd hd
  · exact absurd (h.symm.trans (h0.1.symm.trans hd)) (by decide)
  · exact key _ (h0.1.trans h) h0.2.1 h0.2.2
  · exact absurd (h.symm.trans hd) (by decide)
  · exact key _ h rfl rfl

theorem SetDeathState_DEAD (k : Defines) (w : World) (c : Creature) :
    c.SetDeathState k w DeathState.DEAD = { c with m_deathState := DeathState.DEAD } := by
  simp [Creature.SetDeathState, Unit_SetDeathState]

theorem RemoveCorpse_corpse (k : Defines) (w : World) (c : Creature)
    (hworld : c.inWorld = true)
    (hpool : w.IsPartOfAPool = 0 ∨ w.UpdatePool_despawns = false)
    (hcorpse : c.m_deathState = DeathState.CORPSE)
    (hdefault : c.m_isDeadByDefault = false) :
    (c.RemoveCorpse k w).m_deathState = DeathState.DEAD ∧
    (c.RemoveCorpse k w).m_corpseDecayTimer = 0 := by
  have hpooled : (if w.IsPartOfAPool ≠ 0 then
      { c with inWorld := c.inWorld && !w.UpdatePool_despawns } else c) = c := by
    rcases hpool with h | h
    · simp [h]
    · split_ifs
      · obtain ⟨st, cf⟩ := c
        cases cf
        simp_all
      · rfl
  have hw : ¬ (c.inWorld = false) := by simp [hworld]
  have hstate : ¬ ((c.m_deathState ≠ DeathState.CORPSE ∧ c.m_isDeadByDefault = false)
      ∨ (c.m_deathState ≠ DeathState.ALIVE ∧ c.m_isDeadByDefault = true)) := by
    simp [hcorpse, hdefault]
  simp only [Creature.RemoveCorpse, hpooled, SetDeathState_DEAD, if_neg hw, if_neg hstate]
  split_ifs <;> exact ⟨rfl, rfl⟩

theorem GetLootRecipient_loot (w : World) (c : Creature) (l : Option Loot) :
    Creature.GetLootRecipient w { c with loot := l } = c.GetLootRecipient w := rfl

theorem PrepareBodyLootState_loot (w : World) (c : Creature) :
    (c.PrepareBodyLootState w).loot = (c.GetLootRecipient w).map Loot.mk := by
  simp only [Creature.PrepareBodyLootState, GetLootRecipient_loot]
  cases c.GetLootRecipient w <;> simp only [Option.map] <;> split_ifs <;> rfl

theorem corpseLootedDelay_loot (w : World) (c : Creature) (l : Option Loot) :
    Creature.corpseLootedDelay w { c with loot := l } = c.corpseLootedDelay w := rfl

theorem PrepareBodyLootState_timer (w : World) (c : Creature) :
    (c.PrepareBodyLootState w).m_corpseDecayTimer =
      if c.m_respawnDelay > c.m_corpseDelay then c.corpseLootedDelay w
      else min c.m_corpseDecayTimer (c.corpseLootedDelay w) := by
  simp only [Creature.PrepareBodyLootState, GetLootRecipient_loot]
  cases c.GetLootRecipient w <;> simp only [corpseLootedDelay_loot] <;>
    split_ifs with h1 h2 <;> simp only [] <;> omega

theorem RemoveCorpse_corpse_loot (k : Defines) (w : World) (c : Creature)
    (hworld : c.inWorld = true)
    (hpool : w.IsPartOfAPool = 0 ∨ w.UpdatePool_despawns = false)
    (hcorpse : c.m_deathState = DeathState.CORPSE)
    (hdefault : c.m_isDeadByDefault = false) :
    (c.RemoveCorpse k w).loot = none ∧
    (c.RemoveCorpse k w).m_lootStatus = CreatureLootStatus.CREATURE_LOOT_STATUS_NONE := by
  have hpooled : (if w.IsPartOfAPool ≠ 0 then
      { c with inWorld := c.inWorld && !w.UpdatePool_despawns } else c) = c := by
    rcases hpool with h | h
    · simp [h]
    · split_ifs
      · obtain ⟨st, cf⟩ := c
        cases cf
        simp_all
      · rfl
  have hw : ¬ (c.inWorld = false) := by simp [hworld]
  have hstate : ¬ ((c.m_deathState ≠ DeathState.CORPSE ∧ c.m_isDeadByDefault = false)
      ∨ (c.m_deathState ≠ DeathState.ALIVE ∧ c.m_isDeadByDefault = true)) := by
    simp [hcorpse, hdefault]
  simp only [Creature.RemoveCorpse, hpooled, SetDeathState_DEAD, if_neg hw, if_neg hstate]
  split_ifs <;> exact ⟨rfl, rfl⟩

theorem RemoveCorpse_not_corpse (k : Defines) (w : World) (c : Creature)
    (hdefault : c.m_isDeadByDefault = false)
    (hstate : c.m_deathState ≠ DeathState.CORPSE) :
    c.RemoveCorpse k w = { c with inWorld := (c.RemoveCorpse k w).inWorld } := by
  have hs : ∀ b : Bool, ((c.m_deathState ≠ DeathState.CORPSE ∧ c.m_isDeadByDefault = false)
      ∨ (c.m_deathState ≠ DeathState.ALIVE ∧ c.m_isDeadByDefault = true)) :=
    fun _ => Or.inl ⟨hstate, hdefault⟩
  simp only [Creature.RemoveCorpse]
  split_ifs <;> first | rfl | exact absurd (hs true) (by assumption)

theorem SetLootStatus_skinned (k : Defines) (c : Creature)
    (h : c.m_lootStatus.val < CreatureLootStatus.CREATURE_LOOT_STATUS_SKINNED.val) :
    c.SetLootStatus k CreatureLootStatus.CREATURE_LOOT_STATUS_SKINNED =
      { c with
        m_lootStatus := CreatureLootStatus.CREATURE_LOOT_STATUS_SKINNED
        m_corpseDecayTimer := 0
        UNIT_FIELD_FLAGS := RemoveFlag c.UNIT_FIELD_FLAGS k.UNIT_FLAG_SKINNABLE
        UNIT_DYNAMIC_FLAGS := RemoveFlag c.UNIT_DYNAMIC_FLAGS k.UNIT_DYNFLAG_LOOTABLE } := by
  have hn : ¬ (CreatureLootStatus.CREATURE_LOOT_STATUS_SKINNED.val ≤ c.m_lootStatus.val) :=
    Nat.not_le.mpr h
  simp only [Creature.SetLootStatus, if_neg hn]

theorem Update_corpse_eq_RemoveCorpse (k : Defines) (w : World) (c : Creature)
    (update_diff diff : Nat)
    (hcorpse : c.m_deathState = DeathState.CORPSE)
    (hdefault : c.m_isDeadByDefault = false)
    (hsummon : Creature.IsPlayerSummon k w = true)
    (htimer : c.m_corpseDecayTimer ≤ update_diff) :
    c.Update k w update_diff diff = c.RemoveCorpse k w := by
  simp only [Creature.Update, hcorpse, hdefault, hsummon]
  simp [htimer]

theorem selectCandidate_eq_some (k : Defines) (w : World) (pSpellInfo : Option SpellEntry)
    (selectFlags : Nat) (unitGuid : ObjectGuid) (u : UnitPtr) :
    selectCandidate k w pSpellInfo selectFlags unitGuid = some u ↔
      w.Map_GetUnit unitGuid = some u ∧ passesFilters k w pSpellInfo selectFlags u = true := by
  unfold selectCandidate passesFilters
  cases hget : w.Map_GetUnit unitGuid with
  | none => simp
  | some v =>
    by_cases hp : selectFlags = 0
        ∨ Creature.MeetsSelectAttackingRequirement k w v pSpellInfo selectFlags = true
    · simp only [hp, if_true, Option.some.injEq]
      constructor
      · intro h; subst h; exact ⟨rfl, by simpa using hp⟩
      · intro h; exact h.1
    · simp only [hp, if_false]
      constructor
      · intro h; cases h
      · intro h
        have hv : v = u := by simpa using h.1
        subst hv
        exact absurd (by simpa using h.2) hp

theorem selectCandidate_eq_none (k : Defines) (w : World) (pSpellInfo : Option SpellEntry)
    (selectFlags : Nat) (unitGuid : ObjectGuid) :
    selectCandidate k w pSpellInfo selectFlags unitGuid = none ↔
      ∀ u, w.Map_GetUnit unitGuid = some u → passesFilters k w pSpellInfo selectFlags u = false := by
  constructor
  · intro h u hu
    cases hp : passesFilters k w pSpellInfo selectFlags u with
    | false => rfl
    | true =>
      have := (selectCandidate_eq_some k w pSpellInfo selectFlags unitGuid u).mpr ⟨hu, hp⟩
      rw [h] at this
      cases this
  · intro h
    cases hc : selectCandidate k w pSpellInfo selectFlags unitGuid with
    | none => rfl
    | some u =>
      have hu := (selectCandidate_eq_some k w pSpellInfo selectFlags unitGuid u).mp hc
      rw [h u hu.1] at hu
      cases hu.2

theorem findSome?_eq_some_index {α β : Type} (f : α → Option β) (l : List α) (b : β) :
    l.findSome? f = some b ↔
      ∃ (i : Nat) (a : α), l[i]? = some a ∧ f a = some b ∧
        ∀ j : Nat, j < i → ∀ a2 : α, l[j]? = some a2 → f a2 = none := by
  induction l with
  | nil => simp
  | cons x rest ih =>
    rw [List.findSome?_cons]
    cases hx : f x with
    | some y =>
      simp only [Option.some.injEq]
      constructor
      · intro h
        subst h
        exact ⟨0, x, by simp, hx, fun j hj => absurd hj (Nat.not_lt_zero j)⟩
      · rintro ⟨i, a, hi, hfa, hmin⟩
        cases i with
        | zero =>
          have hxa : x = a := by simpa using hi
          subst hxa
          rw [hx] at hfa
          exact Option.some.inj hfa
        | succ n =>
          have := hmin 0 (Nat.succ_pos n) x (by simp)
          rw [hx] at this
          cases this
    | none =>
      simp only []
      rw [ih]
      constructor
      · rintro ⟨i, a, hi, hfa, hmin⟩
        refine ⟨i + 1, a, by simpa using hi, hfa, ?_⟩
        intro j hj a2 ha2
        cases j with
        | zero =>
          have hxa : x = a2 := by simpa using ha2
          subst hxa
          exact hx
        | succ m => exact hmin m (Nat.lt_of_succ_lt_succ hj) a2 (by simpa using ha2)
      · rintro ⟨i, a, hi, hfa, hmin⟩
        cases i with
        | zero =>
          have hxa : x = a := by simpa using hi
          subst hxa
          rw [hx] at hfa
          cases hfa
        | succ n =>
          refine ⟨n, a, by simpa using hi, hfa, ?_⟩
          intro j hj a2 ha2
          exact hmin (j + 1) (Nat.succ_lt_succ hj) a2 (by simpa using ha2)

theorem findSome?_drop_eq_some_index {α β : Type} (f : α → Option β) (l : List α) (p : Nat)
    (b : β) :
    (l.drop p).findSome? f = some b ↔
      ∃ (i : Nat) (a : α), p ≤ i ∧ l[i]? = some a ∧ f a = some b ∧
        ∀ j : Nat, p ≤ j → j < i → ∀ a2 : α, l[j]? = some a2 → f a2 = none := by
  rw [findSome?_eq_some_index]
  constructor
  · rintro ⟨i, a, hi, hfa, hmin⟩
    refine ⟨p + i, a, Nat.le_add_right p i, by rw [← List.getElem?_drop]; exact hi, hfa, ?_⟩
    intro j hpj hji a2 ha2
    have hj : j = p + (j - p) := by omega
    refine hmin (j - p) (by omega) a2 ?_
    rw [List.getElem?_drop, ← hj]
    exact ha2
  · rintro ⟨i, a, hpi, hi, hfa, hmin⟩
    have hi2 : i = p + (i - p) := by omega
    refine ⟨i - p, a, by rw [List.getElem?_drop, ← hi2]; exact hi, hfa, ?_⟩
    intro j hj a2 ha2
    rw [List.getElem?_drop] at ha2
    exact hmin (p + j) (Nat.le_add_right p j) (by omega) a2 ha2

theorem mem_drop_iff_index {α : Type} (l : List α) (p : Nat) (a : α) :
    a ∈ l.drop p ↔ ∃ i : Nat, p ≤ i ∧ l[i]? = some a := by
  rw [List.mem_iff_getElem?]
  constructor
  · rintro ⟨n, hn⟩
    exact ⟨p + n, Nat.le_add_right p n, by rw [← List.getElem?_drop]; exact hn⟩
  · rintro ⟨i, hpi, hi⟩
    have hi2 : i = p + (i - p) := by omega
    exact ⟨i - p, by rw [List.getElem?_drop, ← hi2]; exact hi⟩

theorem findSome?_drop_eq_none_index {α β : Type} (f : α → Option β) (l : List α) (p : Nat) :
    (l.drop p).findSome? f = none ↔
      ∀ (i : Nat) (a : α), p ≤ i → l[i]? = some a → f a = none := by
  rw [List.findSome?_eq_none_iff]
  constructor
  · intro h i a hpi hi
    exact h a ((mem_drop_iff_index l p a).mpr ⟨i, hpi, hi⟩)
  · intro h a ha
    obtain ⟨i, hpi, hi⟩ := (mem_drop_iff_index l p a).mp ha
    exact h i a hpi hi

theorem SelectAttackingTarget_topaggro (k : Defines) (w : World) (position : Nat)
    (pSpellInfo : Option SpellEntry) (selectFlags draw : Nat)
    (hcan : w.CanHaveThreatList = true) (hpos : position < w.threatList.length) :
    Creature.SelectAttackingTarget k w AttackingTarget.ATTACKING_TARGET_TOPAGGRO position
        pSpellInfo selectFlags draw
      = (w.threatList.drop position).findSome? (selectCandidate k w pSpellInfo selectFlags) := by
  have h1 : ¬ (w.CanHaveThreatList = false) := by simp [hcan]
  have h2 : ¬ (position ≥ w.threatList.length ∨ w.threatList.length = 0) := by omega
  simp only [Creature.SelectAttackingTarget, if_neg h1, if_neg h2]

theorem SelectAttackingTarget_random (k : Defines) (w : World) (position : Nat)
    (pSpellInfo : Option SpellEntry) (selectFlags draw : Nat)
    (hcan : w.CanHaveThreatList = true) (hpos : position < w.threatList.length) :
    Creature.SelectAttackingTarget k w AttackingTarget.ATTACKING_TARGET_RANDOM position
        pSpellInfo selectFlags draw
      = if ((w.threatList.drop position).filterMap
            (selectCandidate k w pSpellInfo selectFlags)).length ≠ 0 then
          ((w.threatList.drop position).filterMap (selectCandidate k w pSpellInfo selectFlags))[
            draw % ((w.threatList.drop position).filterMap
              (selectCandidate k w pSpellInfo selectFlags)).length]?
        else none := by
  have h1 : ¬ (w.CanHaveThreatList = false) := by simp [hcan]
  have h2 : ¬ (position ≥ w.threatList.length ∨ w.threatList.length = 0) := by omega
  simp only [Creature.SelectAttackingTarget, if_neg h1, if_neg h2, urand, List.get?_eq_getElem?]
  split_ifs with h
  · have hlen : ((w.threatList.drop position).filterMap
        (selectCandidate k w pSpellInfo selectFlags)).length - 1 - 0 + 1
        = ((w.threatList.drop position).filterMap
          (selectCandidate k w pSpellInfo selectFlags)).length := by omega
    rw [hlen, Nat.zero_add]
  · rfl

theorem MeetsSelectAttackingRequirement_self_only (k : Defines) (w : World) (pTarget : UnitPtr)
    (spell : SpellEntry) (selectFlags : Nat)
    (hself : spell.rangeIndex = k.SPELL_RANGE_IDX_SELF_ONLY) :
    Creature.MeetsSelectAttackingRequirement k w pTarget (some spell) selectFlags = false := by
  simp only [Creature.MeetsSelectAttackingRequirement, hself, if_true, ite_self]

theorem selectCandidate_self_only (k : Defines) (w : World) (spell : SpellEntry)
    (selectFlags : Nat) (unitGuid : ObjectGuid)
    (hself : spell.rangeIndex = k.SPELL_RANGE_IDX_SELF_ONLY) (hmask : selectFlags ≠ 0) :
    selectCandidate k w (some spell) selectFlags unitGuid = none := by
  rw [selectCandidate_eq_none]
  intro u _
  simp [passesFilters, hmask, MeetsSelectAttackingRequirement_self_only k w u spell selectFlags hself]

theorem SetDeathState_AI_locked (k : Defines) (w : World) (c : Creature) (s : DeathState) :
    (c.SetDeathState k w s).m_AI_locked = c.m_AI_locked :=
  congrArg (fun t => t.2.1) (SetDeathState_kept k w c s)

theorem RemoveCorpse_AI_locked (k : Defines) (w : World) (c : Creature) :
    (c.RemoveCorpse k w).m_AI_locked = c.m_AI_locked := by
  simp only [Creature.RemoveCorpse]
  split_ifs <;> rfl

theorem RegenerateAll_AI_locked (k : Defines) (w : World) (c : Creature) (update_diff : Nat) :
    (c.RegenerateAll k w update_diff).m_AI_locked = c.m_AI_locked := by
  simp only [Creature.RegenerateAll]
  split_ifs <;> rfl

theorem Unit_Update_AI_locked (k : Defines) (w : World) (c : Creature) :
    (Unit_Update k w c).m_AI_locked = c.m_AI_locked := by
  simp only [Unit_Update]
  split_ifs
  · exact SetDeathState_AI_locked k w _ _
  · rfl

theorem AIM_Initialize_AI_locked (w : World) (c : Creature) :
    (c.AIM_Initialize w).2.m_AI_locked = c.m_AI_locked := by
  unfold Creature.AIM_Initialize
  split_ifs <;> rfl

theorem AI_UpdateAI_AI_locked (k : Defines) (w : World) (c : Creature) :
    (AI_UpdateAI k w c).m_AI_locked = c.m_AI_locked := by
  have h1 : ∀ c2 : Creature,
      (if w.UpdateAI_kills = true then c2.SetDeathState k w DeathState.JUST_DIED
        else c2).m_AI_locked = c2.m_AI_locked := by
    intro c2
    split_ifs
    · exact SetDeathState_AI_locked k w _ _
    · rfl
  have h2 : (if w.UpdateAI_calls_AIM_Initialize = true then (c.AIM_Initialize w).2
      else c).m_AI_locked = c.m_AI_locked := by
    split_ifs
    · exact AIM_Initialize_AI_locked w c
    · rfl
  exact (h1 _).trans h2

theorem SetStatsBasedOnPlayerMaxLevel_AI_locked (k : Defines) (w : World) (c : Creature) :
    (c.SetStatsBasedOnPlayerMaxLevel k w).m_AI_locked = c.m_AI_locked := rfl

theorem Update_AI_AI_locked (k : Defines) (w : World) (c : Creature)
    (h : c.m_AI_locked = false) : (c.Update_AI k w).m_AI_locked = false := by
  simp only [Creature.Update_AI]
  split_ifs <;> first | rfl | exact h

theorem Update_alive_AI_locked (k : Defines) (w : World) (c : Creature) (update_diff : Nat)
    (h : c.m_AI_locked = false) : (c.Update_alive k w update_diff).m_AI_locked = false := by
  have h1 : (Unit_Update k w c).m_AI_locked = false := (Unit_Update_AI_locked k w c).trans h
  have h2 := Update_AI_AI_locked k w _ h1
  simp only [Creature.Update_alive]
  split_ifs
  · exact h1
  · exact h2
  · exact (RegenerateAll_AI_locked k w _ update_diff).trans h2

theorem SelectLevel_power_frame (k : Defines) (w : World) (cinfo : CreatureInfo) (mana : Nat)
    (c : StatFields) (i : Powers) :
    (c.SelectLevel_power k w cinfo mana i).level = c.level ∧
    (c.SelectLevel_power k w cinfo mana i).createHealth = c.createHealth ∧
    (c.SelectLevel_power k w cinfo mana i).maxHealth = c.maxHealth ∧
    (c.SelectLevel_power k w cinfo mana i).health = c.health := by
  simp only [StatFields.SelectLevel_power, StatFields.SetModifierValue, StatFields.SetPower,
    StatFields.SetMaxPower, StatFields.SetCreateMana]
  split_ifs <;> simp only [and_self]

theorem SelectLevel_power_powers (k : Defines) (w : World) (cinfo : CreatureInfo) (mana : Nat)
    (c : StatFields) (i : Powers) :
    (c.SelectLevel_power k w cinfo mana i).maxPower
      = Function.update c.maxPower i (Creature.SelectLevel_maxValue k cinfo mana i) ∧
    (c.SelectLevel_power k w cinfo mana i).power
      = Function.update c.power i (Creature.SelectLevel_value k w cinfo mana i) := by
  simp only [StatFields.SelectLevel_power, StatFields.SetModifierValue, StatFields.SetPower,
    StatFields.SetMaxPower, StatFields.SetCreateMana]
  split_ifs <;> simp only [and_self]

theorem SelectLevel_power_foldl (k : Defines) (w : World) (cinfo : CreatureInfo) (mana : Nat)
    (l : List Powers) (c : StatFields) :
    (l.foldl (StatFields.SelectLevel_power k w cinfo mana) c).level = c.level ∧
    (l.foldl (StatFields.SelectLevel_power k w cinfo mana) c).createHealth = c.createHealth ∧
    (l.foldl (StatFields.SelectLevel_power k w cinfo mana) c).maxHealth = c.maxHealth ∧
    (l.foldl (StatFields.SelectLevel_power k w cinfo mana) c).health = c.health ∧
    (∀ j, (l.foldl (StatFields.SelectLevel_power k w cinfo mana) c).maxPower j
      = if j ∈ l then Creature.SelectLevel_maxValue k cinfo mana j else c.maxPower j) ∧
    (∀ j, (l.foldl (StatFields.SelectLevel_power k w cinfo mana) c).power j
      = if j ∈ l then Creature.SelectLevel_value k w cinfo mana j else c.power j) := by
  induction l generalizing c with
  | nil => simp
  | cons a l ih =>
    obtain ⟨h1, h2, h3, h4, h5, h6⟩ := ih (c.SelectLevel_power k w cinfo mana a)
    obtain ⟨f1, f2, f3, f4⟩ := SelectLevel_power_frame k w cinfo mana c a
    obtain ⟨p1, p2⟩ := SelectLevel_power_powers k w cinfo mana c a
    simp only [List.foldl_cons]
    refine ⟨h1.trans f1, h2.trans f2, h3.trans f3, h4.trans f4, ?_, ?_⟩
    · intro j
      rw [h5 j, p1]
      by_cases hj : j ∈ l
      · simp [hj]
      · by_cases hja : j = a
        · subst hja; simp [hj]
        · simp [hj, hja, Function.update_noteq hja]
    · intro j
      rw [h6 j, p2]
      by_cases hj : j ∈ l
      · simp [hj]
      · by_cases hja : j = a
        · subst hja; simp [hj]
        · simp [hj, hja, Function.update_noteq hja]

theorem Powers_mem_all (j : Powers) : j ∈ Powers.all := by
  cases j <;> simp [Powers.all]

theorem SelectLevel_health_frame (c : StatFields) (health : Nat) (percentHealth : ℚ) :
    (c.SelectLevel_health health percentHealth).level = c.level ∧
    (c.SelectLevel_health health percentHealth).createHealth = health ∧
    (c.SelectLevel_health health percentHealth).maxHealth = health := by
  simp only [StatFields.SelectLevel_health, StatFields.SetModifierValue, StatFields.SetHealth,
    StatFields.SetHealthPercent, StatFields.SetMaxHealth, StatFields.SetCreateHealth]
  split_ifs <;> simp only [and_self]

theorem SelectLevel_damage_frame (k : Defines) (w : World) (cinfo : CreatureInfo) (rank : Nat)
    (c0 : StatFields) :
    (c0.SelectLevel_damage k w cinfo rank).level = c0.level ∧
    (c0.SelectLevel_damage k w cinfo rank).createHealth = c0.createHealth ∧
    (c0.SelectLevel_damage k w cinfo rank).maxHealth = c0.maxHealth ∧
    (c0.SelectLevel_damage k w cinfo rank).maxPower = c0.maxPower ∧
    (c0.SelectLevel_damage k w cinfo rank).power = c0.power := by
  simp only [StatFields.SelectLevel_damage, StatFields.SetModifierValue,
    StatFields.SetBaseWeaponDamage, and_self]

theorem SelectLevel_stored (k : Defines) (w : World) (c : StatFields) (cinfo : CreatureInfo)
    (percentHealth : ℚ) :
    (c.SelectLevel k w cinfo percentHealth).level = Creature.SelectLevel_level w cinfo ∧
    (c.SelectLevel k w cinfo percentHealth).createHealth
      = (if toUInt32 (f32 (f32 ((Creature.SelectLevel_health_mana w cinfo
            (Creature.SelectLevel_level w cinfo)).1 : ℚ)
              * f32 (Creature._GetHealthMod k w (if w.IsPet then 0 else cinfo.Rank)))) < 1
         then 1
         else toUInt32 (f32 (f32 ((Creature.SelectLevel_health_mana w cinfo
            (Creature.SelectLevel_level w cinfo)).1 : ℚ)
              * f32 (Creature._GetHealthMod k w (if w.IsPet then 0 else cinfo.Rank))))) ∧
    (c.SelectLevel k w cinfo percentHealth).maxHealth
      = (c.SelectLevel k w cinfo percentHealth).createHealth ∧
    (∀ j, (c.SelectLevel k w cinfo percentHealth).maxPower j
      = Creature.SelectLevel_maxValue k cinfo
          (Creature.SelectLevel_health_mana w cinfo (Creature.SelectLevel_level w cinfo)).2 j) ∧
    (∀ j, (c.SelectLevel k w cinfo percentHealth).power j
      = Creature.SelectLevel_value k w cinfo
          (Creature.SelectLevel_health_mana w cinfo (Creature.SelectLevel_level w cinfo)).2
          j) := by
  have hf := fun c0 => SelectLevel_power_foldl k w cinfo
    (Creature.SelectLevel_health_mana w cinfo (Creature.SelectLevel_level w cinfo)).2
    Powers.all c0
  simp only [Powers_mem_all, if_true] at hf
  have hd := fun (rank : Nat) (c0 : StatFields) => SelectLevel_damage_frame k w cinfo rank c0
  have hh := fun (c0 : StatFields) (h : Nat) => SelectLevel_health_frame c0 h percentHealth
  simp only [StatFields.SelectLevel]
  refine ⟨?_, ?_, ?_, ?_, ?_⟩
  · rw [(hd _ _).1, (hf _).1, (hh _ _).1]; rfl
  · rw [(hd _ _).2.1, (hf _).2.1, (hh _ _).2.1]
  · rw [(hd _ _).2.2.1, (hf _).2.2.1, (hh _ _).2.2, (hd _ _).2.1, (hf _).2.1, (hh _ _).2.1]
  · intro j
    rw [(hd _ _).2.2.2.1, (hf _).2.2.2.2.1 j]
  · intro j
    rw [(hd _ _).2.2.2.2, (hf _).2.2.2.2.2 j]

theorem toUInt32_eq_of_floor (x : ℚ) (n : Nat) (h1 : (n : ℚ) ≤ x) (h2 : x < (n : ℚ) + 1)
    (h3 : n < 4294967296) : toUInt32 x = n := by
  have hf : ⌊x⌋ = (n : Int) := by
    rw [Int.floor_eq_iff]
    exact ⟨by exact_mod_cast h1, by exact_mod_cast h2⟩
  have h0 : (0 : ℚ) ≤ x := le_trans (by positivity) h1
  simp only [toUInt32, if_pos h0, hf]
  omega

theorem toUInt32_natCast (n : Nat) (h : n < 4294967296) : toUInt32 (n : ℚ) = n :=
  toUInt32_eq_of_floor _ n le_rfl (by linarith) h

theorem toUInt32_le_of_le (x : ℚ) (d : Nat) (h0 : 0 ≤ x) (h1 : x ≤ (d : ℚ))
    (hd : d < 4294967296) : toUInt32 x ≤ d := by
  have hf : ⌊x⌋ ≤ (d : Int) := by
    have := Int.floor_le_floor h1
    simpa using this
  have hf0 : 0 ≤ ⌊x⌋ := Int.floor_nonneg.mpr h0
  simp only [toUInt32, if_pos h0]
  omega

theorem sub32_eq_sub (a b : Nat) (hba : b ≤ a) (ha : a < 4294967296) : sub32 a b = a - b := by
  unfold sub32 u32
  rw [Nat.mod_eq_of_lt ha, Nat.mod_eq_of_lt (lt_of_le_of_lt hba ha)]
  omega

theorem SelectLevel_rellevel_range (a b : Nat) (h : a ≤ b) :
    0 ≤ f32 (f32 (a : ℚ) / f32 (b : ℚ)) ∧ f32 (f32 (a : ℚ) / f32 (b : ℚ)) ≤ 1 := by
  have ha : (0 : ℚ) ≤ f32 (a : ℚ) := f32_nonneg _ (by positivity)
  have hab : f32 (a : ℚ) ≤ f32 (b : ℚ) := f32_mono _ _ (by positivity) (by exact_mod_cast h)
  have hq0 : (0 : ℚ) ≤ f32 (a : ℚ) / f32 (b : ℚ) := div_nonneg ha (le_trans ha hab)
  have hq1 : f32 (a : ℚ) / f32 (b : ℚ) ≤ 1 := div_le_one_of_le₀ hab (le_trans ha hab)
  refine ⟨f32_nonneg _ hq0, ?_⟩
  have := f32_mono _ _ hq0 hq1
  rwa [f32_one] at this

theorem SelectLevel_interpolation_zero (lo d : Nat) (hlo : lo < 4294967296) :
    u32 (lo + toUInt32 (f32 (0 * f32 (d : ℚ)))) = lo := by
  rw [zero_mul, f32_zero]
  have : toUInt32 (0 : ℚ) = 0 := by
    have := toUInt32_natCast 0 (by norm_num)
    simpa using this
  rw [this]
  unfold u32
  exact Nat.mod_eq_of_lt hlo

theorem SelectLevel_interpolation (lo hi : Nat) (r : ℚ) (h0 : 0 ≤ r) (h1 : r ≤ 1)
    (hlh : lo ≤ hi) (hhi : hi < 4294967296) (hd : hi - lo ≤ 16777216) :
    lo ≤ u32 (lo + toUInt32 (f32 (r * f32 ((hi - lo : Nat) : ℚ)))) ∧
    u32 (lo + toUInt32 (f32 (r * f32 ((hi - lo : Nat) : ℚ)))) ≤ hi ∧
    (r = 1 → u32 (lo + toUInt32 (f32 (r * f32 ((hi - lo : Nat) : ℚ)))) = hi) := by
  rw [f32_natCast _ hd]
  have hd0 : (0 : ℚ) ≤ ((hi - lo : Nat) : ℚ) := by positivity
  have hx0 : 0 ≤ r * ((hi - lo : Nat) : ℚ) := mul_nonneg h0 hd0
  have hx1 : r * ((hi - lo : Nat) : ℚ) ≤ ((hi - lo : Nat) : ℚ) := by nlinarith
  have hf1 : f32 (r * ((hi - lo : Nat) : ℚ)) ≤ ((hi - lo : Nat) : ℚ) := by
    have := f32_mono _ _ hx0 hx1
    rwa [f32_natCast _ hd] at this
  have hm := toUInt32_le_of_le _ (hi - lo) (f32_nonneg _ hx0) hf1 (by omega)
  have hu : u32 (lo + toUInt32 (f32 (r * ((hi - lo : Nat) : ℚ))))
      = lo + toUInt32 (f32 (r * ((hi - lo : Nat) : ℚ))) := by
    unfold u32
    exact Nat.mod_eq_of_lt (by omega)
  rw [hu]
  refine ⟨by omega, by omega, ?_⟩
  intro hr
  subst hr
  have : toUInt32 (f32 ((1 : ℚ) * ((hi - lo : Nat) : ℚ))) = hi - lo := by
    rw [one_mul, f32_natCast _ hd]
    exact toUInt32_natCast _ (by omega)
  omega

theorem sub32_self_eq_zero (a : Nat) : sub32 a a = 0 := by
  unfold sub32 u32
  have h : a % 4294967296 < 4294967296 := Nat.mod_lt _ (by norm_num)
  have : a % 4294967296 + (4294967296 - a % 4294967296) = 4294967296 := by omega
  rw [this]

theorem LoadFromDB_init_respawn (k : Defines) (w : World) (c : Creature) (data : CreatureData) :
    (w.GetCreatureRespawnTime > w.time →
      (c.LoadFromDB_init k w data).m_deathState = DeathState.DEAD ∧
      (c.LoadFromDB_init k w data).health = 0 ∧
      (c.LoadFromDB_init k w data).m_respawnTime = w.GetCreatureRespawnTime ∧
      (c.LoadFromDB_init k w data).respawnTimeStore = c.respawnTimeStore) ∧
    (w.GetCreatureRespawnTime ≤ w.time → w.GetCreatureRespawnTime ≠ 0 →
      (c.LoadFromDB_init k w data).m_respawnTime = 0 ∧
      (c.LoadFromDB_init k w data).respawnTimeStore = 0 :: c.respawnTimeStore) ∧
    (w.GetCreatureRespawnTime = 0 →
      (c.LoadFromDB_init k w data).respawnTimeStore = c.respawnTimeStore) := by
  have key : ∀ (c2 : Creature) (hp mana : Nat),
      (((c2.SetHealth hp).SetPower Powers.POWER_MANA mana).AIM_Initialize w).2.m_deathState
        = c2.m_deathState ∧
      (((c2.SetHealth hp).SetPower Powers.POWER_MANA mana).AIM_Initialize w).2.health = hp ∧
      (((c2.SetHealth hp).SetPower Powers.POWER_MANA mana).AIM_Initialize w).2.m_respawnTime
        = c2.m_respawnTime ∧
      (((c2.SetHealth hp).SetPower Powers.POWER_MANA mana).AIM_Initialize w).2.respawnTimeStore
        = c2.respawnTimeStore := by
    intro c2 hp mana
    unfold Creature.AIM_Initialize
    split_ifs <;> exact ⟨rfl, rfl, rfl, rfl⟩
  have linked : ∀ c6 : Creature,
      (if w.IsSpawnedByLinkedMob = true then
          if ({ c6 with m_isSpawningLinked := true } : Creature).m_deathState = DeathState.ALIVE
              ∧ w.CanSpawn = false then
            ({ ({ c6 with m_isSpawningLinked := true } : Creature) with
              m_deathState := DeathState.DEAD } : Creature)
          else { c6 with m_isSpawningLinked := true }
        else c6).m_respawnTime = c6.m_respawnTime ∧
      (if w.IsSpawnedByLinkedMob = true then
          if ({ c6 with m_isSpawningLinked := true } : Creature).m_deathState = DeathState.ALIVE
              ∧ w.CanSpawn = false then
            ({ ({ c6 with m_isSpawningLinked := true } : Creature) with
              m_deathState := DeathState.DEAD } : Creature)
          else { c6 with m_isSpawningLinked := true }
        else c6).respawnTimeStore = c6.respawnTimeStore ∧
      (c6.m_deathState = DeathState.DEAD →
        (if w.IsSpawnedByLinkedMob = true then
          if ({ c6 with m_isSpawningLinked := true } : Creature).m_deathState = DeathState.ALIVE
              ∧ w.CanSpawn = false then
            ({ ({ c6 with m_isSpawningLinked := true } : Creature) with
              m_deathState := DeathState.DEAD } : Creature)
          else { c6 with m_isSpawningLinked := true }
        else c6).m_deathState = DeathState.DEAD) := by
    intro c6
    split_ifs <;> first | exact ⟨rfl, rfl, fun _ => rfl⟩ | exact ⟨rfl, rfl, fun h => h⟩
  have shape : ∀ d : Creature, d = c.LoadFromDB_init k w data →
      ∃ (c6 c7 : Creature) (hp mana : Nat),
        d = (((c7.SetHealth (if c7.m_deathState = DeathState.ALIVE then hp else 0)).SetPower
          Powers.POWER_MANA mana).AIM_Initialize w).2 ∧
        c7.m_respawnTime = c6.m_respawnTime ∧ c7.respawnTimeStore = c6.respawnTimeStore ∧
        (c6.m_deathState = DeathState.DEAD → c7.m_deathState = DeathState.DEAD) ∧
        (w.GetCreatureRespawnTime > w.time →
          c6.m_deathState = DeathState.DEAD ∧ c6.m_respawnTime = w.GetCreatureRespawnTime
            ∧ c6.respawnTimeStore = c.respawnTimeStore) ∧
        (w.GetCreatureRespawnTime ≤ w.time → w.GetCreatureRespawnTime ≠ 0 →
          c6.m_respawnTime = 0 ∧ c6.respawnTimeStore = 0 :: c.respawnTimeStore) ∧
        (w.GetCreatureRespawnTime = 0 → c6.respawnTimeStore = c.respawnTimeStore) := by
    unfold Creature.LoadFromDB_init
    lift_lets
    extract_lets c1 c2 c3 c4 c5 c6 cur0 cur1 cur2 cL c7 c8 c9
    intro d hd
    obtain ⟨l1, l2, l3⟩ := linked c6
    refine ⟨c6, c7, cur2, data.curmana, hd, l1, l2, l3, ?_, ?_, ?_⟩
    · intro hT
      have e : c6 = { c5 with m_deathState := DeathState.DEAD } := if_pos hT
      rw [e]
      exact ⟨rfl, rfl, rfl⟩
    · intro hle hne
      have e : c6 = { c5 with m_respawnTime := 0, respawnTimeStore := 0 :: c5.respawnTimeStore } :=
        (if_neg (not_lt.mpr hle)).trans (if_pos hne)
      rw [e]
      exact ⟨rfl, rfl⟩
    · intro h0
      by_cases hT : w.GetCreatureRespawnTime > w.time
      · have e : c6 = { c5 with m_deathState := DeathState.DEAD } := if_pos hT
        rw [e]
      · have e : c6 = c5 := (if_neg hT).trans (if_neg (not_not.mpr h0))
        rw [e]
  obtain ⟨c6, c7, hp, mana, hd, l1, l2, l3, s1, s2, s3⟩ := shape _ rfl
  obtain ⟨k1, k2, k3, k4⟩ := key c7 (if c7.m_deathState = DeathState.ALIVE then hp else 0) mana
  rw [hd]
  refine ⟨fun hT => ?_, fun hle hne => ?_, fun h0 => ?_⟩
  · obtain ⟨t1, t2, t3⟩ := s1 hT
    refine ⟨k1.trans (l3 t1), ?_, k3.trans (l1.trans t2), k4.trans (l2.trans t3)⟩
    rw [k2, if_neg]
    rw [l3 t1]
    decide
  · obtain ⟨t1, t2⟩ := s2 hle hne
    exact ⟨k3.trans (l1.trans t1), k4.trans (l2.trans t2)⟩
  · exact k4.trans (l2.trans (s3 h0))

theorem RemoveCorpse_not_inWorld (k : Defines) (w : World) (c : Creature)
    (h : c.inWorld = false) : c.RemoveCorpse k w = c := by
  have hp : (if w.IsPartOfAPool ≠ 0 then
      { c with inWorld := c.inWorld && !w.UpdatePool_despawns } else c) = c := by
    split_ifs
    · obtain ⟨st, cf⟩ := c
      cases cf
      simp_all
    · rfl
  unfold Creature.RemoveCorpse
  dsimp only
  rw [hp, if_pos h]

theorem RemoveCorpse_aggroDelay (k : Defines) (w : World) (c : Creature) :
    (c.RemoveCorpse k w).m_aggroDelay = c.m_aggroDelay := by
  unfold Creature.RemoveCorpse
  dsimp only
  split_ifs <;> rfl

theorem Update_alive_aggroDelay (k : Defines) (w : World) (c : Creature) (update_diff : Nat) :
    (c.Update_alive k w update_diff).m_aggroDelay = c.m_aggroDelay := by
  have hs := fun c2 => SetDeathState_aggroDelay k w c2 DeathState.JUST_DIED
  have h1 : (Unit_Update k w c).m_aggroDelay = c.m_aggroDelay := by
    simp only [Unit_Update]
    split_ifs
    · exact hs _
    · rfl
  have h2 : ∀ c2 : Creature, (c2.Update_AI k w).m_aggroDelay = c2.m_aggroDelay := by
    intro c2
    simp only [Creature.Update_AI, AI_UpdateAI]
    split_ifs <;> first | rfl | exact hs _
  have h3 : ∀ c2 : Creature, (c2.RegenerateAll k w update_diff).m_aggroDelay
      = c2.m_aggroDelay := by
    intro c2
    simp only [Creature.RegenerateAll]
    split_ifs <;> rfl
  simp only [Creature.Update_alive]
  split_ifs
  · exact h1
  · exact (h2 _).trans h1
  · exact ((h3 _).trans (h2 _)).trans h1

theorem findVendorItemCount_some (m : List VendorItemCount) (item : Nat) :
    ∀ before found behind, findVendorItemCount m item = some (before, found, behind) →
      m = before ++ found :: behind ∧ found.itemId = item ∧
      ∀ x ∈ before, x.itemId ≠ item := by
  induction m with
  | nil => intro before found behind h; simp [findVendorItemCount] at h
  | cons e rest ih =>
    intro before found behind h
    unfold findVendorItemCount at h
    by_cases he : e.itemId = item
    · rw [if_pos he] at h
      simp only [Option.some.injEq, Prod.mk.injEq] at h
      obtain ⟨h1, h2, h3⟩ := h
      subst h1 h2 h3
      exact ⟨rfl, he, by simp⟩
    · rw [if_neg he] at h
      cases hr : findVendorItemCount rest item with
      | none => rw [hr] at h; simp at h
      | some t =>
        obtain ⟨b, f, r⟩ := t
        rw [hr] at h
        simp only [Option.some.injEq, Prod.mk.injEq] at h
        obtain ⟨h1, h2, h3⟩ := h
        subst h1 h2 h3
        obtain ⟨i1, i2, i3⟩ := ih b f r hr
        refine ⟨by rw [i1]; rfl, i2, ?_⟩
        intro x hx
        rcases List.mem_cons.mp hx with hx | hx
        · rw [hx]; exact he
        · exact i3 x hx

theorem findVendorItemCount_of_split (item : Nat) (found : VendorItemCount)
    (behind : List VendorItemCount) (hf : found.itemId = item) :
    ∀ before : List VendorItemCount, (∀ x ∈ before, x.itemId ≠ item) →
      findVendorItemCount (before ++ found :: behind) item = some (before, found, behind) := by
  intro before
  induction before with
  | nil => intro _; simp [findVendorItemCount, hf]
  | cons e rest ih =>
    intro h
    have he : e.itemId ≠ item := h e (List.mem_cons_self _ _)
    have hr := ih (fun x hx => h x (List.mem_cons_of_mem _ hx))
    show findVendorItemCount (e :: (rest ++ found :: behind)) item = _
    unfold findVendorItemCount
    rw [if_neg he, hr]

theorem findVendorItemCount_none (m : List VendorItemCount) (item : Nat) :
    findVendorItemCount m item = none → ∀ x ∈ m, x.itemId ≠ item := by
  induction m with
  | nil => intro _ x hx; simp at hx
  | cons e rest ih =>
    intro h
    unfold findVendorItemCount at h
    by_cases he : e.itemId = item
    · rw [if_pos he] at h; simp at h
    · rw [if_neg he] at h
      cases hr : findVendorItemCount rest item with
      | none =>
        intro x hx
        rcases List.mem_cons.mp hx with hx | hx
        · rw [hx]; exact he
        · exact ih hr x hx
      | some t => obtain ⟨b, f, r⟩ := t; rw [hr] at h; simp at h

theorem u32_add_asUInt32_mul (a b : Nat) (q : Int) (hq : 0 ≤ q) :
    u32 (a + asUInt32 q * b) = u32 (a + q.toNat * b) := by
  obtain ⟨n, rfl⟩ := Int.eq_ofNat_of_zero_le hq
  have h : asUInt32 (n : Int) = n % 4294967296 := by
    unfold asUInt32
    have : ((n : Int) % 4294967296) = ((n % 4294967296 : Nat) : Int) := by
      push_cast; rfl
    rw [this, Int.toNat_ofNat]
  rw [h, Int.toNat_ofNat]
  unfold u32
  rw [Nat.add_mod, Nat.mul_mod, Nat.mod_mod, ← Nat.mul_mod, ← Nat.add_mod]

theorem vendorRestockDiff_mul (ptime : Int) (vCount : VendorItemCount) (vItem : VendorItem)
    (b : Nat) (hdue : vCount.lastIncrementTime + (vItem.incrtime : Int) ≤ ptime) :
    u32 (vCount.count + vendorRestockDiff ptime vCount vItem * b)
      = u32 (vCount.count
          + ((ptime - vCount.lastIncrementTime) / (vItem.incrtime : Int)).toNat * b) := by
  have h0 : (0 : Int) ≤ ptime - vCount.lastIncrementTime := by
    have : (0 : Int) ≤ (vItem.incrtime : Int) := Int.ofNat_nonneg _
    omega
  have hi : (0 : Int) ≤ (vItem.incrtime : Int) := Int.ofNat_nonneg _
  unfold vendorRestockDiff
  rw [Int.tdiv_eq_ediv h0 hi]
  exact u32_add_asUInt32_mul _ _ _ (Int.ediv_nonneg h0 hi)

theorem LoadFromDB_init_delays (k : Defines) (w : World) (c : Creature) (data : CreatureData) :
    (c.LoadFromDB_init k w data).m_respawnDelay = data.spawntimesecs ∧
    (c.LoadFromDB_init k w data).m_corpseDelay
      = min (u32 (data.spawntimesecs * 9) / 10) c.m_corpseDelay := by
  have key : ∀ (c2 : Creature) (hp mana : Nat),
      (((c2.SetHealth hp).SetPower Powers.POWER_MANA mana).AIM_Initialize w).2.m_respawnDelay
        = c2.m_respawnDelay ∧
      (((c2.SetHealth hp).SetPower Powers.POWER_MANA mana).AIM_Initialize w).2.m_corpseDelay
        = c2.m_corpseDelay := by
    intro c2 hp mana
    unfold Creature.AIM_Initialize
    split_ifs <;> exact ⟨rfl, rfl⟩
  unfold Creature.LoadFromDB_init
  dsimp only
  simp only [key]
  split_ifs <;> exact ⟨rfl, rfl⟩

theorem LoadFromDB_eq_init (k : Defines) (w : World) (c : Creature)
    (data : CreatureData) (cinfo : CreatureInfo)
    (hdata : w.GetCreatureData = some data)
    (hinfo : w.GetCreatureTemplate data.id = some cinfo)
    (hmap : w.Map_GetCreature = false)
    (hcreate : (c.Create k w cinfo).1 = true) :
    c.LoadFromDB k w = (true, (c.Create k w cinfo).2.LoadFromDB_init k w data) := by
  unfold Creature.LoadFromDB
  simp only [hdata, hinfo, hmap, Bool.false_eq_true, if_false]
  split
  next c1 heq => rw [heq] at hcreate; exact absurd hcreate Bool.false_ne_true
  next c1 heq => rw [heq]

theorem Create_corpseDelay (k : Defines) (w : World) (c : Creature) (cinfo : CreatureInfo)
    (hcreate : (c.Create k w cinfo).1 = true) :
    (c.Create k w cinfo).2.m_corpseDelay
      = (if (c.Create k w cinfo).2.m_creatureInfo.Rank = k.CREATURE_ELITE_RARE then
          w.CONFIG_UINT32_CORPSE_DECAY_RARE
        else if (c.Create k w cinfo).2.m_creatureInfo.Rank = k.CREATURE_ELITE_ELITE then
          w.CONFIG_UINT32_CORPSE_DECAY_ELITE
        else if (c.Create k w cinfo).2.m_creatureInfo.Rank = k.CREATURE_ELITE_RAREELITE then
          w.CONFIG_UINT32_CORPSE_DECAY_RAREELITE
        else if (c.Create k w cinfo).2.m_creatureInfo.Rank = k.CREATURE_ELITE_WORLDBOSS then
          w.CONFIG_UINT32_CORPSE_DECAY_WORLDBOSS
        else w.CONFIG_UINT32_CORPSE_DECAY_NORMAL) := by
  revert hcreate
  unfold Creature.Create
  split
  next c1 heq => intro h; exact absurd h Bool.false_ne_true
  next c1 heq =>
    by_cases hr : w.Relocate = true
    · simp only [hr, Bool.not_true, Bool.false_eq_true, if_false]
      intro _
      split_ifs <;> rfl
    · simp only [hr, Bool.not_false, if_true]
      intro h
      exact absurd h Bool.false_ne_true

theorem SameInputs_refl (c : StatFields) : c.SameInputs c :=
  ⟨rfl, rfl, rfl, rfl, rfl, rfl, rfl, fun _ _ _ => rfl⟩

theorem SameInputs_symm {c1 c2 : StatFields} (h : c1.SameInputs c2) : c2.SameInputs c1 :=
  ⟨h.level.symm, h.unitClass.symm, h.createHealth.symm, h.createMana.symm, h.createStats.symm,
   h.currentLevel.symm, h.currentDifficulty.symm, fun m t hmt => (h.modifiers m t hmt).symm⟩

theorem SameInputs_trans {c1 c2 c3 : StatFields} (h : c1.SameInputs c2) (h2 : c2.SameInputs c3) :
    c1.SameInputs c3 :=
  ⟨h.level.trans h2.level, h.unitClass.trans h2.unitClass,
   h.createHealth.trans h2.createHealth, h.createMana.trans h2.createMana,
   h.createStats.trans h2.createStats, h.currentLevel.trans h2.currentLevel,
   h.currentDifficulty.trans h2.currentDifficulty,
   fun m t hmt => (h.modifiers m t hmt).trans (h2.modifiers m t hmt)⟩

theorem SameInputs_congr {c1 c2 d1 d2 : StatFields} (h1 : d1.SameInputs c1)
    (h2 : d2.SameInputs c2) (h : c1.SameInputs c2) : d1.SameInputs d2 :=
  SameInputs_trans h1 (SameInputs_trans h (SameInputs_symm h2))

theorem UpdateDamagePhysical_frame (k : Defines) (w : World) (c : StatFields)
    (attType : WeaponAttackType) :
    (c.UpdateDamagePhysical k w attType).SameInputs c ∧
    (c.UpdateDamagePhysical k w attType).m_auraModifiersGroup = c.m_auraModifiersGroup ∧
    (c.UpdateDamagePhysical k w attType).stat = c.stat ∧
    (c.UpdateDamagePhysical k w attType).resistance = c.resistance ∧
    (c.UpdateDamagePhysical k w attType).maxHealth = c.maxHealth ∧
    (c.UpdateDamagePhysical k w attType).UNIT_FIELD_ATTACK_POWER = c.UNIT_FIELD_ATTACK_POWER ∧
    (c.UpdateDamagePhysical k w attType).UNIT_FIELD_ATTACK_POWER_MODS
      = c.UNIT_FIELD_ATTACK_POWER_MODS ∧
    (c.UpdateDamagePhysical k w attType).UNIT_FIELD_ATTACK_POWER_MULTIPLIER
      = c.UNIT_FIELD_ATTACK_POWER_MULTIPLIER ∧
    (c.UpdateDamagePhysical k w attType).UNIT_FIELD_RANGED_ATTACK_POWER
      = c.UNIT_FIELD_RANGED_ATTACK_POWER ∧
    (c.UpdateDamagePhysical k w attType).UNIT_FIELD_RANGED_ATTACK_POWER_MODS
      = c.UNIT_FIELD_RANGED_ATTACK_POWER_MODS ∧
    (c.UpdateDamagePhysical k w attType).UNIT_FIELD_RANGED_ATTACK_POWER_MULTIPLIER
      = c.UNIT_FIELD_RANGED_ATTACK_POWER_MULTIPLIER := by
  cases attType <;>
    exact ⟨⟨rfl, rfl, rfl, rfl, rfl, rfl, rfl, fun _ _ _ => rfl⟩, rfl, rfl, rfl, rfl, rfl, rfl,
      rfl, rfl, rfl, rfl⟩
theorem SetModifierValue_get (c : StatFields) (m m2 : UnitMods) (t t2 : UnitModifierType)
    (v : ℚ) :
    (c.SetModifierValue m t v).m_auraModifiersGroup m2 t2
      = if m2 = m ∧ t2 = t then v else c.m_auraModifiersGroup m2 t2 := by
  simp only [StatFields.SetModifierValue]
  by_cases hm : m2 = m
  · subst hm
    by_cases ht : t2 = t
    · subst ht
      simp
    · simp [ht]
  · simp [hm]

theorem SetModifierValue_SameInputs (c : StatFields) (m : UnitMods) (v : ℚ)
    (hm : m = UnitMods.UNIT_MOD_ATTACK_POWER ∨ m = UnitMods.UNIT_MOD_ATTACK_POWER_RANGED) :
    (c.SetModifierValue m UnitModifierType.BASE_VALUE v).SameInputs c := by
  refine ⟨rfl, rfl, rfl, rfl, rfl, rfl, rfl, fun m2 t2 hmt => ?_⟩
  rw [SetModifierValue_get, if_neg]
  rintro ⟨h1, h2⟩
  exact hmt ⟨h2, by rw [h1]; exact hm⟩

theorem CalculateMinMaxDamage_congr (k : Defines) (w : World) (c1 c2 : StatFields)
    (hl : c1.level = c2.level) (hh : c1.maxHealth = c2.maxHealth) :
    c1.CalculateMinMaxDamage k w = c2.CalculateMinMaxDamage k w := by
  simp only [StatFields.CalculateMinMaxDamage, hl, hh]

theorem GetStatOfInt_congr (c1 c2 : StatFields) (hs : c1.stat = c2.stat) (n : Int) :
    c1.GetStatOfInt n = c2.GetStatOfInt n := by
  simp only [StatFields.GetStatOfInt, StatFields.GetStat, hs]

theorem UpdateAttackPowerAndDamage_val2_congr (k : Defines) (w : World) (c1 c2 : StatFields)
    (ranged : Bool) (hl : c1.level = c2.level) (hc : c1.unitClass = c2.unitClass)
    (hs : c1.stat = c2.stat) :
    c1.UpdateAttackPowerAndDamage_val2 k w ranged
      = c2.UpdateAttackPowerAndDamage_val2 k w ranged := by
  simp only [StatFields.UpdateAttackPowerAndDamage_val2, StatFields.GetStat, hl, hc, hs]

theorem UpdateAttackPowerAndDamage_attPowerMod_congr (k : Defines) (w : World)
    (c1 c2 : StatFields) (ranged : Bool) (hc : c1.unitClass = c2.unitClass)
    (hs : c1.stat = c2.stat)
    (ha : c1.resistance SpellSchools.SPELL_SCHOOL_NORMAL
      = c2.resistance SpellSchools.SPELL_SCHOOL_NORMAL)
    (hm : ∀ m, c1.m_auraModifiersGroup m UnitModifierType.TOTAL_VALUE
      = c2.m_auraModifiersGroup m UnitModifierType.TOTAL_VALUE) :
    c1.UpdateAttackPowerAndDamage_attPowerMod k w ranged
      = c2.UpdateAttackPowerAndDamage_attPowerMod k w ranged := by
  have hg : ∀ n, c1.GetStatOfInt n = c2.GetStatOfInt n := GetStatOfInt_congr c1 c2 hs
  simp only [StatFields.UpdateAttackPowerAndDamage_attPowerMod, StatFields.GetModifierValue,
    StatFields.GetArmor, hc, hg, ha, hm]
theorem UpdateAttackPowerAndDamage_ranged (k : Defines) (w : World) (c : StatFields) :
    (c.UpdateAttackPowerAndDamage k w true).SameInputs c ∧
    (c.UpdateAttackPowerAndDamage k w true).stat = c.stat ∧
    (c.UpdateAttackPowerAndDamage k w true).resistance = c.resistance ∧
    (c.UpdateAttackPowerAndDamage k w true).maxHealth = c.maxHealth ∧
    (c.UpdateAttackPowerAndDamage k w true).UNIT_FIELD_ATTACK_POWER
      = c.UNIT_FIELD_ATTACK_POWER ∧
    (c.UpdateAttackPowerAndDamage k w true).UNIT_FIELD_ATTACK_POWER_MODS
      = c.UNIT_FIELD_ATTACK_POWER_MODS ∧
    (c.UpdateAttackPowerAndDamage k w true).UNIT_FIELD_ATTACK_POWER_MULTIPLIER
      = c.UNIT_FIELD_ATTACK_POWER_MULTIPLIER ∧
    (c.UpdateAttackPowerAndDamage k w true).UNIT_FIELD_MINDAMAGE = c.UNIT_FIELD_MINDAMAGE ∧
    (c.UpdateAttackPowerAndDamage k w true).UNIT_FIELD_MAXDAMAGE = c.UNIT_FIELD_MAXDAMAGE ∧
    (c.UpdateAttackPowerAndDamage k w true).UNIT_FIELD_MINOFFHANDDAMAGE
      = c.UNIT_FIELD_MINOFFHANDDAMAGE ∧
    (c.UpdateAttackPowerAndDamage k w true).UNIT_FIELD_MAXOFFHANDDAMAGE
      = c.UNIT_FIELD_MAXOFFHANDDAMAGE ∧
    (c.UpdateAttackPowerAndDamage k w true).UNIT_FIELD_RANGED_ATTACK_POWER
      = toUInt32 (c.UpdateAttackPowerAndDamage_val2 k w true
          * c.m_auraModifiersGroup UnitMods.UNIT_MOD_ATTACK_POWER_RANGED
              UnitModifierType.BASE_PCT) ∧
    (c.UpdateAttackPowerAndDamage k w true).UNIT_FIELD_RANGED_ATTACK_POWER_MODS
      = toUInt32 ((c.SetModifierValue UnitMods.UNIT_MOD_ATTACK_POWER_RANGED
          UnitModifierType.BASE_VALUE
          (c.UpdateAttackPowerAndDamage_val2 k w true)).UpdateAttackPowerAndDamage_attPowerMod
            k w true) ∧
    (c.UpdateAttackPowerAndDamage k w true).UNIT_FIELD_RANGED_ATTACK_POWER_MULTIPLIER
      = c.m_auraModifiersGroup UnitMods.UNIT_MOD_ATTACK_POWER_RANGED
          UnitModifierType.TOTAL_PCT - 1 ∧
    (c.UpdateAttackPowerAndDamage k w true).UNIT_FIELD_MINRANGEDDAMAGE
      = (c.CalculateMinMaxDamage k w).1 ∧
    (c.UpdateAttackPowerAndDamage k w true).UNIT_FIELD_MAXRANGEDDAMAGE
      = (c.CalculateMinMaxDamage k w).2 := by
  have hS := SetModifierValue_SameInputs c UnitMods.UNIT_MOD_ATTACK_POWER_RANGED
    (c.UpdateAttackPowerAndDamage_val2 k w true) (Or.inr rfl)
  have hg := SetModifierValue_get c UnitMods.UNIT_MOD_ATTACK_POWER_RANGED
    UnitMods.UNIT_MOD_ATTACK_POWER_RANGED UnitModifierType.BASE_VALUE
  refine ⟨⟨rfl, rfl, rfl, rfl, rfl, rfl, rfl, hS.modifiers⟩, rfl, rfl, rfl, rfl, rfl, rfl, rfl,
    rfl, rfl, rfl, ?_, rfl, ?_, rfl, rfl⟩
  · show toUInt32 (_ * _) = _
    simp only [StatFields.GetModifierValue, hg, and_self, if_true, reduceCtorEq, and_false,
      if_false]
  · show _ - 1 = _
    simp only [StatFields.GetModifierValue, hg, reduceCtorEq, and_false, if_false]
theorem UpdateAttackPowerAndDamage_melee (k : Defines) (w : World) (c : StatFields) :
    (c.UpdateAttackPowerAndDamage k w false).SameInputs c ∧
    (c.UpdateAttackPowerAndDamage k w false).stat = c.stat ∧
    (c.UpdateAttackPowerAndDamage k w false).resistance = c.resistance ∧
    (c.UpdateAttackPowerAndDamage k w false).maxHealth = c.maxHealth ∧
    (c.UpdateAttackPowerAndDamage k w false).UNIT_FIELD_RANGED_ATTACK_POWER
      = c.UNIT_FIELD_RANGED_ATTACK_POWER ∧
    (c.UpdateAttackPowerAndDamage k w false).UNIT_FIELD_RANGED_ATTACK_POWER_MODS
      = c.UNIT_FIELD_RANGED_ATTACK_POWER_MODS ∧
    (c.UpdateAttackPowerAndDamage k w false).UNIT_FIELD_RANGED_ATTACK_POWER_MULTIPLIER
      = c.UNIT_FIELD_RANGED_ATTACK_POWER_MULTIPLIER ∧
    (c.UpdateAttackPowerAndDamage k w false).UNIT_FIELD_MINRANGEDDAMAGE
      = c.UNIT_FIELD_MINRANGEDDAMAGE ∧
    (c.UpdateAttackPowerAndDamage k w false).UNIT_FIELD_MAXRANGEDDAMAGE
      = c.UNIT_FIELD_MAXRANGEDDAMAGE ∧
    (c.UpdateAttackPowerAndDamage k w false).UNIT_FIELD_ATTACK_POWER
      = toUInt32 (c.UpdateAttackPowerAndDamage_val2 k w false
          * c.m_auraModifiersGroup UnitMods.UNIT_MOD_ATTACK_POWER UnitModifierType.BASE_PCT) ∧
    (c.UpdateAttackPowerAndDamage k w false).UNIT_FIELD_ATTACK_POWER_MODS
      = toUInt32 ((c.SetModifierValue UnitMods.UNIT_MOD_ATTACK_POWER
          UnitModifierType.BASE_VALUE
          (c.UpdateAttackPowerAndDamage_val2 k w false)).UpdateAttackPowerAndDamage_attPowerMod
            k w false) ∧
    (c.UpdateAttackPowerAndDamage k w false).UNIT_FIELD_ATTACK_POWER_MULTIPLIER
      = c.m_auraModifiersGroup UnitMods.UNIT_MOD_ATTACK_POWER UnitModifierType.TOTAL_PCT - 1 ∧
    (c.UpdateAttackPowerAndDamage k w false).UNIT_FIELD_MINDAMAGE
      = (c.CalculateMinMaxDamage k w).1 ∧
    (c.UpdateAttackPowerAndDamage k w false).UNIT_FIELD_MAXDAMAGE
      = (c.CalculateMinMaxDamage k w).2 ∧
    (c.UpdateAttackPowerAndDamage k w false).UNIT_FIELD_MINOFFHANDDAMAGE
      = (if w.haveOffhandWeapon then (c.CalculateMinMaxDamage k w).1
          else c.UNIT_FIELD_MINOFFHANDDAMAGE) ∧
    (c.UpdateAttackPowerAndDamage k w false).UNIT_FIELD_MAXOFFHANDDAMAGE
      = (if w.haveOffhandWeapon then (c.CalculateMinMaxDamage k w).2
          else c.UNIT_FIELD_MAXOFFHANDDAMAGE) := by
  have hS := SetModifierValue_SameInputs c UnitMods.UNIT_MOD_ATTACK_POWER
    (c.UpdateAttackPowerAndDamage_val2 k w false) (Or.inl rfl)
  have hg := SetModifierValue_get c UnitMods.UNIT_MOD_ATTACK_POWER
    UnitMods.UNIT_MOD_ATTACK_POWER UnitModifierType.BASE_VALUE
  unfold StatFields.UpdateAttackPowerAndDamage
  dsimp only
  cases w.haveOffhandWeapon
  · simp only [Bool.false_eq_true, if_false]
    refine ⟨⟨rfl, rfl, rfl, rfl, rfl, rfl, rfl, hS.modifiers⟩, rfl, rfl, rfl, rfl, rfl, rfl, rfl,
      rfl, ?_, rfl, ?_, rfl, rfl, rfl, rfl⟩
    · show toUInt32 (_ * _) = _
      simp only [StatFields.GetModifierValue, hg, and_self, if_true, reduceCtorEq, and_false,
        if_false]
    · show _ - 1 = _
      simp only [StatFields.GetModifierValue, hg, reduceCtorEq, and_false, if_false]
  · simp only [if_true]
    refine ⟨⟨rfl, rfl, rfl, rfl, rfl, rfl, rfl, hS.modifiers⟩, rfl, rfl, rfl, rfl, rfl, rfl, rfl,
      rfl, ?_, rfl, ?_, rfl, rfl, rfl, rfl⟩
    · show toUInt32 (_ * _) = _
      simp only [StatFields.GetModifierValue, hg, and_self, if_true, reduceCtorEq, and_false,
        if_false]
    · show _ - 1 = _
      simp only [StatFields.GetModifierValue, hg, reduceCtorEq, and_false, if_false]
theorem UpdateArmor_value_congr (k : Defines) (w : World) (c1 c2 : StatFields)
    (h : c1.SameInputs c2) (hs : c1.stat = c2.stat) :
    c1.UpdateArmor_value k w = c2.UpdateArmor_value k w := by
  have hg : ∀ n, c1.GetStatOfInt n = c2.GetStatOfInt n := GetStatOfInt_congr c1 c2 hs
  have hm : ∀ t, c1.m_auraModifiersGroup UnitMods.UNIT_MOD_ARMOR t
      = c2.m_auraModifiersGroup UnitMods.UNIT_MOD_ARMOR t :=
    fun t => h.modifiers _ t (by simp)
  simp only [StatFields.UpdateArmor_value, StatFields.GetModifierValue, StatFields.GetStat,
    hg, hm, hs]

theorem UpdateArmor_spec (k : Defines) (w : World) (c : StatFields) :
    (c.UpdateArmor k w).SameInputs c ∧
    (c.UpdateArmor k w).stat = c.stat ∧
    (c.UpdateArmor k w).maxHealth = c.maxHealth ∧
    (c.UpdateArmor k w).UNIT_FIELD_RANGED_ATTACK_POWER = c.UNIT_FIELD_RANGED_ATTACK_POWER ∧
    (c.UpdateArmor k w).UNIT_FIELD_RANGED_ATTACK_POWER_MODS
      = c.UNIT_FIELD_RANGED_ATTACK_POWER_MODS ∧
    (c.UpdateArmor k w).UNIT_FIELD_RANGED_ATTACK_POWER_MULTIPLIER
      = c.UNIT_FIELD_RANGED_ATTACK_POWER_MULTIPLIER ∧
    (c.UpdateArmor k w).UNIT_FIELD_MINRANGEDDAMAGE = c.UNIT_FIELD_MINRANGEDDAMAGE ∧
    (c.UpdateArmor k w).UNIT_FIELD_MAXRANGEDDAMAGE = c.UNIT_FIELD_MAXRANGEDDAMAGE ∧
    (c.UpdateArmor k w).resistance
      = Function.update c.resistance SpellSchools.SPELL_SCHOOL_NORMAL
          (toInt32 (c.UpdateArmor_value k w)) ∧
    (c.UpdateArmor k w).UNIT_FIELD_MINDAMAGE = (c.CalculateMinMaxDamage k w).1 ∧
    (c.UpdateArmor k w).UNIT_FIELD_MAXDAMAGE = (c.CalculateMinMaxDamage k w).2 := by
  have h := UpdateAttackPowerAndDamage_melee k w (c.SetArmor (toInt32 (c.UpdateArmor_value k w)))
  obtain ⟨h1, h2, h3, h4, h5, h6, h7, h8, h9, _, _, _, h13, h14, _, _⟩ := h
  exact ⟨SameInputs_trans h1 ⟨rfl, rfl, rfl, rfl, rfl, rfl, rfl, fun _ _ _ => rfl⟩,
    h2, h4, h5, h6, h7, h8, h9, h3, h13, h14⟩

theorem UpdateArmor_congr (k : Defines) (w : World) (c1 c2 : StatFields)
    (h : c1.SameInputs c2) (hs : c1.stat = c2.stat) :
    (c1.UpdateArmor k w).resistance SpellSchools.SPELL_SCHOOL_NORMAL
      = (c2.UpdateArmor k w).resistance SpellSchools.SPELL_SCHOOL_NORMAL ∧
    (c1.UpdateArmor k w).UNIT_FIELD_ATTACK_POWER
      = (c2.UpdateArmor k w).UNIT_FIELD_ATTACK_POWER ∧
    (c1.UpdateArmor k w).UNIT_FIELD_ATTACK_POWER_MODS
      = (c2.UpdateArmor k w).UNIT_FIELD_ATTACK_POWER_MODS ∧
    (c1.UpdateArmor k w).UNIT_FIELD_ATTACK_POWER_MULTIPLIER
      = (c2.UpdateArmor k w).UNIT_FIELD_ATTACK_POWER_MULTIPLIER := by
  have hv := UpdateArmor_value_congr k w c1 c2 h hs
  have e1 := UpdateAttackPowerAndDamage_melee k w
    (c1.SetArmor (toInt32 (c1.UpdateArmor_value k w)))
  have e2 := UpdateAttackPowerAndDamage_melee k w
    (c2.SetArmor (toInt32 (c2.UpdateArmor_value k w)))
  have hval2 := UpdateAttackPowerAndDamage_val2_congr k w
    (c1.SetArmor (toInt32 (c1.UpdateArmor_value k w)))
    (c2.SetArmor (toInt32 (c2.UpdateArmor_value k w))) false h.level h.unitClass hs
  have hr1 := (UpdateArmor_spec k w c1).2.2.2.2.2.2.2.2.1
  have hr2 := (UpdateArmor_spec k w c2).2.2.2.2.2.2.2.2.1
  refine ⟨?_, ?_, ?_, ?_⟩
  · rw [hr1, hr2, hv]
    simp only [Function.update_same]
  · show (StatFields.UpdateAttackPowerAndDamage k w _ false).UNIT_FIELD_ATTACK_POWER
      = (StatFields.UpdateAttackPowerAndDamage k w _ false).UNIT_FIELD_ATTACK_POWER
    rw [e1.2.2.2.2.2.2.2.2.2.1, e2.2.2.2.2.2.2.2.2.2.1, hval2]
    congr 2
    exact h.modifiers _ _ (by simp)
  · have hmod : ((c1.SetArmor (toInt32 (c1.UpdateArmor_value k w))).SetModifierValue
          UnitMods.UNIT_MOD_ATTACK_POWER UnitModifierType.BASE_VALUE
          (StatFields.UpdateAttackPowerAndDamage_val2 k w
            (c2.SetArmor (toInt32 (c2.UpdateArmor_value k w)))
            false)).UpdateAttackPowerAndDamage_attPowerMod k w false
        = ((c2.SetArmor (toInt32 (c2.UpdateArmor_value k w))).SetModifierValue
          UnitMods.UNIT_MOD_ATTACK_POWER UnitModifierType.BASE_VALUE
          (StatFields.UpdateAttackPowerAndDamage_val2 k w
            (c2.SetArmor (toInt32 (c2.UpdateArmor_value k w)))
            false)).UpdateAttackPowerAndDamage_attPowerMod k w false := by
      apply UpdateAttackPowerAndDamage_attPowerMod_congr
      · exact h.unitClass
      · exact hs
      · show Function.update c1.resistance SpellSchools.SPELL_SCHOOL_NORMAL
            (toInt32 (c1.UpdateArmor_value k w)) SpellSchools.SPELL_SCHOOL_NORMAL
          = Function.update c2.resistance SpellSchools.SPELL_SCHOOL_NORMAL
            (toInt32 (c2.UpdateArmor_value k w)) SpellSchools.SPELL_SCHOOL_NORMAL
        rw [Function.update_same, Function.update_same, hv]
      · intro m
        rw [SetModifierValue_get, SetModifierValue_get]
        simp only [reduceCtorEq, and_false, if_false]
        exact h.modifiers _ _ (by simp)
    show (StatFields.UpdateAttackPowerAndDamage k w _ false).UNIT_FIELD_ATTACK_POWER_MODS
      = (StatFields.UpdateAttackPowerAndDamage k w _ false).UNIT_FIELD_ATTACK_POWER_MODS
    rw [e1.2.2.2.2.2.2.2.2.2.2.1, e2.2.2.2.2.2.2.2.2.2.2.1, hval2, hmod]
  · show (StatFields.UpdateAttackPowerAndDamage k w _ false).UNIT_FIELD_ATTACK_POWER_MULTIPLIER
      = (StatFields.UpdateAttackPowerAndDamage k w _ false).UNIT_FIELD_ATTACK_POWER_MULTIPLIER
    rw [e1.2.2.2.2.2.2.2.2.2.2.2.1, e2.2.2.2.2.2.2.2.2.2.2.2.1]
    congr 1
    exact h.modifiers _ _ (by simp)
theorem GetTotalStatValue_congr (c1 c2 : StatFields) (h : c1.SameInputs c2) (s : Stats) :
    c1.GetTotalStatValue s = c2.GetTotalStatValue s := by
  have hm : ∀ t, c1.m_auraModifiersGroup (UnitMods.UNIT_MOD_STAT s) t
      = c2.m_auraModifiersGroup (UnitMods.UNIT_MOD_STAT s) t :=
    fun t => h.modifiers _ t (by simp)
  simp only [StatFields.GetTotalStatValue, StatFields.GetModifierValue, hm, h.createStats]

theorem UpdateAllStats_stats_fold (l : List Stats) :
    ∀ c : StatFields,
    (l.foldl (fun c i => c.SetStat i (toInt32 (c.GetTotalStatValue i))) c).SameInputs c ∧
    (l.foldl (fun c i => c.SetStat i (toInt32 (c.GetTotalStatValue i))) c).maxHealth
      = c.maxHealth ∧
    ∀ s, (l.foldl (fun c i => c.SetStat i (toInt32 (c.GetTotalStatValue i))) c).stat s
      = if s ∈ l then toInt32 (c.GetTotalStatValue s) else c.stat s := by
  induction l with
  | nil => intro c; exact ⟨SameInputs_refl c, rfl, fun s => by simp⟩
  | cons i rest ih =>
    intro c
    obtain ⟨a1, a2, a3⟩ := ih (c.SetStat i (toInt32 (c.GetTotalStatValue i)))
    have b1 : (c.SetStat i (toInt32 (c.GetTotalStatValue i))).SameInputs c :=
      ⟨rfl, rfl, rfl, rfl, rfl, rfl, rfl, fun _ _ _ => rfl⟩
    refine ⟨SameInputs_trans a1 b1, a2, fun s => ?_⟩
    have hv : (c.SetStat i (toInt32 (c.GetTotalStatValue i))).GetTotalStatValue s
        = c.GetTotalStatValue s := GetTotalStatValue_congr _ _ b1 s
    have hst : (c.SetStat i (toInt32 (c.GetTotalStatValue i))).stat s
        = if s = i then toInt32 (c.GetTotalStatValue i) else c.stat s := by
      simp only [StatFields.SetStat, Function.update_apply]
    show (List.foldl _ (c.SetStat i (toInt32 (c.GetTotalStatValue i))) rest).stat s = _
    rw [a3 s, hv, hst]
    by_cases h1 : s ∈ rest
    · simp [h1]
    · by_cases h2 : s = i
      · subst h2; simp [h1]
      · simp [h1, h2]

theorem UpdateAllStats_stats_spec (c : StatFields) :
    (Stats.all.foldl (fun c i => c.SetStat i (toInt32 (c.GetTotalStatValue i))) c).SameInputs c ∧
    (Stats.all.foldl (fun c i => c.SetStat i (toInt32 (c.GetTotalStatValue i))) c).maxHealth
      = c.maxHealth ∧
    ∀ s, (Stats.all.foldl (fun c i => c.SetStat i (toInt32 (c.GetTotalStatValue i))) c).stat s
      = toInt32 (c.GetTotalStatValue s) := by
  obtain ⟨a1, a2, a3⟩ := UpdateAllStats_stats_fold Stats.all c
  refine ⟨a1, a2, fun s => ?_⟩
  rw [a3 s, if_pos]
  cases s <;> simp [Stats.all]

theorem UpdateMaxHealth_spec (w : World) (c : StatFields) :
    (c.UpdateMaxHealth w).SameInputs c ∧
    (c.UpdateMaxHealth w).stat = c.stat ∧
    (c.UpdateMaxHealth w).resistance = c.resistance ∧
    (c.UpdateMaxHealth w).UNIT_FIELD_RANGED_ATTACK_POWER = c.UNIT_FIELD_RANGED_ATTACK_POWER ∧
    (c.UpdateMaxHealth w).UNIT_FIELD_RANGED_ATTACK_POWER_MODS
      = c.UNIT_FIELD_RANGED_ATTACK_POWER_MODS ∧
    (c.UpdateMaxHealth w).UNIT_FIELD_RANGED_ATTACK_POWER_MULTIPLIER
      = c.UNIT_FIELD_RANGED_ATTACK_POWER_MULTIPLIER ∧
    (c.UpdateMaxHealth w).UNIT_FIELD_MINRANGEDDAMAGE = c.UNIT_FIELD_MINRANGEDDAMAGE ∧
    (c.UpdateMaxHealth w).UNIT_FIELD_MAXRANGEDDAMAGE = c.UNIT_FIELD_MAXRANGEDDAMAGE ∧
    (c.UpdateMaxHealth w).maxHealth
      = toUInt32 (f32 (f32 (toUInt32 (f32 (c.createHealth : ℚ)) : ℚ)
          * f32 (MonsterHealthTable w.GetCurrentDifficulty))) :=
  ⟨⟨rfl, rfl, rfl, rfl, rfl, rfl, rfl, fun _ _ _ => rfl⟩, rfl, rfl, rfl, rfl, rfl, rfl, rfl, rfl⟩

/-- The fields that the power loop and the mana regeneration step of `UpdateAllStats`
leave as they are. -/
theorem UpdateMaxPower_frame (w : World) (c : StatFields) (power : Powers) :
    (c.UpdateMaxPower w power).SameInputs c ∧
    (c.UpdateMaxPower w power).stat = c.stat ∧
    (c.UpdateMaxPower w power).resistance = c.resistance ∧
    (c.UpdateMaxPower w power).maxHealth = c.maxHealth ∧
    (c.UpdateMaxPower w power).UNIT_FIELD_RANGED_ATTACK_POWER
      = c.UNIT_FIELD_RANGED_ATTACK_POWER ∧
    (c.UpdateMaxPower w power).UNIT_FIELD_RANGED_ATTACK_POWER_MODS
      = c.UNIT_FIELD_RANGED_ATTACK_POWER_MODS ∧
    (c.UpdateMaxPower w power).UNIT_FIELD_RANGED_ATTACK_POWER_MULTIPLIER
      = c.UNIT_FIELD_RANGED_ATTACK_POWER_MULTIPLIER ∧
    (c.UpdateMaxPower w power).UNIT_FIELD_MINRANGEDDAMAGE = c.UNIT_FIELD_MINRANGEDDAMAGE ∧
    (c.UpdateMaxPower w power).UNIT_FIELD_MAXRANGEDDAMAGE = c.UNIT_FIELD_MAXRANGEDDAMAGE :=
  ⟨⟨rfl, rfl, rfl, rfl, rfl, rfl, rfl, fun _ _ _ => rfl⟩, rfl, rfl, rfl, rfl, rfl, rfl, rfl, rfl⟩

theorem UpdateAllStats_powers_frame (w : World) (l : List Powers) :
    ∀ c : StatFields,
    (l.foldl (fun c i => c.UpdateMaxPower w i) c).SameInputs c ∧
    (l.foldl (fun c i => c.UpdateMaxPower w i) c).stat = c.stat ∧
    (l.foldl (fun c i => c.UpdateMaxPower w i) c).resistance = c.resistance ∧
    (l.foldl (fun c i => c.UpdateMaxPower w i) c).maxHealth = c.maxHealth ∧
    (l.foldl (fun c i => c.UpdateMaxPower w i) c).UNIT_FIELD_RANGED_ATTACK_POWER
      = c.UNIT_FIELD_RANGED_ATTACK_POWER ∧
    (l.foldl (fun c i => c.UpdateMaxPower w i) c).UNIT_FIELD_RANGED_ATTACK_POWER_MODS
      = c.UNIT_FIELD_RANGED_ATTACK_POWER_MODS ∧
    (l.foldl (fun c i => c.UpdateMaxPower w i) c).UNIT_FIELD_RANGED_ATTACK_POWER_MULTIPLIER
      = c.UNIT_FIELD_RANGED_ATTACK_POWER_MULTIPLIER ∧
    (l.foldl (fun c i => c.UpdateMaxPower w i) c).UNIT_FIELD_MINRANGEDDAMAGE
      = c.UNIT_FIELD_MINRANGEDDAMAGE ∧
    (l.foldl (fun c i => c.UpdateMaxPower w i) c).UNIT_FIELD_MAXRANGEDDAMAGE
      = c.UNIT_FIELD_MAXRANGEDDAMAGE := by
  induction l with
  | nil => intro c; exact ⟨SameInputs_refl c, rfl, rfl, rfl, rfl, rfl, rfl, rfl, rfl⟩
  | cons i rest ih =>
    intro c
    obtain ⟨a1, a2, a3, a4, a5, a6, a7, a8, a9⟩ := ih (c.UpdateMaxPower w i)
    obtain ⟨b1, b2, b3, b4, b5, b6, b7, b8, b9⟩ := UpdateMaxPower_frame w c i
    exact ⟨SameInputs_trans a1 b1, a2.trans b2, a3.trans b3, a4.trans b4, a5.trans b5,
      a6.trans b6, a7.trans b7, a8.trans b8, a9.trans b9⟩

theorem UpdateManaRegen_frame (k : Defines) (w : World) (c : StatFields) :
    (c.UpdateManaRegen k w).SameInputs c ∧
    (c.UpdateManaRegen k w).stat = c.stat ∧
    (c.UpdateManaRegen k w).resistance = c.resistance ∧
    (c.UpdateManaRegen k w).maxHealth = c.maxHealth ∧
    (c.UpdateManaRegen k w).UNIT_FIELD_RANGED_ATTACK_POWER = c.UNIT_FIELD_RANGED_ATTACK_POWER ∧
    (c.UpdateManaRegen k w).UNIT_FIELD_RANGED_ATTACK_POWER_MODS
      = c.UNIT_FIELD_RANGED_ATTACK_POWER_MODS ∧
    (c.UpdateManaRegen k w).UNIT_FIELD_RANGED_ATTACK_POWER_MULTIPLIER
      = c.UNIT_FIELD_RANGED_ATTACK_POWER_MULTIPLIER ∧
    (c.UpdateManaRegen k w).UNIT_FIELD_MINRANGEDDAMAGE = c.UNIT_FIELD_MINRANGEDDAMAGE ∧
    (c.UpdateManaRegen k w).UNIT_FIELD_MAXRANGEDDAMAGE = c.UNIT_FIELD_MAXRANGEDDAMAGE :=
  ⟨⟨rfl, rfl, rfl, rfl, rfl, rfl, rfl, fun _ _ _ => rfl⟩, rfl, rfl, rfl, rfl, rfl, rfl, rfl, rfl⟩
theorem GetTotalAuraModValue_congr (c1 c2 : StatFields) (h : c1.SameInputs c2)
    (s : SpellSchools) :
    c1.GetTotalAuraModValue (UnitMods.UNIT_MOD_RESISTANCE s)
      = c2.GetTotalAuraModValue (UnitMods.UNIT_MOD_RESISTANCE s) := by
  have hm : ∀ t, c1.m_auraModifiersGroup (UnitMods.UNIT_MOD_RESISTANCE s) t
      = c2.m_auraModifiersGroup (UnitMods.UNIT_MOD_RESISTANCE s) t :=
    fun t => h.modifiers _ t (by simp)
  simp only [StatFields.GetTotalAuraModValue, StatFields.GetModifierValue, hm]

theorem UpdateResistances_magic (k : Defines) (w : World) (c : StatFields) (s : SpellSchools)
    (hs : s ≠ SpellSchools.SPELL_SCHOOL_NORMAL) :
    c.UpdateResistances k w s
      = c.SetResistance s (toInt32 (c.GetTotalAuraModValue (UnitMods.UNIT_MOD_RESISTANCE s))) := by
  cases s
  · exact absurd rfl hs
  all_goals rfl

theorem UpdateAllStats_resistances_fold (k : Defines) (w : World) (l : List SpellSchools)
    (hl : ∀ s ∈ l, s ≠ SpellSchools.SPELL_SCHOOL_NORMAL) :
    ∀ c : StatFields,
    (l.foldl (fun c i => c.UpdateResistances k w i) c).SameInputs c ∧
    (l.foldl (fun c i => c.UpdateResistances k w i) c).stat = c.stat ∧
    (l.foldl (fun c i => c.UpdateResistances k w i) c).maxHealth = c.maxHealth ∧
    (l.foldl (fun c i => c.UpdateResistances k w i) c).UNIT_FIELD_ATTACK_POWER
      = c.UNIT_FIELD_ATTACK_POWER ∧
    (l.foldl (fun c i => c.UpdateResistances k w i) c).UNIT_FIELD_ATTACK_POWER_MODS
      = c.UNIT_FIELD_ATTACK_POWER_MODS ∧
    (l.foldl (fun c i => c.UpdateResistances k w i) c).UNIT_FIELD_ATTACK_POWER_MULTIPLIER
      = c.UNIT_FIELD_ATTACK_POWER_MULTIPLIER ∧
    (l.foldl (fun c i => c.UpdateResistances k w i) c).UNIT_FIELD_RANGED_ATTACK_POWER
      = c.UNIT_FIELD_RANGED_ATTACK_POWER ∧
    (l.foldl (fun c i => c.UpdateResistances k w i) c).UNIT_FIELD_RANGED_ATTACK_POWER_MODS
      = c.UNIT_FIELD_RANGED_ATTACK_POWER_MODS ∧
    (l.foldl (fun c i => c.UpdateResistances k w i) c).UNIT_FIELD_RANGED_ATTACK_POWER_MULTIPLIER
      = c.UNIT_FIELD_RANGED_ATTACK_POWER_MULTIPLIER ∧
    (l.foldl (fun c i => c.UpdateResistances k w i) c).UNIT_FIELD_MINDAMAGE
      = c.UNIT_FIELD_MINDAMAGE ∧
    (l.foldl (fun c i => c.UpdateResistances k w i) c).UNIT_FIELD_MAXDAMAGE
      = c.UNIT_FIELD_MAXDAMAGE ∧
    (l.foldl (fun c i => c.UpdateResistances k w i) c).UNIT_FIELD_MINRANGEDDAMAGE
      = c.UNIT_FIELD_MINRANGEDDAMAGE ∧
    (l.foldl (fun c i => c.UpdateResistances k w i) c).UNIT_FIELD_MAXRANGEDDAMAGE
      = c.UNIT_FIELD_MAXRANGEDDAMAGE ∧
    ∀ s, (l.foldl (fun c i => c.UpdateResistances k w i) c).resistance s
      = if s ∈ l then toInt32 (c.GetTotalAuraModValue (UnitMods.UNIT_MOD_RESISTANCE s))
        else c.resistance s := by
  induction l with
  | nil =>
    intro c
    exact ⟨SameInputs_refl c, rfl, rfl, rfl, rfl, rfl, rfl, rfl, rfl, rfl, rfl, rfl, rfl,
      fun s => by simp⟩
  | cons i rest ih =>
    intro c
    have hi : i ≠ SpellSchools.SPELL_SCHOOL_NORMAL := hl i (List.mem_cons_self _ _)
    have hstep := UpdateResistances_magic k w c i hi
    obtain ⟨a1, a2, a3, a4, a5, a6, a7, a8, a9, a10, a11, a12, a13, a14⟩ :=
      ih (fun s hs => hl s (List.mem_cons_of_mem _ hs)) (c.UpdateResistances k w i)
    have b1 : (c.UpdateResistances k w i).SameInputs c := by
      rw [hstep]; exact ⟨rfl, rfl, rfl, rfl, rfl, rfl, rfl, fun _ _ _ => rfl⟩
    have hres : ∀ s, (c.UpdateResistances k w i).resistance s
        = if s = i then toInt32 (c.GetTotalAuraModValue (UnitMods.UNIT_MOD_RESISTANCE i))
          else c.resistance s := by
      intro s
      rw [hstep]
      simp only [StatFields.SetResistance, Function.update_apply]
    have hval : ∀ s, (c.UpdateResistances k w i).GetTotalAuraModValue
        (UnitMods.UNIT_MOD_RESISTANCE s)
        = c.GetTotalAuraModValue (UnitMods.UNIT_MOD_RESISTANCE s) :=
      fun s => GetTotalAuraModValue_congr _ _ b1 s
    refine ⟨SameInputs_trans a1 b1, a2.trans (by rw [hstep]; rfl), a3.trans (by rw [hstep]; rfl),
      a4.trans (by rw [hstep]; rfl), a5.trans (by rw [hstep]; rfl),
      a6.trans (by rw [hstep]; rfl), a7.trans (by rw [hstep]; rfl),
      a8.trans (by rw [hstep]; rfl), a9.trans (by rw [hstep]; rfl),
      a10.trans (by rw [hstep]; rfl), a11.trans (by rw [hstep]; rfl),
      a12.trans (by rw [hstep]; rfl), a13.trans (by rw [hstep]; rfl), fun s => ?_⟩
    show (List.foldl _ (c.UpdateResistances k w i) rest).resistance s = _
    rw [a14 s, hval, hres]
    by_cases h1 : s ∈ rest
    · simp [h1]
    · by_cases h2 : s = i
      · subst h2; simp [h1]
      · simp [h1, h2]
theorem UpdateAllStats_resistances_eq (k : Defines) (w : World) (c : StatFields) :
    SpellSchools.all.foldl (fun c i => c.UpdateResistances k w i) c
      = [SpellSchools.SPELL_SCHOOL_HOLY, SpellSchools.SPELL_SCHOOL_FIRE,
          SpellSchools.SPELL_SCHOOL_NATURE, SpellSchools.SPELL_SCHOOL_FROST,
          SpellSchools.SPELL_SCHOOL_SHADOW, SpellSchools.SPELL_SCHOOL_ARCANE].foldl
          (fun c i => c.UpdateResistances k w i) (c.UpdateArmor k w) := by
  rw [show SpellSchools.all = SpellSchools.SPELL_SCHOOL_NORMAL
      :: [SpellSchools.SPELL_SCHOOL_HOLY, SpellSchools.SPELL_SCHOOL_FIRE,
          SpellSchools.SPELL_SCHOOL_NATURE, SpellSchools.SPELL_SCHOOL_FROST,
          SpellSchools.SPELL_SCHOOL_SHADOW, SpellSchools.SPELL_SCHOOL_ARCANE] from rfl,
    List.foldl_cons]
  simp only [StatFields.UpdateResistances]

theorem UpdateAllStats_eq (k : Defines) (w : World) (c : StatFields) :
    c.UpdateAllStats k w
      = [SpellSchools.SPELL_SCHOOL_HOLY, SpellSchools.SPELL_SCHOOL_FIRE,
          SpellSchools.SPELL_SCHOOL_NATURE, SpellSchools.SPELL_SCHOOL_FROST,
          SpellSchools.SPELL_SCHOOL_SHADOW, SpellSchools.SPELL_SCHOOL_ARCANE].foldl
          (fun c i => c.UpdateResistances k w i)
          (((Powers.all.foldl (fun c i => c.UpdateMaxPower w i)
            ((((Stats.all.foldl (fun c i => c.SetStat i (toInt32 (c.GetTotalStatValue i)))
              c).UpdateArmor k w).UpdateAttackPowerAndDamage k w true).UpdateMaxHealth
                w)).UpdateManaRegen k w).UpdateArmor k w) := by
  unfold StatFields.UpdateAllStats
  dsimp only
  rw [UpdateAllStats_resistances_eq]

theorem magic_schools_ne_normal :
    ∀ s ∈ [SpellSchools.SPELL_SCHOOL_HOLY, SpellSchools.SPELL_SCHOOL_FIRE,
      SpellSchools.SPELL_SCHOOL_NATURE, SpellSchools.SPELL_SCHOOL_FROST,
      SpellSchools.SPELL_SCHOOL_SHADOW, SpellSchools.SPELL_SCHOOL_ARCANE],
      s ≠ SpellSchools.SPELL_SCHOOL_NORMAL := by
  decide

theorem UpdateAllStats_spec (k : Defines) (w : World) (c : StatFields) :
    (c.UpdateAllStats k w).SameInputs c ∧
    (c.UpdateAllStats k w).maxHealth
      = toUInt32 (f32 (f32 (toUInt32 (f32 (c.createHealth : ℚ)) : ℚ)
          * f32 (MonsterHealthTable w.GetCurrentDifficulty))) ∧
    (c.UpdateAllStats k w).UNIT_FIELD_MINRANGEDDAMAGE = (c.CalculateMinMaxDamage k w).1 ∧
    (c.UpdateAllStats k w).UNIT_FIELD_MAXRANGEDDAMAGE = (c.CalculateMinMaxDamage k w).2 ∧
    (c.UpdateAllStats k w).UNIT_FIELD_MINDAMAGE
      = ((c.UpdateMaxHealth w).CalculateMinMaxDamage k w).1 ∧
    (c.UpdateAllStats k w).UNIT_FIELD_MAXDAMAGE
      = ((c.UpdateMaxHealth w).CalculateMinMaxDamage k w).2 := by
  rw [UpdateAllStats_eq]
  obtain ⟨a1, a2, _⟩ := UpdateAllStats_stats_spec c
  generalize Stats.all.foldl (fun c i => c.SetStat i (toInt32 (c.GetTotalStatValue i))) c
    = c1 at a1 a2 ⊢
  obtain ⟨b1, _, b3, _, _, _, _, _, _, _, _⟩ := UpdateArmor_spec k w c1
  generalize c1.UpdateArmor k w = c2 at b1 b3 ⊢
  obtain ⟨d1, _, _, d4, _, _, _, _, _, _, _, _, _, _, d15, d16⟩ :=
    UpdateAttackPowerAndDamage_ranged k w c2
  generalize c2.UpdateAttackPowerAndDamage k w true = c3 at d1 d4 d15 d16 ⊢
  obtain ⟨e1, _, _, _, _, _, e7, e8, e9⟩ := UpdateMaxHealth_spec w c3
  generalize c3.UpdateMaxHealth w = c4 at e1 e7 e8 e9 ⊢
  obtain ⟨f1, _, _, f4, _, _, _, f8, f9⟩ := UpdateAllStats_powers_frame w Powers.all c4
  generalize Powers.all.foldl (fun c i => c.UpdateMaxPower w i) c4 = c5 at f1 f4 f8 f9 ⊢
  obtain ⟨g1, _, _, g4, _, _, _, g8, g9⟩ := UpdateManaRegen_frame k w c5
  generalize c5.UpdateManaRegen k w = c6 at g1 g4 g8 g9 ⊢
  obtain ⟨h1, _, h3, _, _, _, h7, h8, _, h10, h11⟩ := UpdateArmor_spec k w c6
  generalize c6.UpdateArmor k w = c7 at h1 h3 h7 h8 h10 h11 ⊢
  obtain ⟨i1, _, i3, _, _, _, _, _, _, i10, i11, i12, i13, _⟩ :=
    UpdateAllStats_resistances_fold k w _ magic_schools_ne_normal c7
  have hin3 : c3.SameInputs c := SameInputs_trans d1 (SameInputs_trans b1 a1)
  have hin6 : c6.SameInputs c := SameInputs_trans g1 (SameInputs_trans f1 (SameInputs_trans e1 hin3))
  have hmh6 : c6.maxHealth = (c.UpdateMaxHealth w).maxHealth := by
    rw [g4, f4, e9]
    show _ = toUInt32 _
    rw [hin3.createHealth]
  refine ⟨SameInputs_trans i1 (SameInputs_trans h1 hin6), ?_, ?_, ?_, ?_, ?_⟩
  · rw [i3, h3, g4, f4, e9, hin3.createHealth]
  · rw [i12, h7, g8, f8, e7, d15]
    exact congrArg Prod.fst (CalculateMinMaxDamage_congr k w c2 c
      (SameInputs_trans b1 a1).level (b3.trans a2))
  · rw [i13, h8, g9, f9, e8, d16]
    exact congrArg Prod.snd (CalculateMinMaxDamage_congr k w c2 c
      (SameInputs_trans b1 a1).level (b3.trans a2))
  · rw [i10, h10]
    exact congrArg Prod.fst (CalculateMinMaxDamage_congr k w c6 _ hin6.level hmh6)
  · rw [i11, h11]
    exact congrArg Prod.snd (CalculateMinMaxDamage_congr k w c6 _ hin6.level hmh6)
theorem UpdateAttackPowerAndDamage_ranged_congr (k : Defines) (w : World) (c1 c2 : StatFields)
    (h : c1.SameInputs c2) (hs : c1.stat = c2.stat)
    (ha : c1.resistance SpellSchools.SPELL_SCHOOL_NORMAL
      = c2.resistance SpellSchools.SPELL_SCHOOL_NORMAL) :
    (c1.UpdateAttackPowerAndDamage k w true).UNIT_FIELD_RANGED_ATTACK_POWER
      = (c2.UpdateAttackPowerAndDamage k w true).UNIT_FIELD_RANGED_ATTACK_POWER ∧
    (c1.UpdateAttackPowerAndDamage k w true).UNIT_FIELD_RANGED_ATTACK_POWER_MODS
      = (c2.UpdateAttackPowerAndDamage k w true).UNIT_FIELD_RANGED_ATTACK_POWER_MODS ∧
    (c1.UpdateAttackPowerAndDamage k w true).UNIT_FIELD_RANGED_ATTACK_POWER_MULTIPLIER
      = (c2.UpdateAttackPowerAndDamage k w true).UNIT_FIELD_RANGED_ATTACK_POWER_MULTIPLIER := by
  have e1 := UpdateAttackPowerAndDamage_ranged k w c1
  have e2 := UpdateAttackPowerAndDamage_ranged k w c2
  have hval2 := UpdateAttackPowerAndDamage_val2_congr k w c1 c2 true h.level h.unitClass hs
  have hmod : (c1.SetModifierValue UnitMods.UNIT_MOD_ATTACK_POWER_RANGED
        UnitModifierType.BASE_VALUE
        (c2.UpdateAttackPowerAndDamage_val2 k w true)).UpdateAttackPowerAndDamage_attPowerMod
          k w true
      = (c2.SetModifierValue UnitMods.UNIT_MOD_ATTACK_POWER_RANGED
        UnitModifierType.BASE_VALUE
        (c2.UpdateAttackPowerAndDamage_val2 k w true)).UpdateAttackPowerAndDamage_attPowerMod
          k w true := by
    apply UpdateAttackPowerAndDamage_attPowerMod_congr
    · exact h.unitClass
    · exact hs
    · exact ha
    · intro m
      rw [SetModifierValue_get, SetModifierValue_get]
      simp only [reduceCtorEq, and_false, if_false]
      exact h.modifiers _ _ (by simp)
  refine ⟨?_, ?_, ?_⟩
  · rw [e1.2.2.2.2.2.2.2.2.2.2.2.1, e2.2.2.2.2.2.2.2.2.2.2.2.1, hval2,
      h.modifiers _ _ (by simp)]
  · rw [e1.2.2.2.2.2.2.2.2.2.2.2.2.1, e2.2.2.2.2.2.2.2.2.2.2.2.2.1, hval2, hmod]
  · rw [e1.2.2.2.2.2.2.2.2.2.2.2.2.2.1, e2.2.2.2.2.2.2.2.2.2.2.2.2.2.1,
      h.modifiers _ _ (by simp)]

theorem UpdateAllStats_stats_congr (c1 c2 : StatFields) (h : c1.SameInputs c2) :
    (Stats.all.foldl (fun c i => c.SetStat i (toInt32 (c.GetTotalStatValue i))) c1).SameInputs
      (Stats.all.foldl (fun c i => c.SetStat i (toInt32 (c.GetTotalStatValue i))) c2) ∧
    (Stats.all.foldl (fun c i => c.SetStat i (toInt32 (c.GetTotalStatValue i))) c1).stat
      = (Stats.all.foldl (fun c i => c.SetStat i (toInt32 (c.GetTotalStatValue i))) c2).stat := by
  obtain ⟨a1, _, a3⟩ := UpdateAllStats_stats_spec c1
  obtain ⟨b1, _, b3⟩ := UpdateAllStats_stats_spec c2
  refine ⟨SameInputs_congr a1 b1 h, funext fun s => ?_⟩
  rw [a3 s, b3 s, GetTotalStatValue_congr c1 c2 h s]

/-- The fields that `UpdateAllStats` computes, read off the state after the stat loop. -/
theorem UpdateAllStats_out (k : Defines) (w : World) (c : StatFields) :
    (c.UpdateAllStats k w).stat
      = (Stats.all.foldl (fun c i => c.SetStat i (toInt32 (c.GetTotalStatValue i))) c).stat ∧
    (c.UpdateAllStats k w).resistance SpellSchools.SPELL_SCHOOL_NORMAL
      = ((Stats.all.foldl (fun c i => c.SetStat i (toInt32 (c.GetTotalStatValue i)))
          c).UpdateArmor k w).resistance SpellSchools.SPELL_SCHOOL_NORMAL ∧
    (c.UpdateAllStats k w).UNIT_FIELD_ATTACK_POWER
      = ((Stats.all.foldl (fun c i => c.SetStat i (toInt32 (c.GetTotalStatValue i)))
          c).UpdateArmor k w).UNIT_FIELD_ATTACK_POWER ∧
    (c.UpdateAllStats k w).UNIT_FIELD_ATTACK_POWER_MODS
      = ((Stats.all.foldl (fun c i => c.SetStat i (toInt32 (c.GetTotalStatValue i)))
          c).UpdateArmor k w).UNIT_FIELD_ATTACK_POWER_MODS ∧
    (c.UpdateAllStats k w).UNIT_FIELD_ATTACK_POWER_MULTIPLIER
      = ((Stats.all.foldl (fun c i => c.SetStat i (toInt32 (c.GetTotalStatValue i)))
          c).UpdateArmor k w).UNIT_FIELD_ATTACK_POWER_MULTIPLIER ∧
    (c.UpdateAllStats k w).UNIT_FIELD_RANGED_ATTACK_POWER
      = (((Stats.all.foldl (fun c i => c.SetStat i (toInt32 (c.GetTotalStatValue i)))
          c).UpdateArmor k w).UpdateAttackPowerAndDamage k w true).UNIT_FIELD_RANGED_ATTACK_POWER ∧
    (c.UpdateAllStats k w).UNIT_FIELD_RANGED_ATTACK_POWER_MODS
      = (((Stats.all.foldl (fun c i => c.SetStat i (toInt32 (c.GetTotalStatValue i)))
          c).UpdateArmor k w).UpdateAttackPowerAndDamage k w
            true).UNIT_FIELD_RANGED_ATTACK_POWER_MODS ∧
    (c.UpdateAllStats k w).UNIT_FIELD_RANGED_ATTACK_POWER_MULTIPLIER
      = (((Stats.all.foldl (fun c i => c.SetStat i (toInt32 (c.GetTotalStatValue i)))
          c).UpdateArmor k w).UpdateAttackPowerAndDamage k w
            true).UNIT_FIELD_RANGED_ATTACK_POWER_MULTIPLIER ∧
    ∀ s, s ≠ SpellSchools.SPELL_SCHOOL_NORMAL →
      (c.UpdateAllStats k w).resistance s
        = toInt32 (c.GetTotalAuraModValue (UnitMods.UNIT_MOD_RESISTANCE s)) := by
  rw [UpdateAllStats_eq]
  obtain ⟨a1, _, _⟩ := UpdateAllStats_stats_spec c
  generalize Stats.all.foldl (fun c i => c.SetStat i (toInt32 (c.GetTotalStatValue i))) c
    = c1 at a1 ⊢
  obtain ⟨b1, b2, _, _, _, _, _, _, _, _, _⟩ := UpdateArmor_spec k w c1
  obtain ⟨d1, d2, _, _, _, _, _, _, _, _, _, _, _, _, _, _⟩ :=
    UpdateAttackPowerAndDamage_ranged k w (c1.UpdateArmor k w)
  generalize (c1.UpdateArmor k w).UpdateAttackPowerAndDamage k w true = c3 at d1 d2 ⊢
  obtain ⟨e1, e2, _, e4, e5, e6, _, _, _⟩ := UpdateMaxHealth_spec w c3
  generalize c3.UpdateMaxHealth w = c4 at e1 e2 e4 e5 e6 ⊢
  obtain ⟨f1, f2, _, _, f5, f6, f7, _, _⟩ := UpdateAllStats_powers_frame w Powers.all c4
  generalize Powers.all.foldl (fun c i => c.UpdateMaxPower w i) c4 = c5 at f1 f2 f5 f6 f7 ⊢
  obtain ⟨g1, g2, _, _, g5, g6, g7, _, _⟩ := UpdateManaRegen_frame k w c5
  generalize c5.UpdateManaRegen k w = c6 at g1 g2 g5 g6 g7 ⊢
  have hin6 : c6.SameInputs c1 :=
    SameInputs_trans g1 (SameInputs_trans f1 (SameInputs_trans e1 (SameInputs_trans d1 b1)))
  have hst6 : c6.stat = c1.stat := g2.trans (f2.trans (e2.trans (d2.trans b2)))
  obtain ⟨u1, u2, u3, u4⟩ := UpdateArmor_congr k w c6 c1 hin6 hst6
  obtain ⟨h1, h2, _, h4, h5, h6, _, _, _, _, _⟩ := UpdateArmor_spec k w c6
  generalize c6.UpdateArmor k w = c7 at h1 h2 h4 h5 h6 u1 u2 u3 u4 ⊢
  obtain ⟨i1, i2, _, i4, i5, i6, i7, i8, i9, _, _, _, _, i14⟩ :=
    UpdateAllStats_resistances_fold k w _ magic_schools_ne_normal c7
  refine ⟨i2.trans (h2.trans hst6), ?_, i4.trans u2, i5.trans u3, i6.trans u4,
    i7.trans (h4.trans (g5.trans (f5.trans e4))), i8.trans (h5.trans (g6.trans (f6.trans e5))),
    i9.trans (h6.trans (g7.trans (f7.trans e6))), fun s hs => ?_⟩
  · rw [i14, if_neg (by decide)]
    exact u1
  · rw [i14, if_pos (by cases s <;> first | exact absurd rfl hs | decide)]
    exact congrArg toInt32 (GetTotalAuraModValue_congr c7 c
      (SameInputs_trans h1 (SameInputs_trans hin6 a1)) s)
theorem UpdateAllStats_congr (k : Defines) (w : World) (c1 c2 : StatFields)
    (h : c1.SameInputs c2) :
    (c1.UpdateAllStats k w).maxHealth = (c2.UpdateAllStats k w).maxHealth ∧
    (c1.UpdateAllStats k w).stat = (c2.UpdateAllStats k w).stat ∧
    (c1.UpdateAllStats k w).resistance = (c2.UpdateAllStats k w).resistance ∧
    (c1.UpdateAllStats k w).UNIT_FIELD_ATTACK_POWER
      = (c2.UpdateAllStats k w).UNIT_FIELD_ATTACK_POWER ∧
    (c1.UpdateAllStats k w).UNIT_FIELD_ATTACK_POWER_MODS
      = (c2.UpdateAllStats k w).UNIT_FIELD_ATTACK_POWER_MODS ∧
    (c1.UpdateAllStats k w).UNIT_FIELD_ATTACK_POWER_MULTIPLIER
      = (c2.UpdateAllStats k w).UNIT_FIELD_ATTACK_POWER_MULTIPLIER ∧
    (c1.UpdateAllStats k w).UNIT_FIELD_RANGED_ATTACK_POWER
      = (c2.UpdateAllStats k w).UNIT_FIELD_RANGED_ATTACK_POWER ∧
    (c1.UpdateAllStats k w).UNIT_FIELD_RANGED_ATTACK_POWER_MODS
      = (c2.UpdateAllStats k w).UNIT_FIELD_RANGED_ATTACK_POWER_MODS ∧
    (c1.UpdateAllStats k w).UNIT_FIELD_RANGED_ATTACK_POWER_MULTIPLIER
      = (c2.UpdateAllStats k w).UNIT_FIELD_RANGED_ATTACK_POWER_MULTIPLIER ∧
    (c1.UpdateAllStats k w).UNIT_FIELD_MINDAMAGE = (c2.UpdateAllStats k w).UNIT_FIELD_MINDAMAGE ∧
    (c1.UpdateAllStats k w).UNIT_FIELD_MAXDAMAGE
      = (c2.UpdateAllStats k w).UNIT_FIELD_MAXDAMAGE := by
  obtain ⟨_, a2, _, _, a5, a6⟩ := UpdateAllStats_spec k w c1
  obtain ⟨_, b2, _, _, b5, b6⟩ := UpdateAllStats_spec k w c2
  obtain ⟨p1, p2, p3, p4, p5, p6, p7, p8, p9⟩ := UpdateAllStats_out k w c1
  obtain ⟨q1, q2, q3, q4, q5, q6, q7, q8, q9⟩ := UpdateAllStats_out k w c2
  obtain ⟨s1, s2⟩ := UpdateAllStats_stats_congr c1 c2 h
  obtain ⟨u1, u2, u3, u4⟩ := UpdateArmor_congr k w _ _ s1 s2
  obtain ⟨v1, v2, _⟩ := UpdateArmor_spec k w
    (Stats.all.foldl (fun c i => c.SetStat i (toInt32 (c.GetTotalStatValue i))) c1)
  obtain ⟨w1, w2, _⟩ := UpdateArmor_spec k w
    (Stats.all.foldl (fun c i => c.SetStat i (toInt32 (c.GetTotalStatValue i))) c2)
  obtain ⟨r1, r2, r3⟩ := UpdateAttackPowerAndDamage_ranged_congr k w _ _
    (SameInputs_congr v1 w1 s1) (v2.trans (s2.trans w2.symm)) u1
  have hcalc : (c1.UpdateMaxHealth w).CalculateMinMaxDamage k w
      = (c2.UpdateMaxHealth w).CalculateMinMaxDamage k w := by
    apply CalculateMinMaxDamage_congr
    · exact h.level
    · show toUInt32 _ = toUInt32 _
      rw [h.createHealth]
  refine ⟨by rw [a2, b2, h.createHealth], p1.trans (s2.trans q1.symm), funext fun s => ?_,
    p3.trans (u2.trans q3.symm), p4.trans (u3.trans q4.symm), p5.trans (u4.trans q5.symm),
    p6.trans (r1.trans q6.symm), p7.trans (r2.trans q7.symm), p8.trans (r3.trans q8.symm),
    by rw [a5, b5, hcalc], by rw [a6, b6, hcalc]⟩
  by_cases hs : s = SpellSchools.SPELL_SCHOOL_NORMAL
  · subst hs
    exact p2.trans (u1.trans q2.symm)
  · rw [p9 s hs, q9 s hs, GetTotalAuraModValue_congr c1 c2 h s]

theorem UpdateAllStats_twice (k : Defines) (w : World) (c : StatFields) :
    ((c.UpdateAllStats k w).UpdateAllStats k w).maxHealth = (c.UpdateAllStats k w).maxHealth ∧
    ((c.UpdateAllStats k w).UpdateAllStats k w).stat = (c.UpdateAllStats k w).stat ∧
    ((c.UpdateAllStats k w).UpdateAllStats k w).resistance
      = (c.UpdateAllStats k w).resistance ∧
    ((c.UpdateAllStats k w).UpdateAllStats k w).UNIT_FIELD_ATTACK_POWER
      = (c.UpdateAllStats k w).UNIT_FIELD_ATTACK_POWER ∧
    ((c.UpdateAllStats k w).UpdateAllStats k w).UNIT_FIELD_ATTACK_POWER_MODS
      = (c.UpdateAllStats k w).UNIT_FIELD_ATTACK_POWER_MODS ∧
    ((c.UpdateAllStats k w).UpdateAllStats k w).UNIT_FIELD_ATTACK_POWER_MULTIPLIER
      = (c.UpdateAllStats k w).UNIT_FIELD_ATTACK_POWER_MULTIPLIER ∧
    ((c.UpdateAllStats k w).UpdateAllStats k w).UNIT_FIELD_RANGED_ATTACK_POWER
      = (c.UpdateAllStats k w).UNIT_FIELD_RANGED_ATTACK_POWER ∧
    ((c.UpdateAllStats k w).UpdateAllStats k w).UNIT_FIELD_RANGED_ATTACK_POWER_MODS
      = (c.UpdateAllStats k w).UNIT_FIELD_RANGED_ATTACK_POWER_MODS ∧
    ((c.UpdateAllStats k w).UpdateAllStats k w).UNIT_FIELD_RANGED_ATTACK_POWER_MULTIPLIER
      = (c.UpdateAllStats k w).UNIT_FIELD_RANGED_ATTACK_POWER_MULTIPLIER ∧
    ((c.UpdateAllStats k w).UpdateAllStats k w).UNIT_FIELD_MINDAMAGE
      = (c.UpdateAllStats k w).UNIT_FIELD_MINDAMAGE ∧
    ((c.UpdateAllStats k w).UpdateAllStats k w).UNIT_FIELD_MAXDAMAGE
      = (c.UpdateAllStats k w).UNIT_FIELD_MAXDAMAGE :=
  UpdateAllStats_congr k w _ _ (UpdateAllStats_spec k w c).1
theorem levelData_SetPower (c : StatFields) (p : Powers) (v : Nat) :
    (c.SetPower p v).levelData = c.levelData := rfl

theorem levelData_SetMaxPower (c : StatFields) (p : Powers) (v : Nat) :
    (c.SetMaxPower p v).levelData = c.levelData := rfl

theorem levelData_SetModifierValue (c : StatFields) (m : UnitMods) (t : UnitModifierType)
    (v : ℚ) : (c.SetModifierValue m t v).levelData = c.levelData := rfl

theorem levelData_SetResistance (c : StatFields) (s : SpellSchools) (v : Int) :
    (c.SetResistance s v).levelData = c.levelData := rfl

theorem levelData_SetArmor (c : StatFields) (v : Int) :
    (c.SetArmor v).levelData = c.levelData := rfl

theorem levelData_SetHealth (c : StatFields) (v : Nat) :
    (c.SetHealth v).levelData = c.levelData := rfl

theorem levelData_SetMaxHealth (c : StatFields) (v : Nat) :
    (c.SetMaxHealth v).levelData = c.levelData := rfl

theorem levelData_SetCreateHealth (c : StatFields) (v : Nat) :
    (c.SetCreateHealth v).levelData = c.levelData := rfl

theorem levelData_SetCreateMana (c : StatFields) (v : Nat) :
    (c.SetCreateMana v).levelData = c.levelData := rfl

theorem levelData_SetResistance_fold (l : List SpellSchools) :
    ∀ c : StatFields, (l.foldl (fun c i => c.SetResistance i 0) c).levelData = c.levelData := by
  induction l with
  | nil => intro c; rfl
  | cons i rest ih => intro c; exact (ih (c.SetResistance i 0)).trans (levelData_SetResistance c i 0)

theorem levelData_SetMaxPower_fold (w : World) (l : List Powers) :
    ∀ c : StatFields,
    (l.foldl (fun c i => c.SetMaxPower i (w.GetCreatePowers c.createMana i)) c).levelData
      = c.levelData := by
  induction l with
  | nil => intro c; rfl
  | cons i rest ih =>
    intro c
    exact (ih (c.SetMaxPower i (w.GetCreatePowers c.createMana i))).trans
      (levelData_SetMaxPower c i _)

theorem levelData_InitStatsForLevel (w : World) (c : StatFields) :
    (c.InitStatsForLevel w).levelData = c.levelData := by
  have key : ∀ d : StatFields, d = c.InitStatsForLevel w → d.levelData = c.levelData := by
    unfold StatFields.InitStatsForLevel
    lift_lets
    extract_lets _class basemana level basehealth c1 c2 c3 c4 c5 c6 c7 c8 c9 c10 c11 c12 c13 c14
      c15 c16 c17 c18 c19 c20 c21
    intro d hd
    have h4 : c4.levelData = c3.levelData := rfl
    have h9 : c9.levelData = c8.levelData := by
      have e : c9 = if (!w.isInCombat) = true then c8.SetHealth c8.maxHealth else c8 := rfl
      rw [e]
      split_ifs
      · exact levelData_SetHealth _ _
      · rfl
    have h15 : c15.levelData = c14.levelData := by
      have e : c15 = if c14.power Powers.POWER_RAGE > c14.maxPower Powers.POWER_RAGE then
          c14.SetPower Powers.POWER_RAGE (c14.maxPower Powers.POWER_RAGE) else c14 := rfl
      rw [e]
      split_ifs
      · exact levelData_SetPower _ _ _
      · rfl
    rw [hd]
    calc _ = c21.levelData := levelData_SetModifierValue c21 _ _ _
      _ = c20.levelData := levelData_SetPower c20 _ _
      _ = c19.levelData := levelData_SetModifierValue c19 _ _ _
      _ = c18.levelData := levelData_SetPower c18 _ _
      _ = c17.levelData := levelData_SetModifierValue c17 _ _ _
      _ = c16.levelData := levelData_SetPower c16 _ _
      _ = c15.levelData := levelData_SetModifierValue c15 _ _ _
      _ = c14.levelData := h15
      _ = c13.levelData := levelData_SetModifierValue c13 _ _ _
      _ = c12.levelData := levelData_SetPower c12 _ _
      _ = c11.levelData := levelData_SetModifierValue c11 _ _ _
      _ = c10.levelData := levelData_SetPower c10 _ _
      _ = c9.levelData := levelData_SetModifierValue c9 _ _ _
      _ = c8.levelData := h9
      _ = c7.levelData := levelData_SetMaxHealth c7 _
      _ = c6.levelData := levelData_SetMaxPower_fold w Powers.all c6
      _ = c5.levelData := levelData_SetResistance_fold _ c5
      _ = c4.levelData := levelData_SetArmor c4 _
      _ = c3.levelData := h4
      _ = c2.levelData := levelData_SetArmor c2 _
      _ = c1.levelData := levelData_SetCreateMana c1 _
      _ = c.levelData := levelData_SetCreateHealth c _
  exact key _ rfl

theorem levelData_UpdateAllStats (k : Defines) (w : World) (c : StatFields) :
    (c.UpdateAllStats k w).levelData = c.levelData := by
  have h := (UpdateAllStats_spec k w c).1
  simp only [StatFields.levelData, h.level, h.currentLevel, h.currentDifficulty]

theorem levelData_SetStatsBasedOnPlayerMaxLevel (k : Defines) (w : World) (c : StatFields) :
    (c.SetStatsBasedOnPlayerMaxLevel k w).levelData
      = (w.GetMaxPlayerLevel, w.GetMaxPlayerLevel, w.GetCurrentDifficulty) := by
  unfold StatFields.SetStatsBasedOnPlayerMaxLevel
  dsimp only
  split_ifs with h
  · rw [levelData_UpdateAllStats, levelData_InitStatsForLevel]
    rfl
  · simp only [Bool.or_eq_true, bne_iff_ne, ne_eq, not_or, not_not] at h
    obtain ⟨⟨h1, h2⟩, h3⟩ := h
    simp only [StatFields.levelData, h1, h2, h3]

theorem SetStatsBasedOnPlayerMaxLevel_fixed (k : Defines) (w : World) (c : StatFields)
    (h : c.levelData = (w.GetMaxPlayerLevel, w.GetMaxPlayerLevel, w.GetCurrentDifficulty)) :
    c.SetStatsBasedOnPlayerMaxLevel k w = c := by
  simp only [StatFields.levelData, Prod.mk.injEq] at h
  obtain ⟨h1, h2, h3⟩ := h
  unfold StatFields.SetStatsBasedOnPlayerMaxLevel
  dsimp only
  rw [if_neg]
  simp [h1, h2, h3]

theorem RemoveCorpse_alive_deadByDefault (k : Defines) (w : World) (c : Creature)
    (hworld : c.inWorld = true)
    (hpool : w.IsPartOfAPool = 0 ∨ w.UpdatePool_despawns = false)
    (halive : c.m_deathState = DeathState.ALIVE)
    (hdefault : c.m_isDeadByDefault = true) :
    (c.RemoveCorpse k w).m_deathState = DeathState.DEAD := by
  have hpooled : (if w.IsPartOfAPool ≠ 0 then
      { c with inWorld := c.inWorld && !w.UpdatePool_despawns } else c) = c := by
    rcases hpool with h | h
    · simp [h]
    · split_ifs
      · obtain ⟨st, cf⟩ := c
        cases cf
        simp_all
      · rfl
  have hw : ¬ (c.inWorld = false) := by simp [hworld]
  have hstate : ¬ ((c.m_deathState ≠ DeathState.CORPSE ∧ c.m_isDeadByDefault = false)
      ∨ (c.m_deathState ≠ DeathState.ALIVE ∧ c.m_isDeadByDefault = true)) := by
    simp [halive, hdefault]
  simp only [Creature.RemoveCorpse, hpooled, SetDeathState_DEAD, if_neg hw, if_neg hstate]
  split_ifs <;> rfl

theorem Update_alive_level (k : Defines) (w : World) (c : Creature) (update_diff : Nat)
    (h : (c.Update_alive k w update_diff).m_deathState = DeathState.ALIVE) :
    (c.Update_alive k w update_diff).level = w.GetMaxPlayerLevel := by
  revert h
  unfold Creature.Update_alive
  dsimp only
  split_ifs with h1 h2
  · intro h; exact absurd h h1
  · intro h; exact absurd h h2
  · intro _
    exact congrArg Prod.fst (levelData_SetStatsBasedOnPlayerMaxLevel k w _)

theorem InitEntry_respawnTimeStore (k : Defines) (w : World) (c : Creature) (Entry : Nat) :
    (c.InitEntry k w Entry).2.respawnTimeStore = c.respawnTimeStore := by
  unfold Creature.InitEntry
  dsimp only
  split
  · rfl
  · split_ifs <;> rfl

theorem UpdateEntry_respawnTimeStore (k : Defines) (w : World) (c : Creature) (Entry : Nat)
    (preserveHPAndPower : Bool) :
    (c.UpdateEntry k w Entry preserveHPAndPower).2.respawnTimeStore = c.respawnTimeStore := by
  have h := InitEntry_respawnTimeStore k w c Entry
  unfold Creature.UpdateEntry
  split
  next c1 heq => rw [heq] at h; exact h
  next c1 heq => rw [heq] at h; exact h

theorem Create_respawnTimeStore (k : Defines) (w : World) (c : Creature) (cinfo : CreatureInfo) :
    (c.Create k w cinfo).2.respawnTimeStore = c.respawnTimeStore := by
  have hu := UpdateEntry_respawnTimeStore k w { c with m_originalEntry := cinfo.Entry }
    cinfo.Entry false
  have hp : (c.CreateFromProto k w cinfo).2.respawnTimeStore = c.respawnTimeStore := by
    unfold Creature.CreateFromProto
    dsimp only
    split
    next c1 heq => rw [heq] at hu; exact hu
    next c1 heq => rw [heq] at hu; exact hu
  unfold Creature.Create
  split
  next c1 heq => rw [heq] at hp; exact hp
  next c1 heq =>
    rw [heq] at hp
    dsimp only
    split_ifs <;> exact hp

/-- The looted corpse delay of a corpse with a corpse delay of 60 s under the rate 0.13:
the single precision product of 60000 and the float nearest to 0.13 lies below 7800. -/
theorem corpseLootedDelay_sample (c : Creature) (h : c.m_corpseDelay = 60) :
    c.corpseLootedDelay lootedRateWorld = 7799 := by
  have h13 : f32 (13 / 100) = 1090519 / 8388608 := by
    rw [f32_eq_of_bounds (13 / 100) (-3) 8724152 (by norm_num) (by norm_num [abs_of_pos])
      (by norm_num [abs_of_pos])
      (roundHalfEven_eq_of_lt _ _ (by norm_num) (by norm_num))]
    norm_num
  have hp : f32 (60000 * (1090519 / 8388608)) = 15974399 / 2048 := by
    rw [f32_eq_of_bounds (60000 * (1090519 / 8388608)) (12) 15974399 (by norm_num)
      (by norm_num [abs_of_pos]) (by norm_num [abs_of_pos])
      (roundHalfEven_eq_of_lt _ _ (by norm_num) (by norm_num))]
    norm_num
  have h6 : f32 ((60000 : ℕ) : ℚ) = ((60000 : ℕ) : ℚ) := f32_natCast 60000 (by norm_num)
  have hr : lootedRateWorld.CONFIG_FLOAT_RATE_CORPSE_DECAY_LOOTED = 13 / 100 := rfl
  have hu : u32 (c.m_corpseDelay * IN_MILLISECONDS) = 60000 := by
    rw [h]; rfl
  unfold Creature.corpseLootedDelay
  rw [hr, hu, h13, h6, if_pos (by norm_num)]
  have e : (((60000 : ℕ) : ℚ) * (1090519 / 8388608)) = 60000 * (1090519 / 8388608) := by
    norm_num
  rw [e, hp]
  exact toUInt32_eq_of_floor _ 7799 (by norm_num) (by norm_num) (by norm_num)

theorem SetDeathState_i_AI (k : Defines) (w : World) (c : Creature) (s : DeathState) :
    (c.SetDeathState k w s).i_AI = c.i_AI := by
  cases s <;>
    simp only [Creature.SetDeathState, Unit_SetDeathState, Creature.SetLootRecipient,
      Creature.SaveRespawnTime, reduceCtorEq, false_and, true_and, or_false, false_or,
      if_false, if_true] <;>
    split_ifs <;> rfl

theorem RemoveCorpse_i_AI (k : Defines) (w : World) (c : Creature) :
    (c.RemoveCorpse k w).i_AI = c.i_AI := by
  simp only [Creature.RemoveCorpse]
  split_ifs <;> rfl

theorem RegenerateAll_i_AI (k : Defines) (w : World) (c : Creature) (update_diff : Nat) :
    (c.RegenerateAll k w update_diff).i_AI = c.i_AI := by
  simp only [Creature.RegenerateAll]
  split_ifs <;> rfl

theorem Unit_Update_i_AI (k : Defines) (w : World) (c : Creature) :
    (Unit_Update k w c).i_AI = c.i_AI := by
  simp only [Unit_Update]
  split_ifs
  · exact SetDeathState_i_AI k w _ _
  · rfl

theorem AIM_Initialize_locked (w : World) (c : Creature) (h : c.m_AI_locked = true) :
    c.AIM_Initialize w = (false, c) := by
  simp only [Creature.AIM_Initialize, h, if_true]

theorem AI_UpdateAI_locked (k : Defines) (w : World) (c : Creature)
    (h : c.m_AI_locked = true) :
    AI_UpdateAI k w c
      = if w.UpdateAI_kills then c.SetDeathState k w DeathState.JUST_DIED else c := by
  have h2 : (if w.UpdateAI_calls_AIM_Initialize = true then (c.AIM_Initialize w).2 else c)
      = c := by
    rw [AIM_Initialize_locked w c h]
    exact ite_self c
  unfold AI_UpdateAI
  dsimp only
  rw [h2]

theorem Update_AI_step (k : Defines) (w : World) (c : Creature)
    (hevade : w.IsInEvadeMode = false) (hai : c.i_AI.isSome = true) :
    c.Update_AI k w
      = { AI_UpdateAI k w { c with m_AI_locked := true } with m_AI_locked := false } := by
  simp only [Creature.Update_AI, hevade, hai, Bool.not_false, if_true]

theorem Update_AI_i_AI (k : Defines) (w : World) (c : Creature) :
    (c.Update_AI k w).i_AI = c.i_AI := by
  unfold Creature.Update_AI
  split_ifs with h1 h2
  · show (AI_UpdateAI k w { c with m_AI_locked := true }).i_AI = c.i_AI
    rw [AI_UpdateAI_locked k w { c with m_AI_locked := true } rfl]
    split_ifs
    · exact SetDeathState_i_AI k w _ _
    · rfl
  · rfl
  · rfl

theorem Update_alive_i_AI (k : Defines) (w : World) (c : Creature) (update_diff : Nat) :
    (c.Update_alive k w update_diff).i_AI = c.i_AI := by
  have h1 : (Unit_Update k w c).i_AI = c.i_AI := Unit_Update_i_AI k w c
  have h2 := (Update_AI_i_AI k w (Unit_Update k w c)).trans h1
  simp only [Creature.Update_alive]
  split_ifs
  · exact h1
  · exact h2
  · exact (RegenerateAll_i_AI k w _ update_diff).trans h2

/-- The health of the table path for base health `2 ^ 25 + 1` and health multiplier 1:
the base health is rounded when it is converted to `float`. -/
theorem SelectLevel_health_mana_boss :
    (Creature.SelectLevel_health_mana bossTableWorld sampleInfo 10).1 = 33554432 := by
  have ha : f32 (((33554433 : ℕ) : ℚ)) = 33554432 := by
    rw [f32_eq_of_bounds (((33554433 : ℕ) : ℚ)) (25) 8388608 (by norm_num)
      (by norm_num [abs_of_pos]) (by norm_num [abs_of_pos])
      (roundHalfEven_eq_of_lt _ _ (by norm_num) (by norm_num))]
    norm_num
  have hb : f32 (33554432 * 1) = 33554432 := by
    rw [f32_eq_of_bounds (33554432 * 1) (25) 8388608 (by norm_num) (by norm_num [abs_of_pos])
      (by norm_num [abs_of_pos])
      (roundHalfEven_eq_of_lt _ _ (by norm_num) (by norm_num))]
    norm_num
  show toUInt32 (f32 (f32 ((33554433 : ℕ) : ℚ) * f32 (1 : ℚ))) = 33554432
  rw [ha, f32_one, hb]
  exact toUInt32_eq_of_floor _ 33554432 (by norm_num) (by norm_num) (by norm_num)

/-- The health of the table path for base health 1000 and health multiplier 1.004: the
`float` nearest to 1.004 lies below it. -/
theorem SelectLevel_health_mana_rounded :
    (Creature.SelectLevel_health_mana tableWorld roundedInfo 10).1 = 1003 := by
  have hm : f32 (1004 / 1000) = 4211081 / 4194304 := by
    rw [f32_eq_of_bounds (1004 / 1000) (0) 8422162 (by norm_num) (by norm_num [abs_of_pos])
      (by norm_num [abs_of_pos])
      (roundHalfEven_eq_of_lt _ _ (by norm_num) (by norm_num))]
    norm_num
  have hp : f32 (1000 * (4211081 / 4194304)) = 16449535 / 16384 := by
    rw [f32_eq_of_bounds (1000 * (4211081 / 4194304)) (9) 16449535 (by norm_num)
      (by norm_num [abs_of_pos]) (by norm_num [abs_of_pos])
      (roundHalfEven_eq_of_lt _ _ (by norm_num) (by norm_num))]
    norm_num
  have h1000 : f32 ((1000 : ℕ) : ℚ) = 1000 := by
    rw [f32_natCast 1000 (by norm_num)]; norm_num
  show toUInt32 (f32 (f32 ((1000 : ℕ) : ℚ) * f32 (1004 / 1000 : ℚ))) = 1003
  rw [hm, h1000, hp]
  exact toUInt32_eq_of_floor _ 1003 (by norm_num) (by norm_num) (by norm_num)

/-- The value 1.5 is a single precision value. -/
theorem f32_three_halves : f32 (3 / 2) = 3 / 2 := by
  rw [f32_eq_of_bounds (3 / 2) (0) 12582912 (by norm_num) (by norm_num [abs_of_pos])
    (by norm_num [abs_of_pos])
    (roundHalfEven_eq_of_lt _ _ (by norm_num) (by norm_num))]
  norm_num

/-- The health of the table path for base health 1000 and health multiplier 1.0007. -/
theorem SelectLevel_health_mana_elite :
    (Creature.SelectLevel_health_mana tableWorld eliteInfo 10).1 = 1000 := by
  have hm : f32 (10007 / 10000) = 524655 / 524288 := by
    rw [f32_eq_of_bounds (10007 / 10000) (0) 8394480 (by norm_num) (by norm_num [abs_of_pos])
      (by norm_num [abs_of_pos])
      (roundHalfEven_eq_of_lt _ _ (by norm_num) (by norm_num))]
    norm_num
  have hp : f32 (1000 * (524655 / 524288)) = 16395469 / 16384 := by
    rw [f32_eq_of_bounds (1000 * (524655 / 524288)) (9) 16395469 (by norm_num)
      (by norm_num [abs_of_pos]) (by norm_num [abs_of_pos])
      (roundHalfEven_eq_of_lt _ _ (by norm_num) (by norm_num))]
    norm_num
  have h1000 : f32 ((1000 : ℕ) : ℚ) = 1000 := by
    rw [f32_natCast 1000 (by norm_num)]; norm_num
  show toUInt32 (f32 (f32 ((1000 : ℕ) : ℚ) * f32 (10007 / 10000 : ℚ))) = 1000
  rw [hm, h1000, hp]
  exact toUInt32_eq_of_floor _ 1000 (by norm_num) (by norm_num) (by norm_num)

/-- The health of the old style path of `SelectLevel`. -/
theorem SelectLevel_health_mana_legacy (w : World) (cinfo : CreatureInfo) (level : Nat)
    (htable : w.GetCreatureClassLvlStats level cinfo.UnitClass cinfo.Expansion = none) :
    (Creature.SelectLevel_health_mana w cinfo level).1
      = u32 (min cinfo.MaxLevelHealth cinfo.MinLevelHealth
          + toUInt32 (f32 ((if cinfo.MaxLevel = cinfo.MinLevel then (0 : ℚ)
              else f32 (f32 ((sub32 level cinfo.MinLevel : Nat) : ℚ)
                / f32 ((sub32 cinfo.MaxLevel cinfo.MinLevel : Nat) : ℚ)))
            * f32 ((max cinfo.MaxLevelHealth cinfo.MinLevelHealth
                - min cinfo.MaxLevelHealth cinfo.MinLevelHealth : Nat) : ℚ)))) := by
  simp only [Creature.SelectLevel_health_mana, htable]

/-- The old style health of the template with health bounds 0 and `2 ^ 25 + 3` at its
maximal level: the difference of the bounds is rounded up when it is converted to
`float`. -/
theorem SelectLevel_health_mana_bossLegacy :
    (Creature.SelectLevel_health_mana sampleWorld bossLegacyInfo 20).1 = 33554436 := by
  have hd : f32 (((33554435 : ℕ) : ℚ)) = 33554436 := by
    rw [f32_eq_of_bounds (((33554435 : ℕ) : ℚ)) (25) 8388609 (by norm_num)
      (by norm_num [abs_of_pos]) (by norm_num [abs_of_pos])
      (roundHalfEven_eq_of_lt _ _ (by norm_num) (by norm_num))]
    norm_num
  have hb : f32 (1 * 33554436) = 33554436 := by
    rw [f32_eq_of_bounds (1 * 33554436) (25) 8388609 (by norm_num) (by norm_num [abs_of_pos])
      (by norm_num [abs_of_pos])
      (roundHalfEven_eq_of_lt _ _ (by norm_num) (by norm_num))]
    norm_num
  have h10 : f32 ((10 : ℕ) : ℚ) = 10 := by
    rw [f32_natCast 10 (by norm_num)]; norm_num
  have hq : f32 ((10 : ℚ) / 10) = 1 := by
    rw [div_self (by norm_num), f32_one]
  have e1 : bossLegacyInfo.MaxLevelHealth = 33554435 := rfl
  have e2 : bossLegacyInfo.MinLevelHealth = 0 := rfl
  have e3 : bossLegacyInfo.MaxLevel = 20 := rfl
  have e4 : bossLegacyInfo.MinLevel = 10 := rfl
  have e5 : sub32 20 10 = 10 := by decide
  have e6 : max 33554435 0 - min 33554435 0 = 33554435 := by decide
  have e7 : min 33554435 0 = 0 := by decide
  rw [SelectLevel_health_mana_legacy sampleWorld bossLegacyInfo 20 rfl, e1, e2, e3, e4, e5, e6,
    e7, if_neg (by decide), h10, hq, hd, hb]
  have : toUInt32 (33554436 : ℚ) = 33554436 :=
    toUInt32_eq_of_floor _ 33554436 (by norm_num) (by norm_num) (by norm_num)
  rw [this]
  decide

/-- The maximal energy for the energy default 100 and power multiplier 0.53: the `float`
nearest to 0.53 lies below it. -/
theorem SelectLevel_maxValue_rounded (mana : Nat) :
    Creature.SelectLevel_maxValue sampleDefines roundedInfo mana Powers.POWER_ENERGY = 52 := by
  have hm : f32 (53 / 100) = 2222981 / 4194304 := by
    rw [f32_eq_of_bounds (53 / 100) (-1) 8891924 (by norm_num) (by norm_num [abs_of_pos])
      (by norm_num [abs_of_pos])
      (roundHalfEven_eq_of_lt _ _ (by norm_num) (by norm_num))]
    norm_num
  have hp : f32 (100 * (2222981 / 4194304)) = 13893631 / 262144 := by
    rw [f32_eq_of_bounds (100 * (2222981 / 4194304)) (5) 13893631 (by norm_num)
      (by norm_num [abs_of_pos]) (by norm_num [abs_of_pos])
      (roundHalfEven_eq_of_lt _ _ (by norm_num) (by norm_num))]
    norm_num
  have h100 : f32 ((100 : ℕ) : ℚ) = 100 := by
    rw [f32_natCast 100 (by norm_num)]; norm_num
  show toUInt32 (f32 (f32 ((100 : ℕ) : ℚ) * f32 (53 / 100 : ℚ))) = 52
  rw [hm, h100, hp]
  exact toUInt32_eq_of_floor _ 52 (by norm_num) (by norm_num) (by norm_num)

/-- The maximal energy for the energy default 100 and power multiplier 335544.75: the
product 33554475 is not a single precision value. -/
theorem SelectLevel_maxValue_energetic (mana : Nat) :
    Creature.SelectLevel_maxValue sampleDefines energeticInfo mana Powers.POWER_ENERGY
      = 33554476 := by
  have hm : f32 (1342179 / 4) = 1342179 / 4 := by
    rw [f32_eq_of_bounds (1342179 / 4) (18) 10737432 (by norm_num) (by norm_num [abs_of_pos])
      (by norm_num [abs_of_pos])
      (roundHalfEven_eq_of_lt _ _ (by norm_num) (by norm_num))]
    norm_num
  have hp : f32 (100 * (1342179 / 4)) = 33554476 := by
    rw [f32_eq_of_bounds (100 * (1342179 / 4)) (25) 8388619 (by norm_num)
      (by norm_num [abs_of_pos]) (by norm_num [abs_of_pos])
      (roundHalfEven_eq_of_lt _ _ (by norm_num) (by norm_num))]
    norm_num
  have h100 : f32 ((100 : ℕ) : ℚ) = 100 := by
    rw [f32_natCast 100 (by norm_num)]; norm_num
  show toUInt32 (f32 (f32 ((100 : ℕ) : ℚ) * f32 (1342179 / 4 : ℚ))) = 33554476
  rw [hm, h100, hp]
  exact toUInt32_eq_of_floor _ 33554476 (by norm_num) (by norm_num) (by norm_num)

/-- The `ALIVE` case from `Unit::Update` on, for a creature that survives `Unit::Update`, is
not evading and has an AI object. -/
theorem Update_alive_step (k : Defines) (w : World) (c : Creature) (update_diff : Nat)
    (halive : c.m_deathState = DeathState.ALIVE) (hkills : w.Unit_Update_kills = false)
    (hevade : w.IsInEvadeMode = false) (hai : c.i_AI.isSome = true) :
    c.Update_alive k w update_diff
      = if ({ AI_UpdateAI k w { c with m_AI_locked := true } with m_AI_locked := false }
            : Creature).m_deathState ≠ DeathState.ALIVE then
          { AI_UpdateAI k w { c with m_AI_locked := true } with m_AI_locked := false }
        else
          (({ AI_UpdateAI k w { c with m_AI_locked := true } with m_AI_locked := false }
            : Creature).RegenerateAll k w update_diff).SetStatsBasedOnPlayerMaxLevel k w := by
  have hu : Unit_Update k w c = c := by
    simp only [Unit_Update, hkills, Bool.false_eq_true, if_false]
  have hne : ¬ (c.m_deathState ≠ DeathState.ALIVE) := fun h => h halive
  unfold Creature.Update_alive
  dsimp only
  rw [hu, if_neg hne, Update_AI_step k w c hevade hai]

/-- An `ALIVE` tick of a creature that is not dead-by-default, survives `Unit::Update`, is
not evading and has an AI object: the AI step runs inside the tick, on the creature with
the lock set. -/
theorem Update_tick_AI_step (k : Defines) (w : World) (c : Creature) (update_diff diff : Nat)
    (halive : c.m_deathState = DeathState.ALIVE) (hdefault : c.m_isDeadByDefault = false)
    (hkills : w.Unit_Update_kills = false)
    (hevade : w.IsInEvadeMode = false) (hai : c.i_AI.isSome = true) :
    c.Update k w update_diff diff
      = if ({ AI_UpdateAI k w
              { c with
                m_aggroDelay := if c.m_aggroDelay ≤ update_diff then 0
                  else c.m_aggroDelay - update_diff
                m_AI_locked := true } with m_AI_locked := false }
            : Creature).m_deathState ≠ DeathState.ALIVE then
          { AI_UpdateAI k w
              { c with
                m_aggroDelay := if c.m_aggroDelay ≤ update_diff then 0
                  else c.m_aggroDelay - update_diff
                m_AI_locked := true } with m_AI_locked := false }
        else
          (({ AI_UpdateAI k w
              { c with
                m_aggroDelay := if c.m_aggroDelay ≤ update_diff then 0
                  else c.m_aggroDelay - update_diff
                m_AI_locked := true } with m_AI_locked := false }
            : Creature).RegenerateAll k w update_diff).SetStatsBasedOnPlayerMaxLevel k w := by
  have key : ∀ c1 : Creature, c1.m_deathState = DeathState.ALIVE →
      c1.m_isDeadByDefault = false → c1.i_AI.isSome = true →
      (if c1.m_isDeadByDefault = true
          ∧ c1.m_corpseDecayTimer ≤ update_diff ∧ Creature.IsPlayerSummon k w = true then
        c1.RemoveCorpse k w
      else
        (if c1.m_isDeadByDefault then
            { c1 with m_corpseDecayTimer := sub32 c1.m_corpseDecayTimer update_diff }
          else c1).Update_alive k w update_diff)
      = if ({ AI_UpdateAI k w { c1 with m_AI_locked := true } with m_AI_locked := false }
            : Creature).m_deathState ≠ DeathState.ALIVE then
          { AI_UpdateAI k w { c1 with m_AI_locked := true } with m_AI_locked := false }
        else
          (({ AI_UpdateAI k w { c1 with m_AI_locked := true } with m_AI_locked := false }
            : Creature).RegenerateAll k w update_diff).SetStatsBasedOnPlayerMaxLevel k w := by
    intro c1 h1 h2 h3
    have hn : ¬ (c1.m_isDeadByDefault = true
        ∧ c1.m_corpseDecayTimer ≤ update_diff ∧ Creature.IsPlayerSummon k w = true) := by
      rw [h2]; exact fun h => absurd h.1 (by decide)
    have hn2 : ¬ (c1.m_isDeadByDefault = true) := by rw [h2]; decide
    rw [if_neg hn, if_neg hn2]
    exact Update_alive_step k w c1 update_diff h1 hkills hevade h3
  unfold Creature.Update
  split
  · rename_i h; exact absurd (halive.symm.trans h) (by decide)
  · rename_i h; exact absurd (halive.symm.trans h) (by decide)
  · rename_i h; exact absurd (halive.symm.trans h) (by decide)
  · rename_i h; exact absurd (halive.symm.trans h) (by decide)
  · dsimp only
    by_cases hag : c.m_aggroDelay ≤ update_diff
    · rw [if_pos hag, if_pos hag]
      exact key { c with m_aggroDelay := 0 } halive hdefault hai
    · rw [if_neg hag, if_neg hag]
      exact key { c with m_aggroDelay := c.m_aggroDelay - update_diff } halive hdefault hai

/-! ## Theorems -/

/-- C1: `SetLootStatus` never lowers the loot status.  A request for a status that is
lower than or equal to the current one leaves the whole creature state unchanged, and
for every request the status after the call is at least the status before it. -/
theorem C1_SetLootStatus_never_lowers (k : Defines) (c : Creature) (s : CreatureLootStatus) :
    (s.val ≤ c.m_lootStatus.val → c.SetLootStatus k s = c) ∧
    c.m_lootStatus.val ≤ (c.SetLootStatus k s).m_lootStatus.val := by
  constructor
  · intro h
    simp [Creature.SetLootStatus, h]
  · by_cases h : s.val ≤ c.m_lootStatus.val
    · simp [Creature.SetLootStatus, h]
    · have hlt : c.m_lootStatus.val ≤ s.val := Nat.le_of_lt (Nat.lt_of_not_ge h)
      cases s <;> simp only [Creature.SetLootStatus, if_neg h] <;> (try split_ifs) <;> exact hlt

/-- Witness for C1: asking a looted corpse for the status Looted again changes nothing. -/
theorem C1_SetLootStatus_never_lowers_witness :
    CreatureLootStatus.CREATURE_LOOT_STATUS_LOOTED.val ≤ corpseCreature.m_lootStatus.val ∧
    corpseCreature.SetLootStatus sampleDefines CreatureLootStatus.CREATURE_LOOT_STATUS_LOOTED
      = corpseCreature :=
  ⟨by decide,
   (C1_SetLootStatus_never_lowers sampleDefines corpseCreature
      CreatureLootStatus.CREATURE_LOOT_STATUS_LOOTED).1 (by decide)⟩

/-- C2: `SelectAttackingTarget` returns no target when the creature cannot hold a
threat list, when `position` is not below the length of the threat list, or when the
threat list is empty, for every strategy, reference spell, flag mask and random draw. -/
theorem C2_SelectAttackingTarget_out_of_range (k : Defines) (w : World) (target : AttackingTarget)
    (position : Nat) (pSpellInfo : Option SpellEntry) (selectFlags draw : Nat)
    (h : w.CanHaveThreatList = false ∨ position ≥ w.threatList.length ∨ w.threatList = []) :
    Creature.SelectAttackingTarget k w target position pSpellInfo selectFlags draw = none := by
  unfold Creature.SelectAttackingTarget
  by_cases hc : w.CanHaveThreatList = false
  · rw [if_pos hc]
  · have hrange : position ≥ w.threatList.length ∨ w.threatList.length = 0 := by
      rcases h with h | h | h
      · exact absurd h hc
      · exact Or.inl h
      · exact Or.inr (by rw [h]; rfl)
    rw [if_neg hc]
    dsimp only
    rw [if_pos hrange]

/-- Witness for C2: position 3 in a threat list of three entries selects nobody. -/
theorem C2_SelectAttackingTarget_out_of_range_witness :
    (sampleWorld.CanHaveThreatList = false ∨ 3 ≥ sampleWorld.threatList.length
        ∨ sampleWorld.threatList = []) ∧
    Creature.SelectAttackingTarget sampleDefines sampleWorld
      AttackingTarget.ATTACKING_TARGET_TOPAGGRO 3 none 0 0 = none :=
  ⟨by decide,
   C2_SelectAttackingTarget_out_of_range sampleDefines sampleWorld
     AttackingTarget.ATTACKING_TARGET_TOPAGGRO 3 none 0 0 (by decide)⟩

/-- C3: a creature in the Dead state whose respawn time lies strictly after the current
time stays Dead with the same respawn time over one `Update` tick, for every elapsed
time, spawn-link status and owner. -/
theorem C3_Update_dead_before_respawn_time (k : Defines) (w : World) (c : Creature)
    (update_diff diff : Nat)
    (hdead : c.m_deathState = DeathState.DEAD) (hfuture : w.time < c.m_respawnTime) :
    (c.Update k w update_diff diff).m_deathState = DeathState.DEAD ∧
    (c.Update k w update_diff diff).m_respawnTime = c.m_respawnTime := by
  have hnot : ¬ (c.m_respawnTime ≤ w.time) := not_le.mpr hfuture
  have hsame : c.Update k w update_diff diff = c := by
    simp only [Creature.Update, hdead]
    split_ifs with h1 h2
    · rfl
    · exact absurd h2.1 hnot
    · rfl
  rw [hsame]
  exact ⟨hdead, rfl⟩

/-- Witness for C3: a player summon waiting for respawn time 2000 at time 1000. -/
theorem C3_Update_dead_before_respawn_time_witness :
    waitingCreature.m_deathState = DeathState.DEAD ∧
    summonWorld.time < waitingCreature.m_respawnTime ∧
    (waitingCreature.Update sampleDefines summonWorld 100 100).m_deathState = DeathState.DEAD ∧
    (waitingCreature.Update sampleDefines summonWorld 100 100).m_respawnTime
      = waitingCreature.m_respawnTime :=
  ⟨by decide, by decide,
   C3_Update_dead_before_respawn_time sampleDefines summonWorld waitingCreature 100 100
     (by decide) (by decide)⟩

/-- C4 fails as stated: a dead creature without a player owner whose respawn time has
passed, not dead-by-default and not spawn-linked, is still Dead after an `Update` tick. -/
theorem C4_Update_dead_respawn_counterexample :
    deadCreature.m_deathState = DeathState.DEAD ∧
    deadCreature.m_isDeadByDefault = false ∧
    deadCreature.m_respawnTime ≤ sampleWorld.time ∧
    deadCreature.m_isSpawningLinked = false ∧
    (deadCreature.Update sampleDefines sampleWorld 100 100).m_deathState ≠ DeathState.ALIVE := by
  decide

/-- C4 (amended): a creature in the Dead state that is a player summon, is not
dead-by-default, has `m_respawnTime <= now` and has either no spawn link or a linking
holder that allows the spawn, is respawned by one `Update` tick: afterwards the death
state is Alive, `m_respawnTime` is 0 and the aggro delay is the configured respawn
aggro delay. -/
theorem C4_Update_dead_respawns_player_summon (k : Defines) (w : World) (c : Creature)
    (update_diff diff : Nat)
    (hdead : c.m_deathState = DeathState.DEAD)
    (hdefault : c.m_isDeadByDefault = false)
    (hsummon : Creature.IsPlayerSummon k w = true)
    (htime : c.m_respawnTime ≤ w.time)
    (hlink : c.m_isSpawningLinked = false ∨ w.CanSpawn = true) :
    (c.Update k w update_diff diff).m_deathState = DeathState.ALIVE ∧
    (c.Update k w update_diff diff).m_respawnTime = 0 ∧
    (c.Update k w update_diff diff).m_aggroDelay = w.CONFIG_UINT32_CREATURE_RESPAWN_AGGRO_DELAY := by
  have hupd : c.Update k w update_diff diff = c.Update_respawn k w := by
    simp only [Creature.Update, hdead, hsummon]
    simp [htime, hlink]
  rw [hupd]
  exact Update_respawn_not_deadByDefault k w c hdefault

/-- Witness for C4 (amended): the dead sample creature, owned by a player. -/
theorem C4_Update_dead_respawns_player_summon_witness :
    deadCreature.m_deathState = DeathState.DEAD ∧
    deadCreature.m_isDeadByDefault = false ∧
    Creature.IsPlayerSummon sampleDefines summonWorld = true ∧
    deadCreature.m_respawnTime ≤ summonWorld.time ∧
    (deadCreature.Update sampleDefines summonWorld 100 100).m_deathState = DeathState.ALIVE ∧
    (deadCreature.Update sampleDefines summonWorld 100 100).m_respawnTime = 0 ∧
    (deadCreature.Update sampleDefines summonWorld 100 100).m_aggroDelay
      = summonWorld.CONFIG_UINT32_CREATURE_RESPAWN_AGGRO_DELAY :=
  ⟨by decide, by decide, by decide, by decide,
   C4_Update_dead_respawns_player_summon sampleDefines summonWorld deadCreature 100 100
     (by decide) (by decide) (by decide) (by decide) (Or.inl (by decide))⟩

/-- C5 fails as stated: an in-world corpse without a player owner, not dead-by-default,
whose decay timer (5) is below the elapsed time (10), is still a Corpse after the tick. -/
theorem C5_Update_corpse_removal_counterexample :
    corpseCreature.inWorld = true ∧
    corpseCreature.m_deathState = DeathState.CORPSE ∧
    corpseCreature.m_isDeadByDefault = false ∧
    corpseCreature.m_corpseDecayTimer ≤ 10 ∧
    (corpseCreature.Update sampleDefines sampleWorld 10 10).m_deathState ≠ DeathState.DEAD := by
  decide

/-- C5 (amended): a creature in the Corpse state that is a player summon, is not
dead-by-default, is in the world and is not taken out of it by the pool update, and
whose corpse-decay timer is at most the elapsed time `update_diff`, loses its corpse
in one `Update` tick: afterwards the death state is Dead and the corpse-decay timer
is 0. -/
theorem C5_Update_corpse_removed_player_summon (k : Defines) (w : World) (c : Creature)
    (update_diff diff : Nat)
    (hworld : c.inWorld = true)
    (hpool : w.IsPartOfAPool = 0 ∨ w.UpdatePool_despawns = false)
    (hcorpse : c.m_deathState = DeathState.CORPSE)
    (hdefault : c.m_isDeadByDefault = false)
    (hsummon : Creature.IsPlayerSummon k w = true)
    (htimer : c.m_corpseDecayTimer ≤ update_diff) :
    (c.Update k w update_diff diff).m_deathState = DeathState.DEAD ∧
    (c.Update k w update_diff diff).m_corpseDecayTimer = 0 := by
  have hupd : c.Update k w update_diff diff = c.RemoveCorpse k w := by
    simp only [Creature.Update, hcorpse, hdefault, hsummon]
    simp [htimer]
  rw [hupd]
  exact RemoveCorpse_corpse k w c hworld hpool hcorpse hdefault

/-- Witness for C5 (amended): the sample corpse, owned by a player, after 10 ms. -/
theorem C5_Update_corpse_removed_player_summon_witness :
    corpseCreature.inWorld = true ∧
    corpseCreature.m_deathState = DeathState.CORPSE ∧
    Creature.IsPlayerSummon sampleDefines summonWorld = true ∧
    corpseCreature.m_corpseDecayTimer ≤ 10 ∧
    (corpseCreature.Update sampleDefines summonWorld 10 10).m_deathState = DeathState.DEAD ∧
    (corpseCreature.Update sampleDefines summonWorld 10 10).m_corpseDecayTimer = 0 :=
  ⟨by decide, by decide, by decide, by decide,
   C5_Update_corpse_removed_player_summon sampleDefines summonWorld corpseCreature 10 10
     (by decide) (Or.inl (by decide)) (by decide) (by decide) (by decide) (by decide)⟩

/-- C6: `SetDeathState` never leaves a transient state behind.  `SetDeathState(JUST_DIED)`
ends in Corpse, `SetDeathState(JUST_ALIVED)` ends in Alive, and after any call the death
state is one of Alive, Corpse, Dead. -/
theorem C6_SetDeathState_no_transient_state (k : Defines) (w : World) (c : Creature) :
    (c.SetDeathState k w DeathState.JUST_DIED).m_deathState = DeathState.CORPSE ∧
    (c.SetDeathState k w DeathState.JUST_ALIVED).m_deathState = DeathState.ALIVE ∧
    ∀ s : DeathState,
      (c.SetDeathState k w s).m_deathState = DeathState.ALIVE ∨
      (c.SetDeathState k w s).m_deathState = DeathState.CORPSE ∨
      (c.SetDeathState k w s).m_deathState = DeathState.DEAD := by
  refine ⟨by rw [SetDeathState_deathState], by rw [SetDeathState_deathState], ?_⟩
  intro s
  rw [SetDeathState_deathState]
  cases s <;> simp

/-- C7: `SetDeathState(s)` recomputes the death timers exactly when `s` is `JUST_DIED`
and the creature is not dead-by-default, or `s` is `JUST_ALIVED` and the creature is
dead-by-default.  Then the corpse-decay timer becomes `m_corpseDelay * 1000` modulo
`2 ^ 32` and the respawn time becomes `now + m_respawnDelay`; in every other case the
call leaves both timers unchanged. -/
theorem C7_SetDeathState_death_timers (k : Defines) (w : World) (c : Creature) (s : DeathState) :
    if (s = DeathState.JUST_DIED ∧ c.m_isDeadByDefault = false)
        ∨ (s = DeathState.JUST_ALIVED ∧ c.m_isDeadByDefault = true) then
      (c.SetDeathState k w s).m_corpseDecayTimer = (c.m_corpseDelay * 1000) % 2 ^ 32 ∧
      (c.SetDeathState k w s).m_respawnTime = w.time + (c.m_respawnDelay : Int)
    else
      (c.SetDeathState k w s).m_corpseDecayTimer = c.m_corpseDecayTimer ∧
      (c.SetDeathState k w s).m_respawnTime = c.m_respawnTime := by
  split_ifs with h
  · have hr := SetDeathState_timers_recomputed k w c s h
    refine ⟨?_, hr.2⟩
    rw [hr.1]
    simp [u32, IN_MILLISECONDS]
  · exact SetDeathState_timers_kept k w c s h

/-- C8: `GetLootRecipient` resolves the effective recipient from the recorded player guid
and group id.  If the group id is 0 or the group no longer exists, the result is the
recorded player if it resolves and nobody otherwise.  If the group exists and the
recorded player resolves and is currently in that group, the result is that player.
Otherwise the result is the first member of the group whose player is present, and
nobody if no member is present. -/
theorem C8_GetLootRecipient_resolution (w : World) (c : Creature) :
    ((c.m_lootGroupRecipientId = 0 ∨ w.GetGroupById c.m_lootGroupRecipientId = none) →
      c.GetLootRecipient w
        = if c.m_lootRecipientGuid ≠ 0 then w.FindPlayer c.m_lootRecipientGuid else none) ∧
    (∀ (g : GroupPtr) (p : PlayerPtr),
      c.m_lootGroupRecipientId ≠ 0 → w.GetGroupById c.m_lootGroupRecipientId = some g →
      c.m_lootRecipientGuid ≠ 0 → w.FindPlayer c.m_lootRecipientGuid = some p →
      w.Player_GetGroup p = some g →
      c.GetLootRecipient w = some p) ∧
    (∀ g : GroupPtr,
      c.m_lootGroupRecipientId ≠ 0 → w.GetGroupById c.m_lootGroupRecipientId = some g →
      (∀ p : PlayerPtr, c.m_lootRecipientGuid ≠ 0 →
        w.FindPlayer c.m_lootRecipientGuid = some p → w.Player_GetGroup p ≠ some g) →
      c.GetLootRecipient w = ((w.Group_members g).filterMap id).head?) := by
  refine ⟨?_, ?_, ?_⟩
  · intro h
    have hgroup : c.GetGroupLootRecipient w = none := by
      unfold Creature.GetGroupLootRecipient
      rcases h with h | h
      · simp [h]
      · split_ifs
        · exact h
        · rfl
    simp only [Creature.GetLootRecipient, hgroup, Creature.GetOriginalLootRecipient]
  · intro g p hid hg hguid hp hin
    have hgroup : c.GetGroupLootRecipient w = some g := by
      simp [Creature.GetGroupLootRecipient, hid, hg]
    have hplayer : c.GetOriginalLootRecipient w = some p := by
      simp [Creature.GetOriginalLootRecipient, hguid, hp]
    simp [Creature.GetLootRecipient, hgroup, hplayer, hin]
  · intro g hid hg hout
    have hgroup : c.GetGroupLootRecipient w = some g := by
      simp [Creature.GetGroupLootRecipient, hid, hg]
    simp only [Creature.GetLootRecipient, hgroup, ← findAnyInGroup_eq_head]
    cases hplayer : c.GetOriginalLootRecipient w with
    | none => rfl
    | some p =>
      have hres : c.m_lootRecipientGuid ≠ 0 ∧ w.FindPlayer c.m_lootRecipientGuid = some p := by
        unfold Creature.GetOriginalLootRecipient at hplayer
        split_ifs at hplayer with h0
        exact ⟨h0, hplayer⟩
      simp only [if_neg (hout p hres.1 hres.2)]

/-- Witness for C8: the recorded player 1 has left the existing group 7, so the first
present member of the group, player 2, is the effective recipient. -/
theorem C8_GetLootRecipient_resolution_witness :
    sampleCreature.m_lootGroupRecipientId ≠ 0 ∧
    sampleWorld.GetGroupById sampleCreature.m_lootGroupRecipientId = some ⟨7⟩ ∧
    sampleCreature.GetLootRecipient sampleWorld
      = ((sampleWorld.Group_members ⟨7⟩).filterMap id).head? ∧
    sampleCreature.GetLootRecipient sampleWorld = some ⟨2⟩ :=
  ⟨by decide, by decide,
   (C8_GetLootRecipient_resolution sampleWorld sampleCreature).2.2 ⟨7⟩ (by decide) (by decide)
     (by
       intro p _ hp
       have h1 : sampleWorld.FindPlayer sampleCreature.m_lootRecipientGuid = some ⟨1⟩ := by
         decide
       rw [h1] at hp
       cases hp
       decide),
   by decide⟩

/-- C9: when the recorded group still exists with at least one present member and the
recorded player `P` is online but no longer a member of that group (the group view
being coherent: the present members it lists are players whose group it is),
`GetLootRecipient` returns a present member of the group different from `P`, and
`IsTappedBy(P)` is false. -/
theorem C9_left_group_not_tapped (w : World) (c : Creature) (g : GroupPtr) (P : PlayerPtr)
    (hid : c.m_lootGroupRecipientId ≠ 0)
    (hg : w.GetGroupById c.m_lootGroupRecipientId = some g)
    (hguid : c.m_lootRecipientGuid ≠ 0)
    (hP : w.FindPlayer c.m_lootRecipientGuid = some P)
    (hmembers : ∀ p : PlayerPtr, some p ∈ w.Group_members g → w.Player_GetGroup p = some g)
    (hpresent : ∃ p : PlayerPtr, some p ∈ w.Group_members g)
    (hleft : w.Player_GetGroup P ≠ some g) :
    ∃ r : PlayerPtr, c.GetLootRecipient w = some r ∧ some r ∈ w.Group_members g ∧ r ≠ P ∧
      c.IsTappedBy w P = false := by
  obtain ⟨r, hr⟩ := findAnyInGroup_present (w.Group_members g) hpresent
  have hgroup : c.GetGroupLootRecipient w = some g := by
    simp [Creature.GetGroupLootRecipient, hid, hg]
  have hplayer : c.GetOriginalLootRecipient w = some P := by
    simp [Creature.GetOriginalLootRecipient, hguid, hP]
  have hrec : c.GetLootRecipient w = some r := by
    simp only [Creature.GetLootRecipient, hgroup, hplayer, if_neg hleft, hr]
  have hmem : some r ∈ w.Group_members g := findAnyInGroup_mem _ _ hr
  have hrg : w.Player_GetGroup r = some g := hmembers r hmem
  have hne : r ≠ P := by
    intro h
    rw [h] at hrg
    exact hleft hrg
  refine ⟨r, hrec, hmem, hne, ?_⟩
  simp only [Creature.IsTappedBy, hrec, if_neg hne, hrg]
  cases hPg : w.Player_GetGroup P with
  | none => rfl
  | some g2 =>
    have hg2 : g2 ≠ g := by
      intro h
      rw [h] at hPg
      exact hleft hPg
    simp [hg2]

/-- Witness for C9: player 1 tapped the sample creature in group 7 and left the group;
player 2 is the effective recipient and player 1 is not tap-eligible. -/
theorem C9_left_group_not_tapped_witness :
    ∃ r : PlayerPtr, sampleCreature.GetLootRecipient sampleWorld = some r ∧
      some r ∈ sampleWorld.Group_members ⟨7⟩ ∧ r ≠ ⟨1⟩ ∧
      sampleCreature.IsTappedBy sampleWorld ⟨1⟩ = false :=
  C9_left_group_not_tapped sampleWorld sampleCreature ⟨7⟩ ⟨1⟩ (by decide) (by decide)
    (by decide) (by decide)
    (by
      intro p hp
      have h : p = ⟨2⟩ ∨ p = ⟨3⟩ := by simpa [sampleWorld] using hp
      rcases h with h | h <;> subst h <;> decide)
    ⟨⟨2⟩, by decide⟩ (by decide)

/-- C10: `IsTappedBy(plr)` is true exactly when `GetLootRecipient` yields a player `r`
and either `r` is `plr` or `r` is in a group and `plr` is in that same group.  It is
false for every player when there is no effective recipient, and false when the
recipient and `plr` are two distinct players without a group. -/
theorem C10_IsTappedBy_iff (w : World) (c : Creature) (plr : PlayerPtr) :
    (c.IsTappedBy w plr = true ↔
      ∃ r : PlayerPtr, c.GetLootRecipient w = some r ∧
        (r = plr ∨ ∃ g : GroupPtr, w.Player_GetGroup r = some g ∧ w.Player_GetGroup plr = some g)) ∧
    (c.GetLootRecipient w = none → c.IsTappedBy w plr = false) ∧
    (∀ r : PlayerPtr, c.GetLootRecipient w = some r → r ≠ plr →
      w.Player_GetGroup r = none → w.Player_GetGroup plr = none → c.IsTappedBy w plr = false) := by
  refine ⟨?_, ?_, ?_⟩
  · unfold Creature.IsTappedBy
    cases hrec : c.GetLootRecipient w with
    | none => simp
    | some r =>
      by_cases hrp : r = plr
      · simp [hrp]
      · cases hrg : w.Player_GetGroup r with
        | none => simp [hrp, hrg]
        | some grp =>
          cases hpg : w.Player_GetGroup plr with
          | none => simp [hrp, hrg, hpg]
          | some plrGroup =>
            by_cases hgg : plrGroup = grp
            · simp [hrp, hrg, hpg, hgg]
            · have hgg2 : ¬ grp = plrGroup := fun h => hgg h.symm
              simp [hrp, hrg, hpg, hgg, hgg2]
  · intro hnone
    simp [Creature.IsTappedBy, hnone]
  · intro r hrec hne hrg _
    simp [Creature.IsTappedBy, hrec, hne, hrg]

/-- Witness for C10: with no recorded recipient, player 1 has not tapped the creature. -/
theorem C10_IsTappedBy_iff_witness :
    Creature.GetLootRecipient sampleWorld
        (Creature.SetLootRecipient sampleWorld sampleCreature none) = none ∧
    Creature.IsTappedBy sampleWorld
        (Creature.SetLootRecipient sampleWorld sampleCreature none) ⟨1⟩ = false :=
  ⟨by decide,
   (C10_IsTappedBy_iff sampleWorld (Creature.SetLootRecipient sampleWorld sampleCreature none)
      ⟨1⟩).2.1 (by decide)⟩

/-- C11 fails as stated: with rate 0 and a respawn delay of 5000000 s (above the corpse
delay) the new timer is not `(m_respawnDelay * 1000) / 3`: the 32 bit product wraps. -/
theorem C11_PrepareBodyLootState_decay_timer_counterexample :
    sampleWorld.CONFIG_FLOAT_RATE_CORPSE_DECAY_LOOTED = 0 ∧
    slowRespawnCorpse.m_respawnDelay > slowRespawnCorpse.m_corpseDelay ∧
    (slowRespawnCorpse.PrepareBodyLootState sampleWorld).m_corpseDecayTimer = 235010901 ∧
    slowRespawnCorpse.m_respawnDelay * 1000 / 3 = 1666666666 := by
  refine ⟨rfl, by decide, ?_, by decide⟩
  rw [PrepareBodyLootState_timer]
  have hr : sampleWorld.CONFIG_FLOAT_RATE_CORPSE_DECAY_LOOTED = 0 := rfl
  simp [Creature.corpseLootedDelay, hr, f32_zero, slowRespawnCorpse, freshCorpse, sampleCreature,
    u32, IN_MILLISECONDS]

/-- C11 (amended): `PrepareBodyLootState` sets the corpse-decay timer by the looted-decay
policy, on 32 bit products and in single precision.  If the configured looted decay rate,
read as a `float`, is positive, `L` is the conversion to `uint32` of the single precision
product of `float((m_corpseDelay * 1000) mod 2 ^ 32)` and the rate: the product is
rounded to the nearest `float` before its fraction is dropped.  Otherwise `L` is
`((m_respawnDelay * 1000) mod 2 ^ 32) / 3` in integer division.  The new timer is `L` if
`m_respawnDelay > m_corpseDelay` and `min (old timer) L` otherwise.  For corpse delay
60 s and rate 0.13, `L` is 7799.  For corpse delay 60 s, respawn delay 25 s and rate 0,
`L` is 8333: the timer becomes 8333 when the old timer exceeded 8333 and is kept
otherwise. -/
theorem C11_PrepareBodyLootState_decay_timer (w : World) (c : Creature) :
    (0 < f32 w.CONFIG_FLOAT_RATE_CORPSE_DECAY_LOOTED →
      (c.PrepareBodyLootState w).m_corpseDecayTimer =
        if c.m_respawnDelay > c.m_corpseDelay then
          toUInt32 (f32 (f32 ((c.m_corpseDelay * 1000 % 2 ^ 32 : ℕ) : ℚ)
            * f32 w.CONFIG_FLOAT_RATE_CORPSE_DECAY_LOOTED))
        else
          min c.m_corpseDecayTimer
            (toUInt32 (f32 (f32 ((c.m_corpseDelay * 1000 % 2 ^ 32 : ℕ) : ℚ)
              * f32 w.CONFIG_FLOAT_RATE_CORPSE_DECAY_LOOTED)))) ∧
    (¬ 0 < f32 w.CONFIG_FLOAT_RATE_CORPSE_DECAY_LOOTED →
      (c.PrepareBodyLootState w).m_corpseDecayTimer =
        if c.m_respawnDelay > c.m_corpseDelay then c.m_respawnDelay * 1000 % 2 ^ 32 / 3
        else min c.m_corpseDecayTimer (c.m_respawnDelay * 1000 % 2 ^ 32 / 3)) ∧
    (c.m_corpseDelay = 60 → c.m_respawnDelay = 25 →
      (c.PrepareBodyLootState lootedRateWorld).m_corpseDecayTimer
        = min c.m_corpseDecayTimer 7799) ∧
    (c.m_corpseDelay = 60 → c.m_respawnDelay = 25 →
      w.CONFIG_FLOAT_RATE_CORPSE_DECAY_LOOTED = 0 →
      (c.PrepareBodyLootState w).m_corpseDecayTimer = min c.m_corpseDecayTimer 8333 ∧
      (8333 < c.m_corpseDecayTimer → (c.PrepareBodyLootState w).m_corpseDecayTimer = 8333) ∧
      (c.m_corpseDecayTimer ≤ 8333 →
        (c.PrepareBodyLootState w).m_corpseDecayTimer = c.m_corpseDecayTimer)) := by
  refine ⟨?_, ?_, ?_, ?_⟩
  · intro hrate
    have hL : c.corpseLootedDelay w =
        toUInt32 (f32 (f32 ((c.m_corpseDelay * 1000 % 2 ^ 32 : ℕ) : ℚ)
          * f32 w.CONFIG_FLOAT_RATE_CORPSE_DECAY_LOOTED)) := by
      simp only [Creature.corpseLootedDelay, if_pos (show f32 w.CONFIG_FLOAT_RATE_CORPSE_DECAY_LOOTED > 0
        from hrate), u32, IN_MILLISECONDS]
      rfl
    rw [PrepareBodyLootState_timer, hL]
  · intro hrate
    have hL : c.corpseLootedDelay w = c.m_respawnDelay * 1000 % 2 ^ 32 / 3 := by
      simp only [Creature.corpseLootedDelay, if_neg (show ¬ f32 w.CONFIG_FLOAT_RATE_CORPSE_DECAY_LOOTED > 0
        from hrate), u32, IN_MILLISECONDS]
      rfl
    rw [PrepareBodyLootState_timer, hL]
  · intro hc hr
    rw [PrepareBodyLootState_timer, corpseLootedDelay_sample c hc, hc, hr]
    simp
  · intro hc hr hrate
    have hnot : ¬ f32 w.CONFIG_FLOAT_RATE_CORPSE_DECAY_LOOTED > 0 := by
      rw [hrate, f32_zero]; exact lt_irrefl 0
    have hL : c.corpseLootedDelay w = 8333 := by
      simp only [Creature.corpseLootedDelay, if_neg hnot, u32, IN_MILLISECONDS, hr]
    have ht : (c.PrepareBodyLootState w).m_corpseDecayTimer = min c.m_corpseDecayTimer 8333 := by
      rw [PrepareBodyLootState_timer, hL, hc, hr]
      simp
    refine ⟨ht, ?_, ?_⟩
    · intro h; rw [ht]; omega
    · intro h; rw [ht]; omega

/-- Witness for C11 (amended): a fresh corpse with 60000 ms scheduled, corpse delay 60 s,
respawn delay 25 s and rate 0 ends with a timer of 8333 ms, and with a timer of 7799 ms
under the rate 0.13. -/
theorem C11_PrepareBodyLootState_decay_timer_witness :
    freshCorpse.m_corpseDelay = 60 ∧ freshCorpse.m_respawnDelay = 25 ∧
    sampleWorld.CONFIG_FLOAT_RATE_CORPSE_DECAY_LOOTED = 0 ∧
    8333 < freshCorpse.m_corpseDecayTimer ∧
    (freshCorpse.PrepareBodyLootState sampleWorld).m_corpseDecayTimer = 8333 ∧
    (freshCorpse.PrepareBodyLootState lootedRateWorld).m_corpseDecayTimer
      = min freshCorpse.m_corpseDecayTimer 7799 :=
  ⟨rfl, rfl, rfl, by decide,
   ((C11_PrepareBodyLootState_decay_timer sampleWorld freshCorpse).2.2.2 rfl rfl rfl).2.1
     (by decide),
   (C11_PrepareBodyLootState_decay_timer sampleWorld freshCorpse).2.2.1 rfl rfl⟩

/-- C12: after `PrepareBodyLootState` the creature holds a loot session exactly when
`GetLootRecipient` resolves to a player; the session is a new one for that player,
whatever session existed before, and there is none when there is no effective
recipient. -/
theorem C12_PrepareBodyLootState_loot_session (w : World) (c : Creature) :
    ((c.PrepareBodyLootState w).loot.isSome = true ↔ (c.GetLootRecipient w).isSome = true) ∧
    (c.PrepareBodyLootState w).loot = (c.GetLootRecipient w).map Loot.mk ∧
    (c.GetLootRecipient w = none → (c.PrepareBodyLootState w).loot = none) := by
  have h := PrepareBodyLootState_loot w c
  refine ⟨?_, h, ?_⟩
  · rw [h]; cases c.GetLootRecipient w <;> simp
  · intro hnone; rw [h, hnone]; rfl

/-- Witness for C12: the pickpocket session of player 3 is replaced by a session of the
effective recipient, player 2; without recorded recipient no session is left. -/
theorem C12_PrepareBodyLootState_loot_session_witness :
    freshCorpse.loot = some ⟨⟨3⟩⟩ ∧
    (freshCorpse.PrepareBodyLootState sampleWorld).loot = some ⟨⟨2⟩⟩ ∧
    Creature.GetLootRecipient sampleWorld (Creature.SetLootRecipient sampleWorld freshCorpse none)
      = none ∧
    (Creature.PrepareBodyLootState sampleWorld
      (Creature.SetLootRecipient sampleWorld freshCorpse none)).loot = none :=
  ⟨rfl,
   (C12_PrepareBodyLootState_loot_session sampleWorld freshCorpse).2.1.trans (by decide),
   by decide,
   (C12_PrepareBodyLootState_loot_session sampleWorld
      (Creature.SetLootRecipient sampleWorld freshCorpse none)).2.2 (by decide)⟩

/-- C13 fails as stated: the fresh corpse is in the world and not dead-by-default, but it
belongs to a pool whose update, made at the start of `RemoveCorpse`, takes it out of the
world.  `RemoveCorpse` then returns at its `IsInWorld()` test: the creature is still a
Corpse with its decay timer of 60000 ms and its loot session. -/
theorem C13_RemoveCorpse_effect_counterexample :
    freshCorpse.inWorld = true ∧ freshCorpse.m_isDeadByDefault = false ∧
    freshCorpse.m_deathState = DeathState.CORPSE ∧
    pooledWorld.IsPartOfAPool = 5 ∧ pooledWorld.UpdatePool_despawns = true ∧
    (freshCorpse.RemoveCorpse sampleDefines pooledWorld).m_deathState = DeathState.CORPSE ∧
    (freshCorpse.RemoveCorpse sampleDefines pooledWorld).m_corpseDecayTimer = 60000 ∧
    (freshCorpse.RemoveCorpse sampleDefines pooledWorld).loot = some ⟨⟨3⟩⟩ :=
  ⟨rfl, rfl, rfl, rfl, rfl, rfl, rfl, rfl⟩

/-- C13 (amended): `RemoveCorpse` on a creature that is not dead-by-default.  If it is a
Corpse, in the world, and not taken out of the world by the pool update that `RemoveCorpse`
makes first (it belongs to no pool, or the pool update leaves it spawned), it ends with
death state Dead, corpse-decay timer 0, no loot session and loot status None.  If it is in
any state other than Corpse, the death state, the timers, the loot session and the loot
status are all unchanged. -/
theorem C13_RemoveCorpse_effect (k : Defines) (w : World) (c : Creature)
    (hdefault : c.m_isDeadByDefault = false) :
    (c.inWorld = true → (w.IsPartOfAPool = 0 ∨ w.UpdatePool_despawns = false) →
      c.m_deathState = DeathState.CORPSE →
      (c.RemoveCorpse k w).m_deathState = DeathState.DEAD ∧
      (c.RemoveCorpse k w).m_corpseDecayTimer = 0 ∧
      (c.RemoveCorpse k w).loot = none ∧
      (c.RemoveCorpse k w).m_lootStatus = CreatureLootStatus.CREATURE_LOOT_STATUS_NONE) ∧
    (c.m_deathState ≠ DeathState.CORPSE →
      (c.RemoveCorpse k w).m_deathState = c.m_deathState ∧
      (c.RemoveCorpse k w).m_corpseDecayTimer = c.m_corpseDecayTimer ∧
      (c.RemoveCorpse k w).m_respawnTime = c.m_respawnTime ∧
      (c.RemoveCorpse k w).m_aggroDelay = c.m_aggroDelay ∧
      (c.RemoveCorpse k w).m_regenTimer = c.m_regenTimer ∧
      (c.RemoveCorpse k w).loot = c.loot ∧
      (c.RemoveCorpse k w).m_lootStatus = c.m_lootStatus) := by
  constructor
  · intro hworld hpool hcorpse
    have h1 := RemoveCorpse_corpse k w c hworld hpool hcorpse hdefault
    have h2 := RemoveCorpse_corpse_loot k w c hworld hpool hcorpse hdefault
    exact ⟨h1.1, h1.2, h2.1, h2.2⟩
  · intro hstate
    have h := RemoveCorpse_not_corpse k w c hdefault hstate
    refine ⟨?_, ?_, ?_, ?_, ?_, ?_, ?_⟩ <;> rw [h]

/-- Witness for C13 (amended): the fresh corpse with its loot session, in the sample world. -/
theorem C13_RemoveCorpse_effect_witness :
    freshCorpse.m_isDeadByDefault = false ∧ freshCorpse.inWorld = true ∧
    freshCorpse.m_deathState = DeathState.CORPSE ∧ freshCorpse.loot = some ⟨⟨3⟩⟩ ∧
    (freshCorpse.RemoveCorpse sampleDefines sampleWorld).m_deathState = DeathState.DEAD ∧
    (freshCorpse.RemoveCorpse sampleDefines sampleWorld).m_corpseDecayTimer = 0 ∧
    (freshCorpse.RemoveCorpse sampleDefines sampleWorld).loot = none ∧
    (freshCorpse.RemoveCorpse sampleDefines sampleWorld).m_lootStatus
      = CreatureLootStatus.CREATURE_LOOT_STATUS_NONE :=
  ⟨rfl, rfl, rfl, rfl,
   (C13_RemoveCorpse_effect sampleDefines sampleWorld freshCorpse rfl).1 rfl
     (Or.inl (by decide)) rfl⟩

/-- C14 fails as stated: the fresh corpse holds a loot session and has loot status None;
after `SetLootStatus(Skinned)` it still holds the session. -/
theorem C14_SetLootStatus_skinned_loot_counterexample :
    freshCorpse.loot.isSome = true ∧
    freshCorpse.m_lootStatus.val < CreatureLootStatus.CREATURE_LOOT_STATUS_SKINNED.val ∧
    (freshCorpse.SetLootStatus sampleDefines
      CreatureLootStatus.CREATURE_LOOT_STATUS_SKINNED).loot ≠ none := by
  decide

/-- C14 (amended): when `SetLootStatus` advances a corpse to Skinned, the loot session is
kept and the corpse-decay timer is set to 0; the session is destroyed when the corpse is
removed afterwards.  `RemoveCorpse` on the skinned corpse (Corpse, not dead-by-default,
in the world and not taken out by the pool update) leaves no loot session, and for a
player summon the next `Update` tick does so for every elapsed time. -/
theorem C14_SetLootStatus_skinned_loot (k : Defines) (w : World) (c : Creature)
    (update_diff diff : Nat)
    (hstatus : c.m_lootStatus.val < CreatureLootStatus.CREATURE_LOOT_STATUS_SKINNED.val) :
    (c.SetLootStatus k CreatureLootStatus.CREATURE_LOOT_STATUS_SKINNED).loot = c.loot ∧
    (c.SetLootStatus k CreatureLootStatus.CREATURE_LOOT_STATUS_SKINNED).m_corpseDecayTimer = 0 ∧
    (c.inWorld = true → (w.IsPartOfAPool = 0 ∨ w.UpdatePool_despawns = false) →
      c.m_deathState = DeathState.CORPSE → c.m_isDeadByDefault = false →
      (Creature.RemoveCorpse k w
        (c.SetLootStatus k CreatureLootStatus.CREATURE_LOOT_STATUS_SKINNED)).loot = none ∧
      (Creature.IsPlayerSummon k w = true →
        (Creature.Update k w
          (c.SetLootStatus k CreatureLootStatus.CREATURE_LOOT_STATUS_SKINNED)
          update_diff diff).loot = none)) := by
  have key : ∀ c2 : Creature, c2.inWorld = true → c2.m_deathState = DeathState.CORPSE →
      c2.m_isDeadByDefault = false → c2.m_corpseDecayTimer = 0 →
      (w.IsPartOfAPool = 0 ∨ w.UpdatePool_despawns = false) →
      (c2.RemoveCorpse k w).loot = none ∧
      (Creature.IsPlayerSummon k w = true → (c2.Update k w update_diff diff).loot = none) := by
    intro c2 hworld hcorpse hdefault htimer hpool
    have hrem := RemoveCorpse_corpse_loot k w c2 hworld hpool hcorpse hdefault
    refine ⟨hrem.1, ?_⟩
    intro hsummon
    rw [Update_corpse_eq_RemoveCorpse k w c2 update_diff diff hcorpse hdefault hsummon
      (by rw [htimer]; exact Nat.zero_le _)]
    exact hrem.1
  rw [SetLootStatus_skinned k c hstatus]
  refine ⟨rfl, rfl, ?_⟩
  intro hworld hpool hcorpse hdefault
  exact key _ hworld hcorpse hdefault rfl hpool

/-- Witness for C14 (amended): the fresh corpse keeps its session through
`SetLootStatus(Skinned)` and loses it in the following `RemoveCorpse`. -/
theorem C14_SetLootStatus_skinned_loot_witness :
    freshCorpse.m_lootStatus.val < CreatureLootStatus.CREATURE_LOOT_STATUS_SKINNED.val ∧
    (freshCorpse.SetLootStatus sampleDefines
      CreatureLootStatus.CREATURE_LOOT_STATUS_SKINNED).loot = some ⟨⟨3⟩⟩ ∧
    (freshCorpse.SetLootStatus sampleDefines
      CreatureLootStatus.CREATURE_LOOT_STATUS_SKINNED).m_corpseDecayTimer = 0 ∧
    (Creature.RemoveCorpse sampleDefines summonWorld
      (freshCorpse.SetLootStatus sampleDefines
        CreatureLootStatus.CREATURE_LOOT_STATUS_SKINNED)).loot = none :=
  ⟨by decide,
   (C14_SetLootStatus_skinned_loot sampleDefines summonWorld freshCorpse 10 10 (by decide)).1,
   (C14_SetLootStatus_skinned_loot sampleDefines summonWorld freshCorpse 10 10 (by decide)).2.1,
   ((C14_SetLootStatus_skinned_loot sampleDefines summonWorld freshCorpse 10 10
      (by decide)).2.2 rfl (Or.inl (by decide)) rfl rfl).1⟩

/-- C15 on the code: advancing the looted, skinnable sample corpse to SkinAvailable leaves
the dynamic-flags field as it was (the lootable bit is not set there) and turns the
unit-flags field from `0x04000000` into `1`: the skinnable bit is cleared, and the bit
with the value of the lootable dynamic flag is set in the unit flags. -/
theorem C15_SetLootStatus_skin_available_flags :
    skinnableCorpse.m_lootStatus = CreatureLootStatus.CREATURE_LOOT_STATUS_LOOTED ∧
    skinnableCorpse.UNIT_DYNAMIC_FLAGS = 0 ∧
    skinnableCorpse.UNIT_FIELD_FLAGS = 0x04000000 ∧
    (skinnableCorpse.SetLootStatus sampleDefines
      CreatureLootStatus.CREATURE_LOOT_STATUS_SKIN_AVAILABLE).m_lootStatus
        = CreatureLootStatus.CREATURE_LOOT_STATUS_SKIN_AVAILABLE ∧
    (skinnableCorpse.SetLootStatus sampleDefines
      CreatureLootStatus.CREATURE_LOOT_STATUS_SKIN_AVAILABLE).UNIT_DYNAMIC_FLAGS = 0 ∧
    HasFlag (skinnableCorpse.SetLootStatus sampleDefines
      CreatureLootStatus.CREATURE_LOOT_STATUS_SKIN_AVAILABLE).UNIT_DYNAMIC_FLAGS
        sampleDefines.UNIT_DYNFLAG_LOOTABLE = false ∧
    (skinnableCorpse.SetLootStatus sampleDefines
      CreatureLootStatus.CREATURE_LOOT_STATUS_SKIN_AVAILABLE).UNIT_FIELD_FLAGS = 1 := by
  decide

/-- C16 fails as stated: with the selection-flag mask 0 and a reference spell of range
index `SPELL_RANGE_IDX_SELF_ONLY`, no unit of the sample threat list passes the filter
`MeetsSelectAttackingRequirement`, and yet TopAggro from position 0 returns the unit of
the first entry: with mask 0 the loop does not apply the filter. -/
theorem C16_SelectAttackingTarget_topaggro_counterexample :
    sampleWorld.CanHaveThreatList = true ∧ 0 < sampleWorld.threatList.length ∧
    (∀ (i : Nat) (guid : ObjectGuid) (u : UnitPtr), 0 ≤ i →
      sampleWorld.threatList[i]? = some guid → sampleWorld.Map_GetUnit guid = some u →
      Creature.MeetsSelectAttackingRequirement sampleDefines sampleWorld u (some ⟨1⟩) 0
        = false) ∧
    Creature.SelectAttackingTarget sampleDefines sampleWorld
      AttackingTarget.ATTACKING_TARGET_TOPAGGRO 0 (some ⟨1⟩) 0 0 = some ⟨201⟩ :=
  ⟨rfl, by decide,
   fun _ _ u _ _ _ =>
     MeetsSelectAttackingRequirement_self_only sampleDefines sampleWorld u ⟨1⟩ 0 rfl,
   by decide⟩

/-- C16 (amended): with strategy TopAggro and `position` below the list length,
`SelectAttackingTarget` returns the candidate at the smallest index `i >= position` whose
unit resolves on the map and passes the test of the loop: the selection-flag mask is 0, in
which case no filter is applied, or the unit passes all filters
(`MeetsSelectAttackingRequirement`).  It returns no target exactly when no index from
`position` on has such a candidate. -/
theorem C16_SelectAttackingTarget_topaggro (k : Defines) (w : World) (position : Nat)
    (pSpellInfo : Option SpellEntry) (selectFlags draw : Nat)
    (hcan : w.CanHaveThreatList = true) (hpos : position < w.threatList.length) :
    (∀ u : UnitPtr,
      Creature.SelectAttackingTarget k w AttackingTarget.ATTACKING_TARGET_TOPAGGRO position
          pSpellInfo selectFlags draw = some u ↔
        ∃ (i : Nat) (guid : ObjectGuid), position ≤ i ∧ w.threatList[i]? = some guid ∧
          w.Map_GetUnit guid = some u ∧ passesFilters k w pSpellInfo selectFlags u = true ∧
          ∀ j : Nat, position ≤ j → j < i → ∀ (g : ObjectGuid) (v : UnitPtr),
            w.threatList[j]? = some g → w.Map_GetUnit g = some v →
            passesFilters k w pSpellInfo selectFlags v = false) ∧
    (Creature.SelectAttackingTarget k w AttackingTarget.ATTACKING_TARGET_TOPAGGRO position
        pSpellInfo selectFlags draw = none ↔
      ∀ (i : Nat) (guid : ObjectGuid) (v : UnitPtr), position ≤ i →
        w.threatList[i]? = some guid → w.Map_GetUnit guid = some v →
        passesFilters k w pSpellInfo selectFlags v = false) := by
  rw [SelectAttackingTarget_topaggro k w position pSpellInfo selectFlags draw hcan hpos]
  constructor
  · intro u
    rw [findSome?_drop_eq_some_index]
    constructor
    · rintro ⟨i, guid, hpi, hi, hsel, hmin⟩
      have hu := (selectCandidate_eq_some k w pSpellInfo selectFlags guid u).mp hsel
      refine ⟨i, guid, hpi, hi, hu.1, hu.2, ?_⟩
      intro j hpj hji g v hg hv
      exact (selectCandidate_eq_none k w pSpellInfo selectFlags g).mp (hmin j hpj hji g hg) v hv
    · rintro ⟨i, guid, hpi, hi, hget, hpass, hmin⟩
      refine ⟨i, guid, hpi, hi,
        (selectCandidate_eq_some k w pSpellInfo selectFlags guid u).mpr ⟨hget, hpass⟩, ?_⟩
      intro j hpj hji g hg
      exact (selectCandidate_eq_none k w pSpellInfo selectFlags g).mpr
        (fun v hv => hmin j hpj hji g v hg hv)
  · rw [findSome?_drop_eq_none_index]
    constructor
    · intro h i guid v hpi hi hv
      exact (selectCandidate_eq_none k w pSpellInfo selectFlags guid).mp (h i guid hpi hi) v hv
    · intro h i guid hpi hi
      exact (selectCandidate_eq_none k w pSpellInfo selectFlags guid).mpr
        (fun v hv => h i guid v hpi hi hv)

/-- Witness for C16 (amended): from position 1 of the sample threat list the unit of the entry at
index 1 is selected. -/
theorem C16_SelectAttackingTarget_topaggro_witness :
    sampleWorld.CanHaveThreatList = true ∧ 1 < sampleWorld.threatList.length ∧
    Creature.SelectAttackingTarget sampleDefines sampleWorld
      AttackingTarget.ATTACKING_TARGET_TOPAGGRO 1 none 0 0 = some ⟨202⟩ ∧
    ∃ (i : Nat) (guid : ObjectGuid), 1 ≤ i ∧ sampleWorld.threatList[i]? = some guid ∧
      sampleWorld.Map_GetUnit guid = some ⟨202⟩ ∧
      passesFilters sampleDefines sampleWorld none 0 ⟨202⟩ = true ∧
      ∀ j : Nat, 1 ≤ j → j < i → ∀ (g : ObjectGuid) (v : UnitPtr),
        sampleWorld.threatList[j]? = some g → sampleWorld.Map_GetUnit g = some v →
        passesFilters sampleDefines sampleWorld none 0 v = false :=
  ⟨rfl, by decide, by decide,
   ((C16_SelectAttackingTarget_topaggro sampleDefines sampleWorld 1 none 0 0 rfl
      (by decide)).1 ⟨202⟩).mp (by decide)⟩

/-- C17 on the code: for the threat list [201, 202, 203] of distinct resolvable
candidates that all pass, strategy BottomAggro returns the unit of the first entry
(the highest threat) at positions 0, 1 and 2, and never the unit of the last entry. -/
theorem C17_SelectAttackingTarget_bottomaggro_head :
    sampleWorld.threatList = [201, 202, 203] ∧
    sampleWorld.Map_GetUnit 203 = some ⟨203⟩ ∧
    passesFilters sampleDefines sampleWorld none 0 ⟨203⟩ = true ∧
    Creature.SelectAttackingTarget sampleDefines sampleWorld
      AttackingTarget.ATTACKING_TARGET_BOTTOMAGGRO 0 none 0 0 = some ⟨201⟩ ∧
    Creature.SelectAttackingTarget sampleDefines sampleWorld
      AttackingTarget.ATTACKING_TARGET_BOTTOMAGGRO 1 none 0 0 = some ⟨201⟩ ∧
    Creature.SelectAttackingTarget sampleDefines sampleWorld
      AttackingTarget.ATTACKING_TARGET_BOTTOMAGGRO 2 none 0 0 = some ⟨201⟩ ∧
    Creature.SelectAttackingTarget sampleDefines sampleWorld
      AttackingTarget.ATTACKING_TARGET_BOTTOMAGGRO 0 none 0 0 ≠ some ⟨203⟩ := by
  decide

/-- C18 fails as stated: with the selection-flag mask 0 and a reference spell of range
index `SPELL_RANGE_IDX_SELF_ONLY`, no unit of the sample threat list passes the filter
`MeetsSelectAttackingRequirement`, so no candidate from position 1 on resolves and passes
all filters, and yet Random from position 1 returns a target (for the draw 1 the unit of
the entry at index 2): with mask 0 the loop does not apply the filter. -/
theorem C18_SelectAttackingTarget_random_counterexample :
    sampleWorld.CanHaveThreatList = true ∧ 1 < sampleWorld.threatList.length ∧
    (∀ (i : Nat) (guid : ObjectGuid) (u : UnitPtr), 1 ≤ i →
      sampleWorld.threatList[i]? = some guid → sampleWorld.Map_GetUnit guid = some u →
      Creature.MeetsSelectAttackingRequirement sampleDefines sampleWorld u (some ⟨1⟩) 0
        = false) ∧
    Creature.SelectAttackingTarget sampleDefines sampleWorld
      AttackingTarget.ATTACKING_TARGET_RANDOM 1 (some ⟨1⟩) 0 1 = some ⟨203⟩ ∧
    Creature.SelectAttackingTarget sampleDefines sampleWorld
      AttackingTarget.ATTACKING_TARGET_RANDOM 1 (some ⟨1⟩) 0 1 ≠ none :=
  ⟨rfl, by decide,
   fun _ _ u _ _ _ =>
     MeetsSelectAttackingRequirement_self_only sampleDefines sampleWorld u ⟨1⟩ 0 rfl,
   by decide, by decide⟩

/-- C18 (amended): with strategy Random and `position` below the list length, for every
value of the random draw `SelectAttackingTarget` returns a candidate that sits at an index
`>= position`, resolves on the map and passes the test of the loop: the selection-flag
mask is 0, in which case no filter is applied, or the unit passes all filters
(`MeetsSelectAttackingRequirement`).  It returns no target exactly when there is no such
candidate; and every such candidate is returned for some draw. -/
theorem C18_SelectAttackingTarget_random (k : Defines) (w : World) (position : Nat)
    (pSpellInfo : Option SpellEntry) (selectFlags : Nat)
    (hcan : w.CanHaveThreatList = true) (hpos : position < w.threatList.length) :
    (∀ (draw : Nat) (u : UnitPtr),
      Creature.SelectAttackingTarget k w AttackingTarget.ATTACKING_TARGET_RANDOM position
          pSpellInfo selectFlags draw = some u →
        ∃ (i : Nat) (guid : ObjectGuid), position ≤ i ∧ w.threatList[i]? = some guid ∧
          w.Map_GetUnit guid = some u ∧ passesFilters k w pSpellInfo selectFlags u = true) ∧
    (∀ draw : Nat,
      Creature.SelectAttackingTarget k w AttackingTarget.ATTACKING_TARGET_RANDOM position
          pSpellInfo selectFlags draw = none ↔
        ∀ (i : Nat) (guid : ObjectGuid) (v : UnitPtr), position ≤ i →
          w.threatList[i]? = some guid → w.Map_GetUnit guid = some v →
          passesFilters k w pSpellInfo selectFlags v = false) ∧
    (∀ (i : Nat) (guid : ObjectGuid) (u : UnitPtr), position ≤ i →
      w.threatList[i]? = some guid → w.Map_GetUnit guid = some u →
      passesFilters k w pSpellInfo selectFlags u = true →
      ∃ draw : Nat,
        Creature.SelectAttackingTarget k w AttackingTarget.ATTACKING_TARGET_RANDOM position
          pSpellInfo selectFlags draw = some u) := by
  have hmem : ∀ u : UnitPtr,
      u ∈ (w.threatList.drop position).filterMap (selectCandidate k w pSpellInfo selectFlags) ↔
        ∃ (i : Nat) (guid : ObjectGuid), position ≤ i ∧ w.threatList[i]? = some guid ∧
          w.Map_GetUnit guid = some u ∧ passesFilters k w pSpellInfo selectFlags u = true := by
    intro u
    rw [List.mem_filterMap]
    constructor
    · rintro ⟨guid, hguid, hsel⟩
      obtain ⟨i, hpi, hi⟩ := (mem_drop_iff_index _ _ _).mp hguid
      have hu := (selectCandidate_eq_some k w pSpellInfo selectFlags guid u).mp hsel
      exact ⟨i, guid, hpi, hi, hu.1, hu.2⟩
    · rintro ⟨i, guid, hpi, hi, hget, hpass⟩
      exact ⟨guid, (mem_drop_iff_index _ _ _).mpr ⟨i, hpi, hi⟩,
        (selectCandidate_eq_some k w pSpellInfo selectFlags guid u).mpr ⟨hget, hpass⟩⟩
  refine ⟨?_, ?_, ?_⟩
  · intro draw u hres
    rw [SelectAttackingTarget_random k w position pSpellInfo selectFlags draw hcan hpos] at hres
    split_ifs at hres with hlen
    exact (hmem u).mp (List.getElem?_mem hres)
  · intro draw
    rw [SelectAttackingTarget_random k w position pSpellInfo selectFlags draw hcan hpos]
    constructor
    · intro hres i guid v hpi hi hv
      cases hp : passesFilters k w pSpellInfo selectFlags v with
      | false => rfl
      | true =>
        exfalso
        have hv2 := (hmem v).mpr ⟨i, guid, hpi, hi, hv, hp⟩
        have hlen : ((w.threatList.drop position).filterMap
            (selectCandidate k w pSpellInfo selectFlags)).length ≠ 0 := by
          intro h0
          rw [List.length_eq_zero] at h0
          rw [h0] at hv2
          cases hv2
        rw [if_pos hlen] at hres
        have hlt : draw % ((w.threatList.drop position).filterMap
            (selectCandidate k w pSpellInfo selectFlags)).length
            < ((w.threatList.drop position).filterMap
              (selectCandidate k w pSpellInfo selectFlags)).length :=
          Nat.mod_lt _ (Nat.pos_of_ne_zero hlen)
        rw [List.getElem?_eq_none_iff] at hres
        omega
    · intro hall
      have hlen : ¬ ((w.threatList.drop position).filterMap
          (selectCandidate k w pSpellInfo selectFlags)).length ≠ 0 := by
        intro hne
        obtain ⟨u, hu⟩ := List.exists_mem_of_length_pos (Nat.pos_of_ne_zero hne)
        obtain ⟨i, guid, hpi, hi, hget, hpass⟩ := (hmem u).mp hu
        rw [hall i guid u hpi hi hget] at hpass
        cases hpass
      rw [if_neg hlen]
  · intro i guid u hpi hi hget hpass
    have hu := (hmem u).mpr ⟨i, guid, hpi, hi, hget, hpass⟩
    obtain ⟨n, hn⟩ := List.mem_iff_getElem?.mp hu
    have hnlt : n < ((w.threatList.drop position).filterMap
        (selectCandidate k w pSpellInfo selectFlags)).length := by
      by_contra hge
      rw [List.getElem?_eq_none (Nat.le_of_not_lt hge)] at hn
      cases hn
    refine ⟨n, ?_⟩
    rw [SelectAttackingTarget_random k w position pSpellInfo selectFlags n hcan hpos,
      if_pos (by omega), Nat.mod_eq_of_lt hnlt]
    exact hn

/-- Witness for C18 (amended): from position 1 of the sample threat list the draw 1 selects the
unit of the entry at index 2. -/
theorem C18_SelectAttackingTarget_random_witness :
    sampleWorld.CanHaveThreatList = true ∧ 1 < sampleWorld.threatList.length ∧
    Creature.SelectAttackingTarget sampleDefines sampleWorld
      AttackingTarget.ATTACKING_TARGET_RANDOM 1 none 0 1 = some ⟨203⟩ ∧
    ∃ (i : Nat) (guid : ObjectGuid), 1 ≤ i ∧ sampleWorld.threatList[i]? = some guid ∧
      sampleWorld.Map_GetUnit guid = some ⟨203⟩ ∧
      passesFilters sampleDefines sampleWorld none 0 ⟨203⟩ = true :=
  ⟨rfl, by decide, by decide,
   (C18_SelectAttackingTarget_random sampleDefines sampleWorld 1 none 0 rfl (by decide)).1
     1 ⟨203⟩ (by decide)⟩

/-- C19 fails as stated: with the selection-flag mask 0 and a reference spell whose
range index is `SPELL_RANGE_IDX_SELF_ONLY`, every strategy returns a target from the
sample threat list. -/
theorem C19_self_only_spell_counterexample :
    (⟨1⟩ : SpellEntry).rangeIndex = sampleDefines.SPELL_RANGE_IDX_SELF_ONLY ∧
    Creature.SelectAttackingTarget sampleDefines sampleWorld
      AttackingTarget.ATTACKING_TARGET_TOPAGGRO 0 (some ⟨1⟩) 0 0 = some ⟨201⟩ ∧
    Creature.SelectAttackingTarget sampleDefines sampleWorld
      AttackingTarget.ATTACKING_TARGET_RANDOM 0 (some ⟨1⟩) 0 0 = some ⟨201⟩ ∧
    Creature.SelectAttackingTarget sampleDefines sampleWorld
      AttackingTarget.ATTACKING_TARGET_BOTTOMAGGRO 0 (some ⟨1⟩) 0 0 = some ⟨201⟩ := by
  decide

/-- C19 (amended): a self-only reference spell fails the filter whenever the filter is
applied.  For every threat list, position, strategy, random draw and non-zero
selection-flag mask, `SelectAttackingTarget` called with a spell whose range index is
`SPELL_RANGE_IDX_SELF_ONLY` returns no target. -/
theorem C19_self_only_spell_no_target (k : Defines) (w : World) (target : AttackingTarget)
    (position : Nat) (spell : SpellEntry) (selectFlags draw : Nat)
    (hself : spell.rangeIndex = k.SPELL_RANGE_IDX_SELF_ONLY) (hmask : selectFlags ≠ 0) :
    Creature.SelectAttackingTarget k w target position (some spell) selectFlags draw = none := by
  have hsel : ∀ guid : ObjectGuid, selectCandidate k w (some spell) selectFlags guid = none :=
    fun guid => selectCandidate_self_only k w spell selectFlags guid hself hmask
  have hfilter : ∀ l : List ObjectGuid,
      l.filterMap (selectCandidate k w (some spell) selectFlags) = [] := by
    intro l
    induction l with
    | nil => rfl
    | cons a rest ih => rw [List.filterMap_cons, hsel a]; exact ih
  simp only [Creature.SelectAttackingTarget]
  by_cases h1 : w.CanHaveThreatList = false
  · rw [if_pos h1]
  · rw [if_neg h1]
    by_cases h2 : position ≥ w.threatList.length ∨ w.threatList.length = 0
    · rw [if_pos h2]
    · rw [if_neg h2]
      cases target with
      | ATTACKING_TARGET_RANDOM => simp [hfilter]
      | ATTACKING_TARGET_TOPAGGRO =>
        simp only [List.findSome?_eq_none_iff]
        intro guid _
        exact hsel guid
      | ATTACKING_TARGET_BOTTOMAGGRO =>
        simp only [List.findSome?_eq_none_iff]
        intro _ _
        cases w.threatList.head? with
        | none => rfl
        | some itr => exact hsel itr

/-- Witness for C19 (amended): with the player-only mask set, the self-only spell
leaves the sample threat list without target. -/
theorem C19_self_only_spell_no_target_witness :
    (⟨1⟩ : SpellEntry).rangeIndex = sampleDefines.SPELL_RANGE_IDX_SELF_ONLY ∧
    sampleDefines.SELECT_FLAG_PLAYER ≠ 0 ∧
    Creature.SelectAttackingTarget sampleDefines sampleWorld
      AttackingTarget.ATTACKING_TARGET_TOPAGGRO 0 (some ⟨1⟩)
      sampleDefines.SELECT_FLAG_PLAYER 0 = none :=
  ⟨rfl, by decide,
   C19_self_only_spell_no_target sampleDefines sampleWorld
     AttackingTarget.ATTACKING_TARGET_TOPAGGRO 0 ⟨1⟩ sampleDefines.SELECT_FLAG_PLAYER 0 rfl
     (by decide)⟩

/-- C20 fails as stated: with the mask that sets the mana and the rage flag and nothing
else, and no reference spell, a candidate whose power type is mana does not pass. -/
theorem C20_power_filter_counterexample :
    sampleDefines.SELECT_FLAG_POWER_MANA ||| sampleDefines.SELECT_FLAG_POWER_RAGE = 12 ∧
    12 &&& sampleDefines.SELECT_FLAG_POWER_MANA ≠ 0 ∧
    12 &&& sampleDefines.SELECT_FLAG_PLAYER = 0 ∧
    12 &&& sampleDefines.SELECT_FLAG_IN_MELEE_RANGE = 0 ∧
    12 &&& sampleDefines.SELECT_FLAG_NOT_IN_MELEE_RANGE = 0 ∧
    12 &&& sampleDefines.SELECT_FLAG_IN_LOS = 0 ∧
    sampleWorld.Unit_GetPowerType ⟨201⟩ = Powers.POWER_MANA ∧
    Creature.MeetsSelectAttackingRequirement sampleDefines sampleWorld ⟨201⟩ none 12 = false := by
  decide

/-- C20 (amended): for every selection-flag mask that sets no flag other than power
flags and with no reference spell, `MeetsSelectAttackingRequirement` is true exactly
when the candidate's power type is the type of every power flag that is set.  With
exactly one power flag set it is true exactly when the candidate's power type is the
type of that flag. -/
theorem C20_power_filter (k : Defines) (w : World) (pTarget : UnitPtr) (selectFlags : Nat)
    (hplayer : selectFlags &&& k.SELECT_FLAG_PLAYER = 0)
    (hmelee : selectFlags &&& k.SELECT_FLAG_IN_MELEE_RANGE = 0)
    (hnotmelee : selectFlags &&& k.SELECT_FLAG_NOT_IN_MELEE_RANGE = 0)
    (hlos : selectFlags &&& k.SELECT_FLAG_IN_LOS = 0) :
    (Creature.MeetsSelectAttackingRequirement k w pTarget none selectFlags = true ↔
      (selectFlags &&& k.SELECT_FLAG_POWER_MANA ≠ 0 →
        w.Unit_GetPowerType pTarget = Powers.POWER_MANA) ∧
      (selectFlags &&& k.SELECT_FLAG_POWER_RAGE ≠ 0 →
        w.Unit_GetPowerType pTarget = Powers.POWER_RAGE) ∧
      (selectFlags &&& k.SELECT_FLAG_POWER_ENERGY ≠ 0 →
        w.Unit_GetPowerType pTarget = Powers.POWER_ENERGY) ∧
      (selectFlags &&& k.SELECT_FLAG_POWER_RUNIC ≠ 0 →
        w.Unit_GetPowerType pTarget = Powers.POWER_RUNIC_POWER)) ∧
    (selectFlags &&& k.SELECT_FLAG_POWER_MANA ≠ 0 →
      selectFlags &&& k.SELECT_FLAG_POWER_RAGE = 0 →
      selectFlags &&& k.SELECT_FLAG_POWER_ENERGY = 0 →
      selectFlags &&& k.SELECT_FLAG_POWER_RUNIC = 0 →
      (Creature.MeetsSelectAttackingRequirement k w pTarget none selectFlags = true ↔
        w.Unit_GetPowerType pTarget = Powers.POWER_MANA)) ∧
    (selectFlags &&& k.SELECT_FLAG_POWER_MANA = 0 →
      selectFlags &&& k.SELECT_FLAG_POWER_RAGE ≠ 0 →
      selectFlags &&& k.SELECT_FLAG_POWER_ENERGY = 0 →
      selectFlags &&& k.SELECT_FLAG_POWER_RUNIC = 0 →
      (Creature.MeetsSelectAttackingRequirement k w pTarget none selectFlags = true ↔
        w.Unit_GetPowerType pTarget = Powers.POWER_RAGE)) ∧
    (selectFlags &&& k.SELECT_FLAG_POWER_MANA = 0 →
      selectFlags &&& k.SELECT_FLAG_POWER_RAGE = 0 →
      selectFlags &&& k.SELECT_FLAG_POWER_ENERGY ≠ 0 →
      selectFlags &&& k.SELECT_FLAG_POWER_RUNIC = 0 →
      (Creature.MeetsSelectAttackingRequirement k w pTarget none selectFlags = true ↔
        w.Unit_GetPowerType pTarget = Powers.POWER_ENERGY)) ∧
    (selectFlags &&& k.SELECT_FLAG_POWER_MANA = 0 →
      selectFlags &&& k.SELECT_FLAG_POWER_RAGE = 0 →
      selectFlags &&& k.SELECT_FLAG_POWER_ENERGY = 0 →
      selectFlags &&& k.SELECT_FLAG_POWER_RUNIC ≠ 0 →
      (Creature.MeetsSelectAttackingRequirement k w pTarget none selectFlags = true ↔
        w.Unit_GetPowerType pTarget = Powers.POWER_RUNIC_POWER)) := by
  have hmain : Creature.MeetsSelectAttackingRequirement k w pTarget none selectFlags = true ↔
      (selectFlags &&& k.SELECT_FLAG_POWER_MANA ≠ 0 →
        w.Unit_GetPowerType pTarget = Powers.POWER_MANA) ∧
      (selectFlags &&& k.SELECT_FLAG_POWER_RAGE ≠ 0 →
        w.Unit_GetPowerType pTarget = Powers.POWER_RAGE) ∧
      (selectFlags &&& k.SELECT_FLAG_POWER_ENERGY ≠ 0 →
        w.Unit_GetPowerType pTarget = Powers.POWER_ENERGY) ∧
      (selectFlags &&& k.SELECT_FLAG_POWER_RUNIC ≠ 0 →
        w.Unit_GetPowerType pTarget = Powers.POWER_RUNIC_POWER) := by
    simp only [Creature.MeetsSelectAttackingRequirement, hplayer, hmelee, hnotmelee, hlos]
    split_ifs <;> simp_all
  refine ⟨hmain, ?_, ?_, ?_, ?_⟩ <;>
    · intro h1 h2 h3 h4
      rw [hmain]
      simp [h1, h2, h3, h4]

/-- Witness for C20 (amended): with the mana flag alone a mana user passes. -/
theorem C20_power_filter_witness :
    sampleDefines.SELECT_FLAG_POWER_MANA &&& sampleDefines.SELECT_FLAG_PLAYER = 0 ∧
    sampleDefines.SELECT_FLAG_POWER_MANA &&& sampleDefines.SELECT_FLAG_POWER_MANA ≠ 0 ∧
    sampleWorld.Unit_GetPowerType ⟨201⟩ = Powers.POWER_MANA ∧
    Creature.MeetsSelectAttackingRequirement sampleDefines sampleWorld ⟨201⟩ none
      sampleDefines.SELECT_FLAG_POWER_MANA = true :=
  ⟨by decide, by decide, rfl,
   ((C20_power_filter sampleDefines sampleWorld ⟨201⟩ sampleDefines.SELECT_FLAG_POWER_MANA
      (by decide) (by decide) (by decide) (by decide)).2.1
      (by decide) (by decide) (by decide) (by decide)).mpr rfl⟩

/-- C21: while the AI lock `m_AI_locked` is held, `AIM_Initialize` returns false and
leaves the creature as it is, AI object and motion master included; when the lock is not
held it returns true.  `Update` holds the lock around the AI step: when the AI step runs
(the creature is not evading and has an AI object), `UpdateAI` works on the creature with
the lock set and the lock is cleared after it, so a call of `AIM_Initialize` that the AI
step makes is rejected and the step ends as one without such a call.  An `ALIVE` tick of
a creature that is not dead-by-default and survives `Unit::Update` runs this AI step, on
the creature with the lock set, before the regeneration.  An `ALIVE` tick that starts
without the lock ends without it and with the AI object it started with. -/
theorem C21_AIM_Initialize_lock (k : Defines) (w : World) (c : Creature)
    (update_diff diff : Nat) :
    (c.m_AI_locked = true → c.AIM_Initialize w = (false, c)) ∧
    (c.m_AI_locked = false → (c.AIM_Initialize w).1 = true) ∧
    (w.IsInEvadeMode = false → c.i_AI.isSome = true →
      c.Update_AI k w
        = { AI_UpdateAI k w { c with m_AI_locked := true } with m_AI_locked := false } ∧
      ({ c with m_AI_locked := true } : Creature).AIM_Initialize w
        = (false, { c with m_AI_locked := true }) ∧
      c.Update_AI k w
        = { (if w.UpdateAI_kills then
              Creature.SetDeathState k w { c with m_AI_locked := true } DeathState.JUST_DIED
             else { c with m_AI_locked := true }) with m_AI_locked := false }) ∧
    (c.m_deathState = DeathState.ALIVE → c.m_isDeadByDefault = false →
      w.Unit_Update_kills = false → w.IsInEvadeMode = false → c.i_AI.isSome = true →
      c.Update k w update_diff diff
        = if ({ AI_UpdateAI k w
                { c with
                  m_aggroDelay := if c.m_aggroDelay ≤ update_diff then 0
                    else c.m_aggroDelay - update_diff
                  m_AI_locked := true } with m_AI_locked := false }
              : Creature).m_deathState ≠ DeathState.ALIVE then
            { AI_UpdateAI k w
                { c with
                  m_aggroDelay := if c.m_aggroDelay ≤ update_diff then 0
                    else c.m_aggroDelay - update_diff
                  m_AI_locked := true } with m_AI_locked := false }
          else
            (({ AI_UpdateAI k w
                { c with
                  m_aggroDelay := if c.m_aggroDelay ≤ update_diff then 0
                    else c.m_aggroDelay - update_diff
                  m_AI_locked := true } with m_AI_locked := false }
              : Creature).RegenerateAll k w update_diff).SetStatsBasedOnPlayerMaxLevel k w) ∧
    (c.m_deathState = DeathState.ALIVE → c.m_AI_locked = false →
      (c.Update k w update_diff diff).m_AI_locked = false ∧
      (c.Update k w update_diff diff).i_AI = c.i_AI) := by
  refine ⟨?_, ?_, ?_, Update_tick_AI_step k w c update_diff diff, ?_⟩
  · intro h
    simp only [Creature.AIM_Initialize, h, if_true]
  · intro h
    simp only [Creature.AIM_Initialize, h]
    rfl
  · intro hevade hai
    refine ⟨Update_AI_step k w c hevade hai, AIM_Initialize_locked w _ rfl, ?_⟩
    rw [Update_AI_step k w c hevade hai,
      AI_UpdateAI_locked k w { c with m_AI_locked := true } rfl]
  · intro halive hlock
    have key : ∀ c2 : Creature, c2.m_AI_locked = false → c2.i_AI = c.i_AI →
        ((c2.Update_alive k w update_diff).m_AI_locked = false ∧
          (c2.Update_alive k w update_diff).i_AI = c.i_AI) ∧
        ((c2.RemoveCorpse k w).m_AI_locked = false ∧
          (c2.RemoveCorpse k w).i_AI = c.i_AI) :=
      fun c2 h2 h3 => ⟨⟨Update_alive_AI_locked k w c2 update_diff h2,
          (Update_alive_i_AI k w c2 update_diff).trans h3⟩,
        ⟨(RemoveCorpse_AI_locked k w c2).trans h2, (RemoveCorpse_i_AI k w c2).trans h3⟩⟩
    unfold Creature.Update
    split
    · exact ⟨hlock, rfl⟩
    · exact ⟨hlock, rfl⟩
    · rename_i h; exact absurd (halive.symm.trans h) (by decide)
    · rename_i h; exact absurd (halive.symm.trans h) (by decide)
    · dsimp only
      split_ifs <;>
        first
        | (refine (key _ ?_ ?_).1 <;> first | exact hlock | rfl)
        | (refine (key _ ?_ ?_).2 <;> first | exact hlock | rfl)

/-- C21 at a sample: the scripted sample creature is alive, not locked and has the AI
object 7; `AIM_Initialize` outside a tick succeeds and installs the AI object 1.  In a
tick whose AI step tries the same call, the call is rejected: the tick ends not locked and
with the AI object 7, and it runs the AI step with the lock set.  While the creature is
locked `AIM_Initialize` is rejected. -/
theorem C21_AIM_Initialize_lock_witness :
    scriptedCreature.m_deathState = DeathState.ALIVE ∧ scriptedCreature.m_AI_locked = false ∧
    scriptedCreature.i_AI = some 7 ∧
    reinitWorld.UpdateAI_calls_AIM_Initialize = true ∧
    (scriptedCreature.AIM_Initialize reinitWorld).2.i_AI = some 1 ∧
    ((scriptedCreature.Update sampleDefines reinitWorld 100 100).m_AI_locked = false ∧
      (scriptedCreature.Update sampleDefines reinitWorld 100 100).i_AI = some 7) ∧
    (scriptedCreature.AIM_Initialize reinitWorld).1 = true ∧
    Creature.AIM_Initialize reinitWorld { scriptedCreature with m_AI_locked := true }
      = (false, { scriptedCreature with m_AI_locked := true }) ∧
    scriptedCreature.Update_AI sampleDefines reinitWorld
      = { AI_UpdateAI sampleDefines reinitWorld { scriptedCreature with m_AI_locked := true }
          with m_AI_locked := false } ∧
    scriptedCreature.Update sampleDefines reinitWorld 100 100
      = if ({ AI_UpdateAI sampleDefines reinitWorld
              { scriptedCreature with
                m_aggroDelay := if scriptedCreature.m_aggroDelay ≤ 100 then 0
                  else scriptedCreature.m_aggroDelay - 100
                m_AI_locked := true } with m_AI_locked := false }
            : Creature).m_deathState ≠ DeathState.ALIVE then
          { AI_UpdateAI sampleDefines reinitWorld
              { scriptedCreature with
                m_aggroDelay := if scriptedCreature.m_aggroDelay ≤ 100 then 0
                  else scriptedCreature.m_aggroDelay - 100
                m_AI_locked := true } with m_AI_locked := false }
        else
          (({ AI_UpdateAI sampleDefines reinitWorld
              { scriptedCreature with
                m_aggroDelay := if scriptedCreature.m_aggroDelay ≤ 100 then 0
                  else scriptedCreature.m_aggroDelay - 100
                m_AI_locked := true } with m_AI_locked := false }
            : Creature).RegenerateAll sampleDefines reinitWorld
              100).SetStatsBasedOnPlayerMaxLevel sampleDefines reinitWorld :=
  ⟨rfl, rfl, rfl, rfl, rfl,
   (C21_AIM_Initialize_lock sampleDefines reinitWorld scriptedCreature 100 100).2.2.2.2 rfl rfl,
   (C21_AIM_Initialize_lock sampleDefines reinitWorld scriptedCreature 100 100).2.1 rfl,
   (C21_AIM_Initialize_lock sampleDefines reinitWorld { scriptedCreature with m_AI_locked := true }
     100 100).1 rfl,
   ((C21_AIM_Initialize_lock sampleDefines reinitWorld scriptedCreature 100 100).2.2.1 rfl
     rfl).1,
   (C21_AIM_Initialize_lock sampleDefines reinitWorld scriptedCreature 100 100).2.2.2.1 rfl rfl
     rfl rfl rfl⟩

/-- C29: `RegenerateAll` is gated by the regeneration timer.  With a timer above the
elapsed time the call only lowers the timer by the elapsed time: health, power and every
other field stay as they are.  With a timer at or below the elapsed time the stat data
become those left by `RegeneratePower`, run after `RegenerateHealth` exactly when the
creature is not in combat or is polymorphed, and the timer becomes `REGEN_TIME_FULL`. -/
theorem C29_RegenerateAll_timer_gate (k : Defines) (w : World) (c : Creature)
    (update_diff : Nat) :
    (c.m_regenTimer > update_diff →
      c.RegenerateAll k w update_diff
        = { c with m_regenTimer := c.m_regenTimer - update_diff }) ∧
    (c.m_regenTimer ≤ update_diff →
      (c.RegenerateAll k w update_diff).toStatFields
        = (if w.isInCombat = false ∨ w.IsPolymorphed = true then
            c.toStatFields.RegenerateHealth w else c.toStatFields).RegeneratePower k w ∧
      (c.RegenerateAll k w update_diff).toCreatureFields
        = { c.toCreatureFields with m_regenTimer := k.REGEN_TIME_FULL }) := by
  constructor
  · intro h
    have h0 : c.m_regenTimer > 0 := Nat.lt_of_le_of_lt (Nat.zero_le _) h
    have h1 : ¬ (update_diff ≥ c.m_regenTimer) := Nat.not_le.mpr h
    have h2 : c.m_regenTimer - update_diff ≠ 0 := Nat.sub_ne_zero_of_lt h
    simp only [Creature.RegenerateAll, if_pos h0, if_neg h1, ne_eq, h2, not_false_eq_true,
      if_true]
  · intro h
    have key : ∀ c0 : Creature, c0.toStatFields = c.toStatFields →
        c0.toCreatureFields = { c.toCreatureFields with m_regenTimer := 0 } →
        (Creature.RegeneratePower k w
          (if (!w.isInCombat || w.IsPolymorphed) = true then c0.RegenerateHealth w
            else c0)).toStatFields
          = (if w.isInCombat = false ∨ w.IsPolymorphed = true then
              c.toStatFields.RegenerateHealth w else c.toStatFields).RegeneratePower k w ∧
        ({ Creature.RegeneratePower k w
            (if (!w.isInCombat || w.IsPolymorphed) = true then c0.RegenerateHealth w
              else c0) with m_regenTimer := k.REGEN_TIME_FULL } : Creature).toCreatureFields
          = { c.toCreatureFields with m_regenTimer := k.REGEN_TIME_FULL } := by
      intro c0 hs hc
      cases hcombat : w.isInCombat <;> cases hpoly : w.IsPolymorphed <;>
        simp [Creature.RegeneratePower, Creature.RegenerateHealth, hs, hc]
    have hT : (if c.m_regenTimer > 0 then
          if update_diff ≥ c.m_regenTimer then { c with m_regenTimer := 0 }
          else { c with m_regenTimer := c.m_regenTimer - update_diff }
        else c) = { c with m_regenTimer := 0 } := by
      by_cases h0 : c.m_regenTimer > 0
      · rw [if_pos h0, if_pos h]
      · rw [if_neg h0]
        have hz : c.m_regenTimer = 0 := Nat.eq_zero_of_not_pos h0
        obtain ⟨st, cf⟩ := c
        cases cf
        simp_all
    unfold Creature.RegenerateAll
    dsimp only
    rw [hT]
    simp only [ne_eq, not_true_eq_false, if_false]
    exact key _ rfl rfl

/-- C29 at samples: with timer 200 an elapsed time of 50 leaves timer 150 and nothing
else changed; an elapsed time of 200 resets the timer to the full interval. -/
theorem C29_RegenerateAll_timer_gate_witness :
    sampleCreature.m_regenTimer = 200 ∧
    sampleCreature.RegenerateAll sampleDefines sampleWorld 50
      = { sampleCreature with m_regenTimer := 150 } ∧
    (sampleCreature.RegenerateAll sampleDefines sampleWorld 200).m_regenTimer
      = sampleDefines.REGEN_TIME_FULL :=
  ⟨rfl,
   (C29_RegenerateAll_timer_gate sampleDefines sampleWorld sampleCreature 50).1 (by decide),
   congrArg CreatureFields.m_regenTimer
     ((C29_RegenerateAll_timer_gate sampleDefines sampleWorld sampleCreature 200).2
       (by decide)).2⟩

/-- C24 fails as stated: the health of the table path is not the product `BaseHealth *
HealthMultiplier` with its fraction dropped.  For base health 33554433 and health
multiplier 1 the code gives 33554432, because the base health is rounded when it is
converted to `float`; for base health 1000 and health multiplier 1.004 it gives 1003,
while the product is 1004. -/
theorem C24_SelectLevel_one_path_counterexample :
    bossTableWorld.GetCreatureClassLvlStats 10 sampleInfo.UnitClass sampleInfo.Expansion
      = some ⟨33554433, 200⟩ ∧
    sampleInfo.HealthMultiplier = 1 ∧
    (Creature.SelectLevel_health_mana bossTableWorld sampleInfo 10).1 = 33554432 ∧
    ⌊((33554433 : ℕ) : ℚ) * sampleInfo.HealthMultiplier⌋ = 33554433 ∧
    tableWorld.GetCreatureClassLvlStats 10 roundedInfo.UnitClass roundedInfo.Expansion
      = some ⟨1000, 200⟩ ∧
    roundedInfo.HealthMultiplier = 1004 / 1000 ∧
    (Creature.SelectLevel_health_mana tableWorld roundedInfo 10).1 = 1003 ∧
    ⌊((1000 : ℕ) : ℚ) * roundedInfo.HealthMultiplier⌋ = 1004 := by
  refine ⟨rfl, rfl, SelectLevel_health_mana_boss, ?_, rfl, rfl,
    SelectLevel_health_mana_rounded, ?_⟩
  · have h : sampleInfo.HealthMultiplier = 1 := rfl
    rw [h, Int.floor_eq_iff]
    norm_num
  · have h : roundedInfo.HealthMultiplier = 1004 / 1000 := rfl
    rw [h, Int.floor_eq_iff]
    norm_num

/-- C24 (amended): `SelectLevel` takes the health and the mana from exactly one of two
paths, and computes them in single precision.  When a class-level stats entry exists for
the level, the unit class and the expansion, the health before the rank modifier is the
single precision product of `float(BaseHealth)` and `HealthMultiplier` and the mana the one
of `float(BaseMana)` and `PowerMultiplier`, each rounded to the nearest `float` and then
cut to an unsigned integer, whatever the template says about the health and mana at its
minimal and maximal level.  When there is no entry, the result is the interpolation
between those template bounds, with the relative level and its product with the
difference of the bounds taken in single precision as well, the same under every table
without an entry.  The mana of the chosen path becomes the maximal mana. -/
theorem C24_SelectLevel_one_path (k : Defines) (w : World) (cinfo : CreatureInfo)
    (level : Nat) :
    (∀ cCLS : CreatureClassLvlStats,
      w.GetCreatureClassLvlStats level cinfo.UnitClass cinfo.Expansion = some cCLS →
      Creature.SelectLevel_health_mana w cinfo level
        = (toUInt32 (f32 (f32 (cCLS.BaseHealth : ℚ) * f32 cinfo.HealthMultiplier)),
           toUInt32 (f32 (f32 (cCLS.BaseMana : ℚ) * f32 cinfo.PowerMultiplier))) ∧
      ∀ a b c d : Nat,
        Creature.SelectLevel_health_mana w
          { cinfo with MinLevelHealth := a, MaxLevelHealth := b, MinLevelMana := c,
                       MaxLevelMana := d } level
          = Creature.SelectLevel_health_mana w cinfo level) ∧
    (w.GetCreatureClassLvlStats level cinfo.UnitClass cinfo.Expansion = none →
      Creature.SelectLevel_health_mana w cinfo level
        = (u32 (min cinfo.MaxLevelHealth cinfo.MinLevelHealth
              + toUInt32 (f32 ((if cinfo.MaxLevel = cinfo.MinLevel then 0
                  else f32 (f32 ((sub32 level cinfo.MinLevel : Nat) : ℚ)
                    / f32 ((sub32 cinfo.MaxLevel cinfo.MinLevel : Nat) : ℚ)))
                * f32 ((max cinfo.MaxLevelHealth cinfo.MinLevelHealth
                    - min cinfo.MaxLevelHealth cinfo.MinLevelHealth : Nat) : ℚ)))),
           u32 (min cinfo.MaxLevelMana cinfo.MinLevelMana
              + toUInt32 (f32 ((if cinfo.MaxLevel = cinfo.MinLevel then 0
                  else f32 (f32 ((sub32 level cinfo.MinLevel : Nat) : ℚ)
                    / f32 ((sub32 cinfo.MaxLevel cinfo.MinLevel : Nat) : ℚ)))
                * f32 ((max cinfo.MaxLevelMana cinfo.MinLevelMana
                    - min cinfo.MaxLevelMana cinfo.MinLevelMana : Nat) : ℚ))))) ∧
      ∀ w2 : World, w2.GetCreatureClassLvlStats level cinfo.UnitClass cinfo.Expansion = none →
        Creature.SelectLevel_health_mana w2 cinfo level
          = Creature.SelectLevel_health_mana w cinfo level) ∧
    (∀ (c : StatFields) (percentHealth : ℚ),
      (c.SelectLevel k w cinfo percentHealth).maxPower Powers.POWER_MANA
        = (Creature.SelectLevel_health_mana w cinfo (Creature.SelectLevel_level w cinfo)).2) := by
  refine ⟨?_, ?_, ?_⟩
  · intro cCLS h
    refine ⟨?_, ?_⟩
    · simp only [Creature.SelectLevel_health_mana, h]
    · intro a b c d
      simp only [Creature.SelectLevel_health_mana, h]
  · intro h
    refine ⟨?_, ?_⟩
    · simp only [Creature.SelectLevel_health_mana, h]
    · intro w2 h2
      simp only [Creature.SelectLevel_health_mana, h, h2]
  · intro c percentHealth
    exact (SelectLevel_stored k w c cinfo percentHealth).2.2.2.1 Powers.POWER_MANA

/-- C24 (amended) at samples: with the table entry (1000, 200) the sample template of
health multiplier 1 gets the health and mana of the table path; without an entry it gets
its legacy bounds under every table. -/
theorem C24_SelectLevel_one_path_witness :
    Creature.SelectLevel_health_mana tableWorld sampleInfo 10
      = (toUInt32 (f32 (f32 ((1000 : ℕ) : ℚ) * f32 sampleInfo.HealthMultiplier)),
         toUInt32 (f32 (f32 ((200 : ℕ) : ℚ) * f32 sampleInfo.PowerMultiplier))) ∧
    (∀ w2 : World, w2.GetCreatureClassLvlStats 10 sampleInfo.UnitClass sampleInfo.Expansion = none →
      Creature.SelectLevel_health_mana w2 sampleInfo 10
        = Creature.SelectLevel_health_mana sampleWorld sampleInfo 10) :=
  ⟨((C24_SelectLevel_one_path sampleDefines tableWorld sampleInfo 10).1 ⟨1000, 200⟩ rfl).1,
   ((C24_SelectLevel_one_path sampleDefines sampleWorld sampleInfo 10).2.1 rfl).2⟩

/-- C25 (counterexample): for the elite template of level 10 with health multiplier 1.0007,
elite health rate 1.5 and table base health 1000, `SelectLevel` stores create health and
maximal health 1500, because the product of 1000 and the multiplier is cut to 1000 before
the rank modifier is applied; `max(1, floor(1000 * 1.0007 * 1.5))` is 1501. -/
theorem C25_SelectLevel_elite_health_counterexample :
    tableWorld.IsPet = false ∧ eliteInfo.MinLevel = 10 ∧ eliteInfo.MaxLevel = 10 ∧
    eliteInfo.Rank = sampleDefines.CREATURE_ELITE_ELITE ∧
    tableWorld.CONFIG_FLOAT_RATE_CREATURE_ELITE_ELITE_HP = 3 / 2 ∧
    eliteInfo.HealthMultiplier = 10007 / 10000 ∧
    (sampleCreature.toStatFields.SelectLevel sampleDefines tableWorld eliteInfo 100).level = 10 ∧
    (sampleCreature.toStatFields.SelectLevel sampleDefines tableWorld eliteInfo 100).createHealth
      = 1500 ∧
    (sampleCreature.toStatFields.SelectLevel sampleDefines tableWorld eliteInfo 100).maxHealth
      = 1500 ∧
    max 1 ⌊(1000 : ℚ) * (10007 / 10000) * (3 / 2)⌋ = 1501 := by
  have hs := SelectLevel_stored sampleDefines tableWorld sampleCreature.toStatFields eliteInfo 100
  have hlevel : Creature.SelectLevel_level tableWorld eliteInfo = 10 := by
    simp [Creature.SelectLevel_level, eliteInfo, sampleInfo]
  have hmod : Creature._GetHealthMod sampleDefines tableWorld
      (if tableWorld.IsPet then 0 else eliteInfo.Rank) = 3 / 2 := by
    simp [Creature._GetHealthMod, tableWorld, sampleWorld, eliteInfo, sampleDefines]
  have h1000 : f32 ((1000 : ℕ) : ℚ) = ((1000 : ℕ) : ℚ) := f32_natCast 1000 (by norm_num)
  have hp2 : f32 (((1000 : ℕ) : ℚ) * (3 / 2)) = ((1500 : ℕ) : ℚ) := by
    have e : ((1000 : ℕ) : ℚ) * (3 / 2) = ((1500 : ℕ) : ℚ) := by norm_num
    rw [e]
    exact f32_natCast 1500 (by norm_num)
  have h2 : toUInt32 ((1500 : ℕ) : ℚ) = 1500 := toUInt32_natCast 1500 (by norm_num)
  have hc : (sampleCreature.toStatFields.SelectLevel sampleDefines tableWorld eliteInfo
      100).createHealth = 1500 := by
    rw [hs.2.1, hlevel, SelectLevel_health_mana_elite, hmod, f32_three_halves, h1000, hp2, h2]
    rfl
  refine ⟨rfl, rfl, rfl, rfl, rfl, rfl, ?_, hc, ?_, ?_⟩
  · rw [hs.1, hlevel]
  · rw [hs.2.2.1, hc]
  · have : ⌊(1000 : ℚ) * (10007 / 10000) * (3 / 2)⌋ = 1501 := by
      rw [Int.floor_eq_iff]; norm_num
    rw [this]; rfl

/-- C25 (amended): for a template with `MinLevel = MaxLevel = 10` and rank elite that is
not a pet, with elite health rate 1.5 and table base health 1000, `SelectLevel` sets level
10 and sets create health and maximal health to `max(1, trunc(float(trunc(1000 *
HealthMultiplier)) * 1.5))` for every non-negative `HealthMultiplier` (and, with the
conversion of a negative value as `toUInt32` defines it, for every other one too), where
both products are single precision products, rounded to the nearest `float`, and `trunc`
is the conversion to `uint32`: the first product is cut to an integer before the rank
modifier is applied.  In general the create health and the maximal health that
`SelectLevel` stores are at least 1. -/
theorem C25_SelectLevel_elite_health (k : Defines) (w : World) (c : StatFields)
    (cinfo : CreatureInfo) (percentHealth : ℚ) :
    (w.IsPet = false → cinfo.MinLevel = 10 → cinfo.MaxLevel = 10 →
      cinfo.Rank = k.CREATURE_ELITE_ELITE → k.CREATURE_ELITE_ELITE ≠ k.CREATURE_ELITE_NORMAL →
      w.CONFIG_FLOAT_RATE_CREATURE_ELITE_ELITE_HP = 3 / 2 →
      (∀ cCLS, w.GetCreatureClassLvlStats 10 cinfo.UnitClass cinfo.Expansion = some cCLS →
        cCLS.BaseHealth = 1000 →
        (c.SelectLevel k w cinfo percentHealth).level = 10 ∧
        (c.SelectLevel k w cinfo percentHealth).createHealth
          = max 1 (toUInt32 (f32 (f32 (toUInt32 (f32 (1000 * f32 cinfo.HealthMultiplier)) : ℚ)
              * (3 / 2)))) ∧
        (c.SelectLevel k w cinfo percentHealth).maxHealth
          = max 1 (toUInt32 (f32 (f32 (toUInt32 (f32 (1000 * f32 cinfo.HealthMultiplier)) : ℚ)
              * (3 / 2)))))) ∧
    1 ≤ (c.SelectLevel k w cinfo percentHealth).createHealth ∧
    1 ≤ (c.SelectLevel k w cinfo percentHealth).maxHealth := by
  have hs := SelectLevel_stored k w c cinfo percentHealth
  have hmax : ∀ n : Nat, (if n < 1 then 1 else n) = max 1 n := by
    intro n
    split_ifs with h
    · omega
    · omega
  refine ⟨?_, ?_, ?_⟩
  · intro hpet hmin hmaxl hrank hne hrate cCLS htable hbase
    have hlevel : Creature.SelectLevel_level w cinfo = 10 := by
      simp [Creature.SelectLevel_level, hmin, hmaxl]
    have h1000 : f32 ((1000 : ℕ) : ℚ) = 1000 := by
      rw [f32_natCast 1000 (by norm_num)]; norm_num
    have hhm : (Creature.SelectLevel_health_mana w cinfo 10).1
        = toUInt32 (f32 (1000 * f32 cinfo.HealthMultiplier)) := by
      simp only [Creature.SelectLevel_health_mana, htable, hbase, h1000]
    have hmod : Creature._GetHealthMod k w (if w.IsPet then 0 else cinfo.Rank) = 3 / 2 := by
      simp [Creature._GetHealthMod, hpet, hrank, hne, hrate]
    have hc : (c.SelectLevel k w cinfo percentHealth).createHealth
        = max 1 (toUInt32 (f32 (f32 (toUInt32 (f32 (1000 * f32 cinfo.HealthMultiplier)) : ℚ)
            * (3 / 2)))) := by
      rw [hs.2.1, hlevel, hhm, hmod, hmax, f32_three_halves]
    exact ⟨hs.1.trans hlevel, hc, hs.2.2.1.trans hc⟩
  · rw [hs.2.1, hmax]; exact Nat.le_max_left _ _
  · rw [hs.2.2.1, hs.2.1, hmax]; exact Nat.le_max_left _ _

/-- C25 (amended) at the sample: the elite template with health multiplier 1.0007 under
the table world. -/
theorem C25_SelectLevel_elite_health_witness :
    (sampleCreature.toStatFields.SelectLevel sampleDefines tableWorld eliteInfo 100).level = 10 ∧
    (sampleCreature.toStatFields.SelectLevel sampleDefines tableWorld eliteInfo 100).createHealth
      = max 1 (toUInt32 (f32 (f32 (toUInt32 (f32 (1000 * f32 eliteInfo.HealthMultiplier)) : ℚ)
          * (3 / 2)))) ∧
    (sampleCreature.toStatFields.SelectLevel sampleDefines tableWorld eliteInfo 100).maxHealth
      = max 1 (toUInt32 (f32 (f32 (toUInt32 (f32 (1000 * f32 eliteInfo.HealthMultiplier)) : ℚ)
          * (3 / 2)))) :=
  (C25_SelectLevel_elite_health sampleDefines tableWorld sampleCreature.toStatFields eliteInfo
    100).1 rfl rfl rfl rfl (by decide) rfl ⟨1000, 200⟩ rfl rfl

/-- C27 fails as stated: the maximal energy is not the product of the energy default and
`PowerMultiplier`.  For a creature that does not regenerate power, with the energy default
100, the power multiplier 0.53 gives the maximal energy 52, while the product is 53; the
power multiplier 335544.75 gives 33554476, while the product is 33554475. -/
theorem C27_SelectLevel_powers_counterexample :
    noRegenWorld.IsRegeneratingPower = false ∧ sampleDefines.POWER_ENERGY_DEFAULT = 100 ∧
    roundedInfo.PowerMultiplier = 53 / 100 ∧
    (sampleCreature.toStatFields.SelectLevel sampleDefines noRegenWorld roundedInfo
      100).maxPower Powers.POWER_ENERGY = 52 ∧
    (sampleDefines.POWER_ENERGY_DEFAULT : ℚ) * roundedInfo.PowerMultiplier = 53 ∧
    energeticInfo.PowerMultiplier = 1342179 / 4 ∧
    (sampleCreature.toStatFields.SelectLevel sampleDefines noRegenWorld energeticInfo
      100).maxPower Powers.POWER_ENERGY = 33554476 ∧
    (sampleDefines.POWER_ENERGY_DEFAULT : ℚ) * energeticInfo.PowerMultiplier = 33554475 := by
  have h1 := (SelectLevel_stored sampleDefines noRegenWorld sampleCreature.toStatFields
    roundedInfo 100).2.2.2.1 Powers.POWER_ENERGY
  have h2 := (SelectLevel_stored sampleDefines noRegenWorld sampleCreature.toStatFields
    energeticInfo 100).2.2.2.1 Powers.POWER_ENERGY
  have hd : sampleDefines.POWER_ENERGY_DEFAULT = 100 := rfl
  have hr : roundedInfo.PowerMultiplier = 53 / 100 := rfl
  have he : energeticInfo.PowerMultiplier = 1342179 / 4 := rfl
  refine ⟨rfl, rfl, rfl, ?_, ?_, rfl, ?_, ?_⟩
  · rw [h1]; exact SelectLevel_maxValue_rounded _
  · rw [hd, hr]; norm_num
  · rw [h2]; exact SelectLevel_maxValue_energetic _
  · rw [hd, he]; norm_num

/-- C27 (amended): `SelectLevel` initialises the powers so that rage, rune and runic power
have maximum 0.  For a creature that does not regenerate power the current mana and the
current energy are 0, while the maximal mana is the mana of the chosen path and the
maximal energy is the single precision product of `float(POWER_ENERGY_DEFAULT)` and
`PowerMultiplier`, rounded to the nearest `float` and then cut to an unsigned integer.
For a creature that regenerates power the current value of every power equals its
maximum. -/
theorem C27_SelectLevel_powers (k : Defines) (w : World) (c : StatFields)
    (cinfo : CreatureInfo) (percentHealth : ℚ) :
    (c.SelectLevel k w cinfo percentHealth).maxPower Powers.POWER_RAGE = 0 ∧
    (c.SelectLevel k w cinfo percentHealth).maxPower Powers.POWER_RUNE = 0 ∧
    (c.SelectLevel k w cinfo percentHealth).maxPower Powers.POWER_RUNIC_POWER = 0 ∧
    (c.SelectLevel k w cinfo percentHealth).maxPower Powers.POWER_MANA
      = (Creature.SelectLevel_health_mana w cinfo (Creature.SelectLevel_level w cinfo)).2 ∧
    (c.SelectLevel k w cinfo percentHealth).maxPower Powers.POWER_ENERGY
      = toUInt32 (f32 (f32 (k.POWER_ENERGY_DEFAULT : ℚ) * f32 cinfo.PowerMultiplier)) ∧
    (w.IsRegeneratingPower = false →
      (c.SelectLevel k w cinfo percentHealth).power Powers.POWER_MANA = 0 ∧
      (c.SelectLevel k w cinfo percentHealth).power Powers.POWER_ENERGY = 0) ∧
    (w.IsRegeneratingPower = true →
      ∀ p : Powers, (c.SelectLevel k w cinfo percentHealth).power p
        = (c.SelectLevel k w cinfo percentHealth).maxPower p) := by
  obtain ⟨_, _, _, hmax, hpow⟩ := SelectLevel_stored k w c cinfo percentHealth
  refine ⟨?_, ?_, ?_, ?_, ?_, ?_, ?_⟩
  · rw [hmax]; rfl
  · rw [hmax]; rfl
  · rw [hmax]; rfl
  · rw [hmax]; rfl
  · rw [hmax]; rfl
  · intro h
    constructor
    · rw [hpow]; simp [Creature.SelectLevel_value, h]
    · rw [hpow]; simp [Creature.SelectLevel_value, h]
  · intro h p
    rw [hpow, hmax]
    simp [Creature.SelectLevel_value, h]

/-- C27 (amended) at samples: the sample world regenerates power, so after `SelectLevel`
every power of the sample creature is at its maximum; in the world without regeneration
the current mana and energy are 0. -/
theorem C27_SelectLevel_powers_witness :
    sampleWorld.IsRegeneratingPower = true ∧
    (∀ p : Powers,
      (sampleCreature.toStatFields.SelectLevel sampleDefines sampleWorld sampleInfo 100).power p
        = (sampleCreature.toStatFields.SelectLevel sampleDefines sampleWorld sampleInfo
            100).maxPower p) ∧
    noRegenWorld.IsRegeneratingPower = false ∧
    (sampleCreature.toStatFields.SelectLevel sampleDefines noRegenWorld roundedInfo
        100).power Powers.POWER_MANA = 0 ∧
    (sampleCreature.toStatFields.SelectLevel sampleDefines noRegenWorld roundedInfo
        100).power Powers.POWER_ENERGY = 0 :=
  ⟨rfl, (C27_SelectLevel_powers sampleDefines sampleWorld sampleCreature.toStatFields sampleInfo
    100).2.2.2.2.2.2 rfl, rfl,
   (C27_SelectLevel_powers sampleDefines noRegenWorld sampleCreature.toStatFields roundedInfo
    100).2.2.2.2.2.1 rfl⟩

/-- C26 fails as stated: for the template of levels 10 to 20 with the health bounds 0 and
33554435, the old style health at level 20, the maximal level, is 33554436.  It is not the
larger health bound and does not lie between the two bounds: the difference of the bounds
is rounded up when it is converted to `float`. -/
theorem C26_SelectLevel_bounds_order_independent_counterexample :
    sampleWorld.GetCreatureClassLvlStats 20 bossLegacyInfo.UnitClass bossLegacyInfo.Expansion
      = none ∧
    bossLegacyInfo.MinLevel = 10 ∧ bossLegacyInfo.MaxLevel = 20 ∧
    bossLegacyInfo.MinLevelHealth = 0 ∧ bossLegacyInfo.MaxLevelHealth = 33554435 ∧
    (Creature.SelectLevel_health_mana sampleWorld bossLegacyInfo 20).1 = 33554436 ∧
    max bossLegacyInfo.MinLevelHealth bossLegacyInfo.MaxLevelHealth
      < (Creature.SelectLevel_health_mana sampleWorld bossLegacyInfo 20).1 := by
  refine ⟨rfl, rfl, rfl, rfl, rfl, SelectLevel_health_mana_bossLegacy, ?_⟩
  rw [SelectLevel_health_mana_bossLegacy]
  decide

/-- C26 (amended): on the old style interpolation path of `SelectLevel` the health and
mana bounds are order independent.  Exchanging `MinLevelHealth` with `MaxLevelHealth` and
`MinLevelMana` with `MaxLevelMana` in the template gives the same health and mana before
the rank modifier, for every level.  With 32 bit bounds and levels, the health at
`level = MinLevel` is the smaller of the two health bounds.  When the two health bounds
differ by at most `2 ^ 24`, so that their difference is a single precision value, the
health at `level = MaxLevel > MinLevel` is the larger health bound, and for every level
from `MinLevel` to `MaxLevel` the health lies between the two bounds. -/
theorem C26_SelectLevel_bounds_order_independent (w : World) (cinfo : CreatureInfo)
    (level : Nat)
    (htable : w.GetCreatureClassLvlStats level cinfo.UnitClass cinfo.Expansion = none)
    (hminH : cinfo.MinLevelHealth < 4294967296) (hmaxH : cinfo.MaxLevelHealth < 4294967296)
    (hmaxL : cinfo.MaxLevel < 4294967296) :
    Creature.SelectLevel_health_mana w
        { cinfo with
          MinLevelHealth := cinfo.MaxLevelHealth, MaxLevelHealth := cinfo.MinLevelHealth,
          MinLevelMana := cinfo.MaxLevelMana, MaxLevelMana := cinfo.MinLevelMana } level
      = Creature.SelectLevel_health_mana w cinfo level ∧
    (level = cinfo.MinLevel →
      (Creature.SelectLevel_health_mana w cinfo level).1
        = min cinfo.MinLevelHealth cinfo.MaxLevelHealth) ∧
    (max cinfo.MinLevelHealth cinfo.MaxLevelHealth
        - min cinfo.MinLevelHealth cinfo.MaxLevelHealth ≤ 16777216 →
      (level = cinfo.MaxLevel → cinfo.MinLevel < cinfo.MaxLevel →
        (Creature.SelectLevel_health_mana w cinfo level).1
          = max cinfo.MinLevelHealth cinfo.MaxLevelHealth) ∧
      (cinfo.MinLevel ≤ level → level ≤ cinfo.MaxLevel →
        min cinfo.MinLevelHealth cinfo.MaxLevelHealth
          ≤ (Creature.SelectLevel_health_mana w cinfo level).1 ∧
        (Creature.SelectLevel_health_mana w cinfo level).1
          ≤ max cinfo.MinLevelHealth cinfo.MaxLevelHealth)) := by
  have hhi : max cinfo.MaxLevelHealth cinfo.MinLevelHealth < 4294967296 := max_lt hmaxH hminH
  have hlh : min cinfo.MaxLevelHealth cinfo.MinLevelHealth
      ≤ max cinfo.MaxLevelHealth cinfo.MinLevelHealth := le_trans (min_le_left _ _) (le_max_left _ _)
  have hval := SelectLevel_health_mana_legacy w cinfo level htable
  rw [min_comm cinfo.MinLevelHealth, max_comm cinfo.MinLevelHealth, hval]
  refine ⟨?_, ?_, ?_⟩
  · simp only [Creature.SelectLevel_health_mana, htable, min_comm cinfo.MinLevelHealth,
      max_comm cinfo.MinLevelHealth, min_comm cinfo.MinLevelMana, max_comm cinfo.MinLevelMana]
  · intro hl
    have hr : (if cinfo.MaxLevel = cinfo.MinLevel then (0 : ℚ)
        else f32 (f32 ((sub32 level cinfo.MinLevel : Nat) : ℚ)
          / f32 ((sub32 cinfo.MaxLevel cinfo.MinLevel : Nat) : ℚ))) = 0 := by
      split_ifs with h
      · rfl
      · rw [hl, sub32_self_eq_zero, Nat.cast_zero, f32_zero, zero_div, f32_zero]
    rw [hr]
    exact SelectLevel_interpolation_zero _ _ (lt_of_le_of_lt (min_le_left _ _) hmaxH)
  · intro hd
    refine ⟨?_, ?_⟩
    · intro hl hlt
      have hne : cinfo.MaxLevel ≠ cinfo.MinLevel := by omega
      have hr : f32 (f32 ((sub32 level cinfo.MinLevel : Nat) : ℚ)
          / f32 ((sub32 cinfo.MaxLevel cinfo.MinLevel : Nat) : ℚ)) = 1 := by
        rw [hl, sub32_eq_sub _ _ (le_of_lt hlt) hmaxL]
        have h1 : (1 : ℚ) ≤ f32 ((cinfo.MaxLevel - cinfo.MinLevel : Nat) : ℚ) := by
          have h := f32_mono 1 ((cinfo.MaxLevel - cinfo.MinLevel : Nat) : ℚ) zero_le_one
            (by
              have : 1 ≤ cinfo.MaxLevel - cinfo.MinLevel := by omega
              exact_mod_cast this)
          rwa [f32_one] at h
        rw [div_self (ne_of_gt (lt_of_lt_of_le zero_lt_one h1)), f32_one]
      rw [if_neg hne, hr]
      exact (SelectLevel_interpolation _ _ 1 zero_le_one le_rfl hlh hhi hd).2.2 rfl
    · intro h1 h2
      have hr : 0 ≤ (if cinfo.MaxLevel = cinfo.MinLevel then (0 : ℚ)
          else f32 (f32 ((sub32 level cinfo.MinLevel : Nat) : ℚ)
            / f32 ((sub32 cinfo.MaxLevel cinfo.MinLevel : Nat) : ℚ))) ∧
          (if cinfo.MaxLevel = cinfo.MinLevel then (0 : ℚ)
          else f32 (f32 ((sub32 level cinfo.MinLevel : Nat) : ℚ)
            / f32 ((sub32 cinfo.MaxLevel cinfo.MinLevel : Nat) : ℚ))) ≤ 1 := by
        split_ifs with h
        · exact ⟨le_rfl, zero_le_one⟩
        · rw [sub32_eq_sub level cinfo.MinLevel h1 (lt_of_le_of_lt h2 hmaxL),
            sub32_eq_sub cinfo.MaxLevel cinfo.MinLevel (le_trans h1 h2) hmaxL]
          exact SelectLevel_rellevel_range _ _ (Nat.sub_le_sub_right h2 _)
      exact ⟨(SelectLevel_interpolation _ _ _ hr.1 hr.2 hlh hhi hd).1,
        (SelectLevel_interpolation _ _ _ hr.1 hr.2 hlh hhi hd).2.1⟩

/-- Witness for C26 (amended): the template of levels 10 to 20 with the health bounds 300
and 100, declared in reverse order, has a health between 100 and 300 at level 15. -/
theorem C26_SelectLevel_bounds_order_independent_witness :
    sampleWorld.GetCreatureClassLvlStats 15 legacyInfo.UnitClass legacyInfo.Expansion = none ∧
    legacyInfo.MinLevelHealth = 300 ∧ legacyInfo.MaxLevelHealth = 100 ∧
    legacyInfo.MinLevel = 10 ∧ legacyInfo.MaxLevel = 20 ∧
    100 ≤ (Creature.SelectLevel_health_mana sampleWorld legacyInfo 15).1 ∧
    (Creature.SelectLevel_health_mana sampleWorld legacyInfo 15).1 ≤ 300 :=
  ⟨rfl, rfl, rfl, rfl, rfl,
   ((C26_SelectLevel_bounds_order_independent sampleWorld legacyInfo 15 rfl (by decide)
      (by decide) (by decide)).2.2 (by decide)).2 (by decide) (by decide)⟩

/-- C30: `LoadFromDB` resolves the stored respawn time `T` by precedence.  When the spawn
record and its template are found, the creature is not yet in the map and `Create`
succeeds, the call returns true and: with `T` after the clock the creature is `DEAD` with
health 0, keeps `m_respawnTime = T` and nothing is written to the store; with `T` not zero
and not after the clock `m_respawnTime` becomes 0 and 0 is written to the store; with
`T = 0` nothing is written. -/
theorem C30_LoadFromDB_respawn_time (k : Defines) (w : World) (c : Creature)
    (data : CreatureData) (cinfo : CreatureInfo)
    (hdata : w.GetCreatureData = some data)
    (hinfo : w.GetCreatureTemplate data.id = some cinfo)
    (hmap : w.Map_GetCreature = false)
    (hcreate : (c.Create k w cinfo).1 = true) :
    (c.LoadFromDB k w).1 = true ∧
    (w.GetCreatureRespawnTime > w.time →
      (c.LoadFromDB k w).2.m_deathState = DeathState.DEAD ∧
      (c.LoadFromDB k w).2.health = 0 ∧
      (c.LoadFromDB k w).2.m_respawnTime = w.GetCreatureRespawnTime ∧
      (c.LoadFromDB k w).2.respawnTimeStore = c.respawnTimeStore) ∧
    (0 < w.GetCreatureRespawnTime → w.GetCreatureRespawnTime ≤ w.time →
      (c.LoadFromDB k w).2.m_respawnTime = 0 ∧
      (c.LoadFromDB k w).2.respawnTimeStore = 0 :: c.respawnTimeStore) ∧
    (w.GetCreatureRespawnTime = 0 →
      (c.LoadFromDB k w).2.respawnTimeStore = c.respawnTimeStore) := by
  have hL := LoadFromDB_eq_init k w c data cinfo hdata hinfo hmap hcreate
  have h := LoadFromDB_init_respawn k w (c.Create k w cinfo).2 data
  rw [Create_respawnTimeStore k w c cinfo] at h
  rw [hL]
  exact ⟨rfl, h.1, fun hpos hle => h.2.1 hle (ne_of_gt hpos), h.2.2⟩

theorem C30_LoadFromDB_respawn_time_witness :
    waitingWorld.GetCreatureRespawnTime = 5000 ∧ waitingWorld.time = 1000 ∧
    (sampleCreature.LoadFromDB sampleDefines waitingWorld).1 = true ∧
    (sampleCreature.LoadFromDB sampleDefines waitingWorld).2.m_deathState = DeathState.DEAD ∧
    (sampleCreature.LoadFromDB sampleDefines waitingWorld).2.health = 0 ∧
    (sampleCreature.LoadFromDB sampleDefines waitingWorld).2.m_respawnTime = 5000 ∧
    expiredWorld.GetCreatureRespawnTime = 500 ∧
    (sampleCreature.LoadFromDB sampleDefines expiredWorld).2.m_respawnTime = 0 :=
  ⟨rfl, rfl,
   (C30_LoadFromDB_respawn_time sampleDefines waitingWorld sampleCreature ⟨1, 25, false, 80, 0⟩
      sampleInfo rfl rfl rfl rfl).1,
   ((C30_LoadFromDB_respawn_time sampleDefines waitingWorld sampleCreature ⟨1, 25, false, 80, 0⟩
      sampleInfo rfl rfl rfl rfl).2.1 (by decide)).1,
   ((C30_LoadFromDB_respawn_time sampleDefines waitingWorld sampleCreature ⟨1, 25, false, 80, 0⟩
      sampleInfo rfl rfl rfl rfl).2.1 (by decide)).2.1,
   ((C30_LoadFromDB_respawn_time sampleDefines waitingWorld sampleCreature ⟨1, 25, false, 80, 0⟩
      sampleInfo rfl rfl rfl rfl).2.1 (by decide)).2.2.1,
   rfl,
   ((C30_LoadFromDB_respawn_time sampleDefines expiredWorld sampleCreature ⟨1, 25, false, 80, 0⟩
      sampleInfo rfl rfl rfl rfl).2.2.1 (by decide) (by decide)).1⟩

/-- C31: a forced despawn that fires on a creature that is already despawned does
nothing.  `ForcedDespawn(0)` on a creature in the `DEAD` state returns the creature
unchanged (death state, health, timers, loot session and loot status included) and adds
no event, and so does `ForcedDespawnDelayEvent::Execute`; `ForcedDespawn(t)` with `t > 0`
returns the creature unchanged and only adds the delayed event. -/
theorem C31_ForcedDespawn_despawned_noop (k : Defines) (w : World) (c : Creature) (t : Nat) :
    (c.m_deathState = DeathState.DEAD →
      c.ForcedDespawn k w 0 = (c, none) ∧
      ForcedDespawnDelayEvent.Execute k w c = (true, c)) ∧
    (0 < t → c.ForcedDespawn k w t = (c, some t)) := by
  refine ⟨fun h => ?_, fun ht => ?_⟩
  · have h1 : c.ForcedDespawn k w 0 = (c, none) := by
      simp [Creature.ForcedDespawn, Creature.IsDespawned, h]
    exact ⟨h1, by simp only [ForcedDespawnDelayEvent.Execute, h1]⟩
  · simp only [Creature.ForcedDespawn, ne_eq, Nat.pos_iff_ne_zero.mp ht, not_false_eq_true,
      if_true]

theorem C31_ForcedDespawn_despawned_noop_witness :
    deadCreature.m_deathState = DeathState.DEAD ∧
    deadCreature.ForcedDespawn sampleDefines sampleWorld 0 = (deadCreature, none) ∧
    ForcedDespawnDelayEvent.Execute sampleDefines sampleWorld deadCreature
      = (true, deadCreature) ∧
    sampleCreature.ForcedDespawn sampleDefines sampleWorld 3000 = (sampleCreature, some 3000) :=
  ⟨rfl,
   ((C31_ForcedDespawn_despawned_noop sampleDefines sampleWorld deadCreature 0).1 rfl).1,
   ((C31_ForcedDespawn_despawned_noop sampleDefines sampleWorld deadCreature 0).1 rfl).2,
   (C31_ForcedDespawn_despawned_noop sampleDefines sampleWorld sampleCreature 3000).2
     (by decide)⟩

/-- C32: `Respawn` on a creature that is not in the world returns the creature unchanged:
death state, respawn time, corpse decay timer, loot session and loot status stay as they
are and nothing is written to the store of respawn times. -/
theorem C32_Respawn_not_in_world (k : Defines) (w : World) (c : Creature)
    (h : c.inWorld = false) :
    c.Respawn k w = c ∧
    (c.Respawn k w).m_deathState = c.m_deathState ∧
    (c.Respawn k w).m_respawnTime = c.m_respawnTime ∧
    (c.Respawn k w).m_corpseDecayTimer = c.m_corpseDecayTimer ∧
    (c.Respawn k w).loot = c.loot ∧
    (c.Respawn k w).m_lootStatus = c.m_lootStatus ∧
    (c.Respawn k w).respawnTimeStore = c.respawnTimeStore := by
  have h1 : c.Respawn k w = c := by
    unfold Creature.Respawn
    simp only [RemoveCorpse_not_inWorld k w c h, h, if_true]
  rw [h1]
  exact ⟨rfl, rfl, rfl, rfl, rfl, rfl, rfl⟩

theorem C32_Respawn_not_in_world_witness :
    ({ corpseCreature with inWorld := false } : Creature).inWorld = false ∧
    ({ corpseCreature with inWorld := false } : Creature).Respawn sampleDefines sampleWorld
      = { corpseCreature with inWorld := false } ∧
    (corpseCreature.Respawn sampleDefines summonWorld).m_deathState = DeathState.DEAD :=
  ⟨rfl,
   (C32_Respawn_not_in_world sampleDefines sampleWorld { corpseCreature with inWorld := false }
     rfl).1,
   by decide⟩

/-- C33: an `Update` tick of a creature in the `ALIVE` state lowers the aggro delay with
saturation.  For every delay `a` and elapsed time `d` the delay after the tick is `a - d`
when `a > d` and 0 otherwise, so it never exceeds `a`; and `CanInitiateAttack` returns
false whenever the aggro delay is not zero. -/
theorem C33_Update_alive_aggro_delay (k : Defines) (w : World) (c : Creature)
    (update_diff diff : Nat) :
    (c.m_deathState = DeathState.ALIVE →
      (c.Update k w update_diff diff).m_aggroDelay
          = (if c.m_aggroDelay > update_diff then c.m_aggroDelay - update_diff else 0) ∧
      (c.Update k w update_diff diff).m_aggroDelay ≤ c.m_aggroDelay) ∧
    (c.m_aggroDelay ≠ 0 → c.CanInitiateAttack k w = false) := by
  refine ⟨fun halive => ?_, fun hne => ?_⟩
  · have hval : (c.Update k w update_diff diff).m_aggroDelay
        = (if c.m_aggroDelay > update_diff then c.m_aggroDelay - update_diff else 0) := by
      unfold Creature.Update
      rw [halive]
      dsimp only
      by_cases hle : c.m_aggroDelay ≤ update_diff
      · rw [if_pos hle, if_neg (not_lt.mpr hle)]
        split_ifs
        · exact RemoveCorpse_aggroDelay k w _
        · exact Update_alive_aggroDelay k w _ _
        · exact Update_alive_aggroDelay k w _ _
      · rw [if_neg hle, if_pos (not_le.mp hle)]
        split_ifs
        · exact RemoveCorpse_aggroDelay k w _
        · exact Update_alive_aggroDelay k w _ _
        · exact Update_alive_aggroDelay k w _ _
    refine ⟨hval, ?_⟩
    rw [hval]
    split_ifs
    · exact Nat.sub_le _ _
    · exact Nat.zero_le _
  · simp only [Creature.CanInitiateAttack, hne, ne_eq, not_false_eq_true, if_true]
    split_ifs <;> rfl

theorem C33_Update_alive_aggro_delay_witness :
    sampleCreature.m_deathState = DeathState.ALIVE ∧
    ({ sampleCreature with m_aggroDelay := 300 } : Creature).m_aggroDelay ≠ 0 ∧
    (({ sampleCreature with m_aggroDelay := 300 } : Creature).Update sampleDefines sampleWorld
      100 100).m_aggroDelay = 200 ∧
    (({ sampleCreature with m_aggroDelay := 300 } : Creature).Update sampleDefines sampleWorld
      500 500).m_aggroDelay = 0 ∧
    ({ sampleCreature with m_aggroDelay := 300 } : Creature).CanInitiateAttack sampleDefines
      sampleWorld = false ∧
    sampleCreature.CanInitiateAttack sampleDefines sampleWorld = true :=
  ⟨rfl, by decide,
   ((C33_Update_alive_aggro_delay sampleDefines sampleWorld
     { sampleCreature with m_aggroDelay := 300 } 100 100).1 rfl).1,
   ((C33_Update_alive_aggro_delay sampleDefines sampleWorld
     { sampleCreature with m_aggroDelay := 300 } 500 500).1 rfl).1,
   (C33_Update_alive_aggro_delay sampleDefines sampleWorld
     { sampleCreature with m_aggroDelay := 300 } 100 100).2 (by decide),
   by decide⟩

/-- C34: a tick of a corpse can raise the corpse decay timer.  The looted corpse of the
sample creature has no player owner and 5 ms of decay time left; an `Update` with 10 ms
elapsed leaves it a corpse and stores `5 - 10` as an unsigned 32 bit value, 4294967291,
which is above the 5 ms before the tick.  With a player owner the same tick removes the
corpse and leaves the timer at 0. -/
theorem C34_Update_corpse_timer_wraps :
    corpseCreature.m_deathState = DeathState.CORPSE ∧
    corpseCreature.m_isDeadByDefault = false ∧
    corpseCreature.m_corpseDecayTimer = 5 ∧
    Creature.IsPlayerSummon sampleDefines sampleWorld = false ∧
    (corpseCreature.Update sampleDefines sampleWorld 10 10).m_deathState = DeathState.CORPSE ∧
    (corpseCreature.Update sampleDefines sampleWorld 10 10).m_corpseDecayTimer = 4294967291 ∧
    ¬ (corpseCreature.Update sampleDefines sampleWorld 10 10).m_corpseDecayTimer
        ≤ corpseCreature.m_corpseDecayTimer ∧
    Creature.IsPlayerSummon sampleDefines summonWorld = true ∧
    (corpseCreature.Update sampleDefines summonWorld 10 10).m_corpseDecayTimer = 0 := by
  refine ⟨rfl, rfl, rfl, rfl, rfl, rfl, by decide, rfl, by decide⟩

/-- C35: `SetLootRecipient` with a unit that resolves to a player records the guid of that
player and, when the player is in a group, the id of that group; when the player is in no
group the recorded group id, and with it the group that `GetGroupLootRecipient` resolves,
stays as it was.  `SetLootRecipient(nullptr)` sets both to 0, and a unit that resolves to
no player leaves the creature unchanged. -/
theorem C35_SetLootRecipient_group_kept (w : World) (c : Creature) :
    (c.SetLootRecipient w none).m_lootRecipientGuid = 0 ∧
    (c.SetLootRecipient w none).m_lootGroupRecipientId = 0 ∧
    (∀ u, w.GetCharmerOrOwnerPlayerOrPlayerItself u = none →
      c.SetLootRecipient w (some u) = c) ∧
    (∀ u player, w.GetCharmerOrOwnerPlayerOrPlayerItself u = some player →
      (c.SetLootRecipient w (some u)).m_lootRecipientGuid = w.Player_GetObjectGuid player ∧
      (∀ group, w.Player_GetGroup player = some group →
        (c.SetLootRecipient w (some u)).m_lootGroupRecipientId = w.Group_GetId group) ∧
      (w.Player_GetGroup player = none →
        (c.SetLootRecipient w (some u)).m_lootGroupRecipientId = c.m_lootGroupRecipientId ∧
        (c.SetLootRecipient w (some u)).GetGroupLootRecipient w
          = c.GetGroupLootRecipient w)) := by
  refine ⟨rfl, rfl, ?_, ?_⟩
  · intro u hu
    simp only [Creature.SetLootRecipient, hu]
  · intro u player hu
    refine ⟨?_, ?_, ?_⟩
    · simp only [Creature.SetLootRecipient, hu]
      split <;> rfl
    · intro group hg
      simp only [Creature.SetLootRecipient, hu, hg]
    · intro hg
      simp only [Creature.SetLootRecipient, hu, hg, Creature.GetGroupLootRecipient, and_self]

theorem C35_SetLootRecipient_group_kept_witness :
    tapWorld.GetCharmerOrOwnerPlayerOrPlayerItself ⟨2⟩ = some ⟨2⟩ ∧
    tapWorld.Player_GetGroup ⟨2⟩ = some ⟨7⟩ ∧
    (sampleCreature.SetLootRecipient tapWorld (some ⟨2⟩)).m_lootGroupRecipientId = 7 ∧
    tapWorld.GetCharmerOrOwnerPlayerOrPlayerItself ⟨1⟩ = some ⟨1⟩ ∧
    tapWorld.Player_GetGroup ⟨1⟩ = none ∧
    ((sampleCreature.SetLootRecipient tapWorld (some ⟨2⟩)).SetLootRecipient tapWorld
      (some ⟨1⟩)).m_lootRecipientGuid = 101 ∧
    ((sampleCreature.SetLootRecipient tapWorld (some ⟨2⟩)).SetLootRecipient tapWorld
      (some ⟨1⟩)).m_lootGroupRecipientId = 7 ∧
    ((sampleCreature.SetLootRecipient tapWorld (some ⟨2⟩)).SetLootRecipient tapWorld
      (some ⟨1⟩)).GetLootRecipient tapWorld = some ⟨2⟩ ∧
    sampleCreature.SetLootRecipient tapWorld (some ⟨9⟩) = sampleCreature :=
  ⟨rfl, rfl, rfl, rfl, rfl,
   ((C35_SetLootRecipient_group_kept tapWorld
      (sampleCreature.SetLootRecipient tapWorld (some ⟨2⟩))).2.2.2 ⟨1⟩ ⟨1⟩ rfl).1,
   (((C35_SetLootRecipient_group_kept tapWorld
      (sampleCreature.SetLootRecipient tapWorld (some ⟨2⟩))).2.2.2 ⟨1⟩ ⟨1⟩ rfl).2.2 rfl).1,
   by decide,
   (C35_SetLootRecipient_group_kept tapWorld sampleCreature).2.2.1 ⟨9⟩ rfl⟩

/-- C36: vendor stock counts stay within `[0, maxcount]`.  For an item with
`maxcount = 0` both stock functions return 0.  For a limited item that is not tracked,
`UpdateVendorItemCurrentCount` returns `maxcount - used_count` cut at 0 and starts to track
that count, and `GetVendorItemCurrentCount` returns `maxcount`.  For a tracked limited item
with `incrtime > 0` whose stored count is at most `maxcount`, with `restocked` the number
of elapsed restock periods times `BuyCount` when a period has elapsed and 0 otherwise:
`UpdateVendorItemCurrentCount` returns `min(maxcount, count + restocked) - used_count` cut
at 0 when `count + restocked` fits 32 bits, its result is at most `maxcount` and is the
count stored for the item afterwards; `GetVendorItemCurrentCount` returns at most
`maxcount` and either forgets the entry or stores the returned count. -/
theorem C36_vendor_counts_bounded (w : World) (m : List VendorItemCount) (vItem : VendorItem)
    (used_count : Nat) :
    (vItem.maxcount = 0 →
      (Creature.GetVendorItemCurrentCount w m vItem).1 = 0 ∧
      (Creature.UpdateVendorItemCurrentCount w m vItem used_count).1 = 0) ∧
    (0 < vItem.maxcount → findVendorItemCount m vItem.item = none →
      (Creature.UpdateVendorItemCurrentCount w m vItem used_count).1
        = vItem.maxcount - used_count ∧
      findVendorItemCount (Creature.UpdateVendorItemCurrentCount w m vItem used_count).2
          vItem.item
        = some (m, ⟨vItem.item, vItem.maxcount - used_count, w.time⟩, []) ∧
      (Creature.GetVendorItemCurrentCount w m vItem).1 = vItem.maxcount) ∧
    (∀ before vCount behind restocked, 0 < vItem.maxcount → 0 < vItem.incrtime →
      findVendorItemCount m vItem.item = some (before, vCount, behind) →
      vCount.count ≤ vItem.maxcount →
      restocked = (if vCount.lastIncrementTime + (vItem.incrtime : Int) ≤ w.time then
          ((w.time - vCount.lastIncrementTime) / (vItem.incrtime : Int)).toNat
            * w.ItemPrototype_BuyCount vItem.item
        else 0) →
      (vCount.count + restocked < 4294967296 →
        (Creature.UpdateVendorItemCurrentCount w m vItem used_count).1
          = min vItem.maxcount (vCount.count + restocked) - used_count) ∧
      (Creature.UpdateVendorItemCurrentCount w m vItem used_count).1 ≤ vItem.maxcount ∧
      findVendorItemCount (Creature.UpdateVendorItemCurrentCount w m vItem used_count).2
          vItem.item
        = some (before,
            ⟨vCount.itemId, (Creature.UpdateVendorItemCurrentCount w m vItem used_count).1,
              w.time⟩,
            behind) ∧
      (Creature.GetVendorItemCurrentCount w m vItem).1 ≤ vItem.maxcount ∧
      ((Creature.GetVendorItemCurrentCount w m vItem).2 = before ++ behind ∨
        ∃ t, findVendorItemCount (Creature.GetVendorItemCurrentCount w m vItem).2 vItem.item
          = some (before, ⟨vCount.itemId, (Creature.GetVendorItemCurrentCount w m vItem).1, t⟩,
              behind))) := by
  refine ⟨?_, ?_, ?_⟩
  · intro h0
    simp only [Creature.GetVendorItemCurrentCount, Creature.UpdateVendorItemCurrentCount, h0,
      if_true, and_self]
  · intro hpos hnone
    have hne : vItem.maxcount ≠ 0 := Nat.pos_iff_ne_zero.mp hpos
    have hnew : (if vItem.maxcount > used_count then vItem.maxcount - used_count else 0)
        = vItem.maxcount - used_count := by
      split_ifs <;> omega
    have hm := findVendorItemCount_none m vItem.item hnone
    have hsplit := findVendorItemCount_of_split vItem.item
      ⟨vItem.item, vItem.maxcount - used_count, w.time⟩ [] rfl m hm
    simp only [Creature.GetVendorItemCurrentCount, Creature.UpdateVendorItemCurrentCount, hne,
      if_false, hnone, hnew, hsplit, and_self]
  · intro before vCount behind restocked hpos hincr hfind hinv hrest
    have hne : vItem.maxcount ≠ 0 := Nat.pos_iff_ne_zero.mp hpos
    obtain ⟨hm, hid, hbefore⟩ := findVendorItemCount_some m vItem.item before vCount behind hfind
    have hsplit := fun (n : Nat) (t : Int) => findVendorItemCount_of_split vItem.item
      ⟨vCount.itemId, n, t⟩ behind hid before hbefore
    by_cases hdue : vCount.lastIncrementTime + (vItem.incrtime : Int) ≤ w.time
    · have hmul := vendorRestockDiff_mul w.time vCount vItem
        (w.ItemPrototype_BuyCount vItem.item) hdue
      rw [if_pos hdue] at hrest
      rw [← hrest] at hmul
      by_cases hlt : u32 (vCount.count + restocked) < vItem.maxcount
      · have hU : Creature.UpdateVendorItemCurrentCount w m vItem used_count
            = (u32 (vCount.count + restocked) - used_count,
                before ++ ⟨vCount.itemId, u32 (vCount.count + restocked) - used_count, w.time⟩
                  :: behind) := by
          simp only [Creature.UpdateVendorItemCurrentCount, hne, if_false, hfind, hdue, if_true,
            hmul, hlt]
          split_ifs <;> first | rfl | (simp only [Prod.mk.injEq]; constructor <;> [omega; (congr 3; omega)])
        have hG : Creature.GetVendorItemCurrentCount w m vItem
            = (u32 (vCount.count + restocked),
                before ++ ⟨vCount.itemId, u32 (vCount.count + restocked), w.time⟩ :: behind) := by
          simp only [Creature.GetVendorItemCurrentCount, hne, if_false, hfind, hdue, if_true,
            hmul, ge_iff_le, not_le.mpr hlt]
        rw [hU, hG]
        refine ⟨?_, ?_, hsplit _ _, le_of_lt hlt, Or.inr ⟨w.time, hsplit _ _⟩⟩
        · intro hfit
          have : u32 (vCount.count + restocked) = vCount.count + restocked :=
            Nat.mod_eq_of_lt hfit
          show u32 (vCount.count + restocked) - used_count = _
          rw [this] at hlt ⊢
          rw [min_eq_right (le_of_lt hlt)]
        · show u32 (vCount.count + restocked) - used_count ≤ _
          omega
      · have hU : Creature.UpdateVendorItemCurrentCount w m vItem used_count
            = (vItem.maxcount - used_count,
                before ++ ⟨vCount.itemId, vItem.maxcount - used_count, w.time⟩ :: behind) := by
          simp only [Creature.UpdateVendorItemCurrentCount, hne, if_false, hfind, hdue, if_true,
            hmul, hlt]
          split_ifs <;> first | rfl | (simp only [Prod.mk.injEq]; constructor <;> [omega; (congr 3; omega)])
        have hG : Creature.GetVendorItemCurrentCount w m vItem
            = (vItem.maxcount, before ++ behind) := by
          simp only [Creature.GetVendorItemCurrentCount, hne, if_false, hfind, hdue, if_true,
            hmul, ge_iff_le, not_lt.mp hlt]
        rw [hU, hG]
        refine ⟨?_, Nat.sub_le _ _, hsplit _ _, le_rfl, Or.inl rfl⟩
        intro hfit
        have : u32 (vCount.count + restocked) = vCount.count + restocked :=
          Nat.mod_eq_of_lt hfit
        rw [this] at hlt
        show vItem.maxcount - used_count = _
        rw [min_eq_left (not_lt.mp hlt)]
    · rw [if_neg hdue] at hrest
      subst hrest
      have hU : Creature.UpdateVendorItemCurrentCount w m vItem used_count
          = (vCount.count - used_count,
              before ++ ⟨vCount.itemId, vCount.count - used_count, w.time⟩ :: behind) := by
        simp only [Creature.UpdateVendorItemCurrentCount, hne, if_false, hfind, hdue]
        split_ifs <;> first | rfl | (simp only [Prod.mk.injEq]; constructor <;> [omega; (congr 3; omega)])
      have hG : Creature.GetVendorItemCurrentCount w m vItem = (vCount.count, m) := by
        simp only [Creature.GetVendorItemCurrentCount, hne, if_false, hfind, hdue]
      rw [hU, hG]
      refine ⟨?_, ?_, hsplit _ _, hinv, Or.inr ⟨vCount.lastIncrementTime, ?_⟩⟩
      · intro _
        show vCount.count - used_count = _
        rw [Nat.add_zero, min_eq_right hinv]
      · show vCount.count - used_count ≤ _
        omega
      · exact hfind

theorem C36_vendor_counts_bounded_witness :
    findVendorItemCount sampleVendorCounts sampleVendorItem.item
      = some ([⟨30, 1, 950⟩], ⟨40, 3, 700⟩, []) ∧
    (Creature.UpdateVendorItemCurrentCount sampleWorld sampleVendorCounts sampleVendorItem 4).1
      = 6 ∧
    (Creature.UpdateVendorItemCurrentCount sampleWorld sampleVendorCounts sampleVendorItem 4).1
      ≤ 10 ∧
    (Creature.UpdateVendorItemCurrentCount sampleWorld [] sampleVendorItem 4).1 = 6 ∧
    (Creature.GetVendorItemCurrentCount sampleWorld sampleVendorCounts ⟨40, 0, 60⟩).1 = 0 :=
  ⟨rfl,
   ((C36_vendor_counts_bounded sampleWorld sampleVendorCounts sampleVendorItem 4).2.2
      [⟨30, 1, 950⟩] ⟨40, 3, 700⟩ [] 10 (by decide) (by decide) rfl (by decide)
      (by decide)).1 (by decide),
   ((C36_vendor_counts_bounded sampleWorld sampleVendorCounts sampleVendorItem 4).2.2
      [⟨30, 1, 950⟩] ⟨40, 3, 700⟩ [] 10 (by decide) (by decide) rfl (by decide)
      (by decide)).2.1,
   ((C36_vendor_counts_bounded sampleWorld [] sampleVendorItem 4).2.1 (by decide) rfl).1,
   ((C36_vendor_counts_bounded sampleWorld sampleVendorCounts ⟨40, 0, 60⟩ 4).1 rfl).1⟩

/-- C37 (counterexample): the sample creature loaded from a spawn record with a respawn
delay of 477218589 s gets corpse delay 0, while `min(floor(9 * 477218589 / 10), 60)` with
the configured corpse delay 60 of its rank is 60: the product `477218589 * 9` is reduced
to 5 on 32 bits before the division. -/
theorem C37_LoadFromDB_corpse_delay_counterexample :
    longRespawnWorld.GetCreatureData = some ⟨1, 477218589, false, 80, 0⟩ ∧
    (sampleCreature.LoadFromDB sampleDefines longRespawnWorld).1 = true ∧
    (sampleCreature.Create sampleDefines longRespawnWorld sampleInfo).2.m_corpseDelay = 60 ∧
    (sampleCreature.LoadFromDB sampleDefines longRespawnWorld).2.m_respawnDelay = 477218589 ∧
    (sampleCreature.LoadFromDB sampleDefines longRespawnWorld).2.m_corpseDelay = 0 ∧
    min (477218589 * 9 / 10) 60 = 60 := by
  have hL := LoadFromDB_eq_init sampleDefines longRespawnWorld sampleCreature
    ⟨1, 477218589, false, 80, 0⟩ sampleInfo rfl rfl rfl rfl
  have hd := LoadFromDB_init_delays sampleDefines longRespawnWorld
    (sampleCreature.Create sampleDefines longRespawnWorld sampleInfo).2
    ⟨1, 477218589, false, 80, 0⟩
  have hc : (sampleCreature.Create sampleDefines longRespawnWorld sampleInfo).2.m_corpseDelay
      = 60 := by
    rw [Create_corpseDelay sampleDefines longRespawnWorld sampleCreature sampleInfo rfl]
    rfl
  refine ⟨rfl, by rw [hL], hc, by rw [hL]; exact hd.1, ?_, by decide⟩
  have h5 := hd.2
  rw [hc] at h5
  rw [hL]
  exact h5.trans (by decide)

/-- C37 (amended): for a creature loaded by `LoadFromDB` from a spawn record with respawn
delay `r >= 1` the respawn delay is `r` and the corpse delay is `min(floor((9 * r mod
2^32) / 10), d)` with `d` the corpse delay configured for the rank of the creature; it is
`min(floor(9 * r / 10), d)` when `9 * r` fits 32 bits, and it is strictly smaller than `r`
in every case.  So `PrepareBodyLootState` on the loaded creature takes the branch of a
respawn delay above the corpse delay and sets the corpse decay timer to the looted decay
value whatever the timer was. -/
theorem C37_LoadFromDB_corpse_delay (k : Defines) (w : World) (c : Creature)
    (data : CreatureData) (cinfo : CreatureInfo)
    (hdata : w.GetCreatureData = some data)
    (hinfo : w.GetCreatureTemplate data.id = some cinfo)
    (hmap : w.Map_GetCreature = false)
    (hcreate : (c.Create k w cinfo).1 = true)
    (hr : 1 ≤ data.spawntimesecs) :
    (c.LoadFromDB k w).1 = true ∧
    (c.LoadFromDB k w).2.m_respawnDelay = data.spawntimesecs ∧
    (c.Create k w cinfo).2.m_corpseDelay
      = (if (c.Create k w cinfo).2.m_creatureInfo.Rank = k.CREATURE_ELITE_RARE then
          w.CONFIG_UINT32_CORPSE_DECAY_RARE
        else if (c.Create k w cinfo).2.m_creatureInfo.Rank = k.CREATURE_ELITE_ELITE then
          w.CONFIG_UINT32_CORPSE_DECAY_ELITE
        else if (c.Create k w cinfo).2.m_creatureInfo.Rank = k.CREATURE_ELITE_RAREELITE then
          w.CONFIG_UINT32_CORPSE_DECAY_RAREELITE
        else if (c.Create k w cinfo).2.m_creatureInfo.Rank = k.CREATURE_ELITE_WORLDBOSS then
          w.CONFIG_UINT32_CORPSE_DECAY_WORLDBOSS
        else w.CONFIG_UINT32_CORPSE_DECAY_NORMAL) ∧
    (c.LoadFromDB k w).2.m_corpseDelay
      = min (data.spawntimesecs * 9 % 4294967296 / 10) (c.Create k w cinfo).2.m_corpseDelay ∧
    (data.spawntimesecs * 9 < 4294967296 →
      (c.LoadFromDB k w).2.m_corpseDelay
        = min (data.spawntimesecs * 9 / 10) (c.Create k w cinfo).2.m_corpseDelay) ∧
    (c.LoadFromDB k w).2.m_corpseDelay < data.spawntimesecs ∧
    (∀ timer : Nat,
      (({ (c.LoadFromDB k w).2 with m_corpseDecayTimer := timer } : Creature).PrepareBodyLootState
          w).m_corpseDecayTimer
        = (c.LoadFromDB k w).2.corpseLootedDelay w) := by
  have hL := LoadFromDB_eq_init k w c data cinfo hdata hinfo hmap hcreate
  have hd := LoadFromDB_init_delays k w (c.Create k w cinfo).2 data
  have h1 : (c.LoadFromDB k w).2.m_respawnDelay = data.spawntimesecs := by
    rw [hL]; exact hd.1
  have h2 : (c.LoadFromDB k w).2.m_corpseDelay
      = min (data.spawntimesecs * 9 % 4294967296 / 10) (c.Create k w cinfo).2.m_corpseDelay := by
    rw [hL]; exact hd.2
  have hmod : data.spawntimesecs * 9 % 4294967296 ≤ data.spawntimesecs * 9 := Nat.mod_le _ _
  have h3 : (c.LoadFromDB k w).2.m_corpseDelay < data.spawntimesecs := by
    rw [h2]
    refine lt_of_le_of_lt (min_le_left _ _) ?_
    omega
  refine ⟨by rw [hL], h1, Create_corpseDelay k w c cinfo hcreate, h2, ?_, h3, ?_⟩
  · intro hfit
    rw [h2, Nat.mod_eq_of_lt hfit]
  · intro timer
    rw [PrepareBodyLootState_timer]
    have hgt : ({ (c.LoadFromDB k w).2 with m_corpseDecayTimer := timer } : Creature).m_respawnDelay
        > ({ (c.LoadFromDB k w).2 with m_corpseDecayTimer := timer } : Creature).m_corpseDelay := by
      show (c.LoadFromDB k w).2.m_respawnDelay > (c.LoadFromDB k w).2.m_corpseDelay
      rw [h1]; exact h3
    rw [if_pos hgt]
    rfl

theorem C37_LoadFromDB_corpse_delay_witness :
    waitingWorld.GetCreatureData = some ⟨1, 25, false, 80, 0⟩ ∧
    (sampleCreature.LoadFromDB sampleDefines waitingWorld).1 = true ∧
    (sampleCreature.LoadFromDB sampleDefines waitingWorld).2.m_respawnDelay = 25 ∧
    (sampleCreature.LoadFromDB sampleDefines waitingWorld).2.m_corpseDelay < 25 :=
  ⟨rfl,
   (C37_LoadFromDB_corpse_delay sampleDefines waitingWorld sampleCreature ⟨1, 25, false, 80, 0⟩
      sampleInfo rfl rfl rfl rfl (by decide)).1,
   (C37_LoadFromDB_corpse_delay sampleDefines waitingWorld sampleCreature ⟨1, 25, false, 80, 0⟩
      sampleInfo rfl rfl rfl rfl (by decide)).2.1,
   (C37_LoadFromDB_corpse_delay sampleDefines waitingWorld sampleCreature ⟨1, 25, false, 80, 0⟩
      sampleInfo rfl rfl rfl rfl (by decide)).2.2.2.2.2.1⟩

/-- C22: `UpdateAllStats` is idempotent on the stored stat values.  For every creature
state, with the modifier table, level and difficulty fixed, a second `UpdateAllStats`
directly after the first leaves maximal health, armor, the resistances of all schools, the
derived stats and the three melee and three ranged attack power fields as the first call
left them. -/
theorem C22_UpdateAllStats_idempotent (k : Defines) (w : World) (c : Creature) :
    ((c.UpdateAllStats k w).UpdateAllStats k w).maxHealth = (c.UpdateAllStats k w).maxHealth ∧
    ((c.UpdateAllStats k w).UpdateAllStats k w).toStatFields.GetArmor
      = (c.UpdateAllStats k w).toStatFields.GetArmor ∧
    (∀ school, ((c.UpdateAllStats k w).UpdateAllStats k w).resistance school
      = (c.UpdateAllStats k w).resistance school) ∧
    (∀ s, ((c.UpdateAllStats k w).UpdateAllStats k w).stat s = (c.UpdateAllStats k w).stat s) ∧
    ((c.UpdateAllStats k w).UpdateAllStats k w).UNIT_FIELD_ATTACK_POWER
      = (c.UpdateAllStats k w).UNIT_FIELD_ATTACK_POWER ∧
    ((c.UpdateAllStats k w).UpdateAllStats k w).UNIT_FIELD_ATTACK_POWER_MODS
      = (c.UpdateAllStats k w).UNIT_FIELD_ATTACK_POWER_MODS ∧
    ((c.UpdateAllStats k w).UpdateAllStats k w).UNIT_FIELD_ATTACK_POWER_MULTIPLIER
      = (c.UpdateAllStats k w).UNIT_FIELD_ATTACK_POWER_MULTIPLIER ∧
    ((c.UpdateAllStats k w).UpdateAllStats k w).UNIT_FIELD_RANGED_ATTACK_POWER
      = (c.UpdateAllStats k w).UNIT_FIELD_RANGED_ATTACK_POWER ∧
    ((c.UpdateAllStats k w).UpdateAllStats k w).UNIT_FIELD_RANGED_ATTACK_POWER_MODS
      = (c.UpdateAllStats k w).UNIT_FIELD_RANGED_ATTACK_POWER_MODS ∧
    ((c.UpdateAllStats k w).UpdateAllStats k w).UNIT_FIELD_RANGED_ATTACK_POWER_MULTIPLIER
      = (c.UpdateAllStats k w).UNIT_FIELD_RANGED_ATTACK_POWER_MULTIPLIER ∧
    ((c.UpdateAllStats k w).UpdateAllStats k w).toCreatureFields = c.toCreatureFields := by
  obtain ⟨h1, h2, h3, h4, h5, h6, h7, h8, h9, _, _⟩ := UpdateAllStats_twice k w c.toStatFields
  exact ⟨h1, by simp only [StatFields.GetArmor]; exact congrArg asUInt32 (congrFun h3 _),
    fun s => congrFun h3 s, fun s => congrFun h2 s, h4, h5, h6, h7, h8, h9, rfl⟩

/-- C23: a second `UpdateAllStats` can change the ranged damage range.  The sample
creature of level 10 with base health 100 and an outdated maximal health 50 gets maximal
health 100 from one `UpdateAllStats`, but its ranged damage range is computed before
`UpdateMaxHealth` runs, from the health 50: minimum 6513069341/400000000 (about 16.28) and
maximum 1347840413/50000000 (about 26.96).  A second `UpdateAllStats` computes it from
the health 100 and stores the doubled values.  The melee damage range is computed again
after `UpdateMaxHealth` by the armor update of the resistance loop and is the same after
one and two calls. -/
theorem C23_UpdateAllStats_ranged_damage_changes :
    staleCreature.level = 10 ∧ staleCreature.createHealth = 100 ∧
    staleCreature.maxHealth = 50 ∧
    sampleWorld.GetCurrentDifficulty = 0 ∧ sampleWorld.log 10 = 2302585 / 1000000 ∧
    (staleCreature.UpdateAllStats sampleDefines sampleWorld).maxHealth = 100 ∧
    (staleCreature.UpdateAllStats sampleDefines sampleWorld).UNIT_FIELD_MINRANGEDDAMAGE
      = 6513069341 / 400000000 ∧
    (staleCreature.UpdateAllStats sampleDefines sampleWorld).UNIT_FIELD_MAXRANGEDDAMAGE
      = 1347840413 / 50000000 ∧
    ((staleCreature.UpdateAllStats sampleDefines sampleWorld).UpdateAllStats sampleDefines
      sampleWorld).UNIT_FIELD_MINRANGEDDAMAGE = 6513069341 / 200000000 ∧
    ((staleCreature.UpdateAllStats sampleDefines sampleWorld).UpdateAllStats sampleDefines
      sampleWorld).UNIT_FIELD_MAXRANGEDDAMAGE = 1347840413 / 25000000 ∧
    ((staleCreature.UpdateAllStats sampleDefines sampleWorld).UpdateAllStats sampleDefines
      sampleWorld).UNIT_FIELD_MINRANGEDDAMAGE
      ≠ (staleCreature.UpdateAllStats sampleDefines sampleWorld).UNIT_FIELD_MINRANGEDDAMAGE ∧
    ((staleCreature.UpdateAllStats sampleDefines sampleWorld).UpdateAllStats sampleDefines
      sampleWorld).UNIT_FIELD_MINDAMAGE
      = (staleCreature.UpdateAllStats sampleDefines sampleWorld).UNIT_FIELD_MINDAMAGE ∧
    ((staleCreature.UpdateAllStats sampleDefines sampleWorld).UpdateAllStats sampleDefines
      sampleWorld).UNIT_FIELD_MAXDAMAGE
      = (staleCreature.UpdateAllStats sampleDefines sampleWorld).UNIT_FIELD_MAXDAMAGE := by
  obtain ⟨a1, a2, a3, a4, _, _⟩ :=
    UpdateAllStats_spec sampleDefines sampleWorld staleCreature.toStatFields
  obtain ⟨_, _, b3, b4, _, _⟩ := UpdateAllStats_spec sampleDefines sampleWorld
    (staleCreature.toStatFields.UpdateAllStats sampleDefines sampleWorld)
  obtain ⟨_, _, _, _, _, _, _, _, _, t10, t11⟩ :=
    UpdateAllStats_twice sampleDefines sampleWorld staleCreature.toStatFields
  have hmax : (staleCreature.toStatFields.UpdateAllStats sampleDefines sampleWorld).maxHealth
      = 100 := by
    rw [a2]
    have hcreate : ((staleCreature.createHealth : ℕ) : ℚ) = ((100 : ℕ) : ℚ) := rfl
    have htable : MonsterHealthTable sampleWorld.GetCurrentDifficulty = ((1 : ℕ) : ℚ) := by
      norm_num [MonsterHealthTable, sampleWorld]
    have hprod : ((100 : ℕ) : ℚ) * ((1 : ℕ) : ℚ) = ((100 : ℕ) : ℚ) := by norm_num
    rw [hcreate, htable, f32_natCast 100 (by norm_num), toUInt32_natCast 100 (by norm_num),
      f32_natCast 100 (by norm_num), f32_natCast 1 (by norm_num), hprod,
      f32_natCast 100 (by norm_num)]
    exact toUInt32_natCast 100 (by norm_num)
  have hc1 : staleCreature.toStatFields.CalculateMinMaxDamage sampleDefines sampleWorld
      = (6513069341 / 400000000, 1347840413 / 50000000) := by
    simp only [StatFields.CalculateMinMaxDamage, staleCreature, sampleCreature, sampleWorld,
      MonsterDamage]
    norm_num
  have hc2 : (staleCreature.toStatFields.UpdateAllStats sampleDefines
      sampleWorld).CalculateMinMaxDamage sampleDefines sampleWorld
      = (6513069341 / 200000000, 1347840413 / 25000000) := by
    rw [CalculateMinMaxDamage_congr sampleDefines sampleWorld _ sampleCreature.toStatFields
      a1.level hmax]
    simp only [StatFields.CalculateMinMaxDamage, sampleCreature, sampleWorld, MonsterDamage]
    norm_num
  have h1 : (staleCreature.UpdateAllStats sampleDefines sampleWorld).UNIT_FIELD_MINRANGEDDAMAGE
      = 6513069341 / 400000000 := a3.trans (congrArg Prod.fst hc1)
  have h2 : ((staleCreature.UpdateAllStats sampleDefines sampleWorld).UpdateAllStats
      sampleDefines sampleWorld).UNIT_FIELD_MINRANGEDDAMAGE = 6513069341 / 200000000 :=
    b3.trans (congrArg Prod.fst hc2)
  refine ⟨rfl, rfl, rfl, rfl, by simp [sampleWorld], hmax, h1,
    a4.trans (congrArg Prod.snd hc1), h2, b4.trans (congrArg Prod.snd hc2), ?_, t10, t11⟩
  rw [h1, h2]
  norm_num

/-- C38 fails as stated: the dead-by-default sample creature of level 10 is alive, in the
world and summoned by a player, and its corpse decay time has run out, so that its tick
ends in `RemoveCorpse`; the pool update there takes it out of the world and `RemoveCorpse`
returns.  The creature is still alive after the tick and its level is still 10, while the
maximal player level is 80. -/
theorem C38_SetStatsBasedOnPlayerMaxLevel_idempotent_counterexample :
    deadByDefaultCreature.m_deathState = DeathState.ALIVE ∧
    deadByDefaultCreature.m_isDeadByDefault = true ∧
    deadByDefaultCreature.m_corpseDecayTimer ≤ 100 ∧
    Creature.IsPlayerSummon sampleDefines pooledSummonWorld = true ∧
    deadByDefaultCreature.inWorld = true ∧ deadByDefaultCreature.level = 10 ∧
    pooledSummonWorld.GetMaxPlayerLevel = 80 ∧
    (deadByDefaultCreature.Update sampleDefines pooledSummonWorld 100 100).m_deathState
      = DeathState.ALIVE ∧
    (deadByDefaultCreature.Update sampleDefines pooledSummonWorld 100 100).level = 10 :=
  ⟨rfl, rfl, by decide, rfl, rfl, rfl, rfl, rfl, rfl⟩

/-- C38 (amended): `SetStatsBasedOnPlayerMaxLevel` sets the level of the creature to the
maximal player level of the map manager and is idempotent.  After one call the level is
`GetMaxPlayerLevel()`; a second call with the same maximal player level and the same
difficulty finds nothing to refresh and returns the creature unchanged.  Hence after an
`Update` tick of a creature in the `ALIVE` state that is still `ALIVE` after the tick, the
level is the maximal player level, whatever level it had before, unless the tick ended in
a `RemoveCorpse` that returned without removing anything: if the creature is a
dead-by-default player summon whose corpse decay time has run out, it has to be in the
world and not be taken out of it by the pool update. -/
theorem C38_SetStatsBasedOnPlayerMaxLevel_idempotent (k : Defines) (w : World) (c : Creature)
    (update_diff diff : Nat) :
    (c.SetStatsBasedOnPlayerMaxLevel k w).level = w.GetMaxPlayerLevel ∧
    (c.SetStatsBasedOnPlayerMaxLevel k w).SetStatsBasedOnPlayerMaxLevel k w
      = c.SetStatsBasedOnPlayerMaxLevel k w ∧
    (c.m_deathState = DeathState.ALIVE →
      (c.m_isDeadByDefault = true → c.m_corpseDecayTimer ≤ update_diff →
        Creature.IsPlayerSummon k w = true →
        c.inWorld = true ∧ (w.IsPartOfAPool = 0 ∨ w.UpdatePool_despawns = false)) →
      (c.Update k w update_diff diff).m_deathState = DeathState.ALIVE →
      (c.Update k w update_diff diff).level = w.GetMaxPlayerLevel) := by
  have hl := levelData_SetStatsBasedOnPlayerMaxLevel k w c.toStatFields
  refine ⟨congrArg Prod.fst hl, ?_, ?_⟩
  · have e : (c.SetStatsBasedOnPlayerMaxLevel k w).SetStatsBasedOnPlayerMaxLevel k w
        = { c.SetStatsBasedOnPlayerMaxLevel k w with
            toStatFields := (c.toStatFields.SetStatsBasedOnPlayerMaxLevel
              k w).SetStatsBasedOnPlayerMaxLevel k w } := rfl
    rw [e, SetStatsBasedOnPlayerMaxLevel_fixed k w _ hl]
    rfl
  · intro halive hremove
    have key : ∀ c2 : Creature, c2.m_deathState = DeathState.ALIVE →
        (c2.m_isDeadByDefault = true → c2.m_corpseDecayTimer ≤ update_diff →
          Creature.IsPlayerSummon k w = true →
          c2.inWorld = true ∧ (w.IsPartOfAPool = 0 ∨ w.UpdatePool_despawns = false)) →
        (if c2.m_isDeadByDefault = true ∧ c2.m_corpseDecayTimer ≤ update_diff
            ∧ Creature.IsPlayerSummon k w = true then c2.RemoveCorpse k w
          else (if c2.m_isDeadByDefault then
              { c2 with m_corpseDecayTimer := sub32 c2.m_corpseDecayTimer update_diff }
            else c2).Update_alive k w update_diff).m_deathState = DeathState.ALIVE →
        (if c2.m_isDeadByDefault = true ∧ c2.m_corpseDecayTimer ≤ update_diff
            ∧ Creature.IsPlayerSummon k w = true then c2.RemoveCorpse k w
          else (if c2.m_isDeadByDefault then
              { c2 with m_corpseDecayTimer := sub32 c2.m_corpseDecayTimer update_diff }
            else c2).Update_alive k w update_diff).level = w.GetMaxPlayerLevel := by
      intro c2 ha2 hr2
      split_ifs with h1
      · intro hfin
        obtain ⟨hw2, hpool⟩ := hr2 h1.1 h1.2.1 h1.2.2
        rw [RemoveCorpse_alive_deadByDefault k w c2 hw2 hpool ha2 h1.1] at hfin
        exact absurd hfin (by decide)
      · exact Update_alive_level k w _ update_diff
      · exact Update_alive_level k w _ update_diff
    unfold Creature.Update
    split
    · rename_i h; exact absurd (halive.symm.trans h) (by decide)
    · rename_i h; exact absurd (halive.symm.trans h) (by decide)
    · rename_i h; exact absurd (halive.symm.trans h) (by decide)
    · rename_i h; exact absurd (halive.symm.trans h) (by decide)
    · dsimp only
      by_cases hag : c.m_aggroDelay ≤ update_diff
      · rw [if_pos hag]
        exact key { c with m_aggroDelay := 0 } halive hremove
      · rw [if_neg hag]
        exact key { c with m_aggroDelay := c.m_aggroDelay - update_diff } halive hremove

/-- Witness for C38 (amended): the sample creature of level 10 is not dead-by-default; a
tick under a maximal player level of 80 leaves it alive at level 80. -/
theorem C38_SetStatsBasedOnPlayerMaxLevel_idempotent_witness :
    sampleCreature.level = 10 ∧ levelWorld.GetMaxPlayerLevel = 80 ∧
    sampleCreature.m_deathState = DeathState.ALIVE ∧ sampleCreature.m_isDeadByDefault = false ∧
    (sampleCreature.Update sampleDefines levelWorld 100 100).m_deathState = DeathState.ALIVE ∧
    (sampleCreature.Update sampleDefines levelWorld 100 100).level = 80 :=
  ⟨rfl, rfl, rfl, rfl, rfl,
   (C38_SetStatsBasedOnPlayerMaxLevel_idempotent sampleDefines levelWorld sampleCreature
     100 100).2.2 rfl (fun h => absurd h (by decide)) rfl⟩

end Mangos
